import Mathlib

/-!
# A shallow embedding of `ThreeOctree.js` (collinhover/threeoctree)

This file models the octree engine of `src/ThreeOctree.js` over exact rational
arithmetic (`ℚ` in place of IEEE doubles) and proves properties of the model.

Two complementary embeddings are used:

* a purely functional tree (`STree`) for the read-only search path
  (`THREE.Octree.prototype.search`, `OctreeNode.search`, `intersect_sphere`),
  which in the source recurses strictly downward through child nodes; and
* an arena of node records (`OctreeCore`) addressed by node ids, mirroring the
  mutable object graph of the source (parent back-references, the sparse
  `nodesByIndex` child map, wholesale root replacement), for the mutation
  state machine (`add_object`, `grow`, `split`, `branch`, `expand`, `merge`,
  `contract`, `remove_object`, ...).  All mutation functions are fuelled and
  return `Option` (`none` = fuel exhausted), since the source's recursion has
  no structural termination measure (`add_object` can be re-dispatched at the
  parent, `merge_check` walks upward, `expand` replaces the root).

Numeric conventions: JS numbers become `ℚ` for geometry, `ℤ` for the
configuration values `depthMax` / `objectsThreshold`, `ℕ` for ids and depths.
The default octree parameters are used for the outside-direction constants
(`INDEX_OUTSIDE_POS_X = 0`, ..., `INDEX_OUTSIDE_NEG_Z = 5`), as in the
constructor when no overrides are supplied.
-/

namespace ThreeOctree

/-- A 3D point/vector with rational coordinates (models `THREE.Vector3`). -/
structure Vec3 where
  x : ℚ
  y : ℚ
  z : ℚ
deriving DecidableEq, Repr

namespace Vec3

/-- Component-wise addition (`THREE.Vector3.add`). -/
def add (a b : Vec3) : Vec3 := ⟨a.x + b.x, a.y + b.y, a.z + b.z⟩

/-- Squared Euclidean distance between two points. -/
def dist2 (a b : Vec3) : ℚ :=
  (a.x - b.x) ^ 2 + (a.y - b.y) ^ 2 + (a.z - b.z) ^ 2

end Vec3

/-! ## Static constants

From the `THREE.Octree` constructor with default parameters:
`INDEX_INSIDE_CROSS = -1`, `INDEX_OUTSIDE_OFFSET = 2`, and
`FLAG_* = 1 << (INDEX_OUTSIDE_* + 1)` with the default direction indices
`POS_X = 0, NEG_X = 1, POS_Y = 2, NEG_Y = 3, POS_Z = 4, NEG_Z = 5`. -/

/-- `this.INDEX_INSIDE_CROSS` -/
def INDEX_INSIDE_CROSS : ℤ := -1

/-- `this.INDEX_OUTSIDE_OFFSET` -/
def INDEX_OUTSIDE_OFFSET : ℤ := 2

/-- `this.FLAG_POS_X = 1 << (0 + 1)` -/
def FLAG_POS_X : ℤ := 2

/-- `this.FLAG_NEG_X = 1 << (1 + 1)` -/
def FLAG_NEG_X : ℤ := 4

/-- `this.FLAG_POS_Y = 1 << (2 + 1)` -/
def FLAG_POS_Y : ℤ := 8

/-- `this.FLAG_NEG_Y = 1 << (3 + 1)` -/
def FLAG_NEG_Y : ℤ := 16

/-- `this.FLAG_POS_Z = 1 << (4 + 1)` -/
def FLAG_POS_Z : ℤ := 32

/-- `this.FLAG_NEG_Z = 1 << (5 + 1)` -/
def FLAG_NEG_Z : ℤ := 64

/-! ## The octant classifier (`OctreeNode.prototype.octant_index`, lines 1573-1701)

The classifier's arithmetic is a pure function of the node's `position`,
`overlap` and `radiusOverlap` and the classified object's `position` and
`radius`; `octant_index_calc` is that arithmetic.  The source function *also*
writes `objectData.positionLast` and `objectData.indexOctant`; that effect is
modelled separately on `OctreeObjectData` values (`octant_index_od`). -/

/-- One axis of the inside-octant scan of `octant_index`:
`some 1` — the "right" branch (`delta - radiusObj > -overlap`) which ORs the
axis bit in; `some 0` — the "left" branch (`delta + radiusObj < overlap`)
which leaves the bit clear; `none` — the early `INDEX_INSIDE_CROSS` return
(the object's extent crosses the overlap band on this axis). -/
def insideAxis (delta radiusObj overlap : ℚ) : Option ℤ :=
  if delta - radiusObj > -overlap then some 1
  else if ¬ (delta + radiusObj < overlap) then none
  else some 0

/-- The flag accumulation of the outside branch of `octant_index`: starting
from `indexOctant = 0`, XOR in one directional flag for every axis whose
distance-plus-radius exceeds `radiusOverlap`, positive or negative flag
according to the sign test `delta > 0`. -/
def outside_flags (position : Vec3) (radiusOverlap : ℚ)
    (positionObj : Vec3) (radiusObj : ℚ) : ℤ :=
  let deltaX := positionObj.x - position.x
  let deltaY := positionObj.y - position.y
  let deltaZ := positionObj.z - position.z
  let fX : ℤ := if |deltaX| + radiusObj > radiusOverlap then
      (if deltaX > 0 then FLAG_POS_X else FLAG_NEG_X) else 0
  let fY : ℤ := if |deltaY| + radiusObj > radiusOverlap then
      (if deltaY > 0 then FLAG_POS_Y else FLAG_NEG_Y) else 0
  let fZ : ℤ := if |deltaZ| + radiusObj > radiusOverlap then
      (if deltaZ > 0 then FLAG_POS_Z else FLAG_NEG_Z) else 0
  Int.xor (Int.xor (Int.xor 0 fX) fY) fZ

/-- `octant_index`, the pure arithmetic: classify an object (center
`positionObj`, bounding radius `radiusObj`) against a node (center `position`,
overlap band `overlap`, effective radius `radiusOverlap`).  Returns an octant
`0..7`, the straddle sentinel `INDEX_INSIDE_CROSS = -1`, or the offset-encoded
outside value `-(flags) - INDEX_OUTSIDE_OFFSET`. -/
def octant_index_calc (position : Vec3) (overlap radiusOverlap : ℚ)
    (positionObj : Vec3) (radiusObj : ℚ) : ℤ :=
  let deltaX := positionObj.x - position.x
  let deltaY := positionObj.y - position.y
  let deltaZ := positionObj.z - position.z
  let distX := |deltaX|
  let distY := |deltaY|
  let distZ := |deltaZ|
  let dist := max distX (max distY distZ)
  if dist + radiusObj > radiusOverlap then
    -(outside_flags position radiusOverlap positionObj radiusObj) - INDEX_OUTSIDE_OFFSET
  else
    match insideAxis deltaX radiusObj overlap, insideAxis deltaY radiusObj overlap,
        insideAxis deltaZ radiusObj overlap with
    | some bX, some bY, some bZ => bX + 2 * bY + 4 * bZ
    | _, _, _ => INDEX_INSIDE_CROSS

/-- `OctreeNode.prototype.octant_index_from_xyz`. -/
def octant_index_from_xyz (x y z : ℤ) : ℕ :=
  (if x > 0 then 1 else 0) + (if y > 0 then 2 else 0) + (if z > 0 then 4 else 0)

/-! ## Entity descriptors and node records

`THREE.OctreeObjectData` wraps a tracked source object (or one face of it)
with a world position and bounding radius.  JS object identity is modelled by
the `oid` field: the registries and `indexOf`-based operations compare
descriptors by `oid`, exactly as the source compares references.  The geometry
extraction (`update`, `face_bounding_radius`, world matrices) is external to
the octree core (spec section 1): a descriptor here simply carries the
position/radius the host supplied.

`NodeRec` is the arena record for one `THREE.OctreeNode`: `nodesIndices` is
the ordered list of occupied octant slots and `nodesByIndex` the sparse map
from octant slot to child node id; `parent` is the back-reference.  The
derived bounds `left/right/bottom/top/back/front` are `position ±
radiusOverlap` per axis and are recomputed where needed. -/

/-- `THREE.OctreeObjectData` (identity given by `oid`). -/
structure OctreeObjectData where
  oid : ℕ
  object : ℕ
  faces : Option ℕ
  radius : ℚ
  position : Vec3
  positionLast : Vec3
  indexOctant : Option ℤ
  node : Option ℕ
deriving DecidableEq, Repr

/-- One `THREE.OctreeNode`, as an arena record addressed by `id`. -/
structure NodeRec where
  id : ℕ
  position : Vec3
  radius : ℚ
  overlap : ℚ
  radiusOverlap : ℚ
  indexOctant : Option ℤ
  depth : ℕ
  parent : Option ℕ
  nodesIndices : List ℤ
  nodesByIndex : List (ℤ × ℕ)
  objects : List OctreeObjectData
deriving DecidableEq, Repr

/-- `octant_index` applied to an `OctreeObjectData` argument.  Besides the
pure classification this mirrors the source's side effects on the descriptor:
`objectData.positionLast.copy( positionObj )` at the start and
`objectData.indexOctant = result` before every return. -/
def octant_index_od (n : NodeRec) (od : OctreeObjectData) : ℤ × OctreeObjectData :=
  let k := octant_index_calc n.position n.overlap n.radiusOverlap od.position od.radius
  (k, { od with positionLast := od.position, indexOctant := some k })

/-- `octant_index` applied to an `OctreeNode` argument (used by `add_node`
when no explicit octant is supplied): `radiusObj` is `0`, and the source still
writes `objectData.indexOctant` on the argument. -/
def octant_index_node (n : NodeRec) (child : NodeRec) : ℤ × NodeRec :=
  let k := octant_index_calc n.position n.overlap n.radiusOverlap child.position 0
  (k, { child with indexOctant := some k })

/-! ## The search path (`THREE.Octree.prototype.search`, `OctreeNode.prototype.search`)

The search never mutates the tree and recurses strictly downward, so it is
modelled on a purely functional snapshot `STree` of the node graph: each node
carries its center, its effective radius (`radiusOverlap`), its direct
`objects` list and its (ordered) child list — the order of `children` is the
order of `nodesIndices`.  The node bounds `left/right/bottom/top/back/front`
are `position ± radiusOverlap` per axis, as set in the `OctreeNode`
constructor.

`OctreeNode.search` first evaluates one intersection test for the node —
`intersect_ray` when a direction is given, `intersect_sphere` otherwise — and
then concatenates and recurses.  Both modes route through a single per-node
boolean, so the recursion is stated over an arbitrary test `tst`;
`intersect_sphere` is the sphere-mode instantiation.  (`intersect_ray`
composes `intersect_sphere` with `closest_point_from_line`, which normalizes
the direction vector — an operation with no rational-arithmetic counterpart.)
The `organizeByObject = true` result assembly of `Octree.search` regroups the
found list per source object and is not needed by the claims below. -/

/-- A functional snapshot of an `OctreeNode` subtree for the search path. -/
inductive STree where
  | mk (position : Vec3) (radiusOverlap : ℚ) (objects : List OctreeObjectData)
      (children : List STree)

namespace STree

/-- `this.position` -/
def position : STree → Vec3
  | mk p _ _ _ => p

/-- `this.radiusOverlap` -/
def radiusOverlap : STree → ℚ
  | mk _ ro _ _ => ro

/-- `this.objects` -/
def objects : STree → List OctreeObjectData
  | mk _ _ os _ => os

/-- The child nodes, in `nodesIndices` order. -/
def children : STree → List STree
  | mk _ _ _ cs => cs

/-- `this.left = this.position.x - this.radiusOverlap` -/
def left (t : STree) : ℚ := t.position.x - t.radiusOverlap

/-- `this.right = this.position.x + this.radiusOverlap` -/
def right (t : STree) : ℚ := t.position.x + t.radiusOverlap

/-- `this.bottom = this.position.y - this.radiusOverlap` -/
def bottom (t : STree) : ℚ := t.position.y - t.radiusOverlap

/-- `this.top = this.position.y + this.radiusOverlap` -/
def top (t : STree) : ℚ := t.position.y + t.radiusOverlap

/-- `this.back = this.position.z - this.radiusOverlap` -/
def back (t : STree) : ℚ := t.position.z - t.radiusOverlap

/-- `this.front = this.position.z + this.radiusOverlap` -/
def front (t : STree) : ℚ := t.position.z + t.radiusOverlap

end STree

/-- `OctreeNode.prototype.intersect_sphere`: squared-radius minus the
per-axis clamped squared deficits, intersecting iff the result is
nonnegative. -/
def intersect_sphere (t : STree) (position : Vec3) (radius : ℚ) : Bool :=
  let d0 := radius * radius
  let sx := position.x
  let sy := position.y
  let sz := position.z
  let d1 := if sx < t.left then d0 - (sx - t.left) ^ 2
    else if sx > t.right then d0 - (sx - t.right) ^ 2 else d0
  let d2 := if sy < t.bottom then d1 - (sy - t.bottom) ^ 2
    else if sy > t.top then d1 - (sy - t.top) ^ 2 else d1
  let d3 := if sz < t.back then d2 - (sz - t.back) ^ 2
    else if sz > t.front then d2 - (sz - t.front) ^ 2 else d2
  decide (d3 ≥ 0)

/-- The per-axis clamped squared deficit subtracted by `intersect_sphere`:
zero when the coordinate lies within the slab `[l, rr]`, the squared
distance to the nearer face otherwise. -/
def clamped_deficit (sq l rr : ℚ) : ℚ :=
  if sq < l then (sq - l) ^ 2 else if sq > rr then (sq - rr) ^ 2 else 0

mutual

/-- `OctreeNode.prototype.search` with the per-node intersection test
abstracted as `tst` (ray mode and sphere mode differ only in that test):
if the node passes, concatenate its direct objects and recurse into every
child, threading the accumulator. -/
def node_search (tst : STree → Bool) (acc : List OctreeObjectData) :
    STree → List OctreeObjectData
  | STree.mk p ro os cs =>
    if tst (STree.mk p ro os cs) then node_search_list tst (acc ++ os) cs else acc

/-- The `for each node of this.nodesIndices` loop of `OctreeNode.search`. -/
def node_search_list (tst : STree → Bool) (acc : List OctreeObjectData) :
    List STree → List OctreeObjectData
  | [] => acc
  | c :: cs => node_search_list tst (node_search tst acc c) cs

end

/-- `THREE.Octree.prototype.search`, flat-results mode, with the per-node
test abstracted: start from the root's direct objects — the root itself is
never tested — and run `node_search` over every child of the root. -/
def octree_search_with (tst : STree → Bool) (root : STree) : List OctreeObjectData :=
  node_search_list tst ([] ++ root.objects) root.children

/-- `THREE.Octree.prototype.search` in sphere mode (no direction given):
the per-node test is `intersect_sphere` at the query position and radius. -/
def octree_search (root : STree) (position : Vec3) (radius : ℚ) :
    List OctreeObjectData :=
  octree_search_with (fun t => intersect_sphere t position radius) root

mutual

/-- All objects stored in a subtree (this node's `objects` plus recursively
its children's, in traversal order). -/
def subtree_objects : STree → List OctreeObjectData
  | STree.mk _ _ os cs => os ++ subtree_objects_list cs

/-- All objects stored in a forest of subtrees. -/
def subtree_objects_list : List STree → List OctreeObjectData
  | [] => []
  | c :: cs => subtree_objects c ++ subtree_objects_list cs

end

/-- The object's bounding sphere lies inside the node's effective
(overlap-inclusive) box, per axis.  This is exactly the negation of the
outside test of `octant_index` spread over the three axes, so every object
that classifies as non-outside at a node satisfies it there. -/
def obj_in_bounds (t : STree) (od : OctreeObjectData) : Prop :=
  |od.position.x - t.position.x| + od.radius ≤ t.radiusOverlap
  ∧ |od.position.y - t.position.y| + od.radius ≤ t.radiusOverlap
  ∧ |od.position.z - t.position.z| + od.radius ≤ t.radiusOverlap

/-- The containment invariant of a subtree: every object stored anywhere in
the subtree lies (bounding sphere included) within this node's effective
box, hereditarily at every level. -/
inductive Contained : STree → Prop where
  | intro (t : STree) (hb : ∀ od ∈ subtree_objects t, obj_in_bounds t od)
      (hc : ∀ c ∈ t.children, Contained c) : Contained t

/-- Two spheres intersect exactly: center distance at most the sum of the
radii (stated on squares, which is equivalent for nonnegative radii). -/
def spheres_intersect (qpos : Vec3) (qrad : ℚ) (od : OctreeObjectData) : Prop :=
  Vec3.dist2 qpos od.position ≤ (qrad + od.radius) ^ 2

/-! ## The mutation state machine: arena model

The mutable object graph of the source — nodes with parent back-references, a
sparse child map, a tree handle whose `root` is replaced wholesale — is
modelled as an arena: an association list from node id to `NodeRec`, plus the
current root id and the node id counter (`this.tree.nodeCount`).  Every
mutation function takes fuel and returns `none` when it runs out (the
source's recursion has no structural measure).  `getNode` failing — a node id
with no record, which in the source would be a `TypeError` on `undefined` —
also yields `none`.

JS reference identity of descriptors is `oid` equality; `indexOf`-based
operations compare by `oid`.  `Array.prototype.splice(indexOf(v), 1)` removes
the first occurrence when present and otherwise — `indexOf` returning `-1` —
removes the *last* element (`splice(-1, 1)`), which `splice_first` mirrors. -/

/-- The recognized configuration of `THREE.Octree` (`depthMax` default `-1`,
`objectsThreshold` default `8`, `overlapPct` default `0.15`). -/
structure OctreeConfig where
  depthMax : ℤ
  objectsThreshold : ℤ
  overlapPct : ℚ
deriving DecidableEq, Repr

/-- The node graph: records by id, the current root id, `this.tree.nodeCount`. -/
structure OctreeCore where
  nodes : List (ℕ × NodeRec)
  rootId : ℕ
  nodeCount : ℕ
deriving DecidableEq, Repr

/-- Dereference a node id. -/
def getNode (core : OctreeCore) (nid : ℕ) : Option NodeRec :=
  core.nodes.lookup nid

/-- Store a node record under its id (replace or append). -/
def upd_nodes : List (ℕ × NodeRec) → NodeRec → List (ℕ × NodeRec)
  | [], n => [(n.id, n)]
  | e :: es, n => if e.1 = n.id then (n.id, n) :: es else e :: upd_nodes es n

/-- Write a node record back into the arena. -/
def setNode (core : OctreeCore) (n : NodeRec) : OctreeCore :=
  { core with nodes := upd_nodes core.nodes n }

/-- `this.nodesByIndex[ indexOctant ] = node` -/
def upd_assoc : List (ℤ × ℕ) → ℤ → ℕ → List (ℤ × ℕ)
  | [], k, v => [(k, v)]
  | e :: es, k, v => if e.1 = k then (k, v) :: es else e :: upd_assoc es k v

/-- `delete this.nodesByIndex[ indexOctant ]` -/
def del_assoc : List (ℤ × ℕ) → ℤ → List (ℤ × ℕ)
  | [], _ => []
  | e :: es, k => if e.1 = k then es else e :: del_assoc es k

/-- `array.splice( array.indexOf( v ), 1 )`: drop the first occurrence, or
the last element when `v` is absent (`indexOf` gives `-1` and
`splice(-1, 1)` removes the final entry). -/
def splice_first {α : Type} [DecidableEq α] (l : List α) (v : α) : List α :=
  if v ∈ l then l.erase v else l.dropLast

/-- Is a descriptor with this `oid` (JS reference) in the list?  Models
`objects.indexOf( object ) !== -1`. -/
def mem_oid (ods : List OctreeObjectData) (oid : ℕ) : Bool :=
  ods.any (fun od => od.oid == oid)

/-- Overwrite the list entry holding this descriptor (same JS reference =
same `oid`) with its current value — in the source both are one object, so
mutating the descriptor mutates the stored entry. -/
def replace_oid : List OctreeObjectData → OctreeObjectData → List OctreeObjectData
  | [], _ => []
  | o :: os, od => if o.oid = od.oid then od :: os else o :: replace_oid os od

/-- `objectsData.splice( objectsData.indexOf( objectData ), 1 )` when the
descriptor is known present-or-absent by `oid`: drop the first occurrence,
unchanged when absent (callers guard with `indexOf !== -1`). -/
def erase_oid_first : List OctreeObjectData → ℕ → List OctreeObjectData
  | [], _ => []
  | o :: os, i => if o.oid = i then os else o :: erase_oid_first os i

/-- One entry of `this.tree.INDEX_OUTSIDE_MAP`: direction index, running
count, and the direction's unit components. -/
structure IomEntry where
  index : ℕ
  count : ℕ
  x : ℤ
  y : ℤ
  z : ℤ
deriving DecidableEq, Repr

/-- `INDEX_OUTSIDE_MAP` with all counts reset to `0` (the first loop of
`expand`), default direction indices. -/
def iom_reset : List IomEntry :=
  [⟨0, 0, 1, 0, 0⟩, ⟨1, 0, -1, 0, 0⟩, ⟨2, 0, 0, 1, 0⟩,
    ⟨3, 0, 0, -1, 0⟩, ⟨4, 0, 0, 0, 1⟩, ⟨5, 0, 0, 0, -1⟩]

/-- `iom[ k ].count++` -/
def iom_bump (iom : List IomEntry) (k : ℕ) : List IomEntry :=
  iom.map (fun e => if e.index = k then { e with count := e.count + 1 } else e)

/-- The per-object flag tally of `expand`: for an outside-classified object
(`indexOctant < -1`), decode `flagsOutside = -indexOctant -
INDEX_OUTSIDE_OFFSET` and bump one direction per axis (`if/else if`: the
positive flag shadows the negative one). -/
def iom_tally_one (iom : List IomEntry) (indexOctant : ℤ) : List IomEntry :=
  let flagsOutside := -indexOctant - INDEX_OUTSIDE_OFFSET
  let iom := if Int.land flagsOutside FLAG_POS_X ≠ 0 then iom_bump iom 0
    else if Int.land flagsOutside FLAG_NEG_X ≠ 0 then iom_bump iom 1 else iom
  let iom := if Int.land flagsOutside FLAG_POS_Y ≠ 0 then iom_bump iom 2
    else if Int.land flagsOutside FLAG_NEG_Y ≠ 0 then iom_bump iom 3 else iom
  let iom := if Int.land flagsOutside FLAG_POS_Z ≠ 0 then iom_bump iom 4
    else if Int.land flagsOutside FLAG_NEG_Z ≠ 0 then iom_bump iom 5 else iom
  iom

/-- The first loop of `expand` over the outside candidates: classify each
object (cached octant from `octants[ i ]` when present, else a fresh —
descriptor-mutating — `octant_index`), tally outside directions, and split
the objects into the expand bucket and the remaining bucket. -/
def expand_tally (n : NodeRec) :
    List OctreeObjectData → List ℤ →
      List IomEntry × List OctreeObjectData × List OctreeObjectData
  | [], _ => (iom_reset, [], [])
  | od :: ods, octants =>
    let (indexOctant, od) := match octants.head? with
      | some o => (o, od)
      | none => octant_index_od n od
    let (iom, objectsExpand, objectsRemaining) := expand_tally n ods octants.tail
    if indexOctant < -1 then
      (iom_tally_one iom indexOctant, od :: objectsExpand, objectsRemaining)
    else
      (iom, objectsExpand, od :: objectsRemaining)

/-- The direction selection of `expand`: stable-sort the outside map by
descending count (`Array.prototype.sort` with `b.count - a.count`), then pick
three entries — the first; one of the next two whose axis (`index | 1`)
differs from the first's; and one of `sorted[2..4]` whose axis differs from
both — falling back to `sorted[4]` unchecked. -/
def expand_select (iom : List IomEntry) : IomEntry × IomEntry × IomEntry :=
  let dflt : IomEntry := ⟨0, 0, 0, 0, 0⟩
  let indexOutsideCounts := iom.mergeSort (fun a b => b.count ≤ a.count)
  let infoIndexOutside1 := indexOutsideCounts.getD 0 dflt
  let indexOutsideBitwise1 := infoIndexOutside1.index ||| 1
  let infoPotential1 := indexOutsideCounts.getD 1 dflt
  let infoPotential2 := indexOutsideCounts.getD 2 dflt
  let infoIndexOutside2 :=
    if (infoPotential1.index ||| 1) ≠ indexOutsideBitwise1 then infoPotential1
    else infoPotential2
  let indexOutsideBitwise2 := infoIndexOutside2.index ||| 1
  let infoPotentialB1 := indexOutsideCounts.getD 2 dflt
  let infoPotentialB2 := indexOutsideCounts.getD 3 dflt
  let infoPotentialB3 := indexOutsideCounts.getD 4 dflt
  let indexPotentialBitwise1 := infoPotentialB1.index ||| 1
  let indexPotentialBitwise2 := infoPotentialB2.index ||| 1
  let infoIndexOutside3 :=
    if indexPotentialBitwise1 ≠ indexOutsideBitwise1
        ∧ indexPotentialBitwise1 ≠ indexOutsideBitwise2 then infoPotentialB1
    else if indexPotentialBitwise2 ≠ indexOutsideBitwise1
        ∧ indexPotentialBitwise2 ≠ indexOutsideBitwise2 then infoPotentialB2
    else infoPotentialB3
  (infoIndexOutside1, infoIndexOutside2, infoIndexOutside3)

/-- `THREE.OctreeNode` construction: clamp the radius to `1` when not
positive, derive `overlap = radius · overlapPct` and `radiusOverlap`, start
with no children/objects; assigning `parent` in the constructor runs the
depth cascade, which for a fresh childless node just sets
`depth = parent.depth + 1` (or `0` at a root). -/
def mk_octree_node (cfg : OctreeConfig) (nid : ℕ) (position : Vec3) (radius : ℚ)
    (indexOctant : Option ℤ) (parentDepth : Option ℕ) (parent : Option ℕ) : NodeRec :=
  let radius := if radius > 0 then radius else 1
  let overlap := radius * cfg.overlapPct
  { id := nid, position := position, radius := radius, overlap := overlap,
    radiusOverlap := radius + overlap, indexOctant := indexOctant,
    depth := match parentDepth with | some d => d + 1 | none => 0,
    parent := parent, nodesIndices := [], nodesByIndex := [], objects := [] }

/-- `OctreeNode.prototype.add_objects_no_check`: append each object (no
duplicate check) and set its node back-reference. -/
def add_objects_no_check (core : OctreeCore) (nid : ℕ)
    (ods : List OctreeObjectData) : Option OctreeCore := do
  let n ← getNode core nid
  let ods := ods.map (fun od => { od with node := some nid })
  pure (setNode core { n with objects := n.objects ++ ods })

/-- The child ids of a node, in `nodesIndices` order (`none` if the sparse
map misses an index — in the source that dereferences `undefined`). -/
def octant_ids (n : NodeRec) : Option (List ℕ) :=
  n.nodesIndices.mapM (fun i => n.nodesByIndex.lookup i)

/-- The reverse scan of `remove_object_end` over one node's `objects` for a
source object (the slow path): removes every matching descriptor walking
from the highest index down, stopping — `searchComplete`, loop break — at
the first removed descriptor with no `faces`; lower indices are then left
unscanned.  Returns (kept list, removed descriptors in scan order, search
complete). -/
def slow_scan (src : ℕ) :
    List OctreeObjectData → List OctreeObjectData × List OctreeObjectData × Bool
  | [] => ([], [], false)
  | od :: ods =>
    let (kept, removed, complete) := slow_scan src ods
    if complete then (od :: kept, removed, true)
    else if od.object = src then
      (kept, removed ++ [{ od with node := none }], od.faces.isNone)
    else (od :: kept, removed, false)

/-- The argument of `remove_object`: an `OctreeObjectData` (fast path by
reference) or a source object (slow path by `objectData.object`). -/
inductive RemoveTarget where
  | byData (od : OctreeObjectData)
  | bySource (object : ℕ)
deriving DecidableEq, Repr

/-- The `removeData` accumulator of `remove_object_end`. -/
structure RemoveData where
  searchComplete : Bool
  nodesRemovedFrom : List ℕ
  objectsDataRemoved : List OctreeObjectData
deriving DecidableEq, Repr

mutual

/-- The `parent` property setter's cascade
(`OctreeNode.prototype.properties_update_cascade`): recompute `depth` from
the parent back-reference (`0` at a root) and recurse over all children. -/
def properties_update_cascade : ℕ → OctreeCore → ℕ → Option OctreeCore
  | 0, _, _ => none
  | fuel + 1, core, nid => do
    let n ← getNode core nid
    let depth := match n.parent with
      | some pid => match getNode core pid with
        | some p => p.depth + 1
        | none => 0
      | none => 0
    let core := setNode core { n with depth := depth }
    let ids ← octant_ids n
    puc_list fuel core ids

/-- The child loop of `properties_update_cascade`. -/
def puc_list : ℕ → OctreeCore → List ℕ → Option OctreeCore
  | 0, _, _ => none
  | _ + 1, core, [] => pure core
  | fuel + 1, core, cid :: ids => do
    let core ← properties_update_cascade fuel core cid
    puc_list fuel core ids

/-- `OctreeNode.prototype.add_node`: resolve the octant slot (argument, then
the child's own `indexOctant`, then a fresh classification), record the slot
in `nodesIndices`/`nodesByIndex`, and re-parent the child (running the depth
cascade) when its parent is not already this node. -/
def add_node : ℕ → OctreeCore → ℕ → ℕ → Option ℤ → Option OctreeCore
  | 0, _, _, _, _ => none
  | fuel + 1, core, pid, cid, idxOpt => do
    let p ← getNode core pid
    let child ← getNode core cid
    let (idx, child) := match idxOpt with
      | some i => (i, { child with indexOctant := some i })
      | none => match child.indexOctant with
        | some i => (i, { child with indexOctant := some i })
        | none => octant_index_node p child
    let core := setNode core child
    let p := if idx ∈ p.nodesIndices then p
      else { p with nodesIndices := p.nodesIndices ++ [idx] }
    let p := { p with nodesByIndex := upd_assoc p.nodesByIndex idx cid }
    let core := setNode core p
    if child.parent = some pid then pure core
    else do
      let core := setNode core { child with parent := some pid }
      properties_update_cascade fuel core cid

/-- `OctreeNode.prototype.remove_node` with a numeric (or undefined)
identifier, as invoked from `merge`: splice the slot out of `nodesIndices`,
delete the `nodesByIndex` entry, and unparent the child (cascade).  An
undefined identifier leaves the `-1` sentinel and does nothing. -/
def remove_node : ℕ → OctreeCore → ℕ → Option ℤ → Option OctreeCore
  | 0, _, _, _ => none
  | fuel + 1, core, pid, idxOpt => do
    let p ← getNode core pid
    let indexOctant : ℤ := match idxOpt with
      | some i => i
      | none => -1
    if indexOctant ≠ -1 then do
      let nodeOpt := p.nodesByIndex.lookup indexOctant
      let p := { p with nodesIndices := splice_first p.nodesIndices indexOctant,
                        nodesByIndex := del_assoc p.nodesByIndex indexOctant }
      let core := setNode core p
      match nodeOpt with
      | some cid => do
        let child ← getNode core cid
        if child.parent = some pid then do
          let core := setNode core { child with parent := none }
          properties_update_cascade fuel core cid
        else pure core
      | none => none
    else pure core

/-- `OctreeNode.prototype.branch`: return the existing child at this octant,
or create it — child radius `radiusOverlap · 0.5`, center offset `±(childRadius
- childOverlap)` per axis by the octant bits — and register it via
`add_node`. -/
def branch : ℕ → OctreeConfig → OctreeCore → ℕ → ℤ → Option (OctreeCore × ℕ)
  | 0, _, _, _, _ => none
  | fuel + 1, cfg, core, nid, idx => do
    let n ← getNode core nid
    match n.nodesByIndex.lookup idx with
    | some cid => pure (core, cid)
    | none => do
      let radius := n.radiusOverlap * (1/2)
      let overlap := radius * cfg.overlapPct
      let radiusOffset := radius - overlap
      let offset : Vec3 := ⟨if Int.land idx 1 ≠ 0 then radiusOffset else -radiusOffset,
        if Int.land idx 2 ≠ 0 then radiusOffset else -radiusOffset,
        if Int.land idx 4 ≠ 0 then radiusOffset else -radiusOffset⟩
      let position := Vec3.add n.position offset
      let cid := core.nodeCount
      let core := { core with nodeCount := core.nodeCount + 1 }
      let node := mk_octree_node cfg cid position radius (some idx) (some n.depth) (some nid)
      let core := setNode core node
      let core ← add_node fuel core nid cid (some idx)
      pure (core, cid)

/-- `OctreeNode.prototype.add_object`: classify (which updates the
descriptor's caches); recurse into the octant's child when the node already
has children; delegate outside objects to the parent when one exists;
otherwise append to `objects` (no duplicate), set the back-reference, and run
`grow_check`. -/
def add_object : ℕ → OctreeConfig → OctreeCore → ℕ → OctreeObjectData → Option OctreeCore
  | 0, _, _, _, _ => none
  | fuel + 1, cfg, core, nid, od => do
    let n ← getNode core nid
    let (indexOctant, od) := octant_index_od n od
    if indexOctant > -1 ∧ n.nodesIndices.length > 0 then do
      let (core, cid) ← branch fuel cfg core nid indexOctant
      add_object fuel cfg core cid od
    else if indexOctant < -1 ∧ n.parent.isSome then
      match n.parent with
      | some pid => add_object fuel cfg core pid od
      | none => none
    else do
      let od := { od with node := some nid }
      let objects := if mem_oid n.objects od.oid then replace_oid n.objects od
        else n.objects ++ [od]
      let core := setNode core { n with objects := objects }
      grow_check fuel cfg core nid

/-- `OctreeNode.prototype.grow_check`: grow when the direct object count
exceeds a positive threshold. -/
def grow_check : ℕ → OctreeConfig → OctreeCore → ℕ → Option OctreeCore
  | 0, _, _, _ => none
  | fuel + 1, cfg, core, nid => do
    let n ← getNode core nid
    if (n.objects.length : ℤ) > cfg.objectsThreshold ∧ cfg.objectsThreshold > 0 then
      grow fuel cfg core nid
    else pure core

/-- `OctreeNode.prototype.grow`: re-classify every direct object (mutating
caches), partition into split / expand / remaining buckets, run `split`
and/or `expand` appending their leftovers to the remaining bucket, overwrite
`objects` with the remaining bucket, and `merge_check`. -/
def grow : ℕ → OctreeConfig → OctreeCore → ℕ → Option OctreeCore
  | 0, _, _, _ => none
  | fuel + 1, cfg, core, nid => do
    let n ← getNode core nid
    let classified := n.objects.map (fun od => octant_index_od n od)
    let core := setNode core { n with objects := classified.map Prod.snd }
    let objectsSplit := (classified.filter (fun x => decide (x.1 > -1))).map Prod.snd
    let objectsSplitOctants := (classified.filter (fun x => decide (x.1 > -1))).map Prod.fst
    let objectsExpand := (classified.filter (fun x => decide (x.1 < -1))).map Prod.snd
    let objectsExpandOctants := (classified.filter (fun x => decide (x.1 < -1))).map Prod.fst
    let objectsRemaining := (classified.filter (fun x => decide (x.1 = -1))).map Prod.snd
    let (core, objectsRemaining) ←
      if objectsSplit.length > 0 then do
        let (core, rem) ← split fuel cfg core nid (some objectsSplit) objectsSplitOctants
        pure (core, objectsRemaining ++ rem)
      else pure (core, objectsRemaining)
    let (core, objectsRemaining) ←
      if objectsExpand.length > 0 then do
        let (core, rem) ← expand fuel cfg core nid (some objectsExpand) objectsExpandOctants
        pure (core, objectsRemaining ++ rem)
      else pure (core, objectsRemaining)
    let n2 ← getNode core nid
    let core := setNode core { n2 with objects := objectsRemaining }
    merge_check fuel cfg core nid

/-- `OctreeNode.prototype.split`: below the depth cap, push every
octant-classified object into the corresponding (lazily created) child and
return the rest; at or above the cap, return `this.objects` unchanged.  The
`objects === this.objects` write-back aliasing is modelled by the `none`
argument (call with no explicit list). -/
def split : ℕ → OctreeConfig → OctreeCore → ℕ → Option (List OctreeObjectData) →
    List ℤ → Option (OctreeCore × List OctreeObjectData)
  | 0, _, _, _, _, _ => none
  | fuel + 1, cfg, core, nid, objectsArg, octants => do
    let n ← getNode core nid
    if cfg.depthMax < 0 ∨ (n.depth : ℤ) < cfg.depthMax then do
      let objects := objectsArg.getD n.objects
      let (core, objectsRemaining) ← split_loop fuel cfg core nid objects octants
      match objectsArg with
      | none => do
        let n2 ← getNode core nid
        pure (setNode core { n2 with objects := objectsRemaining }, objectsRemaining)
      | some _ => pure (core, objectsRemaining)
    else
      pure (core, n.objects)

/-- The object loop of `split`: octant from the supplied `octants` list when
present, else a fresh classification; `branch` + `add_object` for
octant-classified objects, the rest accumulate as remaining. -/
def split_loop : ℕ → OctreeConfig → OctreeCore → ℕ → List OctreeObjectData →
    List ℤ → Option (OctreeCore × List OctreeObjectData)
  | 0, _, _, _, _, _ => none
  | _ + 1, _, core, _, [], _ => pure (core, [])
  | fuel + 1, cfg, core, nid, od :: ods, octants => do
    let n ← getNode core nid
    let (indexOctant, od) := match octants.head? with
      | some o => (o, od)
      | none => octant_index_od n od
    if indexOctant > -1 then do
      let (core, cid) ← branch fuel cfg core nid indexOctant
      let core ← add_object fuel cfg core cid od
      split_loop fuel cfg core nid ods octants.tail
    else do
      let (core, rem) ← split_loop fuel cfg core nid ods octants.tail
      pure (core, od :: rem)

/-- `OctreeNode.prototype.expand`: when the whole tree is below the depth
cap, tally outside directions over the candidates, and if any object is
outside: select the three dominant non-opposite directions, build a new
parent whose radius reverse-computes the overlap (`overlap / ((pct/2)(1 +
pct))`, or `radius · 2` at `pct = 0`), attach this node at the inverse
octant, install the parent as tree root, and re-add every outside object at
the current root.  Returns the non-outside remainder. -/
def expand : ℕ → OctreeConfig → OctreeCore → ℕ → Option (List OctreeObjectData) →
    List ℤ → Option (OctreeCore × List OctreeObjectData)
  | 0, _, _, _, _, _ => none
  | fuel + 1, cfg, core, nid, objectsArg, octants => do
    let n ← getNode core nid
    let dEnd ← depth_end fuel core core.rootId none
    if cfg.depthMax < 0 ∨ ((dEnd.getD 0 : ℕ) : ℤ) < cfg.depthMax then do
      let objects := objectsArg.getD n.objects
      let (iom, objectsExpand, objectsRemaining) := expand_tally n objects octants
      let core ←
        if objectsExpand.length > 0 then do
          let (i1, i2, i3) := expand_select iom
          let octantX := i1.x + i2.x + i3.x
          let octantY := i1.y + i2.y + i3.y
          let octantZ := i1.z + i2.z + i3.z
          let indexOctant := octant_index_from_xyz octantX octantY octantZ
          let indexOctantInverse := octant_index_from_xyz (-octantX) (-octantY) (-octantZ)
          let overlap := n.overlap
          let radius := n.radius
          let radiusParent := if cfg.overlapPct > 0 then
              overlap / ((1/2 * cfg.overlapPct) * (1 + cfg.overlapPct))
            else radius * 2
          let overlapParent := radiusParent * cfg.overlapPct
          let radiusOffset := (radiusParent + overlapParent) - (radius + overlap)
          let offset : Vec3 := ⟨if indexOctant &&& 1 ≠ 0 then radiusOffset else -radiusOffset,
            if indexOctant &&& 2 ≠ 0 then radiusOffset else -radiusOffset,
            if indexOctant &&& 4 ≠ 0 then radiusOffset else -radiusOffset⟩
          let position := Vec3.add n.position offset
          let pid := core.nodeCount
          let core := { core with nodeCount := core.nodeCount + 1 }
          let parentNode := mk_octree_node cfg pid position radiusParent none none none
          let core := setNode core parentNode
          let core ← add_node fuel core pid nid (some (indexOctantInverse : ℤ))
          let core ← root_set fuel core pid
          expand_reinsert fuel cfg core objectsExpand
        else pure core
      match objectsArg with
      | none => do
        let n2 ← getNode core nid
        pure (setNode core { n2 with objects := objectsRemaining }, objectsRemaining)
      | some _ => pure (core, objectsRemaining)
    else
      match objectsArg with
      | some l => pure (core, l)
      | none => none

/-- The reinsertion loop of `expand`: every previously-outside object is
re-added at the *current* tree root (re-read each iteration — nested expands
move it). -/
def expand_reinsert : ℕ → OctreeConfig → OctreeCore → List OctreeObjectData →
    Option OctreeCore
  | 0, _, _, _ => none
  | _ + 1, _, core, [] => pure core
  | fuel + 1, cfg, core, od :: ods => do
    let core ← add_object fuel cfg core core.rootId od
    expand_reinsert fuel cfg core ods

/-- `THREE.Octree.prototype.root_set`: store the new root and run its
property cascade. -/
def root_set : ℕ → OctreeCore → ℕ → Option OctreeCore
  | 0, _, _ => none
  | fuel + 1, core, nid => do
    let core := { core with rootId := nid }
    properties_update_cascade fuel core nid

/-- `OctreeNode.prototype.depth_end`: the deepest leaf depth below this node
(threaded through the `depth` parameter; `!depth` treats both `undefined`
and `0` as unset). -/
def depth_end : ℕ → OctreeCore → ℕ → Option ℕ → Option (Option ℕ)
  | 0, _, _, _ => none
  | fuel + 1, core, nid, acc => do
    let n ← getNode core nid
    if n.nodesIndices.length > 0 then do
      let ids ← octant_ids n
      depth_end_list fuel core ids acc
    else
      pure (some (match acc with
        | none => n.depth
        | some a => if a = 0 ∨ n.depth > a then n.depth else a))

/-- The child loop of `depth_end`. -/
def depth_end_list : ℕ → OctreeCore → List ℕ → Option ℕ → Option (Option ℕ)
  | 0, _, _, _ => none
  | _ + 1, _, [], acc => pure acc
  | fuel + 1, core, cid :: ids, acc => do
    let acc ← depth_end fuel core cid acc
    depth_end_list fuel core ids acc

/-- `OctreeNode.prototype.object_count_end`: direct objects plus all
descendants'. -/
def object_count_end : ℕ → OctreeCore → ℕ → Option ℕ
  | 0, _, _ => none
  | fuel + 1, core, nid => do
    let n ← getNode core nid
    let ids ← octant_ids n
    let subCount ← oce_list fuel core ids
    pure (n.objects.length + subCount)

/-- The child loop of `object_count_end`. -/
def oce_list : ℕ → OctreeCore → List ℕ → Option ℕ
  | 0, _, _ => none
  | _ + 1, _, [] => pure 0
  | fuel + 1, core, cid :: ids => do
    let c ← object_count_end fuel core cid
    let rest ← oce_list fuel core ids
    pure (c + rest)

/-- `OctreeNode.prototype.objects_end`: concatenate this node's objects and
recursively all descendants' onto the accumulator. -/
def objects_end : ℕ → OctreeCore → ℕ → List OctreeObjectData →
    Option (List OctreeObjectData)
  | 0, _, _, _ => none
  | fuel + 1, core, nid, acc => do
    let n ← getNode core nid
    let acc := acc ++ n.objects
    let ids ← octant_ids n
    oe_list fuel core ids acc

/-- The child loop of `objects_end`. -/
def oe_list : ℕ → OctreeCore → List ℕ → List OctreeObjectData →
    Option (List OctreeObjectData)
  | 0, _, _, _ => none
  | _ + 1, _, [], acc => pure acc
  | fuel + 1, core, cid :: ids, acc => do
    let acc ← objects_end fuel core cid acc
    oe_list fuel core ids acc

/-- `OctreeNode.prototype.reset`: clear this node's objects and child slots,
unparent every child (running its cascade), recursing when `cascade` is
set.  (The `removeVisual` flag only touches the debug overlay, which is
outside the core.) -/
def reset : ℕ → OctreeCore → ℕ → Bool → Option OctreeCore
  | 0, _, _, _ => none
  | fuel + 1, core, nid, casc => do
    let n ← getNode core nid
    let ids ← octant_ids n
    let core := setNode core { n with objects := [], nodesIndices := [], nodesByIndex := [] }
    reset_loop fuel core ids casc

/-- The child loop of `reset`. -/
def reset_loop : ℕ → OctreeCore → List ℕ → Bool → Option OctreeCore
  | 0, _, _, _ => none
  | _ + 1, core, [], _ => pure core
  | fuel + 1, core, cid :: ids, casc => do
    let child ← getNode core cid
    let core := setNode core { child with parent := none }
    let core ← properties_update_cascade fuel core cid
    let core ← if casc then reset fuel core cid casc else pure core
    reset_loop fuel core ids casc

/-- `OctreeNode.prototype.merge_check`: walk up while the running node has a
parent and its whole-subtree count is under the threshold; if the walk moved,
merge the last under-threshold node into the node it stopped at. -/
def merge_check : ℕ → OctreeConfig → OctreeCore → ℕ → Option OctreeCore
  | 0, _, _, _ => none
  | fuel + 1, cfg, core, selfId => do
    let (nodeParentId, nodeMergeOpt) ← merge_walk fuel cfg core selfId none
    if nodeParentId ≠ selfId then
      match nodeMergeOpt with
      | some mid => merge fuel cfg core nodeParentId mid
      | none => none
    else pure core

/-- The `while` loop of `merge_check` (current node, last under-threshold
node). -/
def merge_walk : ℕ → OctreeConfig → OctreeCore → ℕ → Option ℕ → Option (ℕ × Option ℕ)
  | 0, _, _, _, _ => none
  | fuel + 1, cfg, core, curId, mergeOpt => do
    let cur ← getNode core curId
    match cur.parent with
    | some pid => do
      let cnt ← object_count_end fuel core curId
      if (cnt : ℤ) < cfg.objectsThreshold then
        merge_walk fuel cfg core pid (some curId)
      else pure (curId, mergeOpt)
    | none => pure (curId, mergeOpt)

/-- `OctreeNode.prototype.merge` (single node, as `merge_check` invokes it):
pull the merged node's entire subtree objects into this node flat, reset and
detach the merged subtree, and re-run `merge_check`. -/
def merge : ℕ → OctreeConfig → OctreeCore → ℕ → ℕ → Option OctreeCore
  | 0, _, _, _, _ => none
  | fuel + 1, cfg, core, targetId, mergeId => do
    let gathered ← objects_end fuel core mergeId []
    let core ← add_objects_no_check core targetId gathered
    let core ← reset fuel core mergeId true
    let mnode ← getNode core mergeId
    let core ← remove_node fuel core targetId mnode.indexOctant
    merge_check fuel cfg core targetId

/-- `OctreeNode.prototype.shrink`: `merge_check` here, then `contract_check`
on the current tree root. -/
def shrink : ℕ → OctreeConfig → OctreeCore → ℕ → Option OctreeCore
  | 0, _, _, _ => none
  | fuel + 1, cfg, core, nid => do
    let core ← merge_check fuel cfg core nid
    contract_check fuel cfg core core.rootId

/-- The shrink loop of `remove_object` over `nodesRemovedFrom`. -/
def shrink_loop : ℕ → OctreeConfig → OctreeCore → List ℕ → Option OctreeCore
  | 0, _, _, _ => none
  | _ + 1, _, core, [] => pure core
  | fuel + 1, cfg, core, nid :: ids => do
    let core ← shrink fuel cfg core nid
    shrink_loop fuel cfg core ids

/-- `OctreeNode.prototype.contract_check` (meaningful at the root): find the
child subtree with the strictly largest object count (first wins ties); if
everything outside it — own objects plus the other subtrees — is under the
threshold, contract onto it. -/
def contract_check : ℕ → OctreeConfig → OctreeCore → ℕ → Option OctreeCore
  | 0, _, _, _ => none
  | fuel + 1, cfg, core, nid => do
    let n ← getNode core nid
    if n.nodesIndices.length > 0 then do
      let ids ← octant_ids n
      let (heaviestOpt, total) ← cc_loop fuel core ids none n.objects.length
      match heaviestOpt with
      | some (hid, hcnt) =>
        if ((total - hcnt : ℕ) : ℤ) < cfg.objectsThreshold then
          contract fuel cfg core nid hid
        else pure core
      | none => pure core
    else pure core

/-- The child loop of `contract_check`: running heaviest child and running
total of child subtree counts plus the node's own objects. -/
def cc_loop : ℕ → OctreeCore → List ℕ → Option (ℕ × ℕ) → ℕ → Option (Option (ℕ × ℕ) × ℕ)
  | 0, _, _, _, _ => none
  | _ + 1, _, [], heaviest, running => pure (heaviest, running)
  | fuel + 1, core, cid :: ids, heaviest, running => do
    let cnt ← object_count_end fuel core cid
    let heaviest := match heaviest with
      | none => some (cid, cnt)
      | some (hid, hcnt) => if cnt > hcnt then some (cid, cnt) else some (hid, hcnt)
    cc_loop fuel core ids heaviest (running + cnt)

/-- `OctreeNode.prototype.contract`: flatten every non-heaviest child
subtree and this node's own objects into the new root, reset the rest,
install the new root, and re-run `contract_check` there. -/
def contract : ℕ → OctreeConfig → OctreeCore → ℕ → ℕ → Option OctreeCore
  | 0, _, _, _, _ => none
  | fuel + 1, cfg, core, nid, newRootId => do
    let n ← getNode core nid
    let ids ← octant_ids n
    let core ← contract_loop fuel core ids newRootId
    let n2 ← getNode core nid
    let core ← add_objects_no_check core newRootId n2.objects
    let core ← reset fuel core nid false
    let core ← root_set fuel core newRootId
    contract_check fuel cfg core newRootId

/-- The child loop of `contract`. -/
def contract_loop : ℕ → OctreeCore → List ℕ → ℕ → Option OctreeCore
  | 0, _, _, _ => none
  | _ + 1, core, [], _ => pure core
  | fuel + 1, core, cid :: ids, newRootId => do
    let core ←
      if cid ≠ newRootId then do
        let gathered ← objects_end fuel core cid []
        let core ← add_objects_no_check core newRootId gathered
        reset fuel core cid true
      else pure core
    contract_loop fuel core ids newRootId

/-- `OctreeNode.prototype.remove_object_end`: remove matching descriptors
from this node (fast path by descriptor reference, slow reverse scan by
source object), record the node when something was removed, and recurse into
children until the search completes. -/
def remove_object_end : ℕ → OctreeCore → ℕ → RemoveTarget → RemoveData →
    Option (OctreeCore × RemoveData)
  | 0, _, _, _, _ => none
  | fuel + 1, core, nid, target, rd => do
    let n ← getNode core nid
    let (objects2, removedNew, complete2) :=
      match target with
      | RemoveTarget.byData od =>
        match n.objects.find? (fun (o : OctreeObjectData) => o.oid == od.oid) with
        | some found =>
          ((erase_oid_first n.objects od.oid).map
              (fun (o : OctreeObjectData) =>
                if o.oid = od.oid then { o with node := none } else o),
            [{ found with node := none }], true)
        | none => (n.objects, [], false)
      | RemoveTarget.bySource src => slow_scan src n.objects
    let rd2 : RemoveData := { rd with
      searchComplete := rd.searchComplete || complete2,
      objectsDataRemoved := rd.objectsDataRemoved ++ removedNew,
      nodesRemovedFrom := if removedNew.length > 0 then rd.nodesRemovedFrom ++ [nid]
        else rd.nodesRemovedFrom }
    let core := setNode core { n with objects := objects2 }
    if rd2.searchComplete = true then pure (core, rd2)
    else do
      let ids ← octant_ids n
      roe_list fuel core ids target rd2

/-- The child loop of `remove_object_end`, breaking once the search is
complete. -/
def roe_list : ℕ → OctreeCore → List ℕ → RemoveTarget → RemoveData →
    Option (OctreeCore × RemoveData)
  | 0, _, _, _, _ => none
  | _ + 1, core, [], _, rd => pure (core, rd)
  | fuel + 1, core, cid :: ids, target, rd => do
    let (core, rd) ← remove_object_end fuel core cid target rd
    if rd.searchComplete = true then pure (core, rd)
    else roe_list fuel core ids target rd

/-- `OctreeNode.prototype.remove_object`: run the recursive removal, then
`shrink` every node an object was removed from; returns the removed
descriptors. -/
def remove_object : ℕ → OctreeConfig → OctreeCore → ℕ → RemoveTarget →
    Option (OctreeCore × List OctreeObjectData)
  | 0, _, _, _, _ => none
  | fuel + 1, cfg, core, nid, target => do
    let (core, rd) ← remove_object_end fuel core nid target
      ⟨false, [], []⟩
    let core ← shrink_loop fuel cfg core rd.nodesRemovedFrom
    pure (core, rd.objectsDataRemoved)

end

/-! ## The Octree handle: registries and public mutation API -/

/-- A tracked source object as the core consumes it: an identity plus the
world position and bounding radius the host's geometry extraction supplies
(deriving these from meshes/faces is outside the core, spec section 1). -/
structure SourceObject where
  id : ℕ
  position : Vec3
  radius : ℚ
deriving DecidableEq, Repr

/-- The `THREE.Octree` handle: the node graph plus the two registries
(`this.objects` — source objects, `this.objectsData` — descriptors) and a
counter minting fresh descriptor identities (JS allocation). -/
structure OctreeState where
  core : OctreeCore
  objects : List ℕ
  objectsData : List OctreeObjectData
  odCounter : ℕ
deriving DecidableEq, Repr

/-- `new THREE.Octree(...)`: one root node (id `0`, depth `0`, no parent),
empty registries. -/
def octree_new (cfg : OctreeConfig) (position : Vec3) (radius : ℚ) : OctreeState :=
  let root := mk_octree_node cfg 0 position radius none none none
  { core := { nodes := [(0, root)], rootId := 0, nodeCount := 1 },
    objects := [], objectsData := [], odCounter := 0 }

/-- `THREE.OctreeObjectData` construction for a whole object: position and
radius from the source, `positionLast` a clone of the position, octant cache
unset. -/
def mk_object_data (oid : ℕ) (src : SourceObject) : OctreeObjectData :=
  { oid := oid, object := src.id, faces := none, radius := src.radius,
    position := src.position, positionLast := src.position,
    indexOctant := none, node := none }

/-- `THREE.Octree.prototype.add` (whole-object mode; the `useFaces` variant
derives one descriptor per face through the external geometry extraction):
no-op when the source is already registered, else register it, create the
descriptor (`add_object_data` appends it to `objectsData`), and insert via
the root's `add_object`. -/
def octree_add (fuel : ℕ) (cfg : OctreeConfig) (st : OctreeState)
    (src : SourceObject) : Option OctreeState :=
  if src.id ∈ st.objects then some st
  else
    let od := mk_object_data st.odCounter src
    match add_object fuel cfg st.core st.core.rootId od with
    | some core =>
      some { core := core, objects := st.objects ++ [src.id],
             objectsData := st.objectsData ++ [od], odCounter := st.odCounter + 1 }
    | none => none

/-- `THREE.Octree.prototype.remove` for a source object: no-op when not
registered, else splice it from `objects`, remove every matching descriptor
from the tree (with the shrink cascade), and splice each removed descriptor
from `objectsData`. -/
def octree_remove (fuel : ℕ) (cfg : OctreeConfig) (st : OctreeState)
    (srcId : ℕ) : Option OctreeState :=
  if srcId ∈ st.objects then
    let objects := splice_first st.objects srcId
    match remove_object fuel cfg st.core st.core.rootId (RemoveTarget.bySource srcId) with
    | some (core, removed) =>
      some { core := core, objects := objects,
             objectsData := removed.foldl (fun acc od => erase_oid_first acc od.oid)
               st.objectsData,
             odCounter := st.odCounter }
    | none => none
  else some st

/-! ## Concrete scenario states

Fully evaluated intermediate states of small runs, stated as literals so that
each public operation is checked as a single step (`octree_add st = some
st'`).  Three configurations are used: a depth-capped tree (`depthMax = 0`),
a deep tree (`depthMax = 5`), and an unbounded tree (`depthMax = -1`), all
with `objectsThreshold = 1` and the default `overlapPct = 0.15 = 3/20`. -/

/-- `depthMax = 0`, threshold `1`, default overlap. -/
def cfg_capped : OctreeConfig := ⟨0, 1, 3/20⟩

/-- `depthMax = 5`, threshold `1`, default overlap. -/
def cfg_depth5 : OctreeConfig := ⟨5, 1, 3/20⟩

/-- Unbounded depth, threshold `1`, default overlap. -/
def cfg_unbounded : OctreeConfig := ⟨-1, 1, 3/20⟩

/-- Unbounded depth, threshold `2`, zero overlap (integer geometry): the
round-trip configuration. -/
def cfg_rt : OctreeConfig := ⟨-1, 2, 0⟩

/-- The root node of a fresh radius-1 tree at the origin, holding the given
objects (overlap `3/20`, effective radius `23/20`). -/
def root_unit (objects : List OctreeObjectData) : NodeRec :=
  ⟨0, ⟨0, 0, 0⟩, 1, 3/20, 23/20, none, 0, none, [], [], objects⟩

/-- Source 100 as a straddler: centered at the origin with radius `1/2`
(between overlap `3/20` and effective radius `23/20`), as stored in node 0
after classification. -/
def od0_straddle : OctreeObjectData :=
  ⟨0, 100, none, 1/2, ⟨0, 0, 0⟩, ⟨0, 0, 0⟩, some (-1), some 0⟩

/-- The registry copy of descriptor 0 (creation-time caches). -/
def od0_straddle_reg : OctreeObjectData :=
  ⟨0, 100, none, 1/2, ⟨0, 0, 0⟩, ⟨0, 0, 0⟩, none, none⟩

/-- Source 101 at `(3/4, 3/4, 3/4)` radius `0`: octant 7, stored in node 0. -/
def od1_inside : OctreeObjectData :=
  ⟨1, 101, none, 0, ⟨3/4, 3/4, 3/4⟩, ⟨3/4, 3/4, 3/4⟩, some 7, some 0⟩

/-- The registry copy of descriptor 1 (inside flavor). -/
def od1_inside_reg : OctreeObjectData :=
  ⟨1, 101, none, 0, ⟨3/4, 3/4, 3/4⟩, ⟨3/4, 3/4, 3/4⟩, none, none⟩

/-- Source 101 as a second straddler: radius `3/5` at the origin. -/
def od1_straddle : OctreeObjectData :=
  ⟨1, 101, none, 3/5, ⟨0, 0, 0⟩, ⟨0, 0, 0⟩, some (-1), some 0⟩

/-- The registry copy of descriptor 1 (straddler flavor). -/
def od1_straddle_reg : OctreeObjectData :=
  ⟨1, 101, none, 3/5, ⟨0, 0, 0⟩, ⟨0, 0, 0⟩, none, none⟩

/-- After one `add` of the radius-`1/2` straddler into a fresh tree: it sits
in the root's `directObjects`.  (The tree shape is configuration-independent
at this point, so the same state serves the capped and the deep runs.) -/
def st_one_straddler : OctreeState :=
  ⟨⟨[(0, root_unit [od0_straddle])], 0, 1⟩, [100], [od0_straddle_reg], 1⟩

/-- Capped run, after the second `add` (the octant-7 point): `grow` fires at
the depth-capped root, `split` returns `this.objects` wholesale, and the
straddler is duplicated in the root's list. -/
def st_capped_dup : OctreeState :=
  ⟨⟨[(0, root_unit [od0_straddle, od0_straddle, od1_inside])], 0, 1⟩,
    [100, 101], [od0_straddle_reg, od1_inside_reg], 2⟩

/-- Deep run, after adding the second straddler: `grow` fires but both
objects straddle, so both stay — two objects above the threshold of one. -/
def st_two_straddlers : OctreeState :=
  ⟨⟨[(0, root_unit [od0_straddle, od1_straddle])], 0, 1⟩,
    [100, 101], [od0_straddle_reg, od1_straddle_reg], 2⟩

/-- The round-trip run uses integer geometry (root radius `8`, `overlapPct
= 0`, threshold `2`, unbounded depth): with zero overlap every coordinate
the run touches stays integral.  The radius-8 root node, parameterized by
its child bookkeeping and objects. -/
def root_int8 (nodesIndices : List ℤ) (nodesByIndex : List (ℤ × ℕ))
    (objects : List OctreeObjectData) : NodeRec :=
  ⟨0, ⟨0, 0, 0⟩, 8, 0, 8, none, 0, none, nodesIndices, nodesByIndex, objects⟩

/-- Descriptor of source 100 at `(6, 6, 6)` radius `0` (octant 7), as stored
in child node 1. -/
def odr0_in_child : OctreeObjectData :=
  ⟨0, 100, none, 0, ⟨6, 6, 6⟩, ⟨6, 6, 6⟩, some 7, some 1⟩

/-- Registry copy of descriptor 0 of the round-trip run. -/
def odr0_reg : OctreeObjectData :=
  ⟨0, 100, none, 0, ⟨6, 6, 6⟩, ⟨6, 6, 6⟩, none, none⟩

/-- Descriptor of source 101 at `(-6, -6, -6)` radius `0` (octant 0), in
child node 2. -/
def odr1_in_child : OctreeObjectData :=
  ⟨1, 101, none, 0, ⟨-6, -6, -6⟩, ⟨-6, -6, -6⟩, some 0, some 2⟩

/-- The same descriptor after the shrink cascade migrates it into node 1. -/
def odr1_in_newroot : OctreeObjectData :=
  ⟨1, 101, none, 0, ⟨-6, -6, -6⟩, ⟨-6, -6, -6⟩, some 0, some 1⟩

/-- Registry copy of descriptor 1 of the round-trip run. -/
def odr1_reg : OctreeObjectData :=
  ⟨1, 101, none, 0, ⟨-6, -6, -6⟩, ⟨-6, -6, -6⟩, none, none⟩

/-- Descriptor of source 102 at `(-5, -5, -5)` radius `0` (octant 0 of the
root, octant 0 of child 2), as stored in node 2. -/
def odr2_in_child : OctreeObjectData :=
  ⟨2, 102, none, 0, ⟨-5, -5, -5⟩, ⟨-5, -5, -5⟩, some 0, some 2⟩

/-- Registry copy of descriptor 2 of the round-trip run. -/
def odr2_reg : OctreeObjectData :=
  ⟨2, 102, none, 0, ⟨-5, -5, -5⟩, ⟨-5, -5, -5⟩, none, none⟩

/-- The octant-7 child of the radius-8 root, as `branch` shapes it: center
`(4, 4, 4)` = parent center offset by `radius − overlap = 4` per axis,
radius `radiusOverlap · 0.5 = 4`. -/
def child_oct7 (depth : ℕ) (parent : Option ℕ) (objects : List OctreeObjectData) :
    NodeRec :=
  ⟨1, ⟨4, 4, 4⟩, 4, 0, 4, some 7, depth, parent, [], [], objects⟩

/-- The octant-0 child (id 2) of the radius-8 root: center `(-4, -4, -4)`. -/
def child_oct0 (depth : ℕ) (parent : Option ℕ) (objects : List OctreeObjectData) :
    NodeRec :=
  ⟨2, ⟨-4, -4, -4⟩, 4, 0, 4, some 0, depth, parent, [], [], objects⟩

/-- Round-trip run, pre-add state `S`: the radius-8 root with two `branch`-
shaped children, node 1 (octant 7) holding source 100 and node 2 (octant 0)
holding source 101.  This is the shape the tree takes after two octant-pure
inserts and one threshold-crossing split (or directly via the constructor's
`root` parameter, which installs any externally built `OctreeNode`). -/
def st_rt_pre : OctreeState :=
  ⟨⟨[(0, root_int8 [7, 0] [(7, 1), (0, 2)] []),
      (1, child_oct7 1 (some 0) [odr0_in_child]),
      (2, child_oct0 1 (some 0) [odr1_in_child])], 0, 3⟩,
    [100, 101], [odr0_reg, odr1_reg], 2⟩

/-- Round-trip run after `add(102)`: the point `(-5, -5, -5)` classifies to
octant 0, `branch` finds child 2 already there, and the descriptor joins
node 2's list (two objects — at the threshold, so no grow). -/
def st_rt_mid : OctreeState :=
  ⟨⟨[(0, root_int8 [7, 0] [(7, 1), (0, 2)] []),
      (1, child_oct7 1 (some 0) [odr0_in_child]),
      (2, child_oct0 1 (some 0) [odr1_in_child, odr2_in_child])], 0, 3⟩,
    [100, 101, 102], [odr0_reg, odr1_reg, odr2_reg], 3⟩

/-- Round-trip run after `remove(102)`: the shrink cascade merged node 2
(now below threshold) into the root — carrying source 101 with it — and
`contract` then promoted node 1 to be the tree root, pushing the root's
gathered objects down into it.  The registries match `st_rt_pre`; the
per-node `directObjects` do not (source 101 now lives in node 1), and the
root handle moved from node 0 to node 1. -/
def st_rt_post : OctreeState :=
  ⟨⟨[(0, root_int8 [] [] []),
      (1, child_oct7 0 none [odr0_in_child, odr1_in_newroot]),
      (2, child_oct0 0 none [])], 1, 3⟩,
    [100, 101], [odr0_reg, odr1_reg], 3⟩

/-- Descriptor 2 as `remove_object` reports it removed (node back-reference
unset on removal). -/
def odr2_removed : OctreeObjectData :=
  ⟨2, 102, none, 0, ⟨-5, -5, -5⟩, ⟨-5, -5, -5⟩, some 0, none⟩

/-- A fresh radius-1 arena: just the unit root, no objects. -/
def core_unit : OctreeCore := ⟨[(0, root_unit [])], 0, 1⟩

/-- An object at `(5, 5, 5)` with its outside classification (`-44`:
flags `POS_X ||| POS_Y ||| POS_Z = 42`, code `-42 - 2`) cached. -/
def od_outside : OctreeObjectData :=
  ⟨0, 100, none, 0, ⟨5, 5, 5⟩, ⟨5, 5, 5⟩, some (-44), some 0⟩

def iom_quad (e : IomEntry) : ℕ × ℤ × ℤ × ℤ := (e.index, e.x, e.y, e.z)

def canon_quads : List (ℕ × ℤ × ℤ × ℤ) :=
  [(0, 1, 0, 0), (1, -1, 0, 0), (2, 0, 1, 0), (3, 0, -1, 0),
    (4, 0, 0, 1), (5, 0, 0, -1)]

def sel_quads (s : List (ℕ × ℤ × ℤ × ℤ)) :
    (ℕ × ℤ × ℤ × ℤ) × (ℕ × ℤ × ℤ × ℤ) × (ℕ × ℤ × ℤ × ℤ) :=
  let dflt : ℕ × ℤ × ℤ × ℤ := (0, 0, 0, 0)
  let q1 := s.getD 0 dflt
  let b1 := q1.1 ||| 1
  let p1 := s.getD 1 dflt
  let p2 := s.getD 2 dflt
  let q2 := if (p1.1 ||| 1) ≠ b1 then p1 else p2
  let b2 := q2.1 ||| 1
  let pb1 := s.getD 2 dflt
  let pb2 := s.getD 3 dflt
  let pb3 := s.getD 4 dflt
  let ib1 := pb1.1 ||| 1
  let ib2 := pb2.1 ||| 1
  let q3 := if ib1 ≠ b1 ∧ ib1 ≠ b2 then pb1
    else if ib2 ≠ b1 ∧ ib2 ≠ b2 then pb2
    else pb3
  (q1, q2, q3)

def sel_sum (s : List (ℕ × ℤ × ℤ × ℤ)) : ℤ × ℤ × ℤ :=
  ((sel_quads s).1.2.1 + (sel_quads s).2.1.2.1 + (sel_quads s).2.2.2.1,
    (sel_quads s).1.2.2.1 + (sel_quads s).2.1.2.2.1 + (sel_quads s).2.2.2.2.1,
    (sel_quads s).1.2.2.2 + (sel_quads s).2.1.2.2.2 + (sel_quads s).2.2.2.2.2)

def sel_entries (s : List IomEntry) : IomEntry × IomEntry × IomEntry :=
  let dflt : IomEntry := ⟨0, 0, 0, 0, 0⟩
  let i1 := s.getD 0 dflt
  let b1 := i1.index ||| 1
  let p1 := s.getD 1 dflt
  let p2 := s.getD 2 dflt
  let i2 := if (p1.index ||| 1) ≠ b1 then p1 else p2
  let b2 := i2.index ||| 1
  let pb1 := s.getD 2 dflt
  let pb2 := s.getD 3 dflt
  let pb3 := s.getD 4 dflt
  let ib1 := pb1.index ||| 1
  let ib2 := pb2.index ||| 1
  let i3 := if ib1 ≠ b1 ∧ ib1 ≠ b2 then pb1
    else if ib2 ≠ b1 ∧ ib2 ≠ b2 then pb2
    else pb3
  (i1, i2, i3)



/-- The arena after `branch(7)` on the unit root: the child's radius is
`radiusOverlap · 0.5 = 23/40` (not half the parent radius), its overlap
`(23/40)(3/20) = 69/800`, its center offset `23/40 − 69/800 = 391/800` per
axis. -/
def core_unit_branched : OctreeCore :=
  ⟨[(0, ⟨0, ⟨0, 0, 0⟩, 1, 3/20, 23/20, none, 0, none, [7], [(7, 1)], []⟩),
     (1, ⟨1, ⟨391/800, 391/800, 391/800⟩, 23/40, 69/800, 529/800, some 7, 1,
       some 0, [], [], []⟩)], 0, 2⟩

/-! # Theorems -/

/-! ## Octant classification (claims C3, C9) -/

section OctantClassification

variable (c : Vec3) (ov ro : ℚ) (p : Vec3) (r : ℚ)

/-- In the outside branch the classifier returns the offset-encoded flags. -/
theorem octant_index_calc_of_outside
    (h : max |p.x - c.x| (max |p.y - c.y| |p.z - c.z|) + r > ro) :
    octant_index_calc c ov ro p r = -(outside_flags c ro p r) - INDEX_OUTSIDE_OFFSET := by
  simp only [octant_index_calc]
  rw [if_pos h]

/-- The XOR accumulation of the outside flags equals the sum of the three
per-axis directional flags (they are distinct powers of two). -/
theorem outside_flags_eq_sum :
    outside_flags c ro p r =
      (if |p.x - c.x| + r > ro then (if p.x - c.x > 0 then FLAG_POS_X else FLAG_NEG_X) else 0)
      + (if |p.y - c.y| + r > ro then (if p.y - c.y > 0 then FLAG_POS_Y else FLAG_NEG_Y) else 0)
      + (if |p.z - c.z| + r > ro then (if p.z - c.z > 0 then FLAG_POS_Z else FLAG_NEG_Z) else 0) := by
  simp only [outside_flags]
  split_ifs <;> decide

/-- When the object is outside, at least one directional flag is set. -/
theorem outside_flags_pos
    (h : max |p.x - c.x| (max |p.y - c.y| |p.z - c.z|) + r > ro) :
    2 ≤ outside_flags c ro p r := by
  rw [outside_flags_eq_sum]
  have hone : |p.x - c.x| + r > ro ∨ |p.y - c.y| + r > ro ∨ |p.z - c.z| + r > ro := by
    rcases max_cases |p.y - c.y| |p.z - c.z| with ⟨he, _⟩ | ⟨he, _⟩ <;>
      rcases max_cases |p.x - c.x| (max |p.y - c.y| |p.z - c.z|) with ⟨he2, _⟩ | ⟨he2, _⟩ <;>
      rw [he2] at h <;> try rw [he] at h
    · exact Or.inl h
    · exact Or.inr (Or.inl h)
    · exact Or.inl h
    · exact Or.inr (Or.inr h)
  split_ifs <;> simp_all [FLAG_POS_X, FLAG_NEG_X, FLAG_POS_Y, FLAG_NEG_Y, FLAG_POS_Z, FLAG_NEG_Z]

/-- In the inside branch the classifier returns the straddle sentinel or the
octant given by the three axis bits. -/
theorem octant_index_calc_of_inside
    (h : ¬ (max |p.x - c.x| (max |p.y - c.y| |p.z - c.z|) + r > ro)) :
    octant_index_calc c ov ro p r = INDEX_INSIDE_CROSS ∨
      (octant_index_calc c ov ro p r =
        (if p.x - c.x - r > -ov then 1 else 0) + 2 * (if p.y - c.y - r > -ov then 1 else 0)
          + 4 * (if p.z - c.z - r > -ov then 1 else 0)) := by
  simp only [octant_index_calc, insideAxis]
  rw [if_neg h]
  split_ifs <;> simp

/-- **C3.**  For every node `N` (center `c`, overlap `ov`, effective radius
`ro`) and entity descriptor (position `p`, radius `r`), `octant_index` returns
exactly one of three mutually exclusive outcomes: a concrete octant `0..7`
whose bits are set per axis by the `delta - radius > -overlap` side test
(bit 0 for X, bit 1 for Y, bit 2 for Z); the straddle sentinel
`INDEX_INSIDE_CROSS = -1`; or the negative outside encoding
`-(flags) - INDEX_OUTSIDE_OFFSET`, reached exactly when the extent exceeds the
effective radius on some axis, where `flags` sums one of six directional flags
for each axis with `dist + radius > radiusOverlap` (sign from `delta > 0`),
agreeing with the independently computed per-axis overlap checks. -/
theorem octant_index_classification_partition (c : Vec3) (ov ro : ℚ) (p : Vec3) (r : ℚ) :
    ((0 ≤ octant_index_calc c ov ro p r ∧ octant_index_calc c ov ro p r ≤ 7) ∨
      octant_index_calc c ov ro p r = INDEX_INSIDE_CROSS ∨
      octant_index_calc c ov ro p r < INDEX_INSIDE_CROSS)
    ∧ (octant_index_calc c ov ro p r < INDEX_INSIDE_CROSS ↔
        max |p.x - c.x| (max |p.y - c.y| |p.z - c.z|) + r > ro)
    ∧ (max |p.x - c.x| (max |p.y - c.y| |p.z - c.z|) + r > ro →
        octant_index_calc c ov ro p r = -(outside_flags c ro p r) - INDEX_OUTSIDE_OFFSET)
    ∧ outside_flags c ro p r =
        (if |p.x - c.x| + r > ro then (if p.x - c.x > 0 then FLAG_POS_X else FLAG_NEG_X) else 0)
        + (if |p.y - c.y| + r > ro then (if p.y - c.y > 0 then FLAG_POS_Y else FLAG_NEG_Y) else 0)
        + (if |p.z - c.z| + r > ro then (if p.z - c.z > 0 then FLAG_POS_Z else FLAG_NEG_Z) else 0)
    ∧ (0 ≤ octant_index_calc c ov ro p r →
        octant_index_calc c ov ro p r =
          (if p.x - c.x - r > -ov then 1 else 0) + 2 * (if p.y - c.y - r > -ov then 1 else 0)
            + 4 * (if p.z - c.z - r > -ov then 1 else 0)) := by
  have hic : INDEX_INSIDE_CROSS = -1 := rfl
  have hoff : INDEX_OUTSIDE_OFFSET = 2 := rfl
  by_cases hout : max |p.x - c.x| (max |p.y - c.y| |p.z - c.z|) + r > ro
  · have hk := octant_index_calc_of_outside c ov ro p r hout
    have hf := outside_flags_pos c ro p r hout
    rw [hoff] at hk
    refine ⟨Or.inr (Or.inr (by omega)), ⟨fun _ => hout, fun _ => by omega⟩, fun _ => by
      rw [hk, hoff], outside_flags_eq_sum c ro p r, fun h0 => absurd h0 (by omega)⟩
  · rcases octant_index_calc_of_inside c ov ro p r hout with hk | hk
    · rw [hic] at hk
      refine ⟨Or.inr (Or.inl (by omega)), ⟨fun h => absurd hout (by omega), fun h => absurd h hout⟩,
        fun h => absurd h hout, outside_flags_eq_sum c ro p r, fun h0 => absurd h0 (by omega)⟩
    · have hrange : 0 ≤ octant_index_calc c ov ro p r ∧ octant_index_calc c ov ro p r ≤ 7 := by
        rw [hk]; split_ifs <;> omega
      refine ⟨Or.inl hrange, ⟨fun h => absurd hout (by omega), fun h => absurd h hout⟩,
        fun h => absurd h hout, outside_flags_eq_sum c ro p r, fun _ => hk⟩

/-- Witness for C3: the partition theorem evaluated at a concrete node and
object (node centered at the origin with overlap `3/20`, effective radius
`23/20`; object at `(-10, 10, 0)` with radius `0`, which is outside in the
`-X` and `+Y` directions, flags `4 + 8`, encoded index `-14`). -/
theorem octant_index_classification_partition_witness :
    octant_index_calc ⟨0, 0, 0⟩ (3/20) (23/20) ⟨-10, 10, 0⟩ 0 = -14 ∧
      ((0 ≤ octant_index_calc ⟨0, 0, 0⟩ (3/20) (23/20) ⟨-10, 10, 0⟩ 0 ∧
          octant_index_calc ⟨0, 0, 0⟩ (3/20) (23/20) ⟨-10, 10, 0⟩ 0 ≤ 7) ∨
        octant_index_calc ⟨0, 0, 0⟩ (3/20) (23/20) ⟨-10, 10, 0⟩ 0 = INDEX_INSIDE_CROSS ∨
        octant_index_calc ⟨0, 0, 0⟩ (3/20) (23/20) ⟨-10, 10, 0⟩ 0 < INDEX_INSIDE_CROSS) := by
  refine ⟨by with_unfolding_all decide, ?_⟩
  exact (octant_index_classification_partition ⟨0, 0, 0⟩ (3/20) (23/20) ⟨-10, 10, 0⟩ 0).1

/-- **C9, counterexample.**  The claim states `octant_index(N, e)` leaves `e`
unchanged, in particular not touching `e.indexOctant` or `e.positionLast`.
At a concrete node (center origin, radius 1, overlap `3/20`) and a descriptor
whose `positionLast` is `(1,1,1)` while its position is the origin and whose
`indexOctant` cache is unset, the call returns a descriptor with
`positionLast` reset to the origin and `indexOctant` set — not equal to the
input descriptor, refuting the claim at this input. -/
theorem octant_index_not_pure_counterexample :
    (octant_index_od ⟨0, ⟨0, 0, 0⟩, 1, 3/20, 23/20, none, 0, none, [], [], []⟩
        ⟨0, 0, none, 0, ⟨0, 0, 0⟩, ⟨1, 1, 1⟩, none, none⟩).2 ≠
      ⟨0, 0, none, 0, ⟨0, 0, 0⟩, ⟨1, 1, 1⟩, none, none⟩ := by
  with_unfolding_all decide

/-- **C9, amended.**  `octant_index(N, e)` computes its result from `N` and
`e`'s position and bounding radius alone (the cached `indexOctant` and
`positionLast` do not influence it), and leaves `N` unchanged; but it mutates
`e`: `e.positionLast` is refreshed to `e.position` and `e.indexOctant` is set
to the returned classification, all other fields of `e` being preserved. -/
theorem octant_index_effect (n : NodeRec) (od : OctreeObjectData) :
    (octant_index_od n od).1 =
      octant_index_calc n.position n.overlap n.radiusOverlap od.position od.radius
    ∧ (octant_index_od n od).2 =
      { od with positionLast := od.position,
                indexOctant := some (octant_index_calc n.position n.overlap n.radiusOverlap
                  od.position od.radius) }
    ∧ (octant_index_od n od).2.position = od.position
    ∧ (octant_index_od n od).2.radius = od.radius
    ∧ (octant_index_od n od).2.oid = od.oid
    ∧ (octant_index_od n od).2.object = od.object
    ∧ (octant_index_od n od).2.faces = od.faces
    ∧ (octant_index_od n od).2.node = od.node := by
  exact ⟨rfl, rfl, rfl, rfl, rfl, rfl, rfl, rfl⟩

end OctantClassification

/-! ## Search (claims C1, C10) -/

section Search

mutual

/-- `node_search` only ever appends: the accumulator is contained in the
result. -/
theorem node_search_mono (tst : STree → Bool) (acc : List OctreeObjectData) (t : STree)
    (x : OctreeObjectData) (hx : x ∈ acc) : x ∈ node_search tst acc t := by
  cases t with
  | mk p ro os cs =>
    rw [node_search]
    split
    · exact node_search_list_mono tst (acc ++ os) cs x (List.mem_append_left os hx)
    · exact hx

/-- `node_search_list` only ever appends. -/
theorem node_search_list_mono (tst : STree → Bool) (acc : List OctreeObjectData)
    (cs : List STree) (x : OctreeObjectData) (hx : x ∈ acc) :
    x ∈ node_search_list tst acc cs := by
  cases cs with
  | nil => exact hx
  | cons c cs =>
    rw [node_search_list]
    exact node_search_list_mono tst _ cs x (node_search_mono tst acc c x hx)

end

/-- **C10.**  `Octree.search` concatenates the root's direct objects before
any intersection test is evaluated: the root node's own bounds are never
tested (only child subtrees are pruned, by whatever per-node test the mode
uses), so every object in the root's `directObjects` is in the results for
every query — in particular for queries entirely disjoint from those
objects.  Stated for an arbitrary per-node test `tst` (covering both the
sphere and the ray mode) and instantiated to the sphere mode. -/
theorem search_includes_root_objects_unconditionally (root : STree)
    (od : OctreeObjectData) (h : od ∈ root.objects) :
    (∀ tst : STree → Bool, od ∈ octree_search_with tst root)
    ∧ ∀ position radius, od ∈ octree_search root position radius := by
  have key : ∀ tst : STree → Bool, od ∈ octree_search_with tst root := by
    intro tst
    exact node_search_list_mono tst _ root.children od (by simpa using h)
  exact ⟨key, fun position radius => key _⟩

/-- Witness for C10: a tree whose root holds one object at the origin, and a
query sphere centered at `(100, 100, 100)` with radius `1` — disjoint from
the object's bounding sphere — still returns the object. -/
theorem search_includes_root_objects_unconditionally_witness :
    (⟨0, 0, none, 1, ⟨0, 0, 0⟩, ⟨0, 0, 0⟩, none, none⟩ : OctreeObjectData) ∈
      octree_search (STree.mk ⟨0, 0, 0⟩ (23/20)
        [⟨0, 0, none, 1, ⟨0, 0, 0⟩, ⟨0, 0, 0⟩, none, none⟩] []) ⟨100, 100, 100⟩ 1
    ∧ ¬ spheres_intersect ⟨100, 100, 100⟩ 1
        ⟨0, 0, none, 1, ⟨0, 0, 0⟩, ⟨0, 0, 0⟩, none, none⟩ := by
  constructor
  · exact (search_includes_root_objects_unconditionally _ _ (by simp [STree.objects])).2
      ⟨100, 100, 100⟩ 1
  · rw [spheres_intersect, Vec3.dist2]
    with_unfolding_all decide

/-- `a ≤ b` from `a² ≤ b²` for nonnegative `a`, `b`. -/
theorem le_of_sq_le_sq (a b : ℚ) (ha : 0 ≤ a) (hb : 0 ≤ b) (h : a ^ 2 ≤ b ^ 2) :
    a ≤ b := by
  nlinarith [sq_nonneg (a - b), sq_nonneg (a + b)]

/-- `intersect_sphere` in closed form: squared radius minus the three
per-axis clamped deficits. -/
theorem intersect_sphere_iff (t : STree) (q : Vec3) (r : ℚ) :
    intersect_sphere t q r = true ↔
      r * r - clamped_deficit q.x (STree.left t) (STree.right t)
        - clamped_deficit q.y (STree.bottom t) (STree.top t)
        - clamped_deficit q.z (STree.back t) (STree.front t) ≥ 0 := by
  rw [intersect_sphere, decide_eq_true_iff, clamped_deficit, clamped_deficit, clamped_deficit]
  split_ifs <;> constructor <;> intro h <;> linarith

/-- The clamped deficit on an axis is at most the squared distance to any
point `xx` inside the slab. -/
theorem clamped_deficit_le (sq l rr xx : ℚ) (h1 : l ≤ xx) (h2 : xx ≤ rr) :
    clamped_deficit sq l rr ≤ (sq - xx) ^ 2 := by
  rw [clamped_deficit]
  split_ifs <;> nlinarith

/-- If some point `(x, y, z)` of the node's effective box is within distance
`r` of the query center, `intersect_sphere` accepts the node. -/
theorem intersect_sphere_of_close_point (t : STree) (q : Vec3) (r : ℚ) (x y z : ℚ)
    (hx1 : STree.left t ≤ x) (hx2 : x ≤ STree.right t)
    (hy1 : STree.bottom t ≤ y) (hy2 : y ≤ STree.top t)
    (hz1 : STree.back t ≤ z) (hz2 : z ≤ STree.front t)
    (hd : (q.x - x) ^ 2 + (q.y - y) ^ 2 + (q.z - z) ^ 2 ≤ r * r) :
    intersect_sphere t q r = true := by
  rw [intersect_sphere_iff]
  have hA := clamped_deficit_le q.x (STree.left t) (STree.right t) x hx1 hx2
  have hB := clamped_deficit_le q.y (STree.bottom t) (STree.top t) y hy1 hy2
  have hC := clamped_deficit_le q.z (STree.back t) (STree.front t) z hz1 hz2
  linarith

/-- Moving from `px` toward `qx` by a fraction `tf` whose step stays within
the object radius `s` keeps the coordinate inside the node's slab. -/
theorem segment_coord_in_slab (cx ro px qx s tf : ℚ)
    (hb : |px - cx| + s ≤ ro) (ht : tf * |qx - px| ≤ s) (htt0 : 0 ≤ tf) :
    cx - ro ≤ px + tf * (qx - px) ∧ px + tf * (qx - px) ≤ cx + ro := by
  have habs : |px + tf * (qx - px) - cx| ≤ ro := by
    have h1 : |px + tf * (qx - px) - cx| ≤ |px - cx| + |tf * (qx - px)| := by
      have he : px + tf * (qx - px) - cx = (px - cx) + tf * (qx - px) := by ring
      rw [he]
      exact abs_add _ _
    have h2 : |tf * (qx - px)| = tf * |qx - px| := by
      rw [abs_mul, abs_of_nonneg htt0]
    linarith
  have := abs_le.mp habs
  constructor <;> linarith [this.1, this.2]

/-- The geometric heart of query soundness: if an object's bounding sphere is
inside a node's effective box and the query sphere meets the object's sphere,
then `intersect_sphere` accepts the node.  The witness point handed to
`intersect_sphere_of_close_point` lies on the segment from the object center
toward the query center, at parameter `radius_obj / (r + radius_obj)`. -/
theorem intersect_sphere_of_contained (t : STree) (q : Vec3) (r : ℚ)
    (od : OctreeObjectData) (hr : 0 ≤ r) (hro : 0 ≤ od.radius)
    (hb : obj_in_bounds t od) (hint : spheres_intersect q r od) :
    intersect_sphere t q r = true := by
  obtain ⟨hbx, hby, hbz⟩ := hb
  rw [spheres_intersect, Vec3.dist2] at hint
  rcases eq_or_lt_of_le (add_nonneg hr hro) with hzero | hpos
  · -- r and the object radius are both zero: the object center itself works
    have hr0 : r = 0 := by linarith
    have hs0 : od.radius = 0 := by linarith
    have e1 := abs_le.mp (show |od.position.x - t.position.x| ≤ t.radiusOverlap by linarith)
    have e2 := abs_le.mp (show |od.position.y - t.position.y| ≤ t.radiusOverlap by linarith)
    have e3 := abs_le.mp (show |od.position.z - t.position.z| ≤ t.radiusOverlap by linarith)
    refine intersect_sphere_of_close_point t q r od.position.x od.position.y od.position.z
      ?_ ?_ ?_ ?_ ?_ ?_ ?_
    · simp only [STree.left]; linarith [e1.1]
    · simp only [STree.right]; linarith [e1.2]
    · simp only [STree.bottom]; linarith [e2.1]
    · simp only [STree.top]; linarith [e2.2]
    · simp only [STree.back]; linarith [e3.1]
    · simp only [STree.front]; linarith [e3.2]
    · nlinarith [hint]
  · -- walk from the object center toward the query center
    have hne : r + od.radius ≠ 0 := ne_of_gt hpos
    have hts : od.radius / (r + od.radius) * (r + od.radius) = od.radius := by
      field_simp
    have h1t : (1 - od.radius / (r + od.radius)) * (r + od.radius) = r := by
      field_simp
    have htt0 : 0 ≤ od.radius / (r + od.radius) := div_nonneg hro hpos.le
    have haxis : ∀ dq : ℚ, dq ^ 2 ≤ (r + od.radius) ^ 2 →
        od.radius / (r + od.radius) * |dq| ≤ od.radius := by
      intro dq hdq
      refine le_of_sq_le_sq _ _ (mul_nonneg htt0 (abs_nonneg _)) hro ?_
      have he : (od.radius / (r + od.radius) * |dq|) ^ 2 =
          (od.radius / (r + od.radius)) ^ 2 * dq ^ 2 := by
        rw [mul_pow, sq_abs]
      rw [he]
      calc (od.radius / (r + od.radius)) ^ 2 * dq ^ 2
          ≤ (od.radius / (r + od.radius)) ^ 2 * (r + od.radius) ^ 2 := by
            nlinarith [sq_nonneg (od.radius / (r + od.radius))]
        _ = (od.radius / (r + od.radius) * (r + od.radius)) ^ 2 := by ring
        _ = od.radius ^ 2 := by rw [hts]
    have hdx2 : (q.x - od.position.x) ^ 2 ≤ (r + od.radius) ^ 2 := by
      nlinarith [sq_nonneg (q.y - od.position.y), sq_nonneg (q.z - od.position.z)]
    have hdy2 : (q.y - od.position.y) ^ 2 ≤ (r + od.radius) ^ 2 := by
      nlinarith [sq_nonneg (q.x - od.position.x), sq_nonneg (q.z - od.position.z)]
    have hdz2 : (q.z - od.position.z) ^ 2 ≤ (r + od.radius) ^ 2 := by
      nlinarith [sq_nonneg (q.x - od.position.x), sq_nonneg (q.y - od.position.y)]
    have hsx := segment_coord_in_slab t.position.x t.radiusOverlap od.position.x q.x
      od.radius (od.radius / (r + od.radius)) hbx (haxis _ hdx2) htt0
    have hsy := segment_coord_in_slab t.position.y t.radiusOverlap od.position.y q.y
      od.radius (od.radius / (r + od.radius)) hby (haxis _ hdy2) htt0
    have hsz := segment_coord_in_slab t.position.z t.radiusOverlap od.position.z q.z
      od.radius (od.radius / (r + od.radius)) hbz (haxis _ hdz2) htt0
    refine intersect_sphere_of_close_point t q r
      (od.position.x + od.radius / (r + od.radius) * (q.x - od.position.x))
      (od.position.y + od.radius / (r + od.radius) * (q.y - od.position.y))
      (od.position.z + od.radius / (r + od.radius) * (q.z - od.position.z))
      ?_ ?_ ?_ ?_ ?_ ?_ ?_
    · simp only [STree.left]; linarith [hsx.1]
    · simp only [STree.right]; linarith [hsx.2]
    · simp only [STree.bottom]; linarith [hsy.1]
    · simp only [STree.top]; linarith [hsy.2]
    · simp only [STree.back]; linarith [hsz.1]
    · simp only [STree.front]; linarith [hsz.2]
    · -- the witness point is within distance r of the query center
      have hrw : (q.x - (od.position.x + od.radius / (r + od.radius) * (q.x - od.position.x))) ^ 2
          + (q.y - (od.position.y + od.radius / (r + od.radius) * (q.y - od.position.y))) ^ 2
          + (q.z - (od.position.z + od.radius / (r + od.radius) * (q.z - od.position.z))) ^ 2
          = (1 - od.radius / (r + od.radius)) ^ 2 *
            ((q.x - od.position.x) ^ 2 + (q.y - od.position.y) ^ 2
              + (q.z - od.position.z) ^ 2) := by
        ring
      rw [hrw]
      calc (1 - od.radius / (r + od.radius)) ^ 2 *
            ((q.x - od.position.x) ^ 2 + (q.y - od.position.y) ^ 2
              + (q.z - od.position.z) ^ 2)
          ≤ (1 - od.radius / (r + od.radius)) ^ 2 * (r + od.radius) ^ 2 :=
            mul_le_mul_of_nonneg_left hint (sq_nonneg _)
        _ = ((1 - od.radius / (r + od.radius)) * (r + od.radius)) ^ 2 := by ring
        _ = r ^ 2 := by rw [h1t]
        _ = r * r := pow_two r

/-- An object stored in a forest is stored in one of its trees. -/
theorem mem_subtree_objects_list (od : OctreeObjectData) :
    ∀ cs : List STree, od ∈ subtree_objects_list cs → ∃ c ∈ cs, od ∈ subtree_objects c := by
  intro cs
  induction cs with
  | nil => intro h; rw [subtree_objects_list] at h; cases h
  | cons c cs ih =>
    intro h
    rw [subtree_objects_list] at h
    rcases List.mem_append.mp h with h | h
    · exact ⟨c, List.mem_cons_self c cs, h⟩
    · obtain ⟨c2, hc2, hm⟩ := ih h
      exact ⟨c2, List.mem_cons_of_mem c hc2, hm⟩

/-- If some tree of a forest always yields `od`, the forest search yields
`od` whatever the accumulator. -/
theorem node_search_list_complete (tst : STree → Bool) (od : OctreeObjectData) :
    ∀ (cs : List STree) (c : STree), c ∈ cs →
      (∀ acc, od ∈ node_search tst acc c) →
      ∀ acc, od ∈ node_search_list tst acc cs := by
  intro cs
  induction cs with
  | nil => intro c hc; cases hc
  | cons c0 cs ih =>
    intro c hc hfind acc
    rw [node_search_list]
    rcases List.mem_cons.mp hc with rfl | hc
    · exact node_search_list_mono tst _ cs od (hfind acc)
    · exact ih c hc hfind _

/-- Completeness of the recursive node search under the containment
invariant: a stored object whose bounding sphere meets the query sphere is
found, whatever the accumulator. -/
theorem node_search_complete (q : Vec3) (r : ℚ) (od : OctreeObjectData)
    (hr : 0 ≤ r) (hro : 0 ≤ od.radius) (hint : spheres_intersect q r od) :
    ∀ (t : STree), Contained t → od ∈ subtree_objects t →
      ∀ acc, od ∈ node_search (fun n => intersect_sphere n q r) acc t := by
  intro t hc
  induction hc with
  | intro t hb hcs ih =>
    intro hmem acc
    have htest : intersect_sphere t q r = true :=
      intersect_sphere_of_contained t q r od hr hro (hb od hmem) hint
    cases t with
    | mk p ro os cs =>
      rw [node_search, if_pos htest]
      rw [subtree_objects] at hmem
      rcases List.mem_append.mp hmem with h | h
      · exact node_search_list_mono _ _ cs od (List.mem_append_right acc h)
      · obtain ⟨c, hcmem, hm⟩ := mem_subtree_objects_list od cs h
        exact node_search_list_complete _ od cs c hcmem
          (fun acc2 => ih c (by simpa [STree.children] using hcmem) hm acc2) _

/-- **C1.**  Query soundness (superset property): for every query sphere
(center `q`, radius `r ≥ 0`) and every entity stored anywhere in the tree
(the registered entities — the registry's membership equals the stored
objects), if the entity's bounding sphere exactly intersects the query
sphere then `Octree.search` returns it: no false negatives.  The containment
invariant (every child subtree of the root holds only objects whose bounding
spheres lie within that subtree's effective boxes — root-resident objects
are exempt and always returned) is the tree well-formedness the insertion
machinery maintains, and is a hypothesis here. -/
theorem search_superset_of_intersecting (root : STree) (q : Vec3) (r : ℚ)
    (od : OctreeObjectData) (hr : 0 ≤ r) (hro : 0 ≤ od.radius)
    (hcontained : ∀ c ∈ root.children, Contained c)
    (hmem : od ∈ subtree_objects root)
    (hint : spheres_intersect q r od) :
    od ∈ octree_search root q r := by
  cases root with
  | mk p ro os cs =>
    rw [octree_search, octree_search_with]
    rw [subtree_objects] at hmem
    rcases List.mem_append.mp hmem with h | h
    · exact node_search_list_mono _ _ _ od (by simpa [STree.objects] using h)
    · obtain ⟨c, hcmem, hm⟩ := mem_subtree_objects_list od cs h
      exact node_search_list_complete _ od _ c (by simpa [STree.children] using hcmem)
        (fun acc2 => node_search_complete q r od hr hro hint c
          (hcontained c (by simpa [STree.children] using hcmem)) hm acc2) _

/-- Witness for C1: a two-level tree (root at the origin with effective
radius `23/20`, one child in the `+X/+Y/+Z` octant with effective radius
`529/800` holding one point object), queried with a sphere that touches the
stored object. -/
theorem search_superset_of_intersecting_witness :
    (⟨0, 0, none, 0, ⟨3/4, 3/4, 3/4⟩, ⟨3/4, 3/4, 3/4⟩, none, none⟩ : OctreeObjectData) ∈
      octree_search
        (STree.mk ⟨0, 0, 0⟩ (23/20) []
          [STree.mk ⟨391/800, 391/800, 391/800⟩ (529/800)
            [⟨0, 0, none, 0, ⟨3/4, 3/4, 3/4⟩, ⟨3/4, 3/4, 3/4⟩, none, none⟩] []])
        ⟨1, 1, 1⟩ 1 := by
  refine search_superset_of_intersecting _ ⟨1, 1, 1⟩ 1
    ⟨0, 0, none, 0, ⟨3/4, 3/4, 3/4⟩, ⟨3/4, 3/4, 3/4⟩, none, none⟩
    (by norm_num) (by norm_num) ?_ ?_ ?_
  · intro c hc
    simp only [STree.children, List.mem_singleton] at hc
    subst hc
    refine Contained.intro _ ?_ ?_
    · intro od hod
      simp only [subtree_objects, subtree_objects_list, List.append_nil,
        List.mem_singleton] at hod
      subst hod
      rw [obj_in_bounds]
      refine ⟨?_, ?_, ?_⟩ <;> · rw [STree.position, STree.radiusOverlap]
                                with_unfolding_all decide
    · intro c2 hc2
      simp only [STree.children] at hc2
      cases hc2
  · simp [subtree_objects, subtree_objects_list]
  · rw [spheres_intersect, Vec3.dist2]
    with_unfolding_all decide

end Search

/-! ## Concrete runs (claims C2, C4, C5, C7) -/

/-! ## Arena and registry update lemmas -/

section ArenaLemmas

/-- `do`-bind of a present `Option` steps to the continuation. -/
theorem bind_some_eq {α β : Type} (a : α) (f : α → Option β) :
    (some a >>= f : Option β) = f a := rfl

/-- Looking up the stored id after `upd_nodes` yields the stored record. -/
theorem lookup_upd_nodes_self (l : List (ℕ × NodeRec)) (n : NodeRec) :
    (upd_nodes l n).lookup n.id = some n := by
  induction l with
  | nil => simp [upd_nodes, List.lookup]
  | cons e es ih =>
    by_cases h : e.1 = n.id
    · simp [upd_nodes, h, List.lookup]
    · simp only [upd_nodes, if_neg h, List.lookup,
        show (n.id == e.1) = false from beq_eq_false_iff_ne.mpr
          (fun hx => h hx.symm)]
      exact ih

/-- `upd_nodes` leaves other keys alone. -/
theorem lookup_upd_nodes_ne (l : List (ℕ × NodeRec)) (n : NodeRec) (k : ℕ)
    (hk : k ≠ n.id) : (upd_nodes l n).lookup k = l.lookup k := by
  induction l with
  | nil =>
    simp [upd_nodes, List.lookup,
      show (k == n.id) = false from beq_eq_false_iff_ne.mpr hk]
  | cons e es ih =>
    by_cases h : e.1 = n.id
    · simp only [upd_nodes, if_pos h, List.lookup,
        show (k == n.id) = false from beq_eq_false_iff_ne.mpr hk,
        show (k == e.1) = false from beq_eq_false_iff_ne.mpr
          (fun hx => hk (hx.trans h))]
    · simp only [upd_nodes, if_neg h, List.lookup]
      by_cases h' : k = e.1
      · simp [show (k == e.1) = true from beq_iff_eq.mpr h']
      · simp only [show (k == e.1) = false from beq_eq_false_iff_ne.mpr h']
        exact ih

/-- Reading back the node just written. -/
theorem getNode_setNode_self (core : OctreeCore) (n : NodeRec) :
    getNode (setNode core n) n.id = some n :=
  lookup_upd_nodes_self core.nodes n

/-- Writing one node does not disturb another id. -/
theorem getNode_setNode_ne (core : OctreeCore) (n : NodeRec) (k : ℕ)
    (hk : k ≠ n.id) : getNode (setNode core n) k = getNode core k :=
  lookup_upd_nodes_ne core.nodes n k hk

/-- Two consecutive writes under the same id collapse to the second. -/
theorem upd_nodes_upd_nodes (l : List (ℕ × NodeRec)) (m m' : NodeRec)
    (h : m'.id = m.id) : upd_nodes (upd_nodes l m) m' = upd_nodes l m' := by
  induction l with
  | nil => simp [upd_nodes, h]
  | cons e es ih =>
    by_cases he : e.1 = m.id
    · have h2 : e.1 = m'.id := he.trans h.symm
      simp [upd_nodes, he, h2, h.symm]
    · have he' : ¬ e.1 = m'.id := fun hx => he (hx.trans h)
      simp [upd_nodes, he, he', ih]

/-- `setNode` twice at one id keeps only the second write. -/
theorem setNode_setNode (core : OctreeCore) (m m' : NodeRec)
    (h : m'.id = m.id) : setNode (setNode core m) m' = setNode core m' := by
  simp [setNode, upd_nodes_upd_nodes core.nodes m m' h]

/-- `splice(indexOf(x), 1)` after appending a fresh `x` restores the list. -/
theorem splice_first_append {α : Type} [DecidableEq α] (l : List α) (x : α)
    (h : x ∉ l) : splice_first (l ++ [x]) x = l := by
  rw [splice_first, if_pos (List.mem_append_right l (List.mem_singleton.mpr rfl))]
  rw [List.erase_append_right _ h]
  simp

/-- Erasing a freshly appended descriptor by its (fresh) `oid` restores the
registry. -/
theorem erase_oid_first_append (l : List OctreeObjectData)
    (od : OctreeObjectData) (k : ℕ) (hk : od.oid = k)
    (h : ∀ o ∈ l, o.oid ≠ k) : erase_oid_first (l ++ [od]) k = l := by
  induction l with
  | nil => simp [erase_oid_first, hk]
  | cons o os ih =>
    have ho : ¬ o.oid = k := h o (by simp)
    simp only [List.cons_append, erase_oid_first, if_neg ho, List.append_eq]
    rw [ih (fun o' ho' => h o' (by simp [ho']))]

/-- The registry half of the add/remove round trip, in general: when the
source is unregistered, the minted descriptor id is fresh, and the tree-side
`remove_object` reports exactly the one descriptor the `add` minted as
removed, the public `remove` restores both registries (`objects` and
`objectsData`) to their pre-add contents; only the tree core and the
allocation counter differ. -/
theorem registry_restore_aux (fuel₁ fuel₂ : ℕ) (cfg : OctreeConfig)
    (st st₁ : OctreeState) (src : SourceObject) (core' : OctreeCore)
    (od' : OctreeObjectData)
    (hnot : src.id ∉ st.objects)
    (hoid : ∀ o ∈ st.objectsData, o.oid ≠ st.odCounter)
    (hadd : octree_add fuel₁ cfg st src = some st₁)
    (hrem : remove_object fuel₂ cfg st₁.core st₁.core.rootId
      (RemoveTarget.bySource src.id) = some (core', [od']))
    (hod : od'.oid = st.odCounter) :
    octree_remove fuel₂ cfg st₁ src.id
      = some ⟨core', st.objects, st.objectsData, st.odCounter + 1⟩ := by
  simp only [octree_add, if_neg hnot] at hadd
  cases h : add_object fuel₁ cfg st.core st.core.rootId
      (mk_object_data st.odCounter src) with
  | none => simp [h] at hadd
  | some core =>
    rw [h] at hadd
    simp only [Option.some.injEq] at hadd
    subst hadd
    dsimp only at hrem ⊢
    unfold octree_remove
    rw [if_pos (List.mem_append_right _ (List.mem_singleton.mpr rfl))]
    dsimp only
    rw [hrem]
    have hmk : (mk_object_data st.odCounter src).oid = od'.oid := by
      rw [hod]; rfl
    simp only [List.foldl]
    rw [splice_first_append st.objects src.id hnot,
      erase_oid_first_append st.objectsData (mk_object_data st.odCounter src)
        od'.oid hmk (fun o ho => hod ▸ hoid o ho)]

end ArenaLemmas

section ConcreteRuns

/-- Adding the radius-`1/2` straddler to a fresh capped tree. -/
theorem capped_step1 :
    octree_add 40 cfg_capped (octree_new cfg_capped ⟨0, 0, 0⟩ 1) ⟨100, ⟨0, 0, 0⟩, 1/2⟩
      = some st_one_straddler := by
  with_unfolding_all decide

/-- Adding the octant-7 point to the capped tree: `grow` fires, `split` at
the depth cap returns `this.objects`, the straddler duplicates. -/
theorem capped_step2 :
    octree_add 40 cfg_capped st_one_straddler ⟨101, ⟨3/4, 3/4, 3/4⟩, 0⟩
      = some st_capped_dup := by
  with_unfolding_all decide

/-- Adding the radius-`1/2` straddler to a fresh `depthMax = 5` tree. -/
theorem deep_step1 :
    octree_add 40 cfg_depth5 (octree_new cfg_depth5 ⟨0, 0, 0⟩ 1) ⟨100, ⟨0, 0, 0⟩, 1/2⟩
      = some st_one_straddler := by
  with_unfolding_all decide

/-- Adding the radius-`3/5` straddler: `grow` fires, both objects straddle,
both remain. -/
theorem deep_step2 :
    octree_add 40 cfg_depth5 st_one_straddler ⟨101, ⟨0, 0, 0⟩, 3/5⟩
      = some st_two_straddlers := by
  with_unfolding_all decide

/-- **C2, counterexample.**  The claim: after any mutation settles, every
reachable node of depth `< maxDepth` holds at most `objectsPerNodeThreshold`
direct objects (threshold positive).  Concretely (`depthMax = 5`, threshold
`1`): adding two straddling objects (radius `1/2` and `3/5`, both centered
at the root center) to a fresh radius-1 tree completes both `add`
operations — the second one running the full `grow` cascade — yet leaves
the root (depth `0 < 5`) with `2 > 1` direct objects. -/
theorem threshold_invariant_counterexample :
    octree_add 40 cfg_depth5 (octree_new cfg_depth5 ⟨0, 0, 0⟩ 1) ⟨100, ⟨0, 0, 0⟩, 1/2⟩
      = some st_one_straddler
    ∧ octree_add 40 cfg_depth5 st_one_straddler ⟨101, ⟨0, 0, 0⟩, 3/5⟩
      = some st_two_straddlers
    ∧ st_two_straddlers.core.rootId = 0
    ∧ (getNode st_two_straddlers.core 0).map
        (fun n => (n.objects.length, n.depth)) = some (2, 0)
    ∧ cfg_depth5.objectsThreshold = 1 ∧ cfg_depth5.depthMax = 5 := by
  exact ⟨deep_step1, deep_step2, by with_unfolding_all decide,
    by with_unfolding_all decide, rfl, rfl⟩

/-- **C7.**  The claim: at a node of depth `maxDepth`, `split` — also via the
`grow` cascade — leaves `directObjects` exactly as before: same set, no
duplicates, no losses, no children.  Direct `split` indeed creates no
children, but through `grow` the claim fails: `split`'s over-depth branch
returns `this.objects` (the whole list) instead of its `objects` argument,
and `grow` concatenates that onto the straddler bucket.  At `depthMax = 0`,
threshold `1`: a root holding the straddler (oid 0) and the octant-7 point
(oid 1) ends the `add` with `directObjects = [0, 0, 1]` — the straddler
duplicated — while no children were created and the registry still holds
each descriptor once. -/
theorem split_at_depth_cap_duplicates :
    octree_add 40 cfg_capped st_one_straddler ⟨101, ⟨3/4, 3/4, 3/4⟩, 0⟩
      = some st_capped_dup
    ∧ (getNode st_one_straddler.core 0).map
        (fun n => n.objects.map (fun od => od.oid)) = some [0]
    ∧ (getNode st_capped_dup.core 0).map
        (fun n => n.objects.map (fun od => od.oid)) = some [0, 0, 1]
    ∧ (getNode st_capped_dup.core 0).map (fun n => n.nodesIndices) = some []
    ∧ (getNode st_capped_dup.core 0).map (fun n => n.depth) = some 0
    ∧ cfg_capped.depthMax = 0 := by
  exact ⟨capped_step2, by with_unfolding_all decide, by with_unfolding_all decide,
    by with_unfolding_all decide, by with_unfolding_all decide, rfl⟩

/-- **C5.**  The claim: whenever a public operation has returned, the
registry's membership equals the union of the `directObjects` of all
reachable nodes, with no descriptor appearing twice.  After the capped run's
second `add` returns, descriptor 0 appears twice among the reachable nodes'
objects (`[0, 0, 1]` gathered from the root) while the `objectsData`
registry holds it once (`[0, 1]`): the no-duplicates half of the invariant
is violated by the `split`-at-depth-cap defect. -/
theorem registry_union_violated_at_depth_cap :
    octree_add 40 cfg_capped st_one_straddler ⟨101, ⟨3/4, 3/4, 3/4⟩, 0⟩
      = some st_capped_dup
    ∧ (objects_end 40 st_capped_dup.core st_capped_dup.core.rootId []).map
        (fun l => l.map (fun od => od.oid)) = some [0, 0, 1]
    ∧ st_capped_dup.objectsData.map (fun od => od.oid) = [0, 1] := by
  exact ⟨capped_step2, by with_unfolding_all decide, by with_unfolding_all decide⟩

/-- Round-trip run, `add(102)`: the point joins node 2 beside source 101. -/
theorem rt_add_step :
    octree_add 40 cfg_rt st_rt_pre ⟨102, ⟨-5, -5, -5⟩, 0⟩ = some st_rt_mid := by
  with_unfolding_all decide

set_option maxHeartbeats 1600000 in
/-- Round-trip run, the raw `remove_object` cascade for source 102: node 2
drops below the threshold and is merged into the root (carrying source 101
upward), after which `contract` promotes node 1 to be the tree root. -/
theorem rt_remove_raw :
    remove_object 40 cfg_rt st_rt_mid.core 0 (RemoveTarget.bySource 102)
      = some (st_rt_post.core, [odr2_removed]) := by
  with_unfolding_all decide

/-- Round-trip run, the public `remove(102)`, assembled from the raw cascade
by the general registry argument. -/
theorem rt_remove_step :
    octree_remove 40 cfg_rt st_rt_mid 102 = some st_rt_post := by
  exact registry_restore_aux 40 40 cfg_rt st_rt_pre st_rt_mid
    ⟨102, ⟨-5, -5, -5⟩, 0⟩ st_rt_post.core odr2_removed
    (by decide) (by intro o ho; fin_cases ho <;> decide)
    rt_add_step rt_remove_raw (by decide)

/-- **C4, counterexample.**  The claim: `add(O)` then `remove(O)` restores
the registry and every node's `directObjects` to their pre-add membership
and counts, for every state `S` and unregistered `O`.  The registry half
holds here, but the node half fails: removing source 102 sends node 2 under
the threshold, the shrink cascade merges it into the root — dragging the
*other* source 101 along — and `contract` then re-roots the tree at node 1.
Node 1 ends with `[100, 101]` (it held `[100]`), node 2 ends empty (it held
one object), and the root handle moved from node 0 to node 1. -/
theorem add_remove_roundtrip_counterexample :
    octree_add 40 cfg_rt st_rt_pre ⟨102, ⟨-5, -5, -5⟩, 0⟩ = some st_rt_mid
    ∧ octree_remove 40 cfg_rt st_rt_mid 102 = some st_rt_post
    ∧ (102 : ℕ) ∉ st_rt_pre.objects
    ∧ st_rt_post.objects = st_rt_pre.objects
    ∧ st_rt_post.objectsData = st_rt_pre.objectsData
    ∧ (getNode st_rt_pre.core 1).map (fun n => n.objects.map (fun od => od.object))
        = some [100]
    ∧ (getNode st_rt_post.core 1).map (fun n => n.objects.map (fun od => od.object))
        = some [100, 101]
    ∧ (getNode st_rt_pre.core 2).map (fun n => n.objects.length) = some 1
    ∧ (getNode st_rt_post.core 2).map (fun n => n.objects.length) = some 0
    ∧ st_rt_pre.core.rootId = 0 ∧ st_rt_post.core.rootId = 1 := by
  refine ⟨rt_add_step, rt_remove_step, by decide, rfl, rfl, ?_, ?_, ?_, ?_, rfl, rfl⟩
  all_goals with_unfolding_all decide

/-- **C4 (amended).**  `add(O)` then `remove(O)` restores the *registry*:
with `O` unregistered in `S`, a fresh descriptor id, and the tree-side
removal finding exactly the descriptor the `add` minted, `remove` returns
`objects` and `objectsData` to their pre-add contents (the tree core and
the allocation counter are what may differ — per-node `directObjects` are
not restored in general, as the counterexample shows). -/
theorem add_remove_restores_registry (fuel₁ fuel₂ : ℕ) (cfg : OctreeConfig)
    (st st₁ : OctreeState) (src : SourceObject) (core' : OctreeCore)
    (od' : OctreeObjectData)
    (hnot : src.id ∉ st.objects)
    (hoid : ∀ o ∈ st.objectsData, o.oid ≠ st.odCounter)
    (hadd : octree_add fuel₁ cfg st src = some st₁)
    (hrem : remove_object fuel₂ cfg st₁.core st₁.core.rootId
      (RemoveTarget.bySource src.id) = some (core', [od']))
    (hod : od'.oid = st.odCounter) :
    octree_remove fuel₂ cfg st₁ src.id
      = some ⟨core', st.objects, st.objectsData, st.odCounter + 1⟩ :=
  registry_restore_aux fuel₁ fuel₂ cfg st st₁ src core' od' hnot hoid hadd hrem hod

/-- Witness for the amended C4 theorem: the round-trip run discharges every
hypothesis, and the conclusion is the concrete registry restoration. -/
theorem add_remove_restores_registry_witness :
    (102 : ℕ) ∉ st_rt_pre.objects
    ∧ octree_remove 40 cfg_rt st_rt_mid 102
      = some ⟨st_rt_post.core, st_rt_pre.objects, st_rt_pre.objectsData,
          st_rt_pre.odCounter + 1⟩ :=
  ⟨by decide, add_remove_restores_registry 40 40 cfg_rt st_rt_pre st_rt_mid
    ⟨102, ⟨-5, -5, -5⟩, 0⟩ st_rt_post.core odr2_removed
    (by decide) (by intro o ho; fin_cases ho <;> decide)
    rt_add_step rt_remove_raw (by decide)⟩

end ConcreteRuns

/-! ## Child geometry of `branch` (claim C6) -/

section BranchGeometry

/-- `add_node` on a freshly created child (`indexOctant` supplied, parent
link already set): record the slot in the parent's `nodesIndices` (unless
present) and `nodesByIndex`, overwrite the child's octant cache. -/
theorem add_node_fresh (fuel : ℕ) (core : OctreeCore) (pid cid : ℕ) (idx : ℤ)
    (p child : NodeRec)
    (hp : getNode core pid = some p)
    (hc : getNode core cid = some child)
    (hpar : child.parent = some pid) :
    add_node (fuel + 1) core pid cid (some idx)
      = some (setNode (setNode core { child with indexOctant := some idx })
          { p with
              nodesIndices := if idx ∈ p.nodesIndices then p.nodesIndices
                else p.nodesIndices ++ [idx],
              nodesByIndex := upd_assoc p.nodesByIndex idx cid }) := by
  simp only [add_node, hp, hc, bind_some_eq]
  by_cases hmem : idx ∈ p.nodesIndices
  · simp [hmem, hpar]
  · simp [hmem, hpar]

set_option maxRecDepth 8000 in
/-- **C6, counterexample.**  The claim: a `branch`-created child has radius
exactly half its parent's *radius* and center offset `±(parentRadius/2 −
childOverlap)`.  On the unit root (radius `1`, overlap `3/20`, effective
radius `23/20`), octant 7: the child's radius is `23/40 ≠ 1/2` (the source
halves `radiusOverlap`, line 1140), and its center coordinate is `391/800`,
not the `1/2 − (1/2)(3/20) = 17/40 = 340/800` the claim's sizing would give.
The child's radius does equal half the parent's *effective* radius. -/
theorem branch_child_radius_counterexample :
    branch 5 cfg_unbounded core_unit 0 7 = some (core_unit_branched, 1)
    ∧ (getNode core_unit 0).map (fun n => n.radius) = some 1
    ∧ (getNode core_unit 0).map (fun n => n.radiusOverlap) = some (23/20)
    ∧ (getNode core_unit_branched 1).map (fun n => n.radius) = some (23/40)
    ∧ ¬ ((23 : ℚ)/40 = 1 * (1/2))
    ∧ (getNode core_unit_branched 1).map (fun n => n.position.x) = some (391/800)
    ∧ ¬ ((391 : ℚ)/800 = 1 * (1/2) - (1 * (1/2)) * cfg_unbounded.overlapPct)
    ∧ (23 : ℚ)/40 = (23/20) * (1/2) := by
  refine ⟨?_, ?_, ?_, ?_, ?_, ?_, ?_, ?_⟩ <;> with_unfolding_all decide

/-- **C6 (amended).**  The child `branch` creates at a free octant slot is
sized from the parent's *effective* radius: `childRadius = parentRadiusOverlap
· 0.5`, `childOverlap = childRadius · overlapPct`, `childRadiusOverlap =
childRadius + childOverlap`, and the center is offset per axis by
`±(childRadius − childOverlap)` with signs from the octant bitmask; the child
records the slot, the parent link, and `depth = parent.depth + 1`. -/
theorem branch_child_geometry (fuel : ℕ) (cfg : OctreeConfig) (core : OctreeCore)
    (nid : ℕ) (idx : ℤ) (n : NodeRec)
    (hn : getNode core nid = some n)
    (hid : n.id = nid)
    (hmiss : n.nodesByIndex.lookup idx = none)
    (hfresh : getNode core core.nodeCount = none)
    (hpos : 0 < n.radiusOverlap) :
    ∃ core' child,
      branch (fuel + 2) cfg core nid idx = some (core', core.nodeCount)
      ∧ getNode core' core.nodeCount = some child
      ∧ child.radius = n.radiusOverlap * (1/2)
      ∧ child.overlap = child.radius * cfg.overlapPct
      ∧ child.radiusOverlap = child.radius + child.overlap
      ∧ child.position = Vec3.add n.position
          ⟨if Int.land idx 1 ≠ 0 then child.radius - child.overlap
              else -(child.radius - child.overlap),
            if Int.land idx 2 ≠ 0 then child.radius - child.overlap
              else -(child.radius - child.overlap),
            if Int.land idx 4 ≠ 0 then child.radius - child.overlap
              else -(child.radius - child.overlap)⟩
      ∧ child.parent = some nid ∧ child.indexOctant = some idx
      ∧ child.depth = n.depth + 1 := by
  have hne : nid ≠ core.nodeCount := by
    intro hx
    rw [hx, hfresh] at hn
    exact Option.noConfusion hn
  have hrad : n.radiusOverlap * (1/2) > 0 := by positivity
  have hb : branch (fuel + 2) cfg core nid idx
      = (add_node (fuel + 1)
          (setNode (⟨core.nodes, core.rootId, core.nodeCount + 1⟩ : OctreeCore)
            (mk_octree_node cfg core.nodeCount
              (Vec3.add n.position
                ⟨if Int.land idx 1 ≠ 0 then
                    n.radiusOverlap * (1/2) - n.radiusOverlap * (1/2) * cfg.overlapPct
                  else -(n.radiusOverlap * (1/2) - n.radiusOverlap * (1/2) * cfg.overlapPct),
                  if Int.land idx 2 ≠ 0 then
                    n.radiusOverlap * (1/2) - n.radiusOverlap * (1/2) * cfg.overlapPct
                  else -(n.radiusOverlap * (1/2) - n.radiusOverlap * (1/2) * cfg.overlapPct),
                  if Int.land idx 4 ≠ 0 then
                    n.radiusOverlap * (1/2) - n.radiusOverlap * (1/2) * cfg.overlapPct
                  else -(n.radiusOverlap * (1/2) - n.radiusOverlap * (1/2) * cfg.overlapPct)⟩)
              (n.radiusOverlap * (1/2)) (some idx) (some n.depth) (some nid)))
          nid core.nodeCount (some idx)) >>= (fun c => pure (c, core.nodeCount)) := by
    simp only [branch, hn, bind_some_eq, hmiss]
  set coreA : OctreeCore := ⟨core.nodes, core.rootId, core.nodeCount + 1⟩ with hcoreA
  set NODE : NodeRec := mk_octree_node cfg core.nodeCount
      (Vec3.add n.position
        ⟨if Int.land idx 1 ≠ 0 then
            n.radiusOverlap * (1/2) - n.radiusOverlap * (1/2) * cfg.overlapPct
          else -(n.radiusOverlap * (1/2) - n.radiusOverlap * (1/2) * cfg.overlapPct),
          if Int.land idx 2 ≠ 0 then
            n.radiusOverlap * (1/2) - n.radiusOverlap * (1/2) * cfg.overlapPct
          else -(n.radiusOverlap * (1/2) - n.radiusOverlap * (1/2) * cfg.overlapPct),
          if Int.land idx 4 ≠ 0 then
            n.radiusOverlap * (1/2) - n.radiusOverlap * (1/2) * cfg.overlapPct
          else -(n.radiusOverlap * (1/2) - n.radiusOverlap * (1/2) * cfg.overlapPct)⟩)
      (n.radiusOverlap * (1/2)) (some idx) (some n.depth) (some nid) with hNODE
  have hp1 : getNode (setNode coreA NODE) nid = some n := by
    rw [getNode_setNode_ne coreA NODE nid hne]
    exact hn
  have hc1 : getNode (setNode coreA NODE) core.nodeCount = some NODE :=
    getNode_setNode_self coreA NODE
  have hpar1 : NODE.parent = some nid := rfl
  rw [add_node_fresh fuel (setNode coreA NODE) nid core.nodeCount idx n NODE
    hp1 hc1 hpar1, bind_some_eq] at hb
  refine ⟨_, { NODE with indexOctant := some idx }, hb, ?_, ?_, ?_, ?_, ?_, rfl, rfl, rfl⟩
  · rw [getNode_setNode_ne _ _ _
      (show core.nodeCount ≠ ({ n with
          nodesIndices := if idx ∈ n.nodesIndices then n.nodesIndices
            else n.nodesIndices ++ [idx],
          nodesByIndex := upd_assoc n.nodesByIndex idx core.nodeCount } : NodeRec).id
        from fun hx => hne ((hid ▸ hx).symm))]
    exact getNode_setNode_self _ _
  · exact if_pos hrad
  · rfl
  · rfl
  · have h1 : ({ NODE with indexOctant := some idx } : NodeRec).radius
        = n.radiusOverlap * (1/2) := if_pos hrad
    have h2 : ({ NODE with indexOctant := some idx } : NodeRec).overlap
        = n.radiusOverlap * (1/2) * cfg.overlapPct := by
      show (if n.radiusOverlap * (1/2) > 0 then n.radiusOverlap * (1/2) else 1)
          * cfg.overlapPct = _
      rw [if_pos hrad]
    rw [h1, h2]
    rfl

/-- Witness for the amended C6 theorem: `branch(7)` on the unit root
(radius `1`, effective radius `23/20`, `overlapPct = 3/20`). -/
theorem branch_child_geometry_witness :
    ∃ core' child,
      branch 5 cfg_unbounded core_unit 0 7 = some (core', core_unit.nodeCount)
      ∧ getNode core' core_unit.nodeCount = some child
      ∧ child.radius = (root_unit []).radiusOverlap * (1/2)
      ∧ child.overlap = child.radius * cfg_unbounded.overlapPct
      ∧ child.radiusOverlap = child.radius + child.overlap
      ∧ child.position = Vec3.add (root_unit []).position
          ⟨if Int.land 7 1 ≠ 0 then child.radius - child.overlap
              else -(child.radius - child.overlap),
            if Int.land 7 2 ≠ 0 then child.radius - child.overlap
              else -(child.radius - child.overlap),
            if Int.land 7 4 ≠ 0 then child.radius - child.overlap
              else -(child.radius - child.overlap)⟩
      ∧ child.parent = some 0 ∧ child.indexOctant = some 7
      ∧ child.depth = (root_unit []).depth + 1 :=
  branch_child_geometry 3 cfg_unbounded core_unit 0 7 (root_unit [])
    rfl rfl rfl rfl (by with_unfolding_all decide)

end BranchGeometry

/-! ## Straddlers are immune to `grow` (claim C2) -/

section GrowStraddlers

/-- **C2 (amended).**  The threshold is advisory for straddling objects:
`grow` on a parentless node all of whose direct objects classify as
straddlers (octant `-1`) keeps every one of them in the node — whatever
their number relative to `objectsPerNodeThreshold` — only refreshing the
descriptors' caches (`positionLast`, `indexOctant`); no split, no expand,
no merge happens.  Hence after a mutation settles, a node of depth `<
maxDepth` can hold more than the threshold: the invariant bounds only
octant-classifiable objects, which `grow` pushes into children. -/
theorem grow_keeps_straddlers (fuel : ℕ) (cfg : OctreeConfig) (core : OctreeCore)
    (nid : ℕ) (n : NodeRec)
    (hn : getNode core nid = some n)
    (hid : n.id = nid)
    (hroot : n.parent = none)
    (hall : ∀ od ∈ n.objects, (octant_index_od n od).1 = -1) :
    grow (fuel + 3) cfg core nid
      = some (setNode core
          { n with objects := n.objects.map (fun od => (octant_index_od n od).2) }) := by
  have hcl : ∀ x ∈ n.objects.map (fun od => octant_index_od n od), x.1 = -1 := by
    intro x hx
    rcases List.mem_map.mp hx with ⟨od, hod, rfl⟩
    exact hall od hod
  have hfil_gt :
      (n.objects.map (fun od => octant_index_od n od)).filter
        (fun x => decide (x.1 > -1)) = [] := by
    rw [List.filter_eq_nil]
    intro x hx
    simp [hcl x hx]
  have hfil_lt :
      (n.objects.map (fun od => octant_index_od n od)).filter
        (fun x => decide (x.1 < -1)) = [] := by
    rw [List.filter_eq_nil]
    intro x hx
    simp [hcl x hx]
  have hfil_eq :
      (n.objects.map (fun od => octant_index_od n od)).filter
        (fun x => decide (x.1 = -1)) = n.objects.map (fun od => octant_index_od n od) := by
    rw [List.filter_eq_self]
    intro x hx
    simp [hcl x hx]
  have hmap2 : (n.objects.map (fun od => octant_index_od n od)).map Prod.snd
      = n.objects.map (fun od => (octant_index_od n od).2) := by
    rw [List.map_map]
    rfl
  set n1 : NodeRec :=
    { n with objects := n.objects.map (fun od => (octant_index_od n od).2) } with hn1
  have hid1 : n1.id = nid := hid
  have hg1 : getNode (setNode core n1) nid = some n1 := by
    rw [show nid = n1.id from hid1.symm]
    exact getNode_setNode_self core n1
  have hroot1 : n1.parent = none := hroot
  simp only [grow, hn, bind_some_eq, hmap2, hfil_gt, hfil_lt, hfil_eq]
  simp only [List.map_nil, List.length_nil, lt_self_iff_false, if_false,
    Option.pure_def, bind_some_eq, hg1]
  simp only [← hn1, setNode_setNode core n1 n1 rfl]
  simp only [merge_check, merge_walk, hg1, bind_some_eq, hroot1, Option.pure_def,
    ne_eq, not_true_eq_false, if_false, ite_self, hroot]

/-- Witness for the amended C2 theorem: the two-straddler root (claim C2's
counterexample state) with `grow` applied directly — both objects stay. -/
theorem grow_keeps_straddlers_witness :
    grow 5 cfg_depth5 st_two_straddlers.core 0
      = some (setNode st_two_straddlers.core
          { root_unit [od0_straddle, od1_straddle] with
              objects := [od0_straddle, od1_straddle].map
                (fun od => (octant_index_od
                  (root_unit [od0_straddle, od1_straddle]) od).2) }) :=
  grow_keeps_straddlers 2 cfg_depth5 st_two_straddlers.core 0
    (root_unit [od0_straddle, od1_straddle]) rfl rfl rfl
    (by intro od hod; fin_cases hod <;> with_unfolding_all decide)

end GrowStraddlers

/-! ## `expand` re-roots the tree (claim C8) -/

section ExpandReroots

theorem expand_select_eq_sel_entries (iom : List IomEntry) :
    expand_select iom
      = sel_entries (iom.mergeSort (fun a b => b.count ≤ a.count)) := rfl

set_option maxRecDepth 40000 in
set_option maxHeartbeats 1600000 in
theorem sel_quads_spec :
    ∀ s ∈ canon_quads.permutations',
      ((sel_sum s).1 = 1 ∨ (sel_sum s).1 = -1)
      ∧ ((sel_sum s).2.1 = 1 ∨ (sel_sum s).2.1 = -1)
      ∧ ((sel_sum s).2.2 = 1 ∨ (sel_sum s).2.2 = -1) := by
  with_unfolding_all decide

theorem getD_map_quad (l : List IomEntry) (i : ℕ) :
    (l.map iom_quad).getD i (0, 0, 0, 0) = iom_quad (l.getD i ⟨0, 0, 0, 0, 0⟩) := by
  induction l generalizing i with
  | nil => cases i <;> simp [List.getD, iom_quad]
  | cons a as ih =>
    cases i with
    | zero => simp [List.getD_cons_zero]
    | succ j =>
      simp only [List.map_cons, List.getD_cons_succ]
      exact ih j

theorem iom_quad_fst (e : IomEntry) : (iom_quad e).1 = e.index := rfl

set_option maxRecDepth 4000 in
theorem sel_quads_commute (s : List IomEntry) :
    sel_quads (s.map iom_quad)
      = (iom_quad (sel_entries s).1, iom_quad (sel_entries s).2.1,
          iom_quad (sel_entries s).2.2) := by
  unfold sel_quads sel_entries
  simp only [getD_map_quad, iom_quad_fst]
  generalize s.getD 0 ⟨0, 0, 0, 0, 0⟩ = e0
  generalize s.getD 1 ⟨0, 0, 0, 0, 0⟩ = e1
  generalize s.getD 2 ⟨0, 0, 0, 0, 0⟩ = e2
  generalize s.getD 3 ⟨0, 0, 0, 0, 0⟩ = e3
  generalize s.getD 4 ⟨0, 0, 0, 0, 0⟩ = e4
  split_ifs <;> simp_all [iom_quad_fst]


theorem iom_bump_map_quad (iom : List IomEntry) (k : ℕ) :
    (iom_bump iom k).map iom_quad = iom.map iom_quad := by
  unfold iom_bump
  rw [List.map_map]
  apply List.map_congr_left
  intro e he
  by_cases h : e.index = k <;> simp [iom_quad, h]

theorem iom_tally_one_map_quad (iom : List IomEntry) (i : ℤ) :
    (iom_tally_one iom i).map iom_quad = iom.map iom_quad := by
  unfold iom_tally_one
  dsimp only
  split_ifs <;> simp [iom_bump_map_quad]

theorem expand_tally_all_outside (n : NodeRec) :
    ∀ (objs : List OctreeObjectData) (octs : List ℤ),
      octs.length = objs.length → (∀ o ∈ octs, o < -1) →
      ∃ iomT, expand_tally n objs octs = (iomT, objs, [])
        ∧ iomT.map iom_quad = iom_reset.map iom_quad := by
  intro objs
  induction objs with
  | nil => intro octs _ _; exact ⟨iom_reset, rfl, rfl⟩
  | cons od ods ih =>
    intro octs hlen hout
    cases octs with
    | nil => simp at hlen
    | cons o os =>
      obtain ⟨iomT, heq, hq⟩ := ih os (by simpa using hlen)
        (fun x hx => hout x (List.mem_cons_of_mem o hx))
      have ho : o < -1 := hout o (List.mem_cons_self o os)
      refine ⟨iom_tally_one iomT o, ?_, by rw [iom_tally_one_map_quad]; exact hq⟩
      simp only [expand_tally, List.head?_cons, List.tail_cons, heq]
      rw [if_pos ho]

theorem octant_inverse_of_units (x y z : ℤ)
    (hx : x = 1 ∨ x = -1) (hy : y = 1 ∨ y = -1) (hz : z = 1 ∨ z = -1) :
    octant_index_from_xyz (-x) (-y) (-z) = 7 - octant_index_from_xyz x y z := by
  rcases hx with rfl | rfl <;> rcases hy with rfl | rfl <;> rcases hz with rfl | rfl <;>
    decide

theorem puc_leaf (fuel : ℕ) (core : OctreeCore) (cid : ℕ) (c : NodeRec)
    (pid : ℕ) (p : NodeRec)
    (hc : getNode core cid = some c)
    (hcid : c.id = cid)
    (hcp : c.parent = some pid)
    (hgp : getNode core pid = some p)
    (hcl : c.nodesIndices = []) :
    properties_update_cascade (fuel + 2) core cid
      = some (setNode core { c with depth := p.depth + 1 }) := by
  simp only [properties_update_cascade, hc, bind_some_eq, hcp, hgp, octant_ids, hcl,
    List.mapM_nil, Option.pure_def, puc_list]

theorem getNode_setNode_self_key (core : OctreeCore) (n : NodeRec) (k : ℕ)
    (hk : n.id = k) : getNode (setNode core n) k = some n := by
  subst hk
  exact getNode_setNode_self core n

theorem add_node_reparent (fuel : ℕ) (core : OctreeCore) (pid cid : ℕ) (idx : ℤ)
    (p child : NodeRec)
    (hp : getNode core pid = some p) (hpid : p.id = pid)
    (hc : getNode core cid = some child) (hcid : child.id = cid)
    (hne : pid ≠ cid)
    (hnp : child.parent ≠ some pid)
    (hleafc : child.nodesIndices = []) :
    add_node (fuel + 3) core pid cid (some idx)
      = some (setNode (setNode (setNode core { child with indexOctant := some idx })
          { p with
              nodesIndices := if idx ∈ p.nodesIndices then p.nodesIndices
                else p.nodesIndices ++ [idx],
              nodesByIndex := upd_assoc p.nodesByIndex idx cid })
          { child with
              indexOctant := some idx, parent := some pid,
              depth := p.depth + 1 }) := by
  have hnp' : ({ child with indexOctant := some idx } : NodeRec).parent ≠ some pid := hnp
  simp only [add_node, hp, hc, bind_some_eq]
  by_cases hmem : idx ∈ p.nodesIndices
  · simp only [if_pos hmem, if_neg hnp']
    rw [puc_leaf fuel
      (setNode (setNode (setNode core { child with indexOctant := some idx })
        { p with nodesByIndex := upd_assoc p.nodesByIndex idx cid })
        { child with
            indexOctant := some idx, parent := some pid })
      cid ({ child with
          indexOctant := some idx, parent := some pid }) pid
      ({ p with nodesByIndex := upd_assoc p.nodesByIndex idx cid })
      (getNode_setNode_self_key _ _ cid hcid)
      hcid rfl
      (by
        rw [getNode_setNode_ne _ _ _
          (show pid ≠ ({ child with
              indexOctant := some idx, parent := some pid } :
            NodeRec).id from fun hx => hne (hx.trans hcid))]
        exact getNode_setNode_self_key _ _ pid hpid)
      hleafc]
    rw [setNode_setNode] <;> rfl
  · simp only [if_neg hmem, if_neg hnp']
    rw [puc_leaf fuel
      (setNode (setNode (setNode core { child with indexOctant := some idx })
        { p with
            nodesIndices := p.nodesIndices ++ [idx],
            nodesByIndex := upd_assoc p.nodesByIndex idx cid })
        { child with
            indexOctant := some idx, parent := some pid })
      cid ({ child with
          indexOctant := some idx, parent := some pid }) pid
      ({ p with
          nodesIndices := p.nodesIndices ++ [idx],
          nodesByIndex := upd_assoc p.nodesByIndex idx cid })
      (getNode_setNode_self_key _ _ cid hcid)
      hcid rfl
      (by
        rw [getNode_setNode_ne _ _ _
          (show pid ≠ ({ child with
              indexOctant := some idx, parent := some pid } :
            NodeRec).id from fun hx => hne (hx.trans hcid))]
        exact getNode_setNode_self_key _ _ pid hpid)
      hleafc]
    rw [setNode_setNode] <;> rfl

theorem root_set_cascade (fuel : ℕ) (core : OctreeCore) (pid cid : ℕ) (idx0 : ℤ)
    (p c : NodeRec)
    (hp : getNode core pid = some p) (hpid : p.id = pid)
    (hc : getNode core cid = some c) (hcid : c.id = cid)
    (hne : pid ≠ cid)
    (hpp : p.parent = none)
    (hpi : p.nodesIndices = [idx0])
    (hbi : p.nodesByIndex.lookup idx0 = some cid)
    (hcp : c.parent = some pid)
    (hcl : c.nodesIndices = []) :
    root_set (fuel + 5) core pid
      = some (setNode (setNode (⟨core.nodes, pid, core.nodeCount⟩ : OctreeCore)
          { p with depth := 0 }) { c with depth := 1 }) := by
  have hp' : getNode (⟨core.nodes, pid, core.nodeCount⟩ : OctreeCore) pid = some p := hp
  have hc' : getNode (⟨core.nodes, pid, core.nodeCount⟩ : OctreeCore) cid = some c := hc
  have hgcB : getNode (setNode (⟨core.nodes, pid, core.nodeCount⟩ : OctreeCore)
      { p with parent := none, depth := 0, nodesIndices := [idx0] }) cid = some c := by
    rw [getNode_setNode_ne _ _ _
      (show cid ≠ ({ p with parent := none, depth := 0, nodesIndices := [idx0] } :
        NodeRec).id from fun hx => hne ((hx.trans hpid).symm))]
    exact hc'
  have hgpB : getNode (setNode (⟨core.nodes, pid, core.nodeCount⟩ : OctreeCore)
      { p with parent := none, depth := 0, nodesIndices := [idx0] }) pid
      = some { p with parent := none, depth := 0, nodesIndices := [idx0] } :=
    getNode_setNode_self_key _ _ pid hpid
  simp only [root_set, properties_update_cascade, hp', bind_some_eq, hpp,
    octant_ids, hpi, hbi, List.mapM_cons, List.mapM_nil, Option.pure_def,
    Option.some_bind]
  simp only [puc_list, bind_some_eq]
  rw [puc_leaf fuel _ cid c pid
    ({ p with parent := none, depth := 0, nodesIndices := [idx0] })
    hgcB hcid hcp hgpB hcl]
  simp [hpp, hpi]


theorem add_node_reparent_ge (fuel : ℕ) (hf : 3 ≤ fuel) (core : OctreeCore)
    (pid cid : ℕ) (idx : ℤ) (p child : NodeRec)
    (hp : getNode core pid = some p) (hpid : p.id = pid)
    (hc : getNode core cid = some child) (hcid : child.id = cid)
    (hne : pid ≠ cid)
    (hnp : child.parent ≠ some pid)
    (hleafc : child.nodesIndices = []) :
    add_node fuel core pid cid (some idx)
      = some (setNode (setNode (setNode core { child with indexOctant := some idx })
          { p with
              nodesIndices := if idx ∈ p.nodesIndices then p.nodesIndices
                else p.nodesIndices ++ [idx],
              nodesByIndex := upd_assoc p.nodesByIndex idx cid })
          { child with
              indexOctant := some idx, parent := some pid,
              depth := p.depth + 1 }) := by
  obtain ⟨f, rfl⟩ := Nat.exists_eq_add_of_le hf
  rw [Nat.add_comm 3 f]
  exact add_node_reparent f core pid cid idx p child hp hpid hc hcid hne hnp hleafc

theorem root_set_cascade_ge (fuel : ℕ) (hf : 5 ≤ fuel) (core : OctreeCore)
    (pid cid : ℕ) (idx0 : ℤ) (p c : NodeRec)
    (hp : getNode core pid = some p) (hpid : p.id = pid)
    (hc : getNode core cid = some c) (hcid : c.id = cid)
    (hne : pid ≠ cid)
    (hpp : p.parent = none)
    (hpi : p.nodesIndices = [idx0])
    (hbi : p.nodesByIndex.lookup idx0 = some cid)
    (hcp : c.parent = some pid)
    (hcl : c.nodesIndices = []) :
    root_set fuel core pid
      = some (setNode (setNode (⟨core.nodes, pid, core.nodeCount⟩ : OctreeCore)
          { p with depth := 0 }) { c with depth := 1 }) := by
  obtain ⟨f, rfl⟩ := Nat.exists_eq_add_of_le hf
  rw [Nat.add_comm 5 f]
  exact root_set_cascade f core pid cid idx0 p c hp hpid hc hcid hne hpp hpi hbi hcp hcl

theorem expand_select_fst_max (iom : List IomEntry) (hne : iom ≠ []) :
    ∀ e ∈ iom, e.count ≤ (expand_select iom).1.count := by
  intro e he
  have hperm : List.Perm (iom.mergeSort (fun a b => b.count ≤ a.count)) iom :=
    List.mergeSort_perm _ _
  have hpw : List.Pairwise (fun a b : IomEntry => b.count ≤ a.count)
      (iom.mergeSort (fun a b => b.count ≤ a.count)) := by
    have h : List.Pairwise (fun a b : IomEntry =>
        ((fun x y : IomEntry => decide (y.count ≤ x.count)) a b) = true)
        (iom.mergeSort (fun a b => b.count ≤ a.count)) := by
      apply List.sorted_mergeSort
      · intro a b c hab hbc
        simp only [decide_eq_true_eq] at hab hbc ⊢
        exact le_trans hbc hab
      · intro a b
        simp only [Bool.or_eq_true, decide_eq_true_eq]
        exact le_total b.count a.count
    exact h.imp (by intro a b hx; simpa using hx)
  rcases hs : iom.mergeSort (fun a b => b.count ≤ a.count) with _ | ⟨a, rest⟩
  · rw [hs] at hperm
    exact absurd (List.length_eq_zero.mp hperm.length_eq.symm) hne
  · have h1 : (expand_select iom).1 = a := by
      show (iom.mergeSort (fun a b => b.count ≤ a.count)).getD 0 ⟨0, 0, 0, 0, 0⟩ = a
      rw [hs]
      rfl
    rw [h1]
    rw [hs] at hpw hperm
    cases List.mem_cons.mp (hperm.mem_iff.mpr he) with
    | inl h => rw [h]
    | inr h2 => exact (List.pairwise_cons.mp hpw).1 e h2

set_option maxHeartbeats 3200000 in
/-- **C8.**  When `expand` fires on a childless root with outside-classified
candidates (unbounded depth), it: tallies the outside directions and selects
three pairwise non-opposite dominant ones (the first maximizes the count);
their per-axis sums are each `±1`, so the computed octant and its inverse
are bitwise complements (`inverse = 7 − octant`); it builds a new parent
whose radius reverse-computes the overlap band — `overlap / ((pct/2)(1 +
pct))` for `pct > 0`, which makes half the parent's effective radius
exactly the old root's radius, and `radius · 2` at `pct = 0` — attaches the
old root as the child at the inverse octant (re-parented, depth `1`),
installs the parent as the tree root (`root_set`), and re-adds every
outside object starting at the current tree root (`expand_reinsert`),
returning the non-outside remainder (empty here). -/
theorem expand_reroots (fuel : ℕ) (cfg : OctreeConfig) (core : OctreeCore)
    (nid : ℕ) (n : NodeRec) (objs : List OctreeObjectData) (octs : List ℤ)
    (hn : getNode core nid = some n)
    (hid : n.id = nid)
    (hrootid : core.rootId = nid)
    (hroot : n.parent = none)
    (hleaf : n.nodesIndices = [])
    (hdm : cfg.depthMax < 0)
    (hlen : octs.length = objs.length)
    (hout : ∀ o ∈ octs, o < -1)
    (hne : objs ≠ [])
    (hfresh : getNode core core.nodeCount = none)
    (hpct : 0 ≤ cfg.overlapPct)
    (hrad : 0 < n.radius)
    (hovr : n.overlap = n.radius * cfg.overlapPct) :
    ∃ (i1 i2 i3 : IomEntry) (pRec : NodeRec) (coreMid : OctreeCore),
      expand_select (expand_tally n objs octs).1 = (i1, i2, i3)
      ∧ (∀ e ∈ (expand_tally n objs octs).1, e.count ≤ i1.count)
      ∧ (i1.x + i2.x + i3.x = 1 ∨ i1.x + i2.x + i3.x = -1)
      ∧ (i1.y + i2.y + i3.y = 1 ∨ i1.y + i2.y + i3.y = -1)
      ∧ (i1.z + i2.z + i3.z = 1 ∨ i1.z + i2.z + i3.z = -1)
      ∧ octant_index_from_xyz (-(i1.x + i2.x + i3.x)) (-(i1.y + i2.y + i3.y))
            (-(i1.z + i2.z + i3.z))
          = 7 - octant_index_from_xyz (i1.x + i2.x + i3.x) (i1.y + i2.y + i3.y)
              (i1.z + i2.z + i3.z)
      ∧ expand (fuel + 6) cfg core nid (some objs) octs
        = (expand_reinsert (fuel + 5) cfg coreMid objs) >>= (fun c => some (c, []))
      ∧ coreMid.rootId = core.nodeCount
      ∧ getNode coreMid core.nodeCount = some pRec
      ∧ pRec.radius = (if cfg.overlapPct > 0
          then n.overlap / ((1/2 * cfg.overlapPct) * (1 + cfg.overlapPct))
          else n.radius * 2)
      ∧ pRec.overlap = pRec.radius * cfg.overlapPct
      ∧ pRec.radiusOverlap = pRec.radius + pRec.overlap
      ∧ (0 < cfg.overlapPct → pRec.radiusOverlap * (1/2) = n.radius)
      ∧ (cfg.overlapPct = 0 → pRec.radius = n.radius * 2)
      ∧ pRec.parent = none ∧ pRec.depth = 0
      ∧ pRec.nodesIndices
          = [((octant_index_from_xyz (-(i1.x + i2.x + i3.x)) (-(i1.y + i2.y + i3.y))
              (-(i1.z + i2.z + i3.z)) : ℕ) : ℤ)]
      ∧ pRec.nodesByIndex
          = [(((octant_index_from_xyz (-(i1.x + i2.x + i3.x)) (-(i1.y + i2.y + i3.y))
              (-(i1.z + i2.z + i3.z)) : ℕ) : ℤ), nid)]
      ∧ getNode coreMid nid
        = some { n with
            indexOctant := some ((octant_index_from_xyz (-(i1.x + i2.x + i3.x))
              (-(i1.y + i2.y + i3.y)) (-(i1.z + i2.z + i3.z)) : ℕ) : ℤ),
            parent := some core.nodeCount, depth := 1 } := by
  obtain ⟨iomT, htal, hquad⟩ := expand_tally_all_outside n objs octs hlen hout
  have hiomne : iomT ≠ [] := by
    intro hx
    rw [hx] at hquad
    simp [iom_reset, iom_quad] at hquad
  rcases hE : expand_select iomT with ⟨i1, i2, i3⟩
  -- the pigeonhole facts
  have hperm : List.Perm (iomT.mergeSort (fun a b => b.count ≤ a.count)) iomT :=
    List.mergeSort_perm _ _
  have hqperm : List.Perm
      ((iomT.mergeSort (fun a b => b.count ≤ a.count)).map iom_quad) canon_quads := by
    refine (hperm.map iom_quad).trans ?_
    rw [hquad]
    rfl
  have hmemp : ((iomT.mergeSort (fun a b => b.count ≤ a.count)).map iom_quad)
      ∈ canon_quads.permutations' := List.mem_permutations'.mpr hqperm
  have hspec := sel_quads_spec _ hmemp
  have hcomm := sel_quads_commute (iomT.mergeSort (fun a b => b.count ≤ a.count))
  rw [← expand_select_eq_sel_entries, hE] at hcomm
  have hX : (sel_sum ((iomT.mergeSort (fun a b => b.count ≤ a.count)).map iom_quad)).1
      = i1.x + i2.x + i3.x := by
    unfold sel_sum
    rw [hcomm]
    exact rfl
  have hY : (sel_sum ((iomT.mergeSort (fun a b => b.count ≤ a.count)).map iom_quad)).2.1
      = i1.y + i2.y + i3.y := by
    unfold sel_sum
    rw [hcomm]
    exact rfl
  have hZ : (sel_sum ((iomT.mergeSort (fun a b => b.count ≤ a.count)).map iom_quad)).2.2
      = i1.z + i2.z + i3.z := by
    unfold sel_sum
    rw [hcomm]
    exact rfl
  have hXu : i1.x + i2.x + i3.x = 1 ∨ i1.x + i2.x + i3.x = -1 := hX ▸ hspec.1
  have hYu : i1.y + i2.y + i3.y = 1 ∨ i1.y + i2.y + i3.y = -1 := hY ▸ hspec.2.1
  have hZu : i1.z + i2.z + i3.z = 1 ∨ i1.z + i2.z + i3.z = -1 := hZ ▸ hspec.2.2
  have hdom : ∀ e ∈ iomT, e.count ≤ i1.count := by
    intro e heM
    have h := expand_select_fst_max iomT hiomne e heM
    rwa [hE] at h
  have hnec : nid ≠ core.nodeCount := by
    intro hx
    rw [hx, hfresh] at hn
    exact Option.noConfusion hn
  have hrp : (0 : ℚ) < (if cfg.overlapPct > 0 then n.overlap / ((1/2 * cfg.overlapPct) * (1 + cfg.overlapPct)) else n.radius * 2) := by
    by_cases hp0 : 0 < cfg.overlapPct
    · rw [if_pos hp0]
      apply div_pos
      · rw [hovr]
        exact mul_pos hrad hp0
      · have h1 : (0 : ℚ) < 1 + cfg.overlapPct := by linarith
        have h2 : (0 : ℚ) < 1/2 * cfg.overlapPct := by linarith
        exact mul_pos h2 h1
    · rw [if_neg hp0]
      linarith
  have hDE5 : depth_end (fuel + 5) core nid none = some (some n.depth) := by
    simp [depth_end, hn, bind_some_eq, hleaf]
  have hp1 : getNode (setNode (⟨core.nodes, nid, core.nodeCount + 1⟩ : OctreeCore) (mk_octree_node cfg core.nodeCount (Vec3.add n.position (⟨if octant_index_from_xyz (i1.x + i2.x + i3.x) (i1.y + i2.y + i3.y) (i1.z + i2.z + i3.z) &&& 1 ≠ 0 then (((if cfg.overlapPct > 0 then n.overlap / ((1/2 * cfg.overlapPct) * (1 + cfg.overlapPct)) else n.radius * 2) + (if cfg.overlapPct > 0 then n.overlap / ((1/2 * cfg.overlapPct) * (1 + cfg.overlapPct)) else n.radius * 2) * cfg.overlapPct) - (n.radius + n.overlap)) else -(((if cfg.overlapPct > 0 then n.overlap / ((1/2 * cfg.overlapPct) * (1 + cfg.overlapPct)) else n.radius * 2) + (if cfg.overlapPct > 0 then n.overlap / ((1/2 * cfg.overlapPct) * (1 + cfg.overlapPct)) else n.radius * 2) * cfg.overlapPct) - (n.radius + n.overlap)), if octant_index_from_xyz (i1.x + i2.x + i3.x) (i1.y + i2.y + i3.y) (i1.z + i2.z + i3.z) &&& 2 ≠ 0 then (((if cfg.overlapPct > 0 then n.overlap / ((1/2 * cfg.overlapPct) * (1 + cfg.overlapPct)) else n.radius * 2) + (if cfg.overlapPct > 0 then n.overlap / ((1/2 * cfg.overlapPct) * (1 + cfg.overlapPct)) else n.radius * 2) * cfg.overlapPct) - (n.radius + n.overlap)) else -(((if cfg.overlapPct > 0 then n.overlap / ((1/2 * cfg.overlapPct) * (1 + cfg.overlapPct)) else n.radius * 2) + (if cfg.overlapPct > 0 then n.overlap / ((1/2 * cfg.overlapPct) * (1 + cfg.overlapPct)) else n.radius * 2) * cfg.overlapPct) - (n.radius + n.overlap)), if octant_index_from_xyz (i1.x + i2.x + i3.x) (i1.y + i2.y + i3.y) (i1.z + i2.z + i3.z) &&& 4 ≠ 0 then (((if cfg.overlapPct > 0 then n.overlap / ((1/2 * cfg.overlapPct) * (1 + cfg.overlapPct)) else n.radius * 2) + (if cfg.overlapPct > 0 then n.overlap / ((1/2 * cfg.overlapPct) * (1 + cfg.overlapPct)) else n.radius * 2) * cfg.overlapPct) - (n.radius + n.overlap)) else -(((if cfg.overlapPct > 0 then n.overlap / ((1/2 * cfg.overlapPct) * (1 + cfg.overlapPct)) else n.radius * 2) + (if cfg.overlapPct > 0 then n.overlap / ((1/2 * cfg.overlapPct) * (1 + cfg.overlapPct)) else n.radius * 2) * cfg.overlapPct) - (n.radius + n.overlap))⟩ : Vec3)) (if cfg.overlapPct > 0 then n.overlap / ((1/2 * cfg.overlapPct) * (1 + cfg.overlapPct)) else n.radius * 2) none none none)) core.nodeCount = some (mk_octree_node cfg core.nodeCount (Vec3.add n.position (⟨if octant_index_from_xyz (i1.x + i2.x + i3.x) (i1.y + i2.y + i3.y) (i1.z + i2.z + i3.z) &&& 1 ≠ 0 then (((if cfg.overlapPct > 0 then n.overlap / ((1/2 * cfg.overlapPct) * (1 + cfg.overlapPct)) else n.radius * 2) + (if cfg.overlapPct > 0 then n.overlap / ((1/2 * cfg.overlapPct) * (1 + cfg.overlapPct)) else n.radius * 2) * cfg.overlapPct) - (n.radius + n.overlap)) else -(((if cfg.overlapPct > 0 then n.overlap / ((1/2 * cfg.overlapPct) * (1 + cfg.overlapPct)) else n.radius * 2) + (if cfg.overlapPct > 0 then n.overlap / ((1/2 * cfg.overlapPct) * (1 + cfg.overlapPct)) else n.radius * 2) * cfg.overlapPct) - (n.radius + n.overlap)), if octant_index_from_xyz (i1.x + i2.x + i3.x) (i1.y + i2.y + i3.y) (i1.z + i2.z + i3.z) &&& 2 ≠ 0 then (((if cfg.overlapPct > 0 then n.overlap / ((1/2 * cfg.overlapPct) * (1 + cfg.overlapPct)) else n.radius * 2) + (if cfg.overlapPct > 0 then n.overlap / ((1/2 * cfg.overlapPct) * (1 + cfg.overlapPct)) else n.radius * 2) * cfg.overlapPct) - (n.radius + n.overlap)) else -(((if cfg.overlapPct > 0 then n.overlap / ((1/2 * cfg.overlapPct) * (1 + cfg.overlapPct)) else n.radius * 2) + (if cfg.overlapPct > 0 then n.overlap / ((1/2 * cfg.overlapPct) * (1 + cfg.overlapPct)) else n.radius * 2) * cfg.overlapPct) - (n.radius + n.overlap)), if octant_index_from_xyz (i1.x + i2.x + i3.x) (i1.y + i2.y + i3.y) (i1.z + i2.z + i3.z) &&& 4 ≠ 0 then (((if cfg.overlapPct > 0 then n.overlap / ((1/2 * cfg.overlapPct) * (1 + cfg.overlapPct)) else n.radius * 2) + (if cfg.overlapPct > 0 then n.overlap / ((1/2 * cfg.overlapPct) * (1 + cfg.overlapPct)) else n.radius * 2) * cfg.overlapPct) - (n.radius + n.overlap)) else -(((if cfg.overlapPct > 0 then n.overlap / ((1/2 * cfg.overlapPct) * (1 + cfg.overlapPct)) else n.radius * 2) + (if cfg.overlapPct > 0 then n.overlap / ((1/2 * cfg.overlapPct) * (1 + cfg.overlapPct)) else n.radius * 2) * cfg.overlapPct) - (n.radius + n.overlap))⟩ : Vec3)) (if cfg.overlapPct > 0 then n.overlap / ((1/2 * cfg.overlapPct) * (1 + cfg.overlapPct)) else n.radius * 2) none none none) :=
    getNode_setNode_self_key (⟨core.nodes, nid, core.nodeCount + 1⟩ : OctreeCore) (mk_octree_node cfg core.nodeCount (Vec3.add n.position (⟨if octant_index_from_xyz (i1.x + i2.x + i3.x) (i1.y + i2.y + i3.y) (i1.z + i2.z + i3.z) &&& 1 ≠ 0 then (((if cfg.overlapPct > 0 then n.overlap / ((1/2 * cfg.overlapPct) * (1 + cfg.overlapPct)) else n.radius * 2) + (if cfg.overlapPct > 0 then n.overlap / ((1/2 * cfg.overlapPct) * (1 + cfg.overlapPct)) else n.radius * 2) * cfg.overlapPct) - (n.radius + n.overlap)) else -(((if cfg.overlapPct > 0 then n.overlap / ((1/2 * cfg.overlapPct) * (1 + cfg.overlapPct)) else n.radius * 2) + (if cfg.overlapPct > 0 then n.overlap / ((1/2 * cfg.overlapPct) * (1 + cfg.overlapPct)) else n.radius * 2) * cfg.overlapPct) - (n.radius + n.overlap)), if octant_index_from_xyz (i1.x + i2.x + i3.x) (i1.y + i2.y + i3.y) (i1.z + i2.z + i3.z) &&& 2 ≠ 0 then (((if cfg.overlapPct > 0 then n.overlap / ((1/2 * cfg.overlapPct) * (1 + cfg.overlapPct)) else n.radius * 2) + (if cfg.overlapPct > 0 then n.overlap / ((1/2 * cfg.overlapPct) * (1 + cfg.overlapPct)) else n.radius * 2) * cfg.overlapPct) - (n.radius + n.overlap)) else -(((if cfg.overlapPct > 0 then n.overlap / ((1/2 * cfg.overlapPct) * (1 + cfg.overlapPct)) else n.radius * 2) + (if cfg.overlapPct > 0 then n.overlap / ((1/2 * cfg.overlapPct) * (1 + cfg.overlapPct)) else n.radius * 2) * cfg.overlapPct) - (n.radius + n.overlap)), if octant_index_from_xyz (i1.x + i2.x + i3.x) (i1.y + i2.y + i3.y) (i1.z + i2.z + i3.z) &&& 4 ≠ 0 then (((if cfg.overlapPct > 0 then n.overlap / ((1/2 * cfg.overlapPct) * (1 + cfg.overlapPct)) else n.radius * 2) + (if cfg.overlapPct > 0 then n.overlap / ((1/2 * cfg.overlapPct) * (1 + cfg.overlapPct)) else n.radius * 2) * cfg.overlapPct) - (n.radius + n.overlap)) else -(((if cfg.overlapPct > 0 then n.overlap / ((1/2 * cfg.overlapPct) * (1 + cfg.overlapPct)) else n.radius * 2) + (if cfg.overlapPct > 0 then n.overlap / ((1/2 * cfg.overlapPct) * (1 + cfg.overlapPct)) else n.radius * 2) * cfg.overlapPct) - (n.radius + n.overlap))⟩ : Vec3)) (if cfg.overlapPct > 0 then n.overlap / ((1/2 * cfg.overlapPct) * (1 + cfg.overlapPct)) else n.radius * 2) none none none) core.nodeCount rfl
  have hc1 : getNode (setNode (⟨core.nodes, nid, core.nodeCount + 1⟩ : OctreeCore) (mk_octree_node cfg core.nodeCount (Vec3.add n.position (⟨if octant_index_from_xyz (i1.x + i2.x + i3.x) (i1.y + i2.y + i3.y) (i1.z + i2.z + i3.z) &&& 1 ≠ 0 then (((if cfg.overlapPct > 0 then n.overlap / ((1/2 * cfg.overlapPct) * (1 + cfg.overlapPct)) else n.radius * 2) + (if cfg.overlapPct > 0 then n.overlap / ((1/2 * cfg.overlapPct) * (1 + cfg.overlapPct)) else n.radius * 2) * cfg.overlapPct) - (n.radius + n.overlap)) else -(((if cfg.overlapPct > 0 then n.overlap / ((1/2 * cfg.overlapPct) * (1 + cfg.overlapPct)) else n.radius * 2) + (if cfg.overlapPct > 0 then n.overlap / ((1/2 * cfg.overlapPct) * (1 + cfg.overlapPct)) else n.radius * 2) * cfg.overlapPct) - (n.radius + n.overlap)), if octant_index_from_xyz (i1.x + i2.x + i3.x) (i1.y + i2.y + i3.y) (i1.z + i2.z + i3.z) &&& 2 ≠ 0 then (((if cfg.overlapPct > 0 then n.overlap / ((1/2 * cfg.overlapPct) * (1 + cfg.overlapPct)) else n.radius * 2) + (if cfg.overlapPct > 0 then n.overlap / ((1/2 * cfg.overlapPct) * (1 + cfg.overlapPct)) else n.radius * 2) * cfg.overlapPct) - (n.radius + n.overlap)) else -(((if cfg.overlapPct > 0 then n.overlap / ((1/2 * cfg.overlapPct) * (1 + cfg.overlapPct)) else n.radius * 2) + (if cfg.overlapPct > 0 then n.overlap / ((1/2 * cfg.overlapPct) * (1 + cfg.overlapPct)) else n.radius * 2) * cfg.overlapPct) - (n.radius + n.overlap)), if octant_index_from_xyz (i1.x + i2.x + i3.x) (i1.y + i2.y + i3.y) (i1.z + i2.z + i3.z) &&& 4 ≠ 0 then (((if cfg.overlapPct > 0 then n.overlap / ((1/2 * cfg.overlapPct) * (1 + cfg.overlapPct)) else n.radius * 2) + (if cfg.overlapPct > 0 then n.overlap / ((1/2 * cfg.overlapPct) * (1 + cfg.overlapPct)) else n.radius * 2) * cfg.overlapPct) - (n.radius + n.overlap)) else -(((if cfg.overlapPct > 0 then n.overlap / ((1/2 * cfg.overlapPct) * (1 + cfg.overlapPct)) else n.radius * 2) + (if cfg.overlapPct > 0 then n.overlap / ((1/2 * cfg.overlapPct) * (1 + cfg.overlapPct)) else n.radius * 2) * cfg.overlapPct) - (n.radius + n.overlap))⟩ : Vec3)) (if cfg.overlapPct > 0 then n.overlap / ((1/2 * cfg.overlapPct) * (1 + cfg.overlapPct)) else n.radius * 2) none none none)) nid = some n := by
    rw [getNode_setNode_ne (⟨core.nodes, nid, core.nodeCount + 1⟩ : OctreeCore) (mk_octree_node cfg core.nodeCount (Vec3.add n.position (⟨if octant_index_from_xyz (i1.x + i2.x + i3.x) (i1.y + i2.y + i3.y) (i1.z + i2.z + i3.z) &&& 1 ≠ 0 then (((if cfg.overlapPct > 0 then n.overlap / ((1/2 * cfg.overlapPct) * (1 + cfg.overlapPct)) else n.radius * 2) + (if cfg.overlapPct > 0 then n.overlap / ((1/2 * cfg.overlapPct) * (1 + cfg.overlapPct)) else n.radius * 2) * cfg.overlapPct) - (n.radius + n.overlap)) else -(((if cfg.overlapPct > 0 then n.overlap / ((1/2 * cfg.overlapPct) * (1 + cfg.overlapPct)) else n.radius * 2) + (if cfg.overlapPct > 0 then n.overlap / ((1/2 * cfg.overlapPct) * (1 + cfg.overlapPct)) else n.radius * 2) * cfg.overlapPct) - (n.radius + n.overlap)), if octant_index_from_xyz (i1.x + i2.x + i3.x) (i1.y + i2.y + i3.y) (i1.z + i2.z + i3.z) &&& 2 ≠ 0 then (((if cfg.overlapPct > 0 then n.overlap / ((1/2 * cfg.overlapPct) * (1 + cfg.overlapPct)) else n.radius * 2) + (if cfg.overlapPct > 0 then n.overlap / ((1/2 * cfg.overlapPct) * (1 + cfg.overlapPct)) else n.radius * 2) * cfg.overlapPct) - (n.radius + n.overlap)) else -(((if cfg.overlapPct > 0 then n.overlap / ((1/2 * cfg.overlapPct) * (1 + cfg.overlapPct)) else n.radius * 2) + (if cfg.overlapPct > 0 then n.overlap / ((1/2 * cfg.overlapPct) * (1 + cfg.overlapPct)) else n.radius * 2) * cfg.overlapPct) - (n.radius + n.overlap)), if octant_index_from_xyz (i1.x + i2.x + i3.x) (i1.y + i2.y + i3.y) (i1.z + i2.z + i3.z) &&& 4 ≠ 0 then (((if cfg.overlapPct > 0 then n.overlap / ((1/2 * cfg.overlapPct) * (1 + cfg.overlapPct)) else n.radius * 2) + (if cfg.overlapPct > 0 then n.overlap / ((1/2 * cfg.overlapPct) * (1 + cfg.overlapPct)) else n.radius * 2) * cfg.overlapPct) - (n.radius + n.overlap)) else -(((if cfg.overlapPct > 0 then n.overlap / ((1/2 * cfg.overlapPct) * (1 + cfg.overlapPct)) else n.radius * 2) + (if cfg.overlapPct > 0 then n.overlap / ((1/2 * cfg.overlapPct) * (1 + cfg.overlapPct)) else n.radius * 2) * cfg.overlapPct) - (n.radius + n.overlap))⟩ : Vec3)) (if cfg.overlapPct > 0 then n.overlap / ((1/2 * cfg.overlapPct) * (1 + cfg.overlapPct)) else n.radius * 2) none none none) nid (show nid ≠ ((mk_octree_node cfg core.nodeCount (Vec3.add n.position (⟨if octant_index_from_xyz (i1.x + i2.x + i3.x) (i1.y + i2.y + i3.y) (i1.z + i2.z + i3.z) &&& 1 ≠ 0 then (((if cfg.overlapPct > 0 then n.overlap / ((1/2 * cfg.overlapPct) * (1 + cfg.overlapPct)) else n.radius * 2) + (if cfg.overlapPct > 0 then n.overlap / ((1/2 * cfg.overlapPct) * (1 + cfg.overlapPct)) else n.radius * 2) * cfg.overlapPct) - (n.radius + n.overlap)) else -(((if cfg.overlapPct > 0 then n.overlap / ((1/2 * cfg.overlapPct) * (1 + cfg.overlapPct)) else n.radius * 2) + (if cfg.overlapPct > 0 then n.overlap / ((1/2 * cfg.overlapPct) * (1 + cfg.overlapPct)) else n.radius * 2) * cfg.overlapPct) - (n.radius + n.overlap)), if octant_index_from_xyz (i1.x + i2.x + i3.x) (i1.y + i2.y + i3.y) (i1.z + i2.z + i3.z) &&& 2 ≠ 0 then (((if cfg.overlapPct > 0 then n.overlap / ((1/2 * cfg.overlapPct) * (1 + cfg.overlapPct)) else n.radius * 2) + (if cfg.overlapPct > 0 then n.overlap / ((1/2 * cfg.overlapPct) * (1 + cfg.overlapPct)) else n.radius * 2) * cfg.overlapPct) - (n.radius + n.overlap)) else -(((if cfg.overlapPct > 0 then n.overlap / ((1/2 * cfg.overlapPct) * (1 + cfg.overlapPct)) else n.radius * 2) + (if cfg.overlapPct > 0 then n.overlap / ((1/2 * cfg.overlapPct) * (1 + cfg.overlapPct)) else n.radius * 2) * cfg.overlapPct) - (n.radius + n.overlap)), if octant_index_from_xyz (i1.x + i2.x + i3.x) (i1.y + i2.y + i3.y) (i1.z + i2.z + i3.z) &&& 4 ≠ 0 then (((if cfg.overlapPct > 0 then n.overlap / ((1/2 * cfg.overlapPct) * (1 + cfg.overlapPct)) else n.radius * 2) + (if cfg.overlapPct > 0 then n.overlap / ((1/2 * cfg.overlapPct) * (1 + cfg.overlapPct)) else n.radius * 2) * cfg.overlapPct) - (n.radius + n.overlap)) else -(((if cfg.overlapPct > 0 then n.overlap / ((1/2 * cfg.overlapPct) * (1 + cfg.overlapPct)) else n.radius * 2) + (if cfg.overlapPct > 0 then n.overlap / ((1/2 * cfg.overlapPct) * (1 + cfg.overlapPct)) else n.radius * 2) * cfg.overlapPct) - (n.radius + n.overlap))⟩ : Vec3)) (if cfg.overlapPct > 0 then n.overlap / ((1/2 * cfg.overlapPct) * (1 + cfg.overlapPct)) else n.radius * 2) none none none)).id from hnec)]
    exact hn
  have hnp1 : n.parent ≠ some core.nodeCount := by
    rw [hroot]
    simp
  have hAN := add_node_reparent_ge (fuel + 5) (by omega) (setNode (⟨core.nodes, nid, core.nodeCount + 1⟩ : OctreeCore) (mk_octree_node cfg core.nodeCount (Vec3.add n.position (⟨if octant_index_from_xyz (i1.x + i2.x + i3.x) (i1.y + i2.y + i3.y) (i1.z + i2.z + i3.z) &&& 1 ≠ 0 then (((if cfg.overlapPct > 0 then n.overlap / ((1/2 * cfg.overlapPct) * (1 + cfg.overlapPct)) else n.radius * 2) + (if cfg.overlapPct > 0 then n.overlap / ((1/2 * cfg.overlapPct) * (1 + cfg.overlapPct)) else n.radius * 2) * cfg.overlapPct) - (n.radius + n.overlap)) else -(((if cfg.overlapPct > 0 then n.overlap / ((1/2 * cfg.overlapPct) * (1 + cfg.overlapPct)) else n.radius * 2) + (if cfg.overlapPct > 0 then n.overlap / ((1/2 * cfg.overlapPct) * (1 + cfg.overlapPct)) else n.radius * 2) * cfg.overlapPct) - (n.radius + n.overlap)), if octant_index_from_xyz (i1.x + i2.x + i3.x) (i1.y + i2.y + i3.y) (i1.z + i2.z + i3.z) &&& 2 ≠ 0 then (((if cfg.overlapPct > 0 then n.overlap / ((1/2 * cfg.overlapPct) * (1 + cfg.overlapPct)) else n.radius * 2) + (if cfg.overlapPct > 0 then n.overlap / ((1/2 * cfg.overlapPct) * (1 + cfg.overlapPct)) else n.radius * 2) * cfg.overlapPct) - (n.radius + n.overlap)) else -(((if cfg.overlapPct > 0 then n.overlap / ((1/2 * cfg.overlapPct) * (1 + cfg.overlapPct)) else n.radius * 2) + (if cfg.overlapPct > 0 then n.overlap / ((1/2 * cfg.overlapPct) * (1 + cfg.overlapPct)) else n.radius * 2) * cfg.overlapPct) - (n.radius + n.overlap)), if octant_index_from_xyz (i1.x + i2.x + i3.x) (i1.y + i2.y + i3.y) (i1.z + i2.z + i3.z) &&& 4 ≠ 0 then (((if cfg.overlapPct > 0 then n.overlap / ((1/2 * cfg.overlapPct) * (1 + cfg.overlapPct)) else n.radius * 2) + (if cfg.overlapPct > 0 then n.overlap / ((1/2 * cfg.overlapPct) * (1 + cfg.overlapPct)) else n.radius * 2) * cfg.overlapPct) - (n.radius + n.overlap)) else -(((if cfg.overlapPct > 0 then n.overlap / ((1/2 * cfg.overlapPct) * (1 + cfg.overlapPct)) else n.radius * 2) + (if cfg.overlapPct > 0 then n.overlap / ((1/2 * cfg.overlapPct) * (1 + cfg.overlapPct)) else n.radius * 2) * cfg.overlapPct) - (n.radius + n.overlap))⟩ : Vec3)) (if cfg.overlapPct > 0 then n.overlap / ((1/2 * cfg.overlapPct) * (1 + cfg.overlapPct)) else n.radius * 2) none none none)) core.nodeCount nid
    ((octant_index_from_xyz (-(i1.x + i2.x + i3.x)) (-(i1.y + i2.y + i3.y)) (-(i1.z + i2.z + i3.z)) : ℕ) : ℤ) (mk_octree_node cfg core.nodeCount (Vec3.add n.position (⟨if octant_index_from_xyz (i1.x + i2.x + i3.x) (i1.y + i2.y + i3.y) (i1.z + i2.z + i3.z) &&& 1 ≠ 0 then (((if cfg.overlapPct > 0 then n.overlap / ((1/2 * cfg.overlapPct) * (1 + cfg.overlapPct)) else n.radius * 2) + (if cfg.overlapPct > 0 then n.overlap / ((1/2 * cfg.overlapPct) * (1 + cfg.overlapPct)) else n.radius * 2) * cfg.overlapPct) - (n.radius + n.overlap)) else -(((if cfg.overlapPct > 0 then n.overlap / ((1/2 * cfg.overlapPct) * (1 + cfg.overlapPct)) else n.radius * 2) + (if cfg.overlapPct > 0 then n.overlap / ((1/2 * cfg.overlapPct) * (1 + cfg.overlapPct)) else n.radius * 2) * cfg.overlapPct) - (n.radius + n.overlap)), if octant_index_from_xyz (i1.x + i2.x + i3.x) (i1.y + i2.y + i3.y) (i1.z + i2.z + i3.z) &&& 2 ≠ 0 then (((if cfg.overlapPct > 0 then n.overlap / ((1/2 * cfg.overlapPct) * (1 + cfg.overlapPct)) else n.radius * 2) + (if cfg.overlapPct > 0 then n.overlap / ((1/2 * cfg.overlapPct) * (1 + cfg.overlapPct)) else n.radius * 2) * cfg.overlapPct) - (n.radius + n.overlap)) else -(((if cfg.overlapPct > 0 then n.overlap / ((1/2 * cfg.overlapPct) * (1 + cfg.overlapPct)) else n.radius * 2) + (if cfg.overlapPct > 0 then n.overlap / ((1/2 * cfg.overlapPct) * (1 + cfg.overlapPct)) else n.radius * 2) * cfg.overlapPct) - (n.radius + n.overlap)), if octant_index_from_xyz (i1.x + i2.x + i3.x) (i1.y + i2.y + i3.y) (i1.z + i2.z + i3.z) &&& 4 ≠ 0 then (((if cfg.overlapPct > 0 then n.overlap / ((1/2 * cfg.overlapPct) * (1 + cfg.overlapPct)) else n.radius * 2) + (if cfg.overlapPct > 0 then n.overlap / ((1/2 * cfg.overlapPct) * (1 + cfg.overlapPct)) else n.radius * 2) * cfg.overlapPct) - (n.radius + n.overlap)) else -(((if cfg.overlapPct > 0 then n.overlap / ((1/2 * cfg.overlapPct) * (1 + cfg.overlapPct)) else n.radius * 2) + (if cfg.overlapPct > 0 then n.overlap / ((1/2 * cfg.overlapPct) * (1 + cfg.overlapPct)) else n.radius * 2) * cfg.overlapPct) - (n.radius + n.overlap))⟩ : Vec3)) (if cfg.overlapPct > 0 then n.overlap / ((1/2 * cfg.overlapPct) * (1 + cfg.overlapPct)) else n.radius * 2) none none none) n hp1 rfl hc1 hid (Ne.symm hnec) hnp1 hleaf
  have hpC : getNode (setNode (setNode (setNode (setNode (⟨core.nodes, nid, core.nodeCount + 1⟩ : OctreeCore) (mk_octree_node cfg core.nodeCount (Vec3.add n.position (⟨if octant_index_from_xyz (i1.x + i2.x + i3.x) (i1.y + i2.y + i3.y) (i1.z + i2.z + i3.z) &&& 1 ≠ 0 then (((if cfg.overlapPct > 0 then n.overlap / ((1/2 * cfg.overlapPct) * (1 + cfg.overlapPct)) else n.radius * 2) + (if cfg.overlapPct > 0 then n.overlap / ((1/2 * cfg.overlapPct) * (1 + cfg.overlapPct)) else n.radius * 2) * cfg.overlapPct) - (n.radius + n.overlap)) else -(((if cfg.overlapPct > 0 then n.overlap / ((1/2 * cfg.overlapPct) * (1 + cfg.overlapPct)) else n.radius * 2) + (if cfg.overlapPct > 0 then n.overlap / ((1/2 * cfg.overlapPct) * (1 + cfg.overlapPct)) else n.radius * 2) * cfg.overlapPct) - (n.radius + n.overlap)), if octant_index_from_xyz (i1.x + i2.x + i3.x) (i1.y + i2.y + i3.y) (i1.z + i2.z + i3.z) &&& 2 ≠ 0 then (((if cfg.overlapPct > 0 then n.overlap / ((1/2 * cfg.overlapPct) * (1 + cfg.overlapPct)) else n.radius * 2) + (if cfg.overlapPct > 0 then n.overlap / ((1/2 * cfg.overlapPct) * (1 + cfg.overlapPct)) else n.radius * 2) * cfg.overlapPct) - (n.radius + n.overlap)) else -(((if cfg.overlapPct > 0 then n.overlap / ((1/2 * cfg.overlapPct) * (1 + cfg.overlapPct)) else n.radius * 2) + (if cfg.overlapPct > 0 then n.overlap / ((1/2 * cfg.overlapPct) * (1 + cfg.overlapPct)) else n.radius * 2) * cfg.overlapPct) - (n.radius + n.overlap)), if octant_index_from_xyz (i1.x + i2.x + i3.x) (i1.y + i2.y + i3.y) (i1.z + i2.z + i3.z) &&& 4 ≠ 0 then (((if cfg.overlapPct > 0 then n.overlap / ((1/2 * cfg.overlapPct) * (1 + cfg.overlapPct)) else n.radius * 2) + (if cfg.overlapPct > 0 then n.overlap / ((1/2 * cfg.overlapPct) * (1 + cfg.overlapPct)) else n.radius * 2) * cfg.overlapPct) - (n.radius + n.overlap)) else -(((if cfg.overlapPct > 0 then n.overlap / ((1/2 * cfg.overlapPct) * (1 + cfg.overlapPct)) else n.radius * 2) + (if cfg.overlapPct > 0 then n.overlap / ((1/2 * cfg.overlapPct) * (1 + cfg.overlapPct)) else n.radius * 2) * cfg.overlapPct) - (n.radius + n.overlap))⟩ : Vec3)) (if cfg.overlapPct > 0 then n.overlap / ((1/2 * cfg.overlapPct) * (1 + cfg.overlapPct)) else n.radius * 2) none none none)) ({ n with indexOctant := some ((octant_index_from_xyz (-(i1.x + i2.x + i3.x)) (-(i1.y + i2.y + i3.y)) (-(i1.z + i2.z + i3.z)) : ℕ) : ℤ) } : NodeRec)) ({ (mk_octree_node cfg core.nodeCount (Vec3.add n.position (⟨if octant_index_from_xyz (i1.x + i2.x + i3.x) (i1.y + i2.y + i3.y) (i1.z + i2.z + i3.z) &&& 1 ≠ 0 then (((if cfg.overlapPct > 0 then n.overlap / ((1/2 * cfg.overlapPct) * (1 + cfg.overlapPct)) else n.radius * 2) + (if cfg.overlapPct > 0 then n.overlap / ((1/2 * cfg.overlapPct) * (1 + cfg.overlapPct)) else n.radius * 2) * cfg.overlapPct) - (n.radius + n.overlap)) else -(((if cfg.overlapPct > 0 then n.overlap / ((1/2 * cfg.overlapPct) * (1 + cfg.overlapPct)) else n.radius * 2) + (if cfg.overlapPct > 0 then n.overlap / ((1/2 * cfg.overlapPct) * (1 + cfg.overlapPct)) else n.radius * 2) * cfg.overlapPct) - (n.radius + n.overlap)), if octant_index_from_xyz (i1.x + i2.x + i3.x) (i1.y + i2.y + i3.y) (i1.z + i2.z + i3.z) &&& 2 ≠ 0 then (((if cfg.overlapPct > 0 then n.overlap / ((1/2 * cfg.overlapPct) * (1 + cfg.overlapPct)) else n.radius * 2) + (if cfg.overlapPct > 0 then n.overlap / ((1/2 * cfg.overlapPct) * (1 + cfg.overlapPct)) else n.radius * 2) * cfg.overlapPct) - (n.radius + n.overlap)) else -(((if cfg.overlapPct > 0 then n.overlap / ((1/2 * cfg.overlapPct) * (1 + cfg.overlapPct)) else n.radius * 2) + (if cfg.overlapPct > 0 then n.overlap / ((1/2 * cfg.overlapPct) * (1 + cfg.overlapPct)) else n.radius * 2) * cfg.overlapPct) - (n.radius + n.overlap)), if octant_index_from_xyz (i1.x + i2.x + i3.x) (i1.y + i2.y + i3.y) (i1.z + i2.z + i3.z) &&& 4 ≠ 0 then (((if cfg.overlapPct > 0 then n.overlap / ((1/2 * cfg.overlapPct) * (1 + cfg.overlapPct)) else n.radius * 2) + (if cfg.overlapPct > 0 then n.overlap / ((1/2 * cfg.overlapPct) * (1 + cfg.overlapPct)) else n.radius * 2) * cfg.overlapPct) - (n.radius + n.overlap)) else -(((if cfg.overlapPct > 0 then n.overlap / ((1/2 * cfg.overlapPct) * (1 + cfg.overlapPct)) else n.radius * 2) + (if cfg.overlapPct > 0 then n.overlap / ((1/2 * cfg.overlapPct) * (1 + cfg.overlapPct)) else n.radius * 2) * cfg.overlapPct) - (n.radius + n.overlap))⟩ : Vec3)) (if cfg.overlapPct > 0 then n.overlap / ((1/2 * cfg.overlapPct) * (1 + cfg.overlapPct)) else n.radius * 2) none none none) with nodesIndices := (if ((octant_index_from_xyz (-(i1.x + i2.x + i3.x)) (-(i1.y + i2.y + i3.y)) (-(i1.z + i2.z + i3.z)) : ℕ) : ℤ) ∈ (mk_octree_node cfg core.nodeCount (Vec3.add n.position (⟨if octant_index_from_xyz (i1.x + i2.x + i3.x) (i1.y + i2.y + i3.y) (i1.z + i2.z + i3.z) &&& 1 ≠ 0 then (((if cfg.overlapPct > 0 then n.overlap / ((1/2 * cfg.overlapPct) * (1 + cfg.overlapPct)) else n.radius * 2) + (if cfg.overlapPct > 0 then n.overlap / ((1/2 * cfg.overlapPct) * (1 + cfg.overlapPct)) else n.radius * 2) * cfg.overlapPct) - (n.radius + n.overlap)) else -(((if cfg.overlapPct > 0 then n.overlap / ((1/2 * cfg.overlapPct) * (1 + cfg.overlapPct)) else n.radius * 2) + (if cfg.overlapPct > 0 then n.overlap / ((1/2 * cfg.overlapPct) * (1 + cfg.overlapPct)) else n.radius * 2) * cfg.overlapPct) - (n.radius + n.overlap)), if octant_index_from_xyz (i1.x + i2.x + i3.x) (i1.y + i2.y + i3.y) (i1.z + i2.z + i3.z) &&& 2 ≠ 0 then (((if cfg.overlapPct > 0 then n.overlap / ((1/2 * cfg.overlapPct) * (1 + cfg.overlapPct)) else n.radius * 2) + (if cfg.overlapPct > 0 then n.overlap / ((1/2 * cfg.overlapPct) * (1 + cfg.overlapPct)) else n.radius * 2) * cfg.overlapPct) - (n.radius + n.overlap)) else -(((if cfg.overlapPct > 0 then n.overlap / ((1/2 * cfg.overlapPct) * (1 + cfg.overlapPct)) else n.radius * 2) + (if cfg.overlapPct > 0 then n.overlap / ((1/2 * cfg.overlapPct) * (1 + cfg.overlapPct)) else n.radius * 2) * cfg.overlapPct) - (n.radius + n.overlap)), if octant_index_from_xyz (i1.x + i2.x + i3.x) (i1.y + i2.y + i3.y) (i1.z + i2.z + i3.z) &&& 4 ≠ 0 then (((if cfg.overlapPct > 0 then n.overlap / ((1/2 * cfg.overlapPct) * (1 + cfg.overlapPct)) else n.radius * 2) + (if cfg.overlapPct > 0 then n.overlap / ((1/2 * cfg.overlapPct) * (1 + cfg.overlapPct)) else n.radius * 2) * cfg.overlapPct) - (n.radius + n.overlap)) else -(((if cfg.overlapPct > 0 then n.overlap / ((1/2 * cfg.overlapPct) * (1 + cfg.overlapPct)) else n.radius * 2) + (if cfg.overlapPct > 0 then n.overlap / ((1/2 * cfg.overlapPct) * (1 + cfg.overlapPct)) else n.radius * 2) * cfg.overlapPct) - (n.radius + n.overlap))⟩ : Vec3)) (if cfg.overlapPct > 0 then n.overlap / ((1/2 * cfg.overlapPct) * (1 + cfg.overlapPct)) else n.radius * 2) none none none).nodesIndices then (mk_octree_node cfg core.nodeCount (Vec3.add n.position (⟨if octant_index_from_xyz (i1.x + i2.x + i3.x) (i1.y + i2.y + i3.y) (i1.z + i2.z + i3.z) &&& 1 ≠ 0 then (((if cfg.overlapPct > 0 then n.overlap / ((1/2 * cfg.overlapPct) * (1 + cfg.overlapPct)) else n.radius * 2) + (if cfg.overlapPct > 0 then n.overlap / ((1/2 * cfg.overlapPct) * (1 + cfg.overlapPct)) else n.radius * 2) * cfg.overlapPct) - (n.radius + n.overlap)) else -(((if cfg.overlapPct > 0 then n.overlap / ((1/2 * cfg.overlapPct) * (1 + cfg.overlapPct)) else n.radius * 2) + (if cfg.overlapPct > 0 then n.overlap / ((1/2 * cfg.overlapPct) * (1 + cfg.overlapPct)) else n.radius * 2) * cfg.overlapPct) - (n.radius + n.overlap)), if octant_index_from_xyz (i1.x + i2.x + i3.x) (i1.y + i2.y + i3.y) (i1.z + i2.z + i3.z) &&& 2 ≠ 0 then (((if cfg.overlapPct > 0 then n.overlap / ((1/2 * cfg.overlapPct) * (1 + cfg.overlapPct)) else n.radius * 2) + (if cfg.overlapPct > 0 then n.overlap / ((1/2 * cfg.overlapPct) * (1 + cfg.overlapPct)) else n.radius * 2) * cfg.overlapPct) - (n.radius + n.overlap)) else -(((if cfg.overlapPct > 0 then n.overlap / ((1/2 * cfg.overlapPct) * (1 + cfg.overlapPct)) else n.radius * 2) + (if cfg.overlapPct > 0 then n.overlap / ((1/2 * cfg.overlapPct) * (1 + cfg.overlapPct)) else n.radius * 2) * cfg.overlapPct) - (n.radius + n.overlap)), if octant_index_from_xyz (i1.x + i2.x + i3.x) (i1.y + i2.y + i3.y) (i1.z + i2.z + i3.z) &&& 4 ≠ 0 then (((if cfg.overlapPct > 0 then n.overlap / ((1/2 * cfg.overlapPct) * (1 + cfg.overlapPct)) else n.radius * 2) + (if cfg.overlapPct > 0 then n.overlap / ((1/2 * cfg.overlapPct) * (1 + cfg.overlapPct)) else n.radius * 2) * cfg.overlapPct) - (n.radius + n.overlap)) else -(((if cfg.overlapPct > 0 then n.overlap / ((1/2 * cfg.overlapPct) * (1 + cfg.overlapPct)) else n.radius * 2) + (if cfg.overlapPct > 0 then n.overlap / ((1/2 * cfg.overlapPct) * (1 + cfg.overlapPct)) else n.radius * 2) * cfg.overlapPct) - (n.radius + n.overlap))⟩ : Vec3)) (if cfg.overlapPct > 0 then n.overlap / ((1/2 * cfg.overlapPct) * (1 + cfg.overlapPct)) else n.radius * 2) none none none).nodesIndices else (mk_octree_node cfg core.nodeCount (Vec3.add n.position (⟨if octant_index_from_xyz (i1.x + i2.x + i3.x) (i1.y + i2.y + i3.y) (i1.z + i2.z + i3.z) &&& 1 ≠ 0 then (((if cfg.overlapPct > 0 then n.overlap / ((1/2 * cfg.overlapPct) * (1 + cfg.overlapPct)) else n.radius * 2) + (if cfg.overlapPct > 0 then n.overlap / ((1/2 * cfg.overlapPct) * (1 + cfg.overlapPct)) else n.radius * 2) * cfg.overlapPct) - (n.radius + n.overlap)) else -(((if cfg.overlapPct > 0 then n.overlap / ((1/2 * cfg.overlapPct) * (1 + cfg.overlapPct)) else n.radius * 2) + (if cfg.overlapPct > 0 then n.overlap / ((1/2 * cfg.overlapPct) * (1 + cfg.overlapPct)) else n.radius * 2) * cfg.overlapPct) - (n.radius + n.overlap)), if octant_index_from_xyz (i1.x + i2.x + i3.x) (i1.y + i2.y + i3.y) (i1.z + i2.z + i3.z) &&& 2 ≠ 0 then (((if cfg.overlapPct > 0 then n.overlap / ((1/2 * cfg.overlapPct) * (1 + cfg.overlapPct)) else n.radius * 2) + (if cfg.overlapPct > 0 then n.overlap / ((1/2 * cfg.overlapPct) * (1 + cfg.overlapPct)) else n.radius * 2) * cfg.overlapPct) - (n.radius + n.overlap)) else -(((if cfg.overlapPct > 0 then n.overlap / ((1/2 * cfg.overlapPct) * (1 + cfg.overlapPct)) else n.radius * 2) + (if cfg.overlapPct > 0 then n.overlap / ((1/2 * cfg.overlapPct) * (1 + cfg.overlapPct)) else n.radius * 2) * cfg.overlapPct) - (n.radius + n.overlap)), if octant_index_from_xyz (i1.x + i2.x + i3.x) (i1.y + i2.y + i3.y) (i1.z + i2.z + i3.z) &&& 4 ≠ 0 then (((if cfg.overlapPct > 0 then n.overlap / ((1/2 * cfg.overlapPct) * (1 + cfg.overlapPct)) else n.radius * 2) + (if cfg.overlapPct > 0 then n.overlap / ((1/2 * cfg.overlapPct) * (1 + cfg.overlapPct)) else n.radius * 2) * cfg.overlapPct) - (n.radius + n.overlap)) else -(((if cfg.overlapPct > 0 then n.overlap / ((1/2 * cfg.overlapPct) * (1 + cfg.overlapPct)) else n.radius * 2) + (if cfg.overlapPct > 0 then n.overlap / ((1/2 * cfg.overlapPct) * (1 + cfg.overlapPct)) else n.radius * 2) * cfg.overlapPct) - (n.radius + n.overlap))⟩ : Vec3)) (if cfg.overlapPct > 0 then n.overlap / ((1/2 * cfg.overlapPct) * (1 + cfg.overlapPct)) else n.radius * 2) none none none).nodesIndices ++ [((octant_index_from_xyz (-(i1.x + i2.x + i3.x)) (-(i1.y + i2.y + i3.y)) (-(i1.z + i2.z + i3.z)) : ℕ) : ℤ)]), nodesByIndex := upd_assoc (mk_octree_node cfg core.nodeCount (Vec3.add n.position (⟨if octant_index_from_xyz (i1.x + i2.x + i3.x) (i1.y + i2.y + i3.y) (i1.z + i2.z + i3.z) &&& 1 ≠ 0 then (((if cfg.overlapPct > 0 then n.overlap / ((1/2 * cfg.overlapPct) * (1 + cfg.overlapPct)) else n.radius * 2) + (if cfg.overlapPct > 0 then n.overlap / ((1/2 * cfg.overlapPct) * (1 + cfg.overlapPct)) else n.radius * 2) * cfg.overlapPct) - (n.radius + n.overlap)) else -(((if cfg.overlapPct > 0 then n.overlap / ((1/2 * cfg.overlapPct) * (1 + cfg.overlapPct)) else n.radius * 2) + (if cfg.overlapPct > 0 then n.overlap / ((1/2 * cfg.overlapPct) * (1 + cfg.overlapPct)) else n.radius * 2) * cfg.overlapPct) - (n.radius + n.overlap)), if octant_index_from_xyz (i1.x + i2.x + i3.x) (i1.y + i2.y + i3.y) (i1.z + i2.z + i3.z) &&& 2 ≠ 0 then (((if cfg.overlapPct > 0 then n.overlap / ((1/2 * cfg.overlapPct) * (1 + cfg.overlapPct)) else n.radius * 2) + (if cfg.overlapPct > 0 then n.overlap / ((1/2 * cfg.overlapPct) * (1 + cfg.overlapPct)) else n.radius * 2) * cfg.overlapPct) - (n.radius + n.overlap)) else -(((if cfg.overlapPct > 0 then n.overlap / ((1/2 * cfg.overlapPct) * (1 + cfg.overlapPct)) else n.radius * 2) + (if cfg.overlapPct > 0 then n.overlap / ((1/2 * cfg.overlapPct) * (1 + cfg.overlapPct)) else n.radius * 2) * cfg.overlapPct) - (n.radius + n.overlap)), if octant_index_from_xyz (i1.x + i2.x + i3.x) (i1.y + i2.y + i3.y) (i1.z + i2.z + i3.z) &&& 4 ≠ 0 then (((if cfg.overlapPct > 0 then n.overlap / ((1/2 * cfg.overlapPct) * (1 + cfg.overlapPct)) else n.radius * 2) + (if cfg.overlapPct > 0 then n.overlap / ((1/2 * cfg.overlapPct) * (1 + cfg.overlapPct)) else n.radius * 2) * cfg.overlapPct) - (n.radius + n.overlap)) else -(((if cfg.overlapPct > 0 then n.overlap / ((1/2 * cfg.overlapPct) * (1 + cfg.overlapPct)) else n.radius * 2) + (if cfg.overlapPct > 0 then n.overlap / ((1/2 * cfg.overlapPct) * (1 + cfg.overlapPct)) else n.radius * 2) * cfg.overlapPct) - (n.radius + n.overlap))⟩ : Vec3)) (if cfg.overlapPct > 0 then n.overlap / ((1/2 * cfg.overlapPct) * (1 + cfg.overlapPct)) else n.radius * 2) none none none).nodesByIndex ((octant_index_from_xyz (-(i1.x + i2.x + i3.x)) (-(i1.y + i2.y + i3.y)) (-(i1.z + i2.z + i3.z)) : ℕ) : ℤ) nid } : NodeRec)) ({ n with indexOctant := some ((octant_index_from_xyz (-(i1.x + i2.x + i3.x)) (-(i1.y + i2.y + i3.y)) (-(i1.z + i2.z + i3.z)) : ℕ) : ℤ), parent := some core.nodeCount, depth := (mk_octree_node cfg core.nodeCount (Vec3.add n.position (⟨if octant_index_from_xyz (i1.x + i2.x + i3.x) (i1.y + i2.y + i3.y) (i1.z + i2.z + i3.z) &&& 1 ≠ 0 then (((if cfg.overlapPct > 0 then n.overlap / ((1/2 * cfg.overlapPct) * (1 + cfg.overlapPct)) else n.radius * 2) + (if cfg.overlapPct > 0 then n.overlap / ((1/2 * cfg.overlapPct) * (1 + cfg.overlapPct)) else n.radius * 2) * cfg.overlapPct) - (n.radius + n.overlap)) else -(((if cfg.overlapPct > 0 then n.overlap / ((1/2 * cfg.overlapPct) * (1 + cfg.overlapPct)) else n.radius * 2) + (if cfg.overlapPct > 0 then n.overlap / ((1/2 * cfg.overlapPct) * (1 + cfg.overlapPct)) else n.radius * 2) * cfg.overlapPct) - (n.radius + n.overlap)), if octant_index_from_xyz (i1.x + i2.x + i3.x) (i1.y + i2.y + i3.y) (i1.z + i2.z + i3.z) &&& 2 ≠ 0 then (((if cfg.overlapPct > 0 then n.overlap / ((1/2 * cfg.overlapPct) * (1 + cfg.overlapPct)) else n.radius * 2) + (if cfg.overlapPct > 0 then n.overlap / ((1/2 * cfg.overlapPct) * (1 + cfg.overlapPct)) else n.radius * 2) * cfg.overlapPct) - (n.radius + n.overlap)) else -(((if cfg.overlapPct > 0 then n.overlap / ((1/2 * cfg.overlapPct) * (1 + cfg.overlapPct)) else n.radius * 2) + (if cfg.overlapPct > 0 then n.overlap / ((1/2 * cfg.overlapPct) * (1 + cfg.overlapPct)) else n.radius * 2) * cfg.overlapPct) - (n.radius + n.overlap)), if octant_index_from_xyz (i1.x + i2.x + i3.x) (i1.y + i2.y + i3.y) (i1.z + i2.z + i3.z) &&& 4 ≠ 0 then (((if cfg.overlapPct > 0 then n.overlap / ((1/2 * cfg.overlapPct) * (1 + cfg.overlapPct)) else n.radius * 2) + (if cfg.overlapPct > 0 then n.overlap / ((1/2 * cfg.overlapPct) * (1 + cfg.overlapPct)) else n.radius * 2) * cfg.overlapPct) - (n.radius + n.overlap)) else -(((if cfg.overlapPct > 0 then n.overlap / ((1/2 * cfg.overlapPct) * (1 + cfg.overlapPct)) else n.radius * 2) + (if cfg.overlapPct > 0 then n.overlap / ((1/2 * cfg.overlapPct) * (1 + cfg.overlapPct)) else n.radius * 2) * cfg.overlapPct) - (n.radius + n.overlap))⟩ : Vec3)) (if cfg.overlapPct > 0 then n.overlap / ((1/2 * cfg.overlapPct) * (1 + cfg.overlapPct)) else n.radius * 2) none none none).depth + 1 } : NodeRec)) core.nodeCount = some ({ (mk_octree_node cfg core.nodeCount (Vec3.add n.position (⟨if octant_index_from_xyz (i1.x + i2.x + i3.x) (i1.y + i2.y + i3.y) (i1.z + i2.z + i3.z) &&& 1 ≠ 0 then (((if cfg.overlapPct > 0 then n.overlap / ((1/2 * cfg.overlapPct) * (1 + cfg.overlapPct)) else n.radius * 2) + (if cfg.overlapPct > 0 then n.overlap / ((1/2 * cfg.overlapPct) * (1 + cfg.overlapPct)) else n.radius * 2) * cfg.overlapPct) - (n.radius + n.overlap)) else -(((if cfg.overlapPct > 0 then n.overlap / ((1/2 * cfg.overlapPct) * (1 + cfg.overlapPct)) else n.radius * 2) + (if cfg.overlapPct > 0 then n.overlap / ((1/2 * cfg.overlapPct) * (1 + cfg.overlapPct)) else n.radius * 2) * cfg.overlapPct) - (n.radius + n.overlap)), if octant_index_from_xyz (i1.x + i2.x + i3.x) (i1.y + i2.y + i3.y) (i1.z + i2.z + i3.z) &&& 2 ≠ 0 then (((if cfg.overlapPct > 0 then n.overlap / ((1/2 * cfg.overlapPct) * (1 + cfg.overlapPct)) else n.radius * 2) + (if cfg.overlapPct > 0 then n.overlap / ((1/2 * cfg.overlapPct) * (1 + cfg.overlapPct)) else n.radius * 2) * cfg.overlapPct) - (n.radius + n.overlap)) else -(((if cfg.overlapPct > 0 then n.overlap / ((1/2 * cfg.overlapPct) * (1 + cfg.overlapPct)) else n.radius * 2) + (if cfg.overlapPct > 0 then n.overlap / ((1/2 * cfg.overlapPct) * (1 + cfg.overlapPct)) else n.radius * 2) * cfg.overlapPct) - (n.radius + n.overlap)), if octant_index_from_xyz (i1.x + i2.x + i3.x) (i1.y + i2.y + i3.y) (i1.z + i2.z + i3.z) &&& 4 ≠ 0 then (((if cfg.overlapPct > 0 then n.overlap / ((1/2 * cfg.overlapPct) * (1 + cfg.overlapPct)) else n.radius * 2) + (if cfg.overlapPct > 0 then n.overlap / ((1/2 * cfg.overlapPct) * (1 + cfg.overlapPct)) else n.radius * 2) * cfg.overlapPct) - (n.radius + n.overlap)) else -(((if cfg.overlapPct > 0 then n.overlap / ((1/2 * cfg.overlapPct) * (1 + cfg.overlapPct)) else n.radius * 2) + (if cfg.overlapPct > 0 then n.overlap / ((1/2 * cfg.overlapPct) * (1 + cfg.overlapPct)) else n.radius * 2) * cfg.overlapPct) - (n.radius + n.overlap))⟩ : Vec3)) (if cfg.overlapPct > 0 then n.overlap / ((1/2 * cfg.overlapPct) * (1 + cfg.overlapPct)) else n.radius * 2) none none none) with nodesIndices := (if ((octant_index_from_xyz (-(i1.x + i2.x + i3.x)) (-(i1.y + i2.y + i3.y)) (-(i1.z + i2.z + i3.z)) : ℕ) : ℤ) ∈ (mk_octree_node cfg core.nodeCount (Vec3.add n.position (⟨if octant_index_from_xyz (i1.x + i2.x + i3.x) (i1.y + i2.y + i3.y) (i1.z + i2.z + i3.z) &&& 1 ≠ 0 then (((if cfg.overlapPct > 0 then n.overlap / ((1/2 * cfg.overlapPct) * (1 + cfg.overlapPct)) else n.radius * 2) + (if cfg.overlapPct > 0 then n.overlap / ((1/2 * cfg.overlapPct) * (1 + cfg.overlapPct)) else n.radius * 2) * cfg.overlapPct) - (n.radius + n.overlap)) else -(((if cfg.overlapPct > 0 then n.overlap / ((1/2 * cfg.overlapPct) * (1 + cfg.overlapPct)) else n.radius * 2) + (if cfg.overlapPct > 0 then n.overlap / ((1/2 * cfg.overlapPct) * (1 + cfg.overlapPct)) else n.radius * 2) * cfg.overlapPct) - (n.radius + n.overlap)), if octant_index_from_xyz (i1.x + i2.x + i3.x) (i1.y + i2.y + i3.y) (i1.z + i2.z + i3.z) &&& 2 ≠ 0 then (((if cfg.overlapPct > 0 then n.overlap / ((1/2 * cfg.overlapPct) * (1 + cfg.overlapPct)) else n.radius * 2) + (if cfg.overlapPct > 0 then n.overlap / ((1/2 * cfg.overlapPct) * (1 + cfg.overlapPct)) else n.radius * 2) * cfg.overlapPct) - (n.radius + n.overlap)) else -(((if cfg.overlapPct > 0 then n.overlap / ((1/2 * cfg.overlapPct) * (1 + cfg.overlapPct)) else n.radius * 2) + (if cfg.overlapPct > 0 then n.overlap / ((1/2 * cfg.overlapPct) * (1 + cfg.overlapPct)) else n.radius * 2) * cfg.overlapPct) - (n.radius + n.overlap)), if octant_index_from_xyz (i1.x + i2.x + i3.x) (i1.y + i2.y + i3.y) (i1.z + i2.z + i3.z) &&& 4 ≠ 0 then (((if cfg.overlapPct > 0 then n.overlap / ((1/2 * cfg.overlapPct) * (1 + cfg.overlapPct)) else n.radius * 2) + (if cfg.overlapPct > 0 then n.overlap / ((1/2 * cfg.overlapPct) * (1 + cfg.overlapPct)) else n.radius * 2) * cfg.overlapPct) - (n.radius + n.overlap)) else -(((if cfg.overlapPct > 0 then n.overlap / ((1/2 * cfg.overlapPct) * (1 + cfg.overlapPct)) else n.radius * 2) + (if cfg.overlapPct > 0 then n.overlap / ((1/2 * cfg.overlapPct) * (1 + cfg.overlapPct)) else n.radius * 2) * cfg.overlapPct) - (n.radius + n.overlap))⟩ : Vec3)) (if cfg.overlapPct > 0 then n.overlap / ((1/2 * cfg.overlapPct) * (1 + cfg.overlapPct)) else n.radius * 2) none none none).nodesIndices then (mk_octree_node cfg core.nodeCount (Vec3.add n.position (⟨if octant_index_from_xyz (i1.x + i2.x + i3.x) (i1.y + i2.y + i3.y) (i1.z + i2.z + i3.z) &&& 1 ≠ 0 then (((if cfg.overlapPct > 0 then n.overlap / ((1/2 * cfg.overlapPct) * (1 + cfg.overlapPct)) else n.radius * 2) + (if cfg.overlapPct > 0 then n.overlap / ((1/2 * cfg.overlapPct) * (1 + cfg.overlapPct)) else n.radius * 2) * cfg.overlapPct) - (n.radius + n.overlap)) else -(((if cfg.overlapPct > 0 then n.overlap / ((1/2 * cfg.overlapPct) * (1 + cfg.overlapPct)) else n.radius * 2) + (if cfg.overlapPct > 0 then n.overlap / ((1/2 * cfg.overlapPct) * (1 + cfg.overlapPct)) else n.radius * 2) * cfg.overlapPct) - (n.radius + n.overlap)), if octant_index_from_xyz (i1.x + i2.x + i3.x) (i1.y + i2.y + i3.y) (i1.z + i2.z + i3.z) &&& 2 ≠ 0 then (((if cfg.overlapPct > 0 then n.overlap / ((1/2 * cfg.overlapPct) * (1 + cfg.overlapPct)) else n.radius * 2) + (if cfg.overlapPct > 0 then n.overlap / ((1/2 * cfg.overlapPct) * (1 + cfg.overlapPct)) else n.radius * 2) * cfg.overlapPct) - (n.radius + n.overlap)) else -(((if cfg.overlapPct > 0 then n.overlap / ((1/2 * cfg.overlapPct) * (1 + cfg.overlapPct)) else n.radius * 2) + (if cfg.overlapPct > 0 then n.overlap / ((1/2 * cfg.overlapPct) * (1 + cfg.overlapPct)) else n.radius * 2) * cfg.overlapPct) - (n.radius + n.overlap)), if octant_index_from_xyz (i1.x + i2.x + i3.x) (i1.y + i2.y + i3.y) (i1.z + i2.z + i3.z) &&& 4 ≠ 0 then (((if cfg.overlapPct > 0 then n.overlap / ((1/2 * cfg.overlapPct) * (1 + cfg.overlapPct)) else n.radius * 2) + (if cfg.overlapPct > 0 then n.overlap / ((1/2 * cfg.overlapPct) * (1 + cfg.overlapPct)) else n.radius * 2) * cfg.overlapPct) - (n.radius + n.overlap)) else -(((if cfg.overlapPct > 0 then n.overlap / ((1/2 * cfg.overlapPct) * (1 + cfg.overlapPct)) else n.radius * 2) + (if cfg.overlapPct > 0 then n.overlap / ((1/2 * cfg.overlapPct) * (1 + cfg.overlapPct)) else n.radius * 2) * cfg.overlapPct) - (n.radius + n.overlap))⟩ : Vec3)) (if cfg.overlapPct > 0 then n.overlap / ((1/2 * cfg.overlapPct) * (1 + cfg.overlapPct)) else n.radius * 2) none none none).nodesIndices else (mk_octree_node cfg core.nodeCount (Vec3.add n.position (⟨if octant_index_from_xyz (i1.x + i2.x + i3.x) (i1.y + i2.y + i3.y) (i1.z + i2.z + i3.z) &&& 1 ≠ 0 then (((if cfg.overlapPct > 0 then n.overlap / ((1/2 * cfg.overlapPct) * (1 + cfg.overlapPct)) else n.radius * 2) + (if cfg.overlapPct > 0 then n.overlap / ((1/2 * cfg.overlapPct) * (1 + cfg.overlapPct)) else n.radius * 2) * cfg.overlapPct) - (n.radius + n.overlap)) else -(((if cfg.overlapPct > 0 then n.overlap / ((1/2 * cfg.overlapPct) * (1 + cfg.overlapPct)) else n.radius * 2) + (if cfg.overlapPct > 0 then n.overlap / ((1/2 * cfg.overlapPct) * (1 + cfg.overlapPct)) else n.radius * 2) * cfg.overlapPct) - (n.radius + n.overlap)), if octant_index_from_xyz (i1.x + i2.x + i3.x) (i1.y + i2.y + i3.y) (i1.z + i2.z + i3.z) &&& 2 ≠ 0 then (((if cfg.overlapPct > 0 then n.overlap / ((1/2 * cfg.overlapPct) * (1 + cfg.overlapPct)) else n.radius * 2) + (if cfg.overlapPct > 0 then n.overlap / ((1/2 * cfg.overlapPct) * (1 + cfg.overlapPct)) else n.radius * 2) * cfg.overlapPct) - (n.radius + n.overlap)) else -(((if cfg.overlapPct > 0 then n.overlap / ((1/2 * cfg.overlapPct) * (1 + cfg.overlapPct)) else n.radius * 2) + (if cfg.overlapPct > 0 then n.overlap / ((1/2 * cfg.overlapPct) * (1 + cfg.overlapPct)) else n.radius * 2) * cfg.overlapPct) - (n.radius + n.overlap)), if octant_index_from_xyz (i1.x + i2.x + i3.x) (i1.y + i2.y + i3.y) (i1.z + i2.z + i3.z) &&& 4 ≠ 0 then (((if cfg.overlapPct > 0 then n.overlap / ((1/2 * cfg.overlapPct) * (1 + cfg.overlapPct)) else n.radius * 2) + (if cfg.overlapPct > 0 then n.overlap / ((1/2 * cfg.overlapPct) * (1 + cfg.overlapPct)) else n.radius * 2) * cfg.overlapPct) - (n.radius + n.overlap)) else -(((if cfg.overlapPct > 0 then n.overlap / ((1/2 * cfg.overlapPct) * (1 + cfg.overlapPct)) else n.radius * 2) + (if cfg.overlapPct > 0 then n.overlap / ((1/2 * cfg.overlapPct) * (1 + cfg.overlapPct)) else n.radius * 2) * cfg.overlapPct) - (n.radius + n.overlap))⟩ : Vec3)) (if cfg.overlapPct > 0 then n.overlap / ((1/2 * cfg.overlapPct) * (1 + cfg.overlapPct)) else n.radius * 2) none none none).nodesIndices ++ [((octant_index_from_xyz (-(i1.x + i2.x + i3.x)) (-(i1.y + i2.y + i3.y)) (-(i1.z + i2.z + i3.z)) : ℕ) : ℤ)]), nodesByIndex := upd_assoc (mk_octree_node cfg core.nodeCount (Vec3.add n.position (⟨if octant_index_from_xyz (i1.x + i2.x + i3.x) (i1.y + i2.y + i3.y) (i1.z + i2.z + i3.z) &&& 1 ≠ 0 then (((if cfg.overlapPct > 0 then n.overlap / ((1/2 * cfg.overlapPct) * (1 + cfg.overlapPct)) else n.radius * 2) + (if cfg.overlapPct > 0 then n.overlap / ((1/2 * cfg.overlapPct) * (1 + cfg.overlapPct)) else n.radius * 2) * cfg.overlapPct) - (n.radius + n.overlap)) else -(((if cfg.overlapPct > 0 then n.overlap / ((1/2 * cfg.overlapPct) * (1 + cfg.overlapPct)) else n.radius * 2) + (if cfg.overlapPct > 0 then n.overlap / ((1/2 * cfg.overlapPct) * (1 + cfg.overlapPct)) else n.radius * 2) * cfg.overlapPct) - (n.radius + n.overlap)), if octant_index_from_xyz (i1.x + i2.x + i3.x) (i1.y + i2.y + i3.y) (i1.z + i2.z + i3.z) &&& 2 ≠ 0 then (((if cfg.overlapPct > 0 then n.overlap / ((1/2 * cfg.overlapPct) * (1 + cfg.overlapPct)) else n.radius * 2) + (if cfg.overlapPct > 0 then n.overlap / ((1/2 * cfg.overlapPct) * (1 + cfg.overlapPct)) else n.radius * 2) * cfg.overlapPct) - (n.radius + n.overlap)) else -(((if cfg.overlapPct > 0 then n.overlap / ((1/2 * cfg.overlapPct) * (1 + cfg.overlapPct)) else n.radius * 2) + (if cfg.overlapPct > 0 then n.overlap / ((1/2 * cfg.overlapPct) * (1 + cfg.overlapPct)) else n.radius * 2) * cfg.overlapPct) - (n.radius + n.overlap)), if octant_index_from_xyz (i1.x + i2.x + i3.x) (i1.y + i2.y + i3.y) (i1.z + i2.z + i3.z) &&& 4 ≠ 0 then (((if cfg.overlapPct > 0 then n.overlap / ((1/2 * cfg.overlapPct) * (1 + cfg.overlapPct)) else n.radius * 2) + (if cfg.overlapPct > 0 then n.overlap / ((1/2 * cfg.overlapPct) * (1 + cfg.overlapPct)) else n.radius * 2) * cfg.overlapPct) - (n.radius + n.overlap)) else -(((if cfg.overlapPct > 0 then n.overlap / ((1/2 * cfg.overlapPct) * (1 + cfg.overlapPct)) else n.radius * 2) + (if cfg.overlapPct > 0 then n.overlap / ((1/2 * cfg.overlapPct) * (1 + cfg.overlapPct)) else n.radius * 2) * cfg.overlapPct) - (n.radius + n.overlap))⟩ : Vec3)) (if cfg.overlapPct > 0 then n.overlap / ((1/2 * cfg.overlapPct) * (1 + cfg.overlapPct)) else n.radius * 2) none none none).nodesByIndex ((octant_index_from_xyz (-(i1.x + i2.x + i3.x)) (-(i1.y + i2.y + i3.y)) (-(i1.z + i2.z + i3.z)) : ℕ) : ℤ) nid } : NodeRec) := by
    rw [getNode_setNode_ne _ _ _
      (show core.nodeCount ≠ (({ n with indexOctant := some ((octant_index_from_xyz (-(i1.x + i2.x + i3.x)) (-(i1.y + i2.y + i3.y)) (-(i1.z + i2.z + i3.z)) : ℕ) : ℤ), parent := some core.nodeCount, depth := (mk_octree_node cfg core.nodeCount (Vec3.add n.position (⟨if octant_index_from_xyz (i1.x + i2.x + i3.x) (i1.y + i2.y + i3.y) (i1.z + i2.z + i3.z) &&& 1 ≠ 0 then (((if cfg.overlapPct > 0 then n.overlap / ((1/2 * cfg.overlapPct) * (1 + cfg.overlapPct)) else n.radius * 2) + (if cfg.overlapPct > 0 then n.overlap / ((1/2 * cfg.overlapPct) * (1 + cfg.overlapPct)) else n.radius * 2) * cfg.overlapPct) - (n.radius + n.overlap)) else -(((if cfg.overlapPct > 0 then n.overlap / ((1/2 * cfg.overlapPct) * (1 + cfg.overlapPct)) else n.radius * 2) + (if cfg.overlapPct > 0 then n.overlap / ((1/2 * cfg.overlapPct) * (1 + cfg.overlapPct)) else n.radius * 2) * cfg.overlapPct) - (n.radius + n.overlap)), if octant_index_from_xyz (i1.x + i2.x + i3.x) (i1.y + i2.y + i3.y) (i1.z + i2.z + i3.z) &&& 2 ≠ 0 then (((if cfg.overlapPct > 0 then n.overlap / ((1/2 * cfg.overlapPct) * (1 + cfg.overlapPct)) else n.radius * 2) + (if cfg.overlapPct > 0 then n.overlap / ((1/2 * cfg.overlapPct) * (1 + cfg.overlapPct)) else n.radius * 2) * cfg.overlapPct) - (n.radius + n.overlap)) else -(((if cfg.overlapPct > 0 then n.overlap / ((1/2 * cfg.overlapPct) * (1 + cfg.overlapPct)) else n.radius * 2) + (if cfg.overlapPct > 0 then n.overlap / ((1/2 * cfg.overlapPct) * (1 + cfg.overlapPct)) else n.radius * 2) * cfg.overlapPct) - (n.radius + n.overlap)), if octant_index_from_xyz (i1.x + i2.x + i3.x) (i1.y + i2.y + i3.y) (i1.z + i2.z + i3.z) &&& 4 ≠ 0 then (((if cfg.overlapPct > 0 then n.overlap / ((1/2 * cfg.overlapPct) * (1 + cfg.overlapPct)) else n.radius * 2) + (if cfg.overlapPct > 0 then n.overlap / ((1/2 * cfg.overlapPct) * (1 + cfg.overlapPct)) else n.radius * 2) * cfg.overlapPct) - (n.radius + n.overlap)) else -(((if cfg.overlapPct > 0 then n.overlap / ((1/2 * cfg.overlapPct) * (1 + cfg.overlapPct)) else n.radius * 2) + (if cfg.overlapPct > 0 then n.overlap / ((1/2 * cfg.overlapPct) * (1 + cfg.overlapPct)) else n.radius * 2) * cfg.overlapPct) - (n.radius + n.overlap))⟩ : Vec3)) (if cfg.overlapPct > 0 then n.overlap / ((1/2 * cfg.overlapPct) * (1 + cfg.overlapPct)) else n.radius * 2) none none none).depth + 1 } : NodeRec)).id from by
        rw [show (({ n with indexOctant := some ((octant_index_from_xyz (-(i1.x + i2.x + i3.x)) (-(i1.y + i2.y + i3.y)) (-(i1.z + i2.z + i3.z)) : ℕ) : ℤ), parent := some core.nodeCount, depth := (mk_octree_node cfg core.nodeCount (Vec3.add n.position (⟨if octant_index_from_xyz (i1.x + i2.x + i3.x) (i1.y + i2.y + i3.y) (i1.z + i2.z + i3.z) &&& 1 ≠ 0 then (((if cfg.overlapPct > 0 then n.overlap / ((1/2 * cfg.overlapPct) * (1 + cfg.overlapPct)) else n.radius * 2) + (if cfg.overlapPct > 0 then n.overlap / ((1/2 * cfg.overlapPct) * (1 + cfg.overlapPct)) else n.radius * 2) * cfg.overlapPct) - (n.radius + n.overlap)) else -(((if cfg.overlapPct > 0 then n.overlap / ((1/2 * cfg.overlapPct) * (1 + cfg.overlapPct)) else n.radius * 2) + (if cfg.overlapPct > 0 then n.overlap / ((1/2 * cfg.overlapPct) * (1 + cfg.overlapPct)) else n.radius * 2) * cfg.overlapPct) - (n.radius + n.overlap)), if octant_index_from_xyz (i1.x + i2.x + i3.x) (i1.y + i2.y + i3.y) (i1.z + i2.z + i3.z) &&& 2 ≠ 0 then (((if cfg.overlapPct > 0 then n.overlap / ((1/2 * cfg.overlapPct) * (1 + cfg.overlapPct)) else n.radius * 2) + (if cfg.overlapPct > 0 then n.overlap / ((1/2 * cfg.overlapPct) * (1 + cfg.overlapPct)) else n.radius * 2) * cfg.overlapPct) - (n.radius + n.overlap)) else -(((if cfg.overlapPct > 0 then n.overlap / ((1/2 * cfg.overlapPct) * (1 + cfg.overlapPct)) else n.radius * 2) + (if cfg.overlapPct > 0 then n.overlap / ((1/2 * cfg.overlapPct) * (1 + cfg.overlapPct)) else n.radius * 2) * cfg.overlapPct) - (n.radius + n.overlap)), if octant_index_from_xyz (i1.x + i2.x + i3.x) (i1.y + i2.y + i3.y) (i1.z + i2.z + i3.z) &&& 4 ≠ 0 then (((if cfg.overlapPct > 0 then n.overlap / ((1/2 * cfg.overlapPct) * (1 + cfg.overlapPct)) else n.radius * 2) + (if cfg.overlapPct > 0 then n.overlap / ((1/2 * cfg.overlapPct) * (1 + cfg.overlapPct)) else n.radius * 2) * cfg.overlapPct) - (n.radius + n.overlap)) else -(((if cfg.overlapPct > 0 then n.overlap / ((1/2 * cfg.overlapPct) * (1 + cfg.overlapPct)) else n.radius * 2) + (if cfg.overlapPct > 0 then n.overlap / ((1/2 * cfg.overlapPct) * (1 + cfg.overlapPct)) else n.radius * 2) * cfg.overlapPct) - (n.radius + n.overlap))⟩ : Vec3)) (if cfg.overlapPct > 0 then n.overlap / ((1/2 * cfg.overlapPct) * (1 + cfg.overlapPct)) else n.radius * 2) none none none).depth + 1 } : NodeRec)).id = nid from hid]
        exact Ne.symm hnec)]
    exact getNode_setNode_self_key _ ({ (mk_octree_node cfg core.nodeCount (Vec3.add n.position (⟨if octant_index_from_xyz (i1.x + i2.x + i3.x) (i1.y + i2.y + i3.y) (i1.z + i2.z + i3.z) &&& 1 ≠ 0 then (((if cfg.overlapPct > 0 then n.overlap / ((1/2 * cfg.overlapPct) * (1 + cfg.overlapPct)) else n.radius * 2) + (if cfg.overlapPct > 0 then n.overlap / ((1/2 * cfg.overlapPct) * (1 + cfg.overlapPct)) else n.radius * 2) * cfg.overlapPct) - (n.radius + n.overlap)) else -(((if cfg.overlapPct > 0 then n.overlap / ((1/2 * cfg.overlapPct) * (1 + cfg.overlapPct)) else n.radius * 2) + (if cfg.overlapPct > 0 then n.overlap / ((1/2 * cfg.overlapPct) * (1 + cfg.overlapPct)) else n.radius * 2) * cfg.overlapPct) - (n.radius + n.overlap)), if octant_index_from_xyz (i1.x + i2.x + i3.x) (i1.y + i2.y + i3.y) (i1.z + i2.z + i3.z) &&& 2 ≠ 0 then (((if cfg.overlapPct > 0 then n.overlap / ((1/2 * cfg.overlapPct) * (1 + cfg.overlapPct)) else n.radius * 2) + (if cfg.overlapPct > 0 then n.overlap / ((1/2 * cfg.overlapPct) * (1 + cfg.overlapPct)) else n.radius * 2) * cfg.overlapPct) - (n.radius + n.overlap)) else -(((if cfg.overlapPct > 0 then n.overlap / ((1/2 * cfg.overlapPct) * (1 + cfg.overlapPct)) else n.radius * 2) + (if cfg.overlapPct > 0 then n.overlap / ((1/2 * cfg.overlapPct) * (1 + cfg.overlapPct)) else n.radius * 2) * cfg.overlapPct) - (n.radius + n.overlap)), if octant_index_from_xyz (i1.x + i2.x + i3.x) (i1.y + i2.y + i3.y) (i1.z + i2.z + i3.z) &&& 4 ≠ 0 then (((if cfg.overlapPct > 0 then n.overlap / ((1/2 * cfg.overlapPct) * (1 + cfg.overlapPct)) else n.radius * 2) + (if cfg.overlapPct > 0 then n.overlap / ((1/2 * cfg.overlapPct) * (1 + cfg.overlapPct)) else n.radius * 2) * cfg.overlapPct) - (n.radius + n.overlap)) else -(((if cfg.overlapPct > 0 then n.overlap / ((1/2 * cfg.overlapPct) * (1 + cfg.overlapPct)) else n.radius * 2) + (if cfg.overlapPct > 0 then n.overlap / ((1/2 * cfg.overlapPct) * (1 + cfg.overlapPct)) else n.radius * 2) * cfg.overlapPct) - (n.radius + n.overlap))⟩ : Vec3)) (if cfg.overlapPct > 0 then n.overlap / ((1/2 * cfg.overlapPct) * (1 + cfg.overlapPct)) else n.radius * 2) none none none) with nodesIndices := (if ((octant_index_from_xyz (-(i1.x + i2.x + i3.x)) (-(i1.y + i2.y + i3.y)) (-(i1.z + i2.z + i3.z)) : ℕ) : ℤ) ∈ (mk_octree_node cfg core.nodeCount (Vec3.add n.position (⟨if octant_index_from_xyz (i1.x + i2.x + i3.x) (i1.y + i2.y + i3.y) (i1.z + i2.z + i3.z) &&& 1 ≠ 0 then (((if cfg.overlapPct > 0 then n.overlap / ((1/2 * cfg.overlapPct) * (1 + cfg.overlapPct)) else n.radius * 2) + (if cfg.overlapPct > 0 then n.overlap / ((1/2 * cfg.overlapPct) * (1 + cfg.overlapPct)) else n.radius * 2) * cfg.overlapPct) - (n.radius + n.overlap)) else -(((if cfg.overlapPct > 0 then n.overlap / ((1/2 * cfg.overlapPct) * (1 + cfg.overlapPct)) else n.radius * 2) + (if cfg.overlapPct > 0 then n.overlap / ((1/2 * cfg.overlapPct) * (1 + cfg.overlapPct)) else n.radius * 2) * cfg.overlapPct) - (n.radius + n.overlap)), if octant_index_from_xyz (i1.x + i2.x + i3.x) (i1.y + i2.y + i3.y) (i1.z + i2.z + i3.z) &&& 2 ≠ 0 then (((if cfg.overlapPct > 0 then n.overlap / ((1/2 * cfg.overlapPct) * (1 + cfg.overlapPct)) else n.radius * 2) + (if cfg.overlapPct > 0 then n.overlap / ((1/2 * cfg.overlapPct) * (1 + cfg.overlapPct)) else n.radius * 2) * cfg.overlapPct) - (n.radius + n.overlap)) else -(((if cfg.overlapPct > 0 then n.overlap / ((1/2 * cfg.overlapPct) * (1 + cfg.overlapPct)) else n.radius * 2) + (if cfg.overlapPct > 0 then n.overlap / ((1/2 * cfg.overlapPct) * (1 + cfg.overlapPct)) else n.radius * 2) * cfg.overlapPct) - (n.radius + n.overlap)), if octant_index_from_xyz (i1.x + i2.x + i3.x) (i1.y + i2.y + i3.y) (i1.z + i2.z + i3.z) &&& 4 ≠ 0 then (((if cfg.overlapPct > 0 then n.overlap / ((1/2 * cfg.overlapPct) * (1 + cfg.overlapPct)) else n.radius * 2) + (if cfg.overlapPct > 0 then n.overlap / ((1/2 * cfg.overlapPct) * (1 + cfg.overlapPct)) else n.radius * 2) * cfg.overlapPct) - (n.radius + n.overlap)) else -(((if cfg.overlapPct > 0 then n.overlap / ((1/2 * cfg.overlapPct) * (1 + cfg.overlapPct)) else n.radius * 2) + (if cfg.overlapPct > 0 then n.overlap / ((1/2 * cfg.overlapPct) * (1 + cfg.overlapPct)) else n.radius * 2) * cfg.overlapPct) - (n.radius + n.overlap))⟩ : Vec3)) (if cfg.overlapPct > 0 then n.overlap / ((1/2 * cfg.overlapPct) * (1 + cfg.overlapPct)) else n.radius * 2) none none none).nodesIndices then (mk_octree_node cfg core.nodeCount (Vec3.add n.position (⟨if octant_index_from_xyz (i1.x + i2.x + i3.x) (i1.y + i2.y + i3.y) (i1.z + i2.z + i3.z) &&& 1 ≠ 0 then (((if cfg.overlapPct > 0 then n.overlap / ((1/2 * cfg.overlapPct) * (1 + cfg.overlapPct)) else n.radius * 2) + (if cfg.overlapPct > 0 then n.overlap / ((1/2 * cfg.overlapPct) * (1 + cfg.overlapPct)) else n.radius * 2) * cfg.overlapPct) - (n.radius + n.overlap)) else -(((if cfg.overlapPct > 0 then n.overlap / ((1/2 * cfg.overlapPct) * (1 + cfg.overlapPct)) else n.radius * 2) + (if cfg.overlapPct > 0 then n.overlap / ((1/2 * cfg.overlapPct) * (1 + cfg.overlapPct)) else n.radius * 2) * cfg.overlapPct) - (n.radius + n.overlap)), if octant_index_from_xyz (i1.x + i2.x + i3.x) (i1.y + i2.y + i3.y) (i1.z + i2.z + i3.z) &&& 2 ≠ 0 then (((if cfg.overlapPct > 0 then n.overlap / ((1/2 * cfg.overlapPct) * (1 + cfg.overlapPct)) else n.radius * 2) + (if cfg.overlapPct > 0 then n.overlap / ((1/2 * cfg.overlapPct) * (1 + cfg.overlapPct)) else n.radius * 2) * cfg.overlapPct) - (n.radius + n.overlap)) else -(((if cfg.overlapPct > 0 then n.overlap / ((1/2 * cfg.overlapPct) * (1 + cfg.overlapPct)) else n.radius * 2) + (if cfg.overlapPct > 0 then n.overlap / ((1/2 * cfg.overlapPct) * (1 + cfg.overlapPct)) else n.radius * 2) * cfg.overlapPct) - (n.radius + n.overlap)), if octant_index_from_xyz (i1.x + i2.x + i3.x) (i1.y + i2.y + i3.y) (i1.z + i2.z + i3.z) &&& 4 ≠ 0 then (((if cfg.overlapPct > 0 then n.overlap / ((1/2 * cfg.overlapPct) * (1 + cfg.overlapPct)) else n.radius * 2) + (if cfg.overlapPct > 0 then n.overlap / ((1/2 * cfg.overlapPct) * (1 + cfg.overlapPct)) else n.radius * 2) * cfg.overlapPct) - (n.radius + n.overlap)) else -(((if cfg.overlapPct > 0 then n.overlap / ((1/2 * cfg.overlapPct) * (1 + cfg.overlapPct)) else n.radius * 2) + (if cfg.overlapPct > 0 then n.overlap / ((1/2 * cfg.overlapPct) * (1 + cfg.overlapPct)) else n.radius * 2) * cfg.overlapPct) - (n.radius + n.overlap))⟩ : Vec3)) (if cfg.overlapPct > 0 then n.overlap / ((1/2 * cfg.overlapPct) * (1 + cfg.overlapPct)) else n.radius * 2) none none none).nodesIndices else (mk_octree_node cfg core.nodeCount (Vec3.add n.position (⟨if octant_index_from_xyz (i1.x + i2.x + i3.x) (i1.y + i2.y + i3.y) (i1.z + i2.z + i3.z) &&& 1 ≠ 0 then (((if cfg.overlapPct > 0 then n.overlap / ((1/2 * cfg.overlapPct) * (1 + cfg.overlapPct)) else n.radius * 2) + (if cfg.overlapPct > 0 then n.overlap / ((1/2 * cfg.overlapPct) * (1 + cfg.overlapPct)) else n.radius * 2) * cfg.overlapPct) - (n.radius + n.overlap)) else -(((if cfg.overlapPct > 0 then n.overlap / ((1/2 * cfg.overlapPct) * (1 + cfg.overlapPct)) else n.radius * 2) + (if cfg.overlapPct > 0 then n.overlap / ((1/2 * cfg.overlapPct) * (1 + cfg.overlapPct)) else n.radius * 2) * cfg.overlapPct) - (n.radius + n.overlap)), if octant_index_from_xyz (i1.x + i2.x + i3.x) (i1.y + i2.y + i3.y) (i1.z + i2.z + i3.z) &&& 2 ≠ 0 then (((if cfg.overlapPct > 0 then n.overlap / ((1/2 * cfg.overlapPct) * (1 + cfg.overlapPct)) else n.radius * 2) + (if cfg.overlapPct > 0 then n.overlap / ((1/2 * cfg.overlapPct) * (1 + cfg.overlapPct)) else n.radius * 2) * cfg.overlapPct) - (n.radius + n.overlap)) else -(((if cfg.overlapPct > 0 then n.overlap / ((1/2 * cfg.overlapPct) * (1 + cfg.overlapPct)) else n.radius * 2) + (if cfg.overlapPct > 0 then n.overlap / ((1/2 * cfg.overlapPct) * (1 + cfg.overlapPct)) else n.radius * 2) * cfg.overlapPct) - (n.radius + n.overlap)), if octant_index_from_xyz (i1.x + i2.x + i3.x) (i1.y + i2.y + i3.y) (i1.z + i2.z + i3.z) &&& 4 ≠ 0 then (((if cfg.overlapPct > 0 then n.overlap / ((1/2 * cfg.overlapPct) * (1 + cfg.overlapPct)) else n.radius * 2) + (if cfg.overlapPct > 0 then n.overlap / ((1/2 * cfg.overlapPct) * (1 + cfg.overlapPct)) else n.radius * 2) * cfg.overlapPct) - (n.radius + n.overlap)) else -(((if cfg.overlapPct > 0 then n.overlap / ((1/2 * cfg.overlapPct) * (1 + cfg.overlapPct)) else n.radius * 2) + (if cfg.overlapPct > 0 then n.overlap / ((1/2 * cfg.overlapPct) * (1 + cfg.overlapPct)) else n.radius * 2) * cfg.overlapPct) - (n.radius + n.overlap))⟩ : Vec3)) (if cfg.overlapPct > 0 then n.overlap / ((1/2 * cfg.overlapPct) * (1 + cfg.overlapPct)) else n.radius * 2) none none none).nodesIndices ++ [((octant_index_from_xyz (-(i1.x + i2.x + i3.x)) (-(i1.y + i2.y + i3.y)) (-(i1.z + i2.z + i3.z)) : ℕ) : ℤ)]), nodesByIndex := upd_assoc (mk_octree_node cfg core.nodeCount (Vec3.add n.position (⟨if octant_index_from_xyz (i1.x + i2.x + i3.x) (i1.y + i2.y + i3.y) (i1.z + i2.z + i3.z) &&& 1 ≠ 0 then (((if cfg.overlapPct > 0 then n.overlap / ((1/2 * cfg.overlapPct) * (1 + cfg.overlapPct)) else n.radius * 2) + (if cfg.overlapPct > 0 then n.overlap / ((1/2 * cfg.overlapPct) * (1 + cfg.overlapPct)) else n.radius * 2) * cfg.overlapPct) - (n.radius + n.overlap)) else -(((if cfg.overlapPct > 0 then n.overlap / ((1/2 * cfg.overlapPct) * (1 + cfg.overlapPct)) else n.radius * 2) + (if cfg.overlapPct > 0 then n.overlap / ((1/2 * cfg.overlapPct) * (1 + cfg.overlapPct)) else n.radius * 2) * cfg.overlapPct) - (n.radius + n.overlap)), if octant_index_from_xyz (i1.x + i2.x + i3.x) (i1.y + i2.y + i3.y) (i1.z + i2.z + i3.z) &&& 2 ≠ 0 then (((if cfg.overlapPct > 0 then n.overlap / ((1/2 * cfg.overlapPct) * (1 + cfg.overlapPct)) else n.radius * 2) + (if cfg.overlapPct > 0 then n.overlap / ((1/2 * cfg.overlapPct) * (1 + cfg.overlapPct)) else n.radius * 2) * cfg.overlapPct) - (n.radius + n.overlap)) else -(((if cfg.overlapPct > 0 then n.overlap / ((1/2 * cfg.overlapPct) * (1 + cfg.overlapPct)) else n.radius * 2) + (if cfg.overlapPct > 0 then n.overlap / ((1/2 * cfg.overlapPct) * (1 + cfg.overlapPct)) else n.radius * 2) * cfg.overlapPct) - (n.radius + n.overlap)), if octant_index_from_xyz (i1.x + i2.x + i3.x) (i1.y + i2.y + i3.y) (i1.z + i2.z + i3.z) &&& 4 ≠ 0 then (((if cfg.overlapPct > 0 then n.overlap / ((1/2 * cfg.overlapPct) * (1 + cfg.overlapPct)) else n.radius * 2) + (if cfg.overlapPct > 0 then n.overlap / ((1/2 * cfg.overlapPct) * (1 + cfg.overlapPct)) else n.radius * 2) * cfg.overlapPct) - (n.radius + n.overlap)) else -(((if cfg.overlapPct > 0 then n.overlap / ((1/2 * cfg.overlapPct) * (1 + cfg.overlapPct)) else n.radius * 2) + (if cfg.overlapPct > 0 then n.overlap / ((1/2 * cfg.overlapPct) * (1 + cfg.overlapPct)) else n.radius * 2) * cfg.overlapPct) - (n.radius + n.overlap))⟩ : Vec3)) (if cfg.overlapPct > 0 then n.overlap / ((1/2 * cfg.overlapPct) * (1 + cfg.overlapPct)) else n.radius * 2) none none none).nodesByIndex ((octant_index_from_xyz (-(i1.x + i2.x + i3.x)) (-(i1.y + i2.y + i3.y)) (-(i1.z + i2.z + i3.z)) : ℕ) : ℤ) nid } : NodeRec) core.nodeCount rfl
  have hcC : getNode (setNode (setNode (setNode (setNode (⟨core.nodes, nid, core.nodeCount + 1⟩ : OctreeCore) (mk_octree_node cfg core.nodeCount (Vec3.add n.position (⟨if octant_index_from_xyz (i1.x + i2.x + i3.x) (i1.y + i2.y + i3.y) (i1.z + i2.z + i3.z) &&& 1 ≠ 0 then (((if cfg.overlapPct > 0 then n.overlap / ((1/2 * cfg.overlapPct) * (1 + cfg.overlapPct)) else n.radius * 2) + (if cfg.overlapPct > 0 then n.overlap / ((1/2 * cfg.overlapPct) * (1 + cfg.overlapPct)) else n.radius * 2) * cfg.overlapPct) - (n.radius + n.overlap)) else -(((if cfg.overlapPct > 0 then n.overlap / ((1/2 * cfg.overlapPct) * (1 + cfg.overlapPct)) else n.radius * 2) + (if cfg.overlapPct > 0 then n.overlap / ((1/2 * cfg.overlapPct) * (1 + cfg.overlapPct)) else n.radius * 2) * cfg.overlapPct) - (n.radius + n.overlap)), if octant_index_from_xyz (i1.x + i2.x + i3.x) (i1.y + i2.y + i3.y) (i1.z + i2.z + i3.z) &&& 2 ≠ 0 then (((if cfg.overlapPct > 0 then n.overlap / ((1/2 * cfg.overlapPct) * (1 + cfg.overlapPct)) else n.radius * 2) + (if cfg.overlapPct > 0 then n.overlap / ((1/2 * cfg.overlapPct) * (1 + cfg.overlapPct)) else n.radius * 2) * cfg.overlapPct) - (n.radius + n.overlap)) else -(((if cfg.overlapPct > 0 then n.overlap / ((1/2 * cfg.overlapPct) * (1 + cfg.overlapPct)) else n.radius * 2) + (if cfg.overlapPct > 0 then n.overlap / ((1/2 * cfg.overlapPct) * (1 + cfg.overlapPct)) else n.radius * 2) * cfg.overlapPct) - (n.radius + n.overlap)), if octant_index_from_xyz (i1.x + i2.x + i3.x) (i1.y + i2.y + i3.y) (i1.z + i2.z + i3.z) &&& 4 ≠ 0 then (((if cfg.overlapPct > 0 then n.overlap / ((1/2 * cfg.overlapPct) * (1 + cfg.overlapPct)) else n.radius * 2) + (if cfg.overlapPct > 0 then n.overlap / ((1/2 * cfg.overlapPct) * (1 + cfg.overlapPct)) else n.radius * 2) * cfg.overlapPct) - (n.radius + n.overlap)) else -(((if cfg.overlapPct > 0 then n.overlap / ((1/2 * cfg.overlapPct) * (1 + cfg.overlapPct)) else n.radius * 2) + (if cfg.overlapPct > 0 then n.overlap / ((1/2 * cfg.overlapPct) * (1 + cfg.overlapPct)) else n.radius * 2) * cfg.overlapPct) - (n.radius + n.overlap))⟩ : Vec3)) (if cfg.overlapPct > 0 then n.overlap / ((1/2 * cfg.overlapPct) * (1 + cfg.overlapPct)) else n.radius * 2) none none none)) ({ n with indexOctant := some ((octant_index_from_xyz (-(i1.x + i2.x + i3.x)) (-(i1.y + i2.y + i3.y)) (-(i1.z + i2.z + i3.z)) : ℕ) : ℤ) } : NodeRec)) ({ (mk_octree_node cfg core.nodeCount (Vec3.add n.position (⟨if octant_index_from_xyz (i1.x + i2.x + i3.x) (i1.y + i2.y + i3.y) (i1.z + i2.z + i3.z) &&& 1 ≠ 0 then (((if cfg.overlapPct > 0 then n.overlap / ((1/2 * cfg.overlapPct) * (1 + cfg.overlapPct)) else n.radius * 2) + (if cfg.overlapPct > 0 then n.overlap / ((1/2 * cfg.overlapPct) * (1 + cfg.overlapPct)) else n.radius * 2) * cfg.overlapPct) - (n.radius + n.overlap)) else -(((if cfg.overlapPct > 0 then n.overlap / ((1/2 * cfg.overlapPct) * (1 + cfg.overlapPct)) else n.radius * 2) + (if cfg.overlapPct > 0 then n.overlap / ((1/2 * cfg.overlapPct) * (1 + cfg.overlapPct)) else n.radius * 2) * cfg.overlapPct) - (n.radius + n.overlap)), if octant_index_from_xyz (i1.x + i2.x + i3.x) (i1.y + i2.y + i3.y) (i1.z + i2.z + i3.z) &&& 2 ≠ 0 then (((if cfg.overlapPct > 0 then n.overlap / ((1/2 * cfg.overlapPct) * (1 + cfg.overlapPct)) else n.radius * 2) + (if cfg.overlapPct > 0 then n.overlap / ((1/2 * cfg.overlapPct) * (1 + cfg.overlapPct)) else n.radius * 2) * cfg.overlapPct) - (n.radius + n.overlap)) else -(((if cfg.overlapPct > 0 then n.overlap / ((1/2 * cfg.overlapPct) * (1 + cfg.overlapPct)) else n.radius * 2) + (if cfg.overlapPct > 0 then n.overlap / ((1/2 * cfg.overlapPct) * (1 + cfg.overlapPct)) else n.radius * 2) * cfg.overlapPct) - (n.radius + n.overlap)), if octant_index_from_xyz (i1.x + i2.x + i3.x) (i1.y + i2.y + i3.y) (i1.z + i2.z + i3.z) &&& 4 ≠ 0 then (((if cfg.overlapPct > 0 then n.overlap / ((1/2 * cfg.overlapPct) * (1 + cfg.overlapPct)) else n.radius * 2) + (if cfg.overlapPct > 0 then n.overlap / ((1/2 * cfg.overlapPct) * (1 + cfg.overlapPct)) else n.radius * 2) * cfg.overlapPct) - (n.radius + n.overlap)) else -(((if cfg.overlapPct > 0 then n.overlap / ((1/2 * cfg.overlapPct) * (1 + cfg.overlapPct)) else n.radius * 2) + (if cfg.overlapPct > 0 then n.overlap / ((1/2 * cfg.overlapPct) * (1 + cfg.overlapPct)) else n.radius * 2) * cfg.overlapPct) - (n.radius + n.overlap))⟩ : Vec3)) (if cfg.overlapPct > 0 then n.overlap / ((1/2 * cfg.overlapPct) * (1 + cfg.overlapPct)) else n.radius * 2) none none none) with nodesIndices := (if ((octant_index_from_xyz (-(i1.x + i2.x + i3.x)) (-(i1.y + i2.y + i3.y)) (-(i1.z + i2.z + i3.z)) : ℕ) : ℤ) ∈ (mk_octree_node cfg core.nodeCount (Vec3.add n.position (⟨if octant_index_from_xyz (i1.x + i2.x + i3.x) (i1.y + i2.y + i3.y) (i1.z + i2.z + i3.z) &&& 1 ≠ 0 then (((if cfg.overlapPct > 0 then n.overlap / ((1/2 * cfg.overlapPct) * (1 + cfg.overlapPct)) else n.radius * 2) + (if cfg.overlapPct > 0 then n.overlap / ((1/2 * cfg.overlapPct) * (1 + cfg.overlapPct)) else n.radius * 2) * cfg.overlapPct) - (n.radius + n.overlap)) else -(((if cfg.overlapPct > 0 then n.overlap / ((1/2 * cfg.overlapPct) * (1 + cfg.overlapPct)) else n.radius * 2) + (if cfg.overlapPct > 0 then n.overlap / ((1/2 * cfg.overlapPct) * (1 + cfg.overlapPct)) else n.radius * 2) * cfg.overlapPct) - (n.radius + n.overlap)), if octant_index_from_xyz (i1.x + i2.x + i3.x) (i1.y + i2.y + i3.y) (i1.z + i2.z + i3.z) &&& 2 ≠ 0 then (((if cfg.overlapPct > 0 then n.overlap / ((1/2 * cfg.overlapPct) * (1 + cfg.overlapPct)) else n.radius * 2) + (if cfg.overlapPct > 0 then n.overlap / ((1/2 * cfg.overlapPct) * (1 + cfg.overlapPct)) else n.radius * 2) * cfg.overlapPct) - (n.radius + n.overlap)) else -(((if cfg.overlapPct > 0 then n.overlap / ((1/2 * cfg.overlapPct) * (1 + cfg.overlapPct)) else n.radius * 2) + (if cfg.overlapPct > 0 then n.overlap / ((1/2 * cfg.overlapPct) * (1 + cfg.overlapPct)) else n.radius * 2) * cfg.overlapPct) - (n.radius + n.overlap)), if octant_index_from_xyz (i1.x + i2.x + i3.x) (i1.y + i2.y + i3.y) (i1.z + i2.z + i3.z) &&& 4 ≠ 0 then (((if cfg.overlapPct > 0 then n.overlap / ((1/2 * cfg.overlapPct) * (1 + cfg.overlapPct)) else n.radius * 2) + (if cfg.overlapPct > 0 then n.overlap / ((1/2 * cfg.overlapPct) * (1 + cfg.overlapPct)) else n.radius * 2) * cfg.overlapPct) - (n.radius + n.overlap)) else -(((if cfg.overlapPct > 0 then n.overlap / ((1/2 * cfg.overlapPct) * (1 + cfg.overlapPct)) else n.radius * 2) + (if cfg.overlapPct > 0 then n.overlap / ((1/2 * cfg.overlapPct) * (1 + cfg.overlapPct)) else n.radius * 2) * cfg.overlapPct) - (n.radius + n.overlap))⟩ : Vec3)) (if cfg.overlapPct > 0 then n.overlap / ((1/2 * cfg.overlapPct) * (1 + cfg.overlapPct)) else n.radius * 2) none none none).nodesIndices then (mk_octree_node cfg core.nodeCount (Vec3.add n.position (⟨if octant_index_from_xyz (i1.x + i2.x + i3.x) (i1.y + i2.y + i3.y) (i1.z + i2.z + i3.z) &&& 1 ≠ 0 then (((if cfg.overlapPct > 0 then n.overlap / ((1/2 * cfg.overlapPct) * (1 + cfg.overlapPct)) else n.radius * 2) + (if cfg.overlapPct > 0 then n.overlap / ((1/2 * cfg.overlapPct) * (1 + cfg.overlapPct)) else n.radius * 2) * cfg.overlapPct) - (n.radius + n.overlap)) else -(((if cfg.overlapPct > 0 then n.overlap / ((1/2 * cfg.overlapPct) * (1 + cfg.overlapPct)) else n.radius * 2) + (if cfg.overlapPct > 0 then n.overlap / ((1/2 * cfg.overlapPct) * (1 + cfg.overlapPct)) else n.radius * 2) * cfg.overlapPct) - (n.radius + n.overlap)), if octant_index_from_xyz (i1.x + i2.x + i3.x) (i1.y + i2.y + i3.y) (i1.z + i2.z + i3.z) &&& 2 ≠ 0 then (((if cfg.overlapPct > 0 then n.overlap / ((1/2 * cfg.overlapPct) * (1 + cfg.overlapPct)) else n.radius * 2) + (if cfg.overlapPct > 0 then n.overlap / ((1/2 * cfg.overlapPct) * (1 + cfg.overlapPct)) else n.radius * 2) * cfg.overlapPct) - (n.radius + n.overlap)) else -(((if cfg.overlapPct > 0 then n.overlap / ((1/2 * cfg.overlapPct) * (1 + cfg.overlapPct)) else n.radius * 2) + (if cfg.overlapPct > 0 then n.overlap / ((1/2 * cfg.overlapPct) * (1 + cfg.overlapPct)) else n.radius * 2) * cfg.overlapPct) - (n.radius + n.overlap)), if octant_index_from_xyz (i1.x + i2.x + i3.x) (i1.y + i2.y + i3.y) (i1.z + i2.z + i3.z) &&& 4 ≠ 0 then (((if cfg.overlapPct > 0 then n.overlap / ((1/2 * cfg.overlapPct) * (1 + cfg.overlapPct)) else n.radius * 2) + (if cfg.overlapPct > 0 then n.overlap / ((1/2 * cfg.overlapPct) * (1 + cfg.overlapPct)) else n.radius * 2) * cfg.overlapPct) - (n.radius + n.overlap)) else -(((if cfg.overlapPct > 0 then n.overlap / ((1/2 * cfg.overlapPct) * (1 + cfg.overlapPct)) else n.radius * 2) + (if cfg.overlapPct > 0 then n.overlap / ((1/2 * cfg.overlapPct) * (1 + cfg.overlapPct)) else n.radius * 2) * cfg.overlapPct) - (n.radius + n.overlap))⟩ : Vec3)) (if cfg.overlapPct > 0 then n.overlap / ((1/2 * cfg.overlapPct) * (1 + cfg.overlapPct)) else n.radius * 2) none none none).nodesIndices else (mk_octree_node cfg core.nodeCount (Vec3.add n.position (⟨if octant_index_from_xyz (i1.x + i2.x + i3.x) (i1.y + i2.y + i3.y) (i1.z + i2.z + i3.z) &&& 1 ≠ 0 then (((if cfg.overlapPct > 0 then n.overlap / ((1/2 * cfg.overlapPct) * (1 + cfg.overlapPct)) else n.radius * 2) + (if cfg.overlapPct > 0 then n.overlap / ((1/2 * cfg.overlapPct) * (1 + cfg.overlapPct)) else n.radius * 2) * cfg.overlapPct) - (n.radius + n.overlap)) else -(((if cfg.overlapPct > 0 then n.overlap / ((1/2 * cfg.overlapPct) * (1 + cfg.overlapPct)) else n.radius * 2) + (if cfg.overlapPct > 0 then n.overlap / ((1/2 * cfg.overlapPct) * (1 + cfg.overlapPct)) else n.radius * 2) * cfg.overlapPct) - (n.radius + n.overlap)), if octant_index_from_xyz (i1.x + i2.x + i3.x) (i1.y + i2.y + i3.y) (i1.z + i2.z + i3.z) &&& 2 ≠ 0 then (((if cfg.overlapPct > 0 then n.overlap / ((1/2 * cfg.overlapPct) * (1 + cfg.overlapPct)) else n.radius * 2) + (if cfg.overlapPct > 0 then n.overlap / ((1/2 * cfg.overlapPct) * (1 + cfg.overlapPct)) else n.radius * 2) * cfg.overlapPct) - (n.radius + n.overlap)) else -(((if cfg.overlapPct > 0 then n.overlap / ((1/2 * cfg.overlapPct) * (1 + cfg.overlapPct)) else n.radius * 2) + (if cfg.overlapPct > 0 then n.overlap / ((1/2 * cfg.overlapPct) * (1 + cfg.overlapPct)) else n.radius * 2) * cfg.overlapPct) - (n.radius + n.overlap)), if octant_index_from_xyz (i1.x + i2.x + i3.x) (i1.y + i2.y + i3.y) (i1.z + i2.z + i3.z) &&& 4 ≠ 0 then (((if cfg.overlapPct > 0 then n.overlap / ((1/2 * cfg.overlapPct) * (1 + cfg.overlapPct)) else n.radius * 2) + (if cfg.overlapPct > 0 then n.overlap / ((1/2 * cfg.overlapPct) * (1 + cfg.overlapPct)) else n.radius * 2) * cfg.overlapPct) - (n.radius + n.overlap)) else -(((if cfg.overlapPct > 0 then n.overlap / ((1/2 * cfg.overlapPct) * (1 + cfg.overlapPct)) else n.radius * 2) + (if cfg.overlapPct > 0 then n.overlap / ((1/2 * cfg.overlapPct) * (1 + cfg.overlapPct)) else n.radius * 2) * cfg.overlapPct) - (n.radius + n.overlap))⟩ : Vec3)) (if cfg.overlapPct > 0 then n.overlap / ((1/2 * cfg.overlapPct) * (1 + cfg.overlapPct)) else n.radius * 2) none none none).nodesIndices ++ [((octant_index_from_xyz (-(i1.x + i2.x + i3.x)) (-(i1.y + i2.y + i3.y)) (-(i1.z + i2.z + i3.z)) : ℕ) : ℤ)]), nodesByIndex := upd_assoc (mk_octree_node cfg core.nodeCount (Vec3.add n.position (⟨if octant_index_from_xyz (i1.x + i2.x + i3.x) (i1.y + i2.y + i3.y) (i1.z + i2.z + i3.z) &&& 1 ≠ 0 then (((if cfg.overlapPct > 0 then n.overlap / ((1/2 * cfg.overlapPct) * (1 + cfg.overlapPct)) else n.radius * 2) + (if cfg.overlapPct > 0 then n.overlap / ((1/2 * cfg.overlapPct) * (1 + cfg.overlapPct)) else n.radius * 2) * cfg.overlapPct) - (n.radius + n.overlap)) else -(((if cfg.overlapPct > 0 then n.overlap / ((1/2 * cfg.overlapPct) * (1 + cfg.overlapPct)) else n.radius * 2) + (if cfg.overlapPct > 0 then n.overlap / ((1/2 * cfg.overlapPct) * (1 + cfg.overlapPct)) else n.radius * 2) * cfg.overlapPct) - (n.radius + n.overlap)), if octant_index_from_xyz (i1.x + i2.x + i3.x) (i1.y + i2.y + i3.y) (i1.z + i2.z + i3.z) &&& 2 ≠ 0 then (((if cfg.overlapPct > 0 then n.overlap / ((1/2 * cfg.overlapPct) * (1 + cfg.overlapPct)) else n.radius * 2) + (if cfg.overlapPct > 0 then n.overlap / ((1/2 * cfg.overlapPct) * (1 + cfg.overlapPct)) else n.radius * 2) * cfg.overlapPct) - (n.radius + n.overlap)) else -(((if cfg.overlapPct > 0 then n.overlap / ((1/2 * cfg.overlapPct) * (1 + cfg.overlapPct)) else n.radius * 2) + (if cfg.overlapPct > 0 then n.overlap / ((1/2 * cfg.overlapPct) * (1 + cfg.overlapPct)) else n.radius * 2) * cfg.overlapPct) - (n.radius + n.overlap)), if octant_index_from_xyz (i1.x + i2.x + i3.x) (i1.y + i2.y + i3.y) (i1.z + i2.z + i3.z) &&& 4 ≠ 0 then (((if cfg.overlapPct > 0 then n.overlap / ((1/2 * cfg.overlapPct) * (1 + cfg.overlapPct)) else n.radius * 2) + (if cfg.overlapPct > 0 then n.overlap / ((1/2 * cfg.overlapPct) * (1 + cfg.overlapPct)) else n.radius * 2) * cfg.overlapPct) - (n.radius + n.overlap)) else -(((if cfg.overlapPct > 0 then n.overlap / ((1/2 * cfg.overlapPct) * (1 + cfg.overlapPct)) else n.radius * 2) + (if cfg.overlapPct > 0 then n.overlap / ((1/2 * cfg.overlapPct) * (1 + cfg.overlapPct)) else n.radius * 2) * cfg.overlapPct) - (n.radius + n.overlap))⟩ : Vec3)) (if cfg.overlapPct > 0 then n.overlap / ((1/2 * cfg.overlapPct) * (1 + cfg.overlapPct)) else n.radius * 2) none none none).nodesByIndex ((octant_index_from_xyz (-(i1.x + i2.x + i3.x)) (-(i1.y + i2.y + i3.y)) (-(i1.z + i2.z + i3.z)) : ℕ) : ℤ) nid } : NodeRec)) ({ n with indexOctant := some ((octant_index_from_xyz (-(i1.x + i2.x + i3.x)) (-(i1.y + i2.y + i3.y)) (-(i1.z + i2.z + i3.z)) : ℕ) : ℤ), parent := some core.nodeCount, depth := (mk_octree_node cfg core.nodeCount (Vec3.add n.position (⟨if octant_index_from_xyz (i1.x + i2.x + i3.x) (i1.y + i2.y + i3.y) (i1.z + i2.z + i3.z) &&& 1 ≠ 0 then (((if cfg.overlapPct > 0 then n.overlap / ((1/2 * cfg.overlapPct) * (1 + cfg.overlapPct)) else n.radius * 2) + (if cfg.overlapPct > 0 then n.overlap / ((1/2 * cfg.overlapPct) * (1 + cfg.overlapPct)) else n.radius * 2) * cfg.overlapPct) - (n.radius + n.overlap)) else -(((if cfg.overlapPct > 0 then n.overlap / ((1/2 * cfg.overlapPct) * (1 + cfg.overlapPct)) else n.radius * 2) + (if cfg.overlapPct > 0 then n.overlap / ((1/2 * cfg.overlapPct) * (1 + cfg.overlapPct)) else n.radius * 2) * cfg.overlapPct) - (n.radius + n.overlap)), if octant_index_from_xyz (i1.x + i2.x + i3.x) (i1.y + i2.y + i3.y) (i1.z + i2.z + i3.z) &&& 2 ≠ 0 then (((if cfg.overlapPct > 0 then n.overlap / ((1/2 * cfg.overlapPct) * (1 + cfg.overlapPct)) else n.radius * 2) + (if cfg.overlapPct > 0 then n.overlap / ((1/2 * cfg.overlapPct) * (1 + cfg.overlapPct)) else n.radius * 2) * cfg.overlapPct) - (n.radius + n.overlap)) else -(((if cfg.overlapPct > 0 then n.overlap / ((1/2 * cfg.overlapPct) * (1 + cfg.overlapPct)) else n.radius * 2) + (if cfg.overlapPct > 0 then n.overlap / ((1/2 * cfg.overlapPct) * (1 + cfg.overlapPct)) else n.radius * 2) * cfg.overlapPct) - (n.radius + n.overlap)), if octant_index_from_xyz (i1.x + i2.x + i3.x) (i1.y + i2.y + i3.y) (i1.z + i2.z + i3.z) &&& 4 ≠ 0 then (((if cfg.overlapPct > 0 then n.overlap / ((1/2 * cfg.overlapPct) * (1 + cfg.overlapPct)) else n.radius * 2) + (if cfg.overlapPct > 0 then n.overlap / ((1/2 * cfg.overlapPct) * (1 + cfg.overlapPct)) else n.radius * 2) * cfg.overlapPct) - (n.radius + n.overlap)) else -(((if cfg.overlapPct > 0 then n.overlap / ((1/2 * cfg.overlapPct) * (1 + cfg.overlapPct)) else n.radius * 2) + (if cfg.overlapPct > 0 then n.overlap / ((1/2 * cfg.overlapPct) * (1 + cfg.overlapPct)) else n.radius * 2) * cfg.overlapPct) - (n.radius + n.overlap))⟩ : Vec3)) (if cfg.overlapPct > 0 then n.overlap / ((1/2 * cfg.overlapPct) * (1 + cfg.overlapPct)) else n.radius * 2) none none none).depth + 1 } : NodeRec)) nid = some ({ n with indexOctant := some ((octant_index_from_xyz (-(i1.x + i2.x + i3.x)) (-(i1.y + i2.y + i3.y)) (-(i1.z + i2.z + i3.z)) : ℕ) : ℤ), parent := some core.nodeCount, depth := (mk_octree_node cfg core.nodeCount (Vec3.add n.position (⟨if octant_index_from_xyz (i1.x + i2.x + i3.x) (i1.y + i2.y + i3.y) (i1.z + i2.z + i3.z) &&& 1 ≠ 0 then (((if cfg.overlapPct > 0 then n.overlap / ((1/2 * cfg.overlapPct) * (1 + cfg.overlapPct)) else n.radius * 2) + (if cfg.overlapPct > 0 then n.overlap / ((1/2 * cfg.overlapPct) * (1 + cfg.overlapPct)) else n.radius * 2) * cfg.overlapPct) - (n.radius + n.overlap)) else -(((if cfg.overlapPct > 0 then n.overlap / ((1/2 * cfg.overlapPct) * (1 + cfg.overlapPct)) else n.radius * 2) + (if cfg.overlapPct > 0 then n.overlap / ((1/2 * cfg.overlapPct) * (1 + cfg.overlapPct)) else n.radius * 2) * cfg.overlapPct) - (n.radius + n.overlap)), if octant_index_from_xyz (i1.x + i2.x + i3.x) (i1.y + i2.y + i3.y) (i1.z + i2.z + i3.z) &&& 2 ≠ 0 then (((if cfg.overlapPct > 0 then n.overlap / ((1/2 * cfg.overlapPct) * (1 + cfg.overlapPct)) else n.radius * 2) + (if cfg.overlapPct > 0 then n.overlap / ((1/2 * cfg.overlapPct) * (1 + cfg.overlapPct)) else n.radius * 2) * cfg.overlapPct) - (n.radius + n.overlap)) else -(((if cfg.overlapPct > 0 then n.overlap / ((1/2 * cfg.overlapPct) * (1 + cfg.overlapPct)) else n.radius * 2) + (if cfg.overlapPct > 0 then n.overlap / ((1/2 * cfg.overlapPct) * (1 + cfg.overlapPct)) else n.radius * 2) * cfg.overlapPct) - (n.radius + n.overlap)), if octant_index_from_xyz (i1.x + i2.x + i3.x) (i1.y + i2.y + i3.y) (i1.z + i2.z + i3.z) &&& 4 ≠ 0 then (((if cfg.overlapPct > 0 then n.overlap / ((1/2 * cfg.overlapPct) * (1 + cfg.overlapPct)) else n.radius * 2) + (if cfg.overlapPct > 0 then n.overlap / ((1/2 * cfg.overlapPct) * (1 + cfg.overlapPct)) else n.radius * 2) * cfg.overlapPct) - (n.radius + n.overlap)) else -(((if cfg.overlapPct > 0 then n.overlap / ((1/2 * cfg.overlapPct) * (1 + cfg.overlapPct)) else n.radius * 2) + (if cfg.overlapPct > 0 then n.overlap / ((1/2 * cfg.overlapPct) * (1 + cfg.overlapPct)) else n.radius * 2) * cfg.overlapPct) - (n.radius + n.overlap))⟩ : Vec3)) (if cfg.overlapPct > 0 then n.overlap / ((1/2 * cfg.overlapPct) * (1 + cfg.overlapPct)) else n.radius * 2) none none none).depth + 1 } : NodeRec) :=
    getNode_setNode_self_key _ ({ n with indexOctant := some ((octant_index_from_xyz (-(i1.x + i2.x + i3.x)) (-(i1.y + i2.y + i3.y)) (-(i1.z + i2.z + i3.z)) : ℕ) : ℤ), parent := some core.nodeCount, depth := (mk_octree_node cfg core.nodeCount (Vec3.add n.position (⟨if octant_index_from_xyz (i1.x + i2.x + i3.x) (i1.y + i2.y + i3.y) (i1.z + i2.z + i3.z) &&& 1 ≠ 0 then (((if cfg.overlapPct > 0 then n.overlap / ((1/2 * cfg.overlapPct) * (1 + cfg.overlapPct)) else n.radius * 2) + (if cfg.overlapPct > 0 then n.overlap / ((1/2 * cfg.overlapPct) * (1 + cfg.overlapPct)) else n.radius * 2) * cfg.overlapPct) - (n.radius + n.overlap)) else -(((if cfg.overlapPct > 0 then n.overlap / ((1/2 * cfg.overlapPct) * (1 + cfg.overlapPct)) else n.radius * 2) + (if cfg.overlapPct > 0 then n.overlap / ((1/2 * cfg.overlapPct) * (1 + cfg.overlapPct)) else n.radius * 2) * cfg.overlapPct) - (n.radius + n.overlap)), if octant_index_from_xyz (i1.x + i2.x + i3.x) (i1.y + i2.y + i3.y) (i1.z + i2.z + i3.z) &&& 2 ≠ 0 then (((if cfg.overlapPct > 0 then n.overlap / ((1/2 * cfg.overlapPct) * (1 + cfg.overlapPct)) else n.radius * 2) + (if cfg.overlapPct > 0 then n.overlap / ((1/2 * cfg.overlapPct) * (1 + cfg.overlapPct)) else n.radius * 2) * cfg.overlapPct) - (n.radius + n.overlap)) else -(((if cfg.overlapPct > 0 then n.overlap / ((1/2 * cfg.overlapPct) * (1 + cfg.overlapPct)) else n.radius * 2) + (if cfg.overlapPct > 0 then n.overlap / ((1/2 * cfg.overlapPct) * (1 + cfg.overlapPct)) else n.radius * 2) * cfg.overlapPct) - (n.radius + n.overlap)), if octant_index_from_xyz (i1.x + i2.x + i3.x) (i1.y + i2.y + i3.y) (i1.z + i2.z + i3.z) &&& 4 ≠ 0 then (((if cfg.overlapPct > 0 then n.overlap / ((1/2 * cfg.overlapPct) * (1 + cfg.overlapPct)) else n.radius * 2) + (if cfg.overlapPct > 0 then n.overlap / ((1/2 * cfg.overlapPct) * (1 + cfg.overlapPct)) else n.radius * 2) * cfg.overlapPct) - (n.radius + n.overlap)) else -(((if cfg.overlapPct > 0 then n.overlap / ((1/2 * cfg.overlapPct) * (1 + cfg.overlapPct)) else n.radius * 2) + (if cfg.overlapPct > 0 then n.overlap / ((1/2 * cfg.overlapPct) * (1 + cfg.overlapPct)) else n.radius * 2) * cfg.overlapPct) - (n.radius + n.overlap))⟩ : Vec3)) (if cfg.overlapPct > 0 then n.overlap / ((1/2 * cfg.overlapPct) * (1 + cfg.overlapPct)) else n.radius * 2) none none none).depth + 1 } : NodeRec) nid hid
  have hpi1 : (({ (mk_octree_node cfg core.nodeCount (Vec3.add n.position (⟨if octant_index_from_xyz (i1.x + i2.x + i3.x) (i1.y + i2.y + i3.y) (i1.z + i2.z + i3.z) &&& 1 ≠ 0 then (((if cfg.overlapPct > 0 then n.overlap / ((1/2 * cfg.overlapPct) * (1 + cfg.overlapPct)) else n.radius * 2) + (if cfg.overlapPct > 0 then n.overlap / ((1/2 * cfg.overlapPct) * (1 + cfg.overlapPct)) else n.radius * 2) * cfg.overlapPct) - (n.radius + n.overlap)) else -(((if cfg.overlapPct > 0 then n.overlap / ((1/2 * cfg.overlapPct) * (1 + cfg.overlapPct)) else n.radius * 2) + (if cfg.overlapPct > 0 then n.overlap / ((1/2 * cfg.overlapPct) * (1 + cfg.overlapPct)) else n.radius * 2) * cfg.overlapPct) - (n.radius + n.overlap)), if octant_index_from_xyz (i1.x + i2.x + i3.x) (i1.y + i2.y + i3.y) (i1.z + i2.z + i3.z) &&& 2 ≠ 0 then (((if cfg.overlapPct > 0 then n.overlap / ((1/2 * cfg.overlapPct) * (1 + cfg.overlapPct)) else n.radius * 2) + (if cfg.overlapPct > 0 then n.overlap / ((1/2 * cfg.overlapPct) * (1 + cfg.overlapPct)) else n.radius * 2) * cfg.overlapPct) - (n.radius + n.overlap)) else -(((if cfg.overlapPct > 0 then n.overlap / ((1/2 * cfg.overlapPct) * (1 + cfg.overlapPct)) else n.radius * 2) + (if cfg.overlapPct > 0 then n.overlap / ((1/2 * cfg.overlapPct) * (1 + cfg.overlapPct)) else n.radius * 2) * cfg.overlapPct) - (n.radius + n.overlap)), if octant_index_from_xyz (i1.x + i2.x + i3.x) (i1.y + i2.y + i3.y) (i1.z + i2.z + i3.z) &&& 4 ≠ 0 then (((if cfg.overlapPct > 0 then n.overlap / ((1/2 * cfg.overlapPct) * (1 + cfg.overlapPct)) else n.radius * 2) + (if cfg.overlapPct > 0 then n.overlap / ((1/2 * cfg.overlapPct) * (1 + cfg.overlapPct)) else n.radius * 2) * cfg.overlapPct) - (n.radius + n.overlap)) else -(((if cfg.overlapPct > 0 then n.overlap / ((1/2 * cfg.overlapPct) * (1 + cfg.overlapPct)) else n.radius * 2) + (if cfg.overlapPct > 0 then n.overlap / ((1/2 * cfg.overlapPct) * (1 + cfg.overlapPct)) else n.radius * 2) * cfg.overlapPct) - (n.radius + n.overlap))⟩ : Vec3)) (if cfg.overlapPct > 0 then n.overlap / ((1/2 * cfg.overlapPct) * (1 + cfg.overlapPct)) else n.radius * 2) none none none) with nodesIndices := (if ((octant_index_from_xyz (-(i1.x + i2.x + i3.x)) (-(i1.y + i2.y + i3.y)) (-(i1.z + i2.z + i3.z)) : ℕ) : ℤ) ∈ (mk_octree_node cfg core.nodeCount (Vec3.add n.position (⟨if octant_index_from_xyz (i1.x + i2.x + i3.x) (i1.y + i2.y + i3.y) (i1.z + i2.z + i3.z) &&& 1 ≠ 0 then (((if cfg.overlapPct > 0 then n.overlap / ((1/2 * cfg.overlapPct) * (1 + cfg.overlapPct)) else n.radius * 2) + (if cfg.overlapPct > 0 then n.overlap / ((1/2 * cfg.overlapPct) * (1 + cfg.overlapPct)) else n.radius * 2) * cfg.overlapPct) - (n.radius + n.overlap)) else -(((if cfg.overlapPct > 0 then n.overlap / ((1/2 * cfg.overlapPct) * (1 + cfg.overlapPct)) else n.radius * 2) + (if cfg.overlapPct > 0 then n.overlap / ((1/2 * cfg.overlapPct) * (1 + cfg.overlapPct)) else n.radius * 2) * cfg.overlapPct) - (n.radius + n.overlap)), if octant_index_from_xyz (i1.x + i2.x + i3.x) (i1.y + i2.y + i3.y) (i1.z + i2.z + i3.z) &&& 2 ≠ 0 then (((if cfg.overlapPct > 0 then n.overlap / ((1/2 * cfg.overlapPct) * (1 + cfg.overlapPct)) else n.radius * 2) + (if cfg.overlapPct > 0 then n.overlap / ((1/2 * cfg.overlapPct) * (1 + cfg.overlapPct)) else n.radius * 2) * cfg.overlapPct) - (n.radius + n.overlap)) else -(((if cfg.overlapPct > 0 then n.overlap / ((1/2 * cfg.overlapPct) * (1 + cfg.overlapPct)) else n.radius * 2) + (if cfg.overlapPct > 0 then n.overlap / ((1/2 * cfg.overlapPct) * (1 + cfg.overlapPct)) else n.radius * 2) * cfg.overlapPct) - (n.radius + n.overlap)), if octant_index_from_xyz (i1.x + i2.x + i3.x) (i1.y + i2.y + i3.y) (i1.z + i2.z + i3.z) &&& 4 ≠ 0 then (((if cfg.overlapPct > 0 then n.overlap / ((1/2 * cfg.overlapPct) * (1 + cfg.overlapPct)) else n.radius * 2) + (if cfg.overlapPct > 0 then n.overlap / ((1/2 * cfg.overlapPct) * (1 + cfg.overlapPct)) else n.radius * 2) * cfg.overlapPct) - (n.radius + n.overlap)) else -(((if cfg.overlapPct > 0 then n.overlap / ((1/2 * cfg.overlapPct) * (1 + cfg.overlapPct)) else n.radius * 2) + (if cfg.overlapPct > 0 then n.overlap / ((1/2 * cfg.overlapPct) * (1 + cfg.overlapPct)) else n.radius * 2) * cfg.overlapPct) - (n.radius + n.overlap))⟩ : Vec3)) (if cfg.overlapPct > 0 then n.overlap / ((1/2 * cfg.overlapPct) * (1 + cfg.overlapPct)) else n.radius * 2) none none none).nodesIndices then (mk_octree_node cfg core.nodeCount (Vec3.add n.position (⟨if octant_index_from_xyz (i1.x + i2.x + i3.x) (i1.y + i2.y + i3.y) (i1.z + i2.z + i3.z) &&& 1 ≠ 0 then (((if cfg.overlapPct > 0 then n.overlap / ((1/2 * cfg.overlapPct) * (1 + cfg.overlapPct)) else n.radius * 2) + (if cfg.overlapPct > 0 then n.overlap / ((1/2 * cfg.overlapPct) * (1 + cfg.overlapPct)) else n.radius * 2) * cfg.overlapPct) - (n.radius + n.overlap)) else -(((if cfg.overlapPct > 0 then n.overlap / ((1/2 * cfg.overlapPct) * (1 + cfg.overlapPct)) else n.radius * 2) + (if cfg.overlapPct > 0 then n.overlap / ((1/2 * cfg.overlapPct) * (1 + cfg.overlapPct)) else n.radius * 2) * cfg.overlapPct) - (n.radius + n.overlap)), if octant_index_from_xyz (i1.x + i2.x + i3.x) (i1.y + i2.y + i3.y) (i1.z + i2.z + i3.z) &&& 2 ≠ 0 then (((if cfg.overlapPct > 0 then n.overlap / ((1/2 * cfg.overlapPct) * (1 + cfg.overlapPct)) else n.radius * 2) + (if cfg.overlapPct > 0 then n.overlap / ((1/2 * cfg.overlapPct) * (1 + cfg.overlapPct)) else n.radius * 2) * cfg.overlapPct) - (n.radius + n.overlap)) else -(((if cfg.overlapPct > 0 then n.overlap / ((1/2 * cfg.overlapPct) * (1 + cfg.overlapPct)) else n.radius * 2) + (if cfg.overlapPct > 0 then n.overlap / ((1/2 * cfg.overlapPct) * (1 + cfg.overlapPct)) else n.radius * 2) * cfg.overlapPct) - (n.radius + n.overlap)), if octant_index_from_xyz (i1.x + i2.x + i3.x) (i1.y + i2.y + i3.y) (i1.z + i2.z + i3.z) &&& 4 ≠ 0 then (((if cfg.overlapPct > 0 then n.overlap / ((1/2 * cfg.overlapPct) * (1 + cfg.overlapPct)) else n.radius * 2) + (if cfg.overlapPct > 0 then n.overlap / ((1/2 * cfg.overlapPct) * (1 + cfg.overlapPct)) else n.radius * 2) * cfg.overlapPct) - (n.radius + n.overlap)) else -(((if cfg.overlapPct > 0 then n.overlap / ((1/2 * cfg.overlapPct) * (1 + cfg.overlapPct)) else n.radius * 2) + (if cfg.overlapPct > 0 then n.overlap / ((1/2 * cfg.overlapPct) * (1 + cfg.overlapPct)) else n.radius * 2) * cfg.overlapPct) - (n.radius + n.overlap))⟩ : Vec3)) (if cfg.overlapPct > 0 then n.overlap / ((1/2 * cfg.overlapPct) * (1 + cfg.overlapPct)) else n.radius * 2) none none none).nodesIndices else (mk_octree_node cfg core.nodeCount (Vec3.add n.position (⟨if octant_index_from_xyz (i1.x + i2.x + i3.x) (i1.y + i2.y + i3.y) (i1.z + i2.z + i3.z) &&& 1 ≠ 0 then (((if cfg.overlapPct > 0 then n.overlap / ((1/2 * cfg.overlapPct) * (1 + cfg.overlapPct)) else n.radius * 2) + (if cfg.overlapPct > 0 then n.overlap / ((1/2 * cfg.overlapPct) * (1 + cfg.overlapPct)) else n.radius * 2) * cfg.overlapPct) - (n.radius + n.overlap)) else -(((if cfg.overlapPct > 0 then n.overlap / ((1/2 * cfg.overlapPct) * (1 + cfg.overlapPct)) else n.radius * 2) + (if cfg.overlapPct > 0 then n.overlap / ((1/2 * cfg.overlapPct) * (1 + cfg.overlapPct)) else n.radius * 2) * cfg.overlapPct) - (n.radius + n.overlap)), if octant_index_from_xyz (i1.x + i2.x + i3.x) (i1.y + i2.y + i3.y) (i1.z + i2.z + i3.z) &&& 2 ≠ 0 then (((if cfg.overlapPct > 0 then n.overlap / ((1/2 * cfg.overlapPct) * (1 + cfg.overlapPct)) else n.radius * 2) + (if cfg.overlapPct > 0 then n.overlap / ((1/2 * cfg.overlapPct) * (1 + cfg.overlapPct)) else n.radius * 2) * cfg.overlapPct) - (n.radius + n.overlap)) else -(((if cfg.overlapPct > 0 then n.overlap / ((1/2 * cfg.overlapPct) * (1 + cfg.overlapPct)) else n.radius * 2) + (if cfg.overlapPct > 0 then n.overlap / ((1/2 * cfg.overlapPct) * (1 + cfg.overlapPct)) else n.radius * 2) * cfg.overlapPct) - (n.radius + n.overlap)), if octant_index_from_xyz (i1.x + i2.x + i3.x) (i1.y + i2.y + i3.y) (i1.z + i2.z + i3.z) &&& 4 ≠ 0 then (((if cfg.overlapPct > 0 then n.overlap / ((1/2 * cfg.overlapPct) * (1 + cfg.overlapPct)) else n.radius * 2) + (if cfg.overlapPct > 0 then n.overlap / ((1/2 * cfg.overlapPct) * (1 + cfg.overlapPct)) else n.radius * 2) * cfg.overlapPct) - (n.radius + n.overlap)) else -(((if cfg.overlapPct > 0 then n.overlap / ((1/2 * cfg.overlapPct) * (1 + cfg.overlapPct)) else n.radius * 2) + (if cfg.overlapPct > 0 then n.overlap / ((1/2 * cfg.overlapPct) * (1 + cfg.overlapPct)) else n.radius * 2) * cfg.overlapPct) - (n.radius + n.overlap))⟩ : Vec3)) (if cfg.overlapPct > 0 then n.overlap / ((1/2 * cfg.overlapPct) * (1 + cfg.overlapPct)) else n.radius * 2) none none none).nodesIndices ++ [((octant_index_from_xyz (-(i1.x + i2.x + i3.x)) (-(i1.y + i2.y + i3.y)) (-(i1.z + i2.z + i3.z)) : ℕ) : ℤ)]), nodesByIndex := upd_assoc (mk_octree_node cfg core.nodeCount (Vec3.add n.position (⟨if octant_index_from_xyz (i1.x + i2.x + i3.x) (i1.y + i2.y + i3.y) (i1.z + i2.z + i3.z) &&& 1 ≠ 0 then (((if cfg.overlapPct > 0 then n.overlap / ((1/2 * cfg.overlapPct) * (1 + cfg.overlapPct)) else n.radius * 2) + (if cfg.overlapPct > 0 then n.overlap / ((1/2 * cfg.overlapPct) * (1 + cfg.overlapPct)) else n.radius * 2) * cfg.overlapPct) - (n.radius + n.overlap)) else -(((if cfg.overlapPct > 0 then n.overlap / ((1/2 * cfg.overlapPct) * (1 + cfg.overlapPct)) else n.radius * 2) + (if cfg.overlapPct > 0 then n.overlap / ((1/2 * cfg.overlapPct) * (1 + cfg.overlapPct)) else n.radius * 2) * cfg.overlapPct) - (n.radius + n.overlap)), if octant_index_from_xyz (i1.x + i2.x + i3.x) (i1.y + i2.y + i3.y) (i1.z + i2.z + i3.z) &&& 2 ≠ 0 then (((if cfg.overlapPct > 0 then n.overlap / ((1/2 * cfg.overlapPct) * (1 + cfg.overlapPct)) else n.radius * 2) + (if cfg.overlapPct > 0 then n.overlap / ((1/2 * cfg.overlapPct) * (1 + cfg.overlapPct)) else n.radius * 2) * cfg.overlapPct) - (n.radius + n.overlap)) else -(((if cfg.overlapPct > 0 then n.overlap / ((1/2 * cfg.overlapPct) * (1 + cfg.overlapPct)) else n.radius * 2) + (if cfg.overlapPct > 0 then n.overlap / ((1/2 * cfg.overlapPct) * (1 + cfg.overlapPct)) else n.radius * 2) * cfg.overlapPct) - (n.radius + n.overlap)), if octant_index_from_xyz (i1.x + i2.x + i3.x) (i1.y + i2.y + i3.y) (i1.z + i2.z + i3.z) &&& 4 ≠ 0 then (((if cfg.overlapPct > 0 then n.overlap / ((1/2 * cfg.overlapPct) * (1 + cfg.overlapPct)) else n.radius * 2) + (if cfg.overlapPct > 0 then n.overlap / ((1/2 * cfg.overlapPct) * (1 + cfg.overlapPct)) else n.radius * 2) * cfg.overlapPct) - (n.radius + n.overlap)) else -(((if cfg.overlapPct > 0 then n.overlap / ((1/2 * cfg.overlapPct) * (1 + cfg.overlapPct)) else n.radius * 2) + (if cfg.overlapPct > 0 then n.overlap / ((1/2 * cfg.overlapPct) * (1 + cfg.overlapPct)) else n.radius * 2) * cfg.overlapPct) - (n.radius + n.overlap))⟩ : Vec3)) (if cfg.overlapPct > 0 then n.overlap / ((1/2 * cfg.overlapPct) * (1 + cfg.overlapPct)) else n.radius * 2) none none none).nodesByIndex ((octant_index_from_xyz (-(i1.x + i2.x + i3.x)) (-(i1.y + i2.y + i3.y)) (-(i1.z + i2.z + i3.z)) : ℕ) : ℤ) nid } : NodeRec)).nodesIndices = [((octant_index_from_xyz (-(i1.x + i2.x + i3.x)) (-(i1.y + i2.y + i3.y)) (-(i1.z + i2.z + i3.z)) : ℕ) : ℤ)] := by
    simp [mk_octree_node]
  have hbi1 : (({ (mk_octree_node cfg core.nodeCount (Vec3.add n.position (⟨if octant_index_from_xyz (i1.x + i2.x + i3.x) (i1.y + i2.y + i3.y) (i1.z + i2.z + i3.z) &&& 1 ≠ 0 then (((if cfg.overlapPct > 0 then n.overlap / ((1/2 * cfg.overlapPct) * (1 + cfg.overlapPct)) else n.radius * 2) + (if cfg.overlapPct > 0 then n.overlap / ((1/2 * cfg.overlapPct) * (1 + cfg.overlapPct)) else n.radius * 2) * cfg.overlapPct) - (n.radius + n.overlap)) else -(((if cfg.overlapPct > 0 then n.overlap / ((1/2 * cfg.overlapPct) * (1 + cfg.overlapPct)) else n.radius * 2) + (if cfg.overlapPct > 0 then n.overlap / ((1/2 * cfg.overlapPct) * (1 + cfg.overlapPct)) else n.radius * 2) * cfg.overlapPct) - (n.radius + n.overlap)), if octant_index_from_xyz (i1.x + i2.x + i3.x) (i1.y + i2.y + i3.y) (i1.z + i2.z + i3.z) &&& 2 ≠ 0 then (((if cfg.overlapPct > 0 then n.overlap / ((1/2 * cfg.overlapPct) * (1 + cfg.overlapPct)) else n.radius * 2) + (if cfg.overlapPct > 0 then n.overlap / ((1/2 * cfg.overlapPct) * (1 + cfg.overlapPct)) else n.radius * 2) * cfg.overlapPct) - (n.radius + n.overlap)) else -(((if cfg.overlapPct > 0 then n.overlap / ((1/2 * cfg.overlapPct) * (1 + cfg.overlapPct)) else n.radius * 2) + (if cfg.overlapPct > 0 then n.overlap / ((1/2 * cfg.overlapPct) * (1 + cfg.overlapPct)) else n.radius * 2) * cfg.overlapPct) - (n.radius + n.overlap)), if octant_index_from_xyz (i1.x + i2.x + i3.x) (i1.y + i2.y + i3.y) (i1.z + i2.z + i3.z) &&& 4 ≠ 0 then (((if cfg.overlapPct > 0 then n.overlap / ((1/2 * cfg.overlapPct) * (1 + cfg.overlapPct)) else n.radius * 2) + (if cfg.overlapPct > 0 then n.overlap / ((1/2 * cfg.overlapPct) * (1 + cfg.overlapPct)) else n.radius * 2) * cfg.overlapPct) - (n.radius + n.overlap)) else -(((if cfg.overlapPct > 0 then n.overlap / ((1/2 * cfg.overlapPct) * (1 + cfg.overlapPct)) else n.radius * 2) + (if cfg.overlapPct > 0 then n.overlap / ((1/2 * cfg.overlapPct) * (1 + cfg.overlapPct)) else n.radius * 2) * cfg.overlapPct) - (n.radius + n.overlap))⟩ : Vec3)) (if cfg.overlapPct > 0 then n.overlap / ((1/2 * cfg.overlapPct) * (1 + cfg.overlapPct)) else n.radius * 2) none none none) with nodesIndices := (if ((octant_index_from_xyz (-(i1.x + i2.x + i3.x)) (-(i1.y + i2.y + i3.y)) (-(i1.z + i2.z + i3.z)) : ℕ) : ℤ) ∈ (mk_octree_node cfg core.nodeCount (Vec3.add n.position (⟨if octant_index_from_xyz (i1.x + i2.x + i3.x) (i1.y + i2.y + i3.y) (i1.z + i2.z + i3.z) &&& 1 ≠ 0 then (((if cfg.overlapPct > 0 then n.overlap / ((1/2 * cfg.overlapPct) * (1 + cfg.overlapPct)) else n.radius * 2) + (if cfg.overlapPct > 0 then n.overlap / ((1/2 * cfg.overlapPct) * (1 + cfg.overlapPct)) else n.radius * 2) * cfg.overlapPct) - (n.radius + n.overlap)) else -(((if cfg.overlapPct > 0 then n.overlap / ((1/2 * cfg.overlapPct) * (1 + cfg.overlapPct)) else n.radius * 2) + (if cfg.overlapPct > 0 then n.overlap / ((1/2 * cfg.overlapPct) * (1 + cfg.overlapPct)) else n.radius * 2) * cfg.overlapPct) - (n.radius + n.overlap)), if octant_index_from_xyz (i1.x + i2.x + i3.x) (i1.y + i2.y + i3.y) (i1.z + i2.z + i3.z) &&& 2 ≠ 0 then (((if cfg.overlapPct > 0 then n.overlap / ((1/2 * cfg.overlapPct) * (1 + cfg.overlapPct)) else n.radius * 2) + (if cfg.overlapPct > 0 then n.overlap / ((1/2 * cfg.overlapPct) * (1 + cfg.overlapPct)) else n.radius * 2) * cfg.overlapPct) - (n.radius + n.overlap)) else -(((if cfg.overlapPct > 0 then n.overlap / ((1/2 * cfg.overlapPct) * (1 + cfg.overlapPct)) else n.radius * 2) + (if cfg.overlapPct > 0 then n.overlap / ((1/2 * cfg.overlapPct) * (1 + cfg.overlapPct)) else n.radius * 2) * cfg.overlapPct) - (n.radius + n.overlap)), if octant_index_from_xyz (i1.x + i2.x + i3.x) (i1.y + i2.y + i3.y) (i1.z + i2.z + i3.z) &&& 4 ≠ 0 then (((if cfg.overlapPct > 0 then n.overlap / ((1/2 * cfg.overlapPct) * (1 + cfg.overlapPct)) else n.radius * 2) + (if cfg.overlapPct > 0 then n.overlap / ((1/2 * cfg.overlapPct) * (1 + cfg.overlapPct)) else n.radius * 2) * cfg.overlapPct) - (n.radius + n.overlap)) else -(((if cfg.overlapPct > 0 then n.overlap / ((1/2 * cfg.overlapPct) * (1 + cfg.overlapPct)) else n.radius * 2) + (if cfg.overlapPct > 0 then n.overlap / ((1/2 * cfg.overlapPct) * (1 + cfg.overlapPct)) else n.radius * 2) * cfg.overlapPct) - (n.radius + n.overlap))⟩ : Vec3)) (if cfg.overlapPct > 0 then n.overlap / ((1/2 * cfg.overlapPct) * (1 + cfg.overlapPct)) else n.radius * 2) none none none).nodesIndices then (mk_octree_node cfg core.nodeCount (Vec3.add n.position (⟨if octant_index_from_xyz (i1.x + i2.x + i3.x) (i1.y + i2.y + i3.y) (i1.z + i2.z + i3.z) &&& 1 ≠ 0 then (((if cfg.overlapPct > 0 then n.overlap / ((1/2 * cfg.overlapPct) * (1 + cfg.overlapPct)) else n.radius * 2) + (if cfg.overlapPct > 0 then n.overlap / ((1/2 * cfg.overlapPct) * (1 + cfg.overlapPct)) else n.radius * 2) * cfg.overlapPct) - (n.radius + n.overlap)) else -(((if cfg.overlapPct > 0 then n.overlap / ((1/2 * cfg.overlapPct) * (1 + cfg.overlapPct)) else n.radius * 2) + (if cfg.overlapPct > 0 then n.overlap / ((1/2 * cfg.overlapPct) * (1 + cfg.overlapPct)) else n.radius * 2) * cfg.overlapPct) - (n.radius + n.overlap)), if octant_index_from_xyz (i1.x + i2.x + i3.x) (i1.y + i2.y + i3.y) (i1.z + i2.z + i3.z) &&& 2 ≠ 0 then (((if cfg.overlapPct > 0 then n.overlap / ((1/2 * cfg.overlapPct) * (1 + cfg.overlapPct)) else n.radius * 2) + (if cfg.overlapPct > 0 then n.overlap / ((1/2 * cfg.overlapPct) * (1 + cfg.overlapPct)) else n.radius * 2) * cfg.overlapPct) - (n.radius + n.overlap)) else -(((if cfg.overlapPct > 0 then n.overlap / ((1/2 * cfg.overlapPct) * (1 + cfg.overlapPct)) else n.radius * 2) + (if cfg.overlapPct > 0 then n.overlap / ((1/2 * cfg.overlapPct) * (1 + cfg.overlapPct)) else n.radius * 2) * cfg.overlapPct) - (n.radius + n.overlap)), if octant_index_from_xyz (i1.x + i2.x + i3.x) (i1.y + i2.y + i3.y) (i1.z + i2.z + i3.z) &&& 4 ≠ 0 then (((if cfg.overlapPct > 0 then n.overlap / ((1/2 * cfg.overlapPct) * (1 + cfg.overlapPct)) else n.radius * 2) + (if cfg.overlapPct > 0 then n.overlap / ((1/2 * cfg.overlapPct) * (1 + cfg.overlapPct)) else n.radius * 2) * cfg.overlapPct) - (n.radius + n.overlap)) else -(((if cfg.overlapPct > 0 then n.overlap / ((1/2 * cfg.overlapPct) * (1 + cfg.overlapPct)) else n.radius * 2) + (if cfg.overlapPct > 0 then n.overlap / ((1/2 * cfg.overlapPct) * (1 + cfg.overlapPct)) else n.radius * 2) * cfg.overlapPct) - (n.radius + n.overlap))⟩ : Vec3)) (if cfg.overlapPct > 0 then n.overlap / ((1/2 * cfg.overlapPct) * (1 + cfg.overlapPct)) else n.radius * 2) none none none).nodesIndices else (mk_octree_node cfg core.nodeCount (Vec3.add n.position (⟨if octant_index_from_xyz (i1.x + i2.x + i3.x) (i1.y + i2.y + i3.y) (i1.z + i2.z + i3.z) &&& 1 ≠ 0 then (((if cfg.overlapPct > 0 then n.overlap / ((1/2 * cfg.overlapPct) * (1 + cfg.overlapPct)) else n.radius * 2) + (if cfg.overlapPct > 0 then n.overlap / ((1/2 * cfg.overlapPct) * (1 + cfg.overlapPct)) else n.radius * 2) * cfg.overlapPct) - (n.radius + n.overlap)) else -(((if cfg.overlapPct > 0 then n.overlap / ((1/2 * cfg.overlapPct) * (1 + cfg.overlapPct)) else n.radius * 2) + (if cfg.overlapPct > 0 then n.overlap / ((1/2 * cfg.overlapPct) * (1 + cfg.overlapPct)) else n.radius * 2) * cfg.overlapPct) - (n.radius + n.overlap)), if octant_index_from_xyz (i1.x + i2.x + i3.x) (i1.y + i2.y + i3.y) (i1.z + i2.z + i3.z) &&& 2 ≠ 0 then (((if cfg.overlapPct > 0 then n.overlap / ((1/2 * cfg.overlapPct) * (1 + cfg.overlapPct)) else n.radius * 2) + (if cfg.overlapPct > 0 then n.overlap / ((1/2 * cfg.overlapPct) * (1 + cfg.overlapPct)) else n.radius * 2) * cfg.overlapPct) - (n.radius + n.overlap)) else -(((if cfg.overlapPct > 0 then n.overlap / ((1/2 * cfg.overlapPct) * (1 + cfg.overlapPct)) else n.radius * 2) + (if cfg.overlapPct > 0 then n.overlap / ((1/2 * cfg.overlapPct) * (1 + cfg.overlapPct)) else n.radius * 2) * cfg.overlapPct) - (n.radius + n.overlap)), if octant_index_from_xyz (i1.x + i2.x + i3.x) (i1.y + i2.y + i3.y) (i1.z + i2.z + i3.z) &&& 4 ≠ 0 then (((if cfg.overlapPct > 0 then n.overlap / ((1/2 * cfg.overlapPct) * (1 + cfg.overlapPct)) else n.radius * 2) + (if cfg.overlapPct > 0 then n.overlap / ((1/2 * cfg.overlapPct) * (1 + cfg.overlapPct)) else n.radius * 2) * cfg.overlapPct) - (n.radius + n.overlap)) else -(((if cfg.overlapPct > 0 then n.overlap / ((1/2 * cfg.overlapPct) * (1 + cfg.overlapPct)) else n.radius * 2) + (if cfg.overlapPct > 0 then n.overlap / ((1/2 * cfg.overlapPct) * (1 + cfg.overlapPct)) else n.radius * 2) * cfg.overlapPct) - (n.radius + n.overlap))⟩ : Vec3)) (if cfg.overlapPct > 0 then n.overlap / ((1/2 * cfg.overlapPct) * (1 + cfg.overlapPct)) else n.radius * 2) none none none).nodesIndices ++ [((octant_index_from_xyz (-(i1.x + i2.x + i3.x)) (-(i1.y + i2.y + i3.y)) (-(i1.z + i2.z + i3.z)) : ℕ) : ℤ)]), nodesByIndex := upd_assoc (mk_octree_node cfg core.nodeCount (Vec3.add n.position (⟨if octant_index_from_xyz (i1.x + i2.x + i3.x) (i1.y + i2.y + i3.y) (i1.z + i2.z + i3.z) &&& 1 ≠ 0 then (((if cfg.overlapPct > 0 then n.overlap / ((1/2 * cfg.overlapPct) * (1 + cfg.overlapPct)) else n.radius * 2) + (if cfg.overlapPct > 0 then n.overlap / ((1/2 * cfg.overlapPct) * (1 + cfg.overlapPct)) else n.radius * 2) * cfg.overlapPct) - (n.radius + n.overlap)) else -(((if cfg.overlapPct > 0 then n.overlap / ((1/2 * cfg.overlapPct) * (1 + cfg.overlapPct)) else n.radius * 2) + (if cfg.overlapPct > 0 then n.overlap / ((1/2 * cfg.overlapPct) * (1 + cfg.overlapPct)) else n.radius * 2) * cfg.overlapPct) - (n.radius + n.overlap)), if octant_index_from_xyz (i1.x + i2.x + i3.x) (i1.y + i2.y + i3.y) (i1.z + i2.z + i3.z) &&& 2 ≠ 0 then (((if cfg.overlapPct > 0 then n.overlap / ((1/2 * cfg.overlapPct) * (1 + cfg.overlapPct)) else n.radius * 2) + (if cfg.overlapPct > 0 then n.overlap / ((1/2 * cfg.overlapPct) * (1 + cfg.overlapPct)) else n.radius * 2) * cfg.overlapPct) - (n.radius + n.overlap)) else -(((if cfg.overlapPct > 0 then n.overlap / ((1/2 * cfg.overlapPct) * (1 + cfg.overlapPct)) else n.radius * 2) + (if cfg.overlapPct > 0 then n.overlap / ((1/2 * cfg.overlapPct) * (1 + cfg.overlapPct)) else n.radius * 2) * cfg.overlapPct) - (n.radius + n.overlap)), if octant_index_from_xyz (i1.x + i2.x + i3.x) (i1.y + i2.y + i3.y) (i1.z + i2.z + i3.z) &&& 4 ≠ 0 then (((if cfg.overlapPct > 0 then n.overlap / ((1/2 * cfg.overlapPct) * (1 + cfg.overlapPct)) else n.radius * 2) + (if cfg.overlapPct > 0 then n.overlap / ((1/2 * cfg.overlapPct) * (1 + cfg.overlapPct)) else n.radius * 2) * cfg.overlapPct) - (n.radius + n.overlap)) else -(((if cfg.overlapPct > 0 then n.overlap / ((1/2 * cfg.overlapPct) * (1 + cfg.overlapPct)) else n.radius * 2) + (if cfg.overlapPct > 0 then n.overlap / ((1/2 * cfg.overlapPct) * (1 + cfg.overlapPct)) else n.radius * 2) * cfg.overlapPct) - (n.radius + n.overlap))⟩ : Vec3)) (if cfg.overlapPct > 0 then n.overlap / ((1/2 * cfg.overlapPct) * (1 + cfg.overlapPct)) else n.radius * 2) none none none).nodesByIndex ((octant_index_from_xyz (-(i1.x + i2.x + i3.x)) (-(i1.y + i2.y + i3.y)) (-(i1.z + i2.z + i3.z)) : ℕ) : ℤ) nid } : NodeRec)).nodesByIndex.lookup ((octant_index_from_xyz (-(i1.x + i2.x + i3.x)) (-(i1.y + i2.y + i3.y)) (-(i1.z + i2.z + i3.z)) : ℕ) : ℤ) = some nid := by
    simp [mk_octree_node, upd_assoc, List.lookup]
  have hRS := root_set_cascade_ge (fuel + 5) (by omega) (setNode (setNode (setNode (setNode (⟨core.nodes, nid, core.nodeCount + 1⟩ : OctreeCore) (mk_octree_node cfg core.nodeCount (Vec3.add n.position (⟨if octant_index_from_xyz (i1.x + i2.x + i3.x) (i1.y + i2.y + i3.y) (i1.z + i2.z + i3.z) &&& 1 ≠ 0 then (((if cfg.overlapPct > 0 then n.overlap / ((1/2 * cfg.overlapPct) * (1 + cfg.overlapPct)) else n.radius * 2) + (if cfg.overlapPct > 0 then n.overlap / ((1/2 * cfg.overlapPct) * (1 + cfg.overlapPct)) else n.radius * 2) * cfg.overlapPct) - (n.radius + n.overlap)) else -(((if cfg.overlapPct > 0 then n.overlap / ((1/2 * cfg.overlapPct) * (1 + cfg.overlapPct)) else n.radius * 2) + (if cfg.overlapPct > 0 then n.overlap / ((1/2 * cfg.overlapPct) * (1 + cfg.overlapPct)) else n.radius * 2) * cfg.overlapPct) - (n.radius + n.overlap)), if octant_index_from_xyz (i1.x + i2.x + i3.x) (i1.y + i2.y + i3.y) (i1.z + i2.z + i3.z) &&& 2 ≠ 0 then (((if cfg.overlapPct > 0 then n.overlap / ((1/2 * cfg.overlapPct) * (1 + cfg.overlapPct)) else n.radius * 2) + (if cfg.overlapPct > 0 then n.overlap / ((1/2 * cfg.overlapPct) * (1 + cfg.overlapPct)) else n.radius * 2) * cfg.overlapPct) - (n.radius + n.overlap)) else -(((if cfg.overlapPct > 0 then n.overlap / ((1/2 * cfg.overlapPct) * (1 + cfg.overlapPct)) else n.radius * 2) + (if cfg.overlapPct > 0 then n.overlap / ((1/2 * cfg.overlapPct) * (1 + cfg.overlapPct)) else n.radius * 2) * cfg.overlapPct) - (n.radius + n.overlap)), if octant_index_from_xyz (i1.x + i2.x + i3.x) (i1.y + i2.y + i3.y) (i1.z + i2.z + i3.z) &&& 4 ≠ 0 then (((if cfg.overlapPct > 0 then n.overlap / ((1/2 * cfg.overlapPct) * (1 + cfg.overlapPct)) else n.radius * 2) + (if cfg.overlapPct > 0 then n.overlap / ((1/2 * cfg.overlapPct) * (1 + cfg.overlapPct)) else n.radius * 2) * cfg.overlapPct) - (n.radius + n.overlap)) else -(((if cfg.overlapPct > 0 then n.overlap / ((1/2 * cfg.overlapPct) * (1 + cfg.overlapPct)) else n.radius * 2) + (if cfg.overlapPct > 0 then n.overlap / ((1/2 * cfg.overlapPct) * (1 + cfg.overlapPct)) else n.radius * 2) * cfg.overlapPct) - (n.radius + n.overlap))⟩ : Vec3)) (if cfg.overlapPct > 0 then n.overlap / ((1/2 * cfg.overlapPct) * (1 + cfg.overlapPct)) else n.radius * 2) none none none)) ({ n with indexOctant := some ((octant_index_from_xyz (-(i1.x + i2.x + i3.x)) (-(i1.y + i2.y + i3.y)) (-(i1.z + i2.z + i3.z)) : ℕ) : ℤ) } : NodeRec)) ({ (mk_octree_node cfg core.nodeCount (Vec3.add n.position (⟨if octant_index_from_xyz (i1.x + i2.x + i3.x) (i1.y + i2.y + i3.y) (i1.z + i2.z + i3.z) &&& 1 ≠ 0 then (((if cfg.overlapPct > 0 then n.overlap / ((1/2 * cfg.overlapPct) * (1 + cfg.overlapPct)) else n.radius * 2) + (if cfg.overlapPct > 0 then n.overlap / ((1/2 * cfg.overlapPct) * (1 + cfg.overlapPct)) else n.radius * 2) * cfg.overlapPct) - (n.radius + n.overlap)) else -(((if cfg.overlapPct > 0 then n.overlap / ((1/2 * cfg.overlapPct) * (1 + cfg.overlapPct)) else n.radius * 2) + (if cfg.overlapPct > 0 then n.overlap / ((1/2 * cfg.overlapPct) * (1 + cfg.overlapPct)) else n.radius * 2) * cfg.overlapPct) - (n.radius + n.overlap)), if octant_index_from_xyz (i1.x + i2.x + i3.x) (i1.y + i2.y + i3.y) (i1.z + i2.z + i3.z) &&& 2 ≠ 0 then (((if cfg.overlapPct > 0 then n.overlap / ((1/2 * cfg.overlapPct) * (1 + cfg.overlapPct)) else n.radius * 2) + (if cfg.overlapPct > 0 then n.overlap / ((1/2 * cfg.overlapPct) * (1 + cfg.overlapPct)) else n.radius * 2) * cfg.overlapPct) - (n.radius + n.overlap)) else -(((if cfg.overlapPct > 0 then n.overlap / ((1/2 * cfg.overlapPct) * (1 + cfg.overlapPct)) else n.radius * 2) + (if cfg.overlapPct > 0 then n.overlap / ((1/2 * cfg.overlapPct) * (1 + cfg.overlapPct)) else n.radius * 2) * cfg.overlapPct) - (n.radius + n.overlap)), if octant_index_from_xyz (i1.x + i2.x + i3.x) (i1.y + i2.y + i3.y) (i1.z + i2.z + i3.z) &&& 4 ≠ 0 then (((if cfg.overlapPct > 0 then n.overlap / ((1/2 * cfg.overlapPct) * (1 + cfg.overlapPct)) else n.radius * 2) + (if cfg.overlapPct > 0 then n.overlap / ((1/2 * cfg.overlapPct) * (1 + cfg.overlapPct)) else n.radius * 2) * cfg.overlapPct) - (n.radius + n.overlap)) else -(((if cfg.overlapPct > 0 then n.overlap / ((1/2 * cfg.overlapPct) * (1 + cfg.overlapPct)) else n.radius * 2) + (if cfg.overlapPct > 0 then n.overlap / ((1/2 * cfg.overlapPct) * (1 + cfg.overlapPct)) else n.radius * 2) * cfg.overlapPct) - (n.radius + n.overlap))⟩ : Vec3)) (if cfg.overlapPct > 0 then n.overlap / ((1/2 * cfg.overlapPct) * (1 + cfg.overlapPct)) else n.radius * 2) none none none) with nodesIndices := (if ((octant_index_from_xyz (-(i1.x + i2.x + i3.x)) (-(i1.y + i2.y + i3.y)) (-(i1.z + i2.z + i3.z)) : ℕ) : ℤ) ∈ (mk_octree_node cfg core.nodeCount (Vec3.add n.position (⟨if octant_index_from_xyz (i1.x + i2.x + i3.x) (i1.y + i2.y + i3.y) (i1.z + i2.z + i3.z) &&& 1 ≠ 0 then (((if cfg.overlapPct > 0 then n.overlap / ((1/2 * cfg.overlapPct) * (1 + cfg.overlapPct)) else n.radius * 2) + (if cfg.overlapPct > 0 then n.overlap / ((1/2 * cfg.overlapPct) * (1 + cfg.overlapPct)) else n.radius * 2) * cfg.overlapPct) - (n.radius + n.overlap)) else -(((if cfg.overlapPct > 0 then n.overlap / ((1/2 * cfg.overlapPct) * (1 + cfg.overlapPct)) else n.radius * 2) + (if cfg.overlapPct > 0 then n.overlap / ((1/2 * cfg.overlapPct) * (1 + cfg.overlapPct)) else n.radius * 2) * cfg.overlapPct) - (n.radius + n.overlap)), if octant_index_from_xyz (i1.x + i2.x + i3.x) (i1.y + i2.y + i3.y) (i1.z + i2.z + i3.z) &&& 2 ≠ 0 then (((if cfg.overlapPct > 0 then n.overlap / ((1/2 * cfg.overlapPct) * (1 + cfg.overlapPct)) else n.radius * 2) + (if cfg.overlapPct > 0 then n.overlap / ((1/2 * cfg.overlapPct) * (1 + cfg.overlapPct)) else n.radius * 2) * cfg.overlapPct) - (n.radius + n.overlap)) else -(((if cfg.overlapPct > 0 then n.overlap / ((1/2 * cfg.overlapPct) * (1 + cfg.overlapPct)) else n.radius * 2) + (if cfg.overlapPct > 0 then n.overlap / ((1/2 * cfg.overlapPct) * (1 + cfg.overlapPct)) else n.radius * 2) * cfg.overlapPct) - (n.radius + n.overlap)), if octant_index_from_xyz (i1.x + i2.x + i3.x) (i1.y + i2.y + i3.y) (i1.z + i2.z + i3.z) &&& 4 ≠ 0 then (((if cfg.overlapPct > 0 then n.overlap / ((1/2 * cfg.overlapPct) * (1 + cfg.overlapPct)) else n.radius * 2) + (if cfg.overlapPct > 0 then n.overlap / ((1/2 * cfg.overlapPct) * (1 + cfg.overlapPct)) else n.radius * 2) * cfg.overlapPct) - (n.radius + n.overlap)) else -(((if cfg.overlapPct > 0 then n.overlap / ((1/2 * cfg.overlapPct) * (1 + cfg.overlapPct)) else n.radius * 2) + (if cfg.overlapPct > 0 then n.overlap / ((1/2 * cfg.overlapPct) * (1 + cfg.overlapPct)) else n.radius * 2) * cfg.overlapPct) - (n.radius + n.overlap))⟩ : Vec3)) (if cfg.overlapPct > 0 then n.overlap / ((1/2 * cfg.overlapPct) * (1 + cfg.overlapPct)) else n.radius * 2) none none none).nodesIndices then (mk_octree_node cfg core.nodeCount (Vec3.add n.position (⟨if octant_index_from_xyz (i1.x + i2.x + i3.x) (i1.y + i2.y + i3.y) (i1.z + i2.z + i3.z) &&& 1 ≠ 0 then (((if cfg.overlapPct > 0 then n.overlap / ((1/2 * cfg.overlapPct) * (1 + cfg.overlapPct)) else n.radius * 2) + (if cfg.overlapPct > 0 then n.overlap / ((1/2 * cfg.overlapPct) * (1 + cfg.overlapPct)) else n.radius * 2) * cfg.overlapPct) - (n.radius + n.overlap)) else -(((if cfg.overlapPct > 0 then n.overlap / ((1/2 * cfg.overlapPct) * (1 + cfg.overlapPct)) else n.radius * 2) + (if cfg.overlapPct > 0 then n.overlap / ((1/2 * cfg.overlapPct) * (1 + cfg.overlapPct)) else n.radius * 2) * cfg.overlapPct) - (n.radius + n.overlap)), if octant_index_from_xyz (i1.x + i2.x + i3.x) (i1.y + i2.y + i3.y) (i1.z + i2.z + i3.z) &&& 2 ≠ 0 then (((if cfg.overlapPct > 0 then n.overlap / ((1/2 * cfg.overlapPct) * (1 + cfg.overlapPct)) else n.radius * 2) + (if cfg.overlapPct > 0 then n.overlap / ((1/2 * cfg.overlapPct) * (1 + cfg.overlapPct)) else n.radius * 2) * cfg.overlapPct) - (n.radius + n.overlap)) else -(((if cfg.overlapPct > 0 then n.overlap / ((1/2 * cfg.overlapPct) * (1 + cfg.overlapPct)) else n.radius * 2) + (if cfg.overlapPct > 0 then n.overlap / ((1/2 * cfg.overlapPct) * (1 + cfg.overlapPct)) else n.radius * 2) * cfg.overlapPct) - (n.radius + n.overlap)), if octant_index_from_xyz (i1.x + i2.x + i3.x) (i1.y + i2.y + i3.y) (i1.z + i2.z + i3.z) &&& 4 ≠ 0 then (((if cfg.overlapPct > 0 then n.overlap / ((1/2 * cfg.overlapPct) * (1 + cfg.overlapPct)) else n.radius * 2) + (if cfg.overlapPct > 0 then n.overlap / ((1/2 * cfg.overlapPct) * (1 + cfg.overlapPct)) else n.radius * 2) * cfg.overlapPct) - (n.radius + n.overlap)) else -(((if cfg.overlapPct > 0 then n.overlap / ((1/2 * cfg.overlapPct) * (1 + cfg.overlapPct)) else n.radius * 2) + (if cfg.overlapPct > 0 then n.overlap / ((1/2 * cfg.overlapPct) * (1 + cfg.overlapPct)) else n.radius * 2) * cfg.overlapPct) - (n.radius + n.overlap))⟩ : Vec3)) (if cfg.overlapPct > 0 then n.overlap / ((1/2 * cfg.overlapPct) * (1 + cfg.overlapPct)) else n.radius * 2) none none none).nodesIndices else (mk_octree_node cfg core.nodeCount (Vec3.add n.position (⟨if octant_index_from_xyz (i1.x + i2.x + i3.x) (i1.y + i2.y + i3.y) (i1.z + i2.z + i3.z) &&& 1 ≠ 0 then (((if cfg.overlapPct > 0 then n.overlap / ((1/2 * cfg.overlapPct) * (1 + cfg.overlapPct)) else n.radius * 2) + (if cfg.overlapPct > 0 then n.overlap / ((1/2 * cfg.overlapPct) * (1 + cfg.overlapPct)) else n.radius * 2) * cfg.overlapPct) - (n.radius + n.overlap)) else -(((if cfg.overlapPct > 0 then n.overlap / ((1/2 * cfg.overlapPct) * (1 + cfg.overlapPct)) else n.radius * 2) + (if cfg.overlapPct > 0 then n.overlap / ((1/2 * cfg.overlapPct) * (1 + cfg.overlapPct)) else n.radius * 2) * cfg.overlapPct) - (n.radius + n.overlap)), if octant_index_from_xyz (i1.x + i2.x + i3.x) (i1.y + i2.y + i3.y) (i1.z + i2.z + i3.z) &&& 2 ≠ 0 then (((if cfg.overlapPct > 0 then n.overlap / ((1/2 * cfg.overlapPct) * (1 + cfg.overlapPct)) else n.radius * 2) + (if cfg.overlapPct > 0 then n.overlap / ((1/2 * cfg.overlapPct) * (1 + cfg.overlapPct)) else n.radius * 2) * cfg.overlapPct) - (n.radius + n.overlap)) else -(((if cfg.overlapPct > 0 then n.overlap / ((1/2 * cfg.overlapPct) * (1 + cfg.overlapPct)) else n.radius * 2) + (if cfg.overlapPct > 0 then n.overlap / ((1/2 * cfg.overlapPct) * (1 + cfg.overlapPct)) else n.radius * 2) * cfg.overlapPct) - (n.radius + n.overlap)), if octant_index_from_xyz (i1.x + i2.x + i3.x) (i1.y + i2.y + i3.y) (i1.z + i2.z + i3.z) &&& 4 ≠ 0 then (((if cfg.overlapPct > 0 then n.overlap / ((1/2 * cfg.overlapPct) * (1 + cfg.overlapPct)) else n.radius * 2) + (if cfg.overlapPct > 0 then n.overlap / ((1/2 * cfg.overlapPct) * (1 + cfg.overlapPct)) else n.radius * 2) * cfg.overlapPct) - (n.radius + n.overlap)) else -(((if cfg.overlapPct > 0 then n.overlap / ((1/2 * cfg.overlapPct) * (1 + cfg.overlapPct)) else n.radius * 2) + (if cfg.overlapPct > 0 then n.overlap / ((1/2 * cfg.overlapPct) * (1 + cfg.overlapPct)) else n.radius * 2) * cfg.overlapPct) - (n.radius + n.overlap))⟩ : Vec3)) (if cfg.overlapPct > 0 then n.overlap / ((1/2 * cfg.overlapPct) * (1 + cfg.overlapPct)) else n.radius * 2) none none none).nodesIndices ++ [((octant_index_from_xyz (-(i1.x + i2.x + i3.x)) (-(i1.y + i2.y + i3.y)) (-(i1.z + i2.z + i3.z)) : ℕ) : ℤ)]), nodesByIndex := upd_assoc (mk_octree_node cfg core.nodeCount (Vec3.add n.position (⟨if octant_index_from_xyz (i1.x + i2.x + i3.x) (i1.y + i2.y + i3.y) (i1.z + i2.z + i3.z) &&& 1 ≠ 0 then (((if cfg.overlapPct > 0 then n.overlap / ((1/2 * cfg.overlapPct) * (1 + cfg.overlapPct)) else n.radius * 2) + (if cfg.overlapPct > 0 then n.overlap / ((1/2 * cfg.overlapPct) * (1 + cfg.overlapPct)) else n.radius * 2) * cfg.overlapPct) - (n.radius + n.overlap)) else -(((if cfg.overlapPct > 0 then n.overlap / ((1/2 * cfg.overlapPct) * (1 + cfg.overlapPct)) else n.radius * 2) + (if cfg.overlapPct > 0 then n.overlap / ((1/2 * cfg.overlapPct) * (1 + cfg.overlapPct)) else n.radius * 2) * cfg.overlapPct) - (n.radius + n.overlap)), if octant_index_from_xyz (i1.x + i2.x + i3.x) (i1.y + i2.y + i3.y) (i1.z + i2.z + i3.z) &&& 2 ≠ 0 then (((if cfg.overlapPct > 0 then n.overlap / ((1/2 * cfg.overlapPct) * (1 + cfg.overlapPct)) else n.radius * 2) + (if cfg.overlapPct > 0 then n.overlap / ((1/2 * cfg.overlapPct) * (1 + cfg.overlapPct)) else n.radius * 2) * cfg.overlapPct) - (n.radius + n.overlap)) else -(((if cfg.overlapPct > 0 then n.overlap / ((1/2 * cfg.overlapPct) * (1 + cfg.overlapPct)) else n.radius * 2) + (if cfg.overlapPct > 0 then n.overlap / ((1/2 * cfg.overlapPct) * (1 + cfg.overlapPct)) else n.radius * 2) * cfg.overlapPct) - (n.radius + n.overlap)), if octant_index_from_xyz (i1.x + i2.x + i3.x) (i1.y + i2.y + i3.y) (i1.z + i2.z + i3.z) &&& 4 ≠ 0 then (((if cfg.overlapPct > 0 then n.overlap / ((1/2 * cfg.overlapPct) * (1 + cfg.overlapPct)) else n.radius * 2) + (if cfg.overlapPct > 0 then n.overlap / ((1/2 * cfg.overlapPct) * (1 + cfg.overlapPct)) else n.radius * 2) * cfg.overlapPct) - (n.radius + n.overlap)) else -(((if cfg.overlapPct > 0 then n.overlap / ((1/2 * cfg.overlapPct) * (1 + cfg.overlapPct)) else n.radius * 2) + (if cfg.overlapPct > 0 then n.overlap / ((1/2 * cfg.overlapPct) * (1 + cfg.overlapPct)) else n.radius * 2) * cfg.overlapPct) - (n.radius + n.overlap))⟩ : Vec3)) (if cfg.overlapPct > 0 then n.overlap / ((1/2 * cfg.overlapPct) * (1 + cfg.overlapPct)) else n.radius * 2) none none none).nodesByIndex ((octant_index_from_xyz (-(i1.x + i2.x + i3.x)) (-(i1.y + i2.y + i3.y)) (-(i1.z + i2.z + i3.z)) : ℕ) : ℤ) nid } : NodeRec)) ({ n with indexOctant := some ((octant_index_from_xyz (-(i1.x + i2.x + i3.x)) (-(i1.y + i2.y + i3.y)) (-(i1.z + i2.z + i3.z)) : ℕ) : ℤ), parent := some core.nodeCount, depth := (mk_octree_node cfg core.nodeCount (Vec3.add n.position (⟨if octant_index_from_xyz (i1.x + i2.x + i3.x) (i1.y + i2.y + i3.y) (i1.z + i2.z + i3.z) &&& 1 ≠ 0 then (((if cfg.overlapPct > 0 then n.overlap / ((1/2 * cfg.overlapPct) * (1 + cfg.overlapPct)) else n.radius * 2) + (if cfg.overlapPct > 0 then n.overlap / ((1/2 * cfg.overlapPct) * (1 + cfg.overlapPct)) else n.radius * 2) * cfg.overlapPct) - (n.radius + n.overlap)) else -(((if cfg.overlapPct > 0 then n.overlap / ((1/2 * cfg.overlapPct) * (1 + cfg.overlapPct)) else n.radius * 2) + (if cfg.overlapPct > 0 then n.overlap / ((1/2 * cfg.overlapPct) * (1 + cfg.overlapPct)) else n.radius * 2) * cfg.overlapPct) - (n.radius + n.overlap)), if octant_index_from_xyz (i1.x + i2.x + i3.x) (i1.y + i2.y + i3.y) (i1.z + i2.z + i3.z) &&& 2 ≠ 0 then (((if cfg.overlapPct > 0 then n.overlap / ((1/2 * cfg.overlapPct) * (1 + cfg.overlapPct)) else n.radius * 2) + (if cfg.overlapPct > 0 then n.overlap / ((1/2 * cfg.overlapPct) * (1 + cfg.overlapPct)) else n.radius * 2) * cfg.overlapPct) - (n.radius + n.overlap)) else -(((if cfg.overlapPct > 0 then n.overlap / ((1/2 * cfg.overlapPct) * (1 + cfg.overlapPct)) else n.radius * 2) + (if cfg.overlapPct > 0 then n.overlap / ((1/2 * cfg.overlapPct) * (1 + cfg.overlapPct)) else n.radius * 2) * cfg.overlapPct) - (n.radius + n.overlap)), if octant_index_from_xyz (i1.x + i2.x + i3.x) (i1.y + i2.y + i3.y) (i1.z + i2.z + i3.z) &&& 4 ≠ 0 then (((if cfg.overlapPct > 0 then n.overlap / ((1/2 * cfg.overlapPct) * (1 + cfg.overlapPct)) else n.radius * 2) + (if cfg.overlapPct > 0 then n.overlap / ((1/2 * cfg.overlapPct) * (1 + cfg.overlapPct)) else n.radius * 2) * cfg.overlapPct) - (n.radius + n.overlap)) else -(((if cfg.overlapPct > 0 then n.overlap / ((1/2 * cfg.overlapPct) * (1 + cfg.overlapPct)) else n.radius * 2) + (if cfg.overlapPct > 0 then n.overlap / ((1/2 * cfg.overlapPct) * (1 + cfg.overlapPct)) else n.radius * 2) * cfg.overlapPct) - (n.radius + n.overlap))⟩ : Vec3)) (if cfg.overlapPct > 0 then n.overlap / ((1/2 * cfg.overlapPct) * (1 + cfg.overlapPct)) else n.radius * 2) none none none).depth + 1 } : NodeRec)) core.nodeCount nid
    ((octant_index_from_xyz (-(i1.x + i2.x + i3.x)) (-(i1.y + i2.y + i3.y)) (-(i1.z + i2.z + i3.z)) : ℕ) : ℤ) ({ (mk_octree_node cfg core.nodeCount (Vec3.add n.position (⟨if octant_index_from_xyz (i1.x + i2.x + i3.x) (i1.y + i2.y + i3.y) (i1.z + i2.z + i3.z) &&& 1 ≠ 0 then (((if cfg.overlapPct > 0 then n.overlap / ((1/2 * cfg.overlapPct) * (1 + cfg.overlapPct)) else n.radius * 2) + (if cfg.overlapPct > 0 then n.overlap / ((1/2 * cfg.overlapPct) * (1 + cfg.overlapPct)) else n.radius * 2) * cfg.overlapPct) - (n.radius + n.overlap)) else -(((if cfg.overlapPct > 0 then n.overlap / ((1/2 * cfg.overlapPct) * (1 + cfg.overlapPct)) else n.radius * 2) + (if cfg.overlapPct > 0 then n.overlap / ((1/2 * cfg.overlapPct) * (1 + cfg.overlapPct)) else n.radius * 2) * cfg.overlapPct) - (n.radius + n.overlap)), if octant_index_from_xyz (i1.x + i2.x + i3.x) (i1.y + i2.y + i3.y) (i1.z + i2.z + i3.z) &&& 2 ≠ 0 then (((if cfg.overlapPct > 0 then n.overlap / ((1/2 * cfg.overlapPct) * (1 + cfg.overlapPct)) else n.radius * 2) + (if cfg.overlapPct > 0 then n.overlap / ((1/2 * cfg.overlapPct) * (1 + cfg.overlapPct)) else n.radius * 2) * cfg.overlapPct) - (n.radius + n.overlap)) else -(((if cfg.overlapPct > 0 then n.overlap / ((1/2 * cfg.overlapPct) * (1 + cfg.overlapPct)) else n.radius * 2) + (if cfg.overlapPct > 0 then n.overlap / ((1/2 * cfg.overlapPct) * (1 + cfg.overlapPct)) else n.radius * 2) * cfg.overlapPct) - (n.radius + n.overlap)), if octant_index_from_xyz (i1.x + i2.x + i3.x) (i1.y + i2.y + i3.y) (i1.z + i2.z + i3.z) &&& 4 ≠ 0 then (((if cfg.overlapPct > 0 then n.overlap / ((1/2 * cfg.overlapPct) * (1 + cfg.overlapPct)) else n.radius * 2) + (if cfg.overlapPct > 0 then n.overlap / ((1/2 * cfg.overlapPct) * (1 + cfg.overlapPct)) else n.radius * 2) * cfg.overlapPct) - (n.radius + n.overlap)) else -(((if cfg.overlapPct > 0 then n.overlap / ((1/2 * cfg.overlapPct) * (1 + cfg.overlapPct)) else n.radius * 2) + (if cfg.overlapPct > 0 then n.overlap / ((1/2 * cfg.overlapPct) * (1 + cfg.overlapPct)) else n.radius * 2) * cfg.overlapPct) - (n.radius + n.overlap))⟩ : Vec3)) (if cfg.overlapPct > 0 then n.overlap / ((1/2 * cfg.overlapPct) * (1 + cfg.overlapPct)) else n.radius * 2) none none none) with nodesIndices := (if ((octant_index_from_xyz (-(i1.x + i2.x + i3.x)) (-(i1.y + i2.y + i3.y)) (-(i1.z + i2.z + i3.z)) : ℕ) : ℤ) ∈ (mk_octree_node cfg core.nodeCount (Vec3.add n.position (⟨if octant_index_from_xyz (i1.x + i2.x + i3.x) (i1.y + i2.y + i3.y) (i1.z + i2.z + i3.z) &&& 1 ≠ 0 then (((if cfg.overlapPct > 0 then n.overlap / ((1/2 * cfg.overlapPct) * (1 + cfg.overlapPct)) else n.radius * 2) + (if cfg.overlapPct > 0 then n.overlap / ((1/2 * cfg.overlapPct) * (1 + cfg.overlapPct)) else n.radius * 2) * cfg.overlapPct) - (n.radius + n.overlap)) else -(((if cfg.overlapPct > 0 then n.overlap / ((1/2 * cfg.overlapPct) * (1 + cfg.overlapPct)) else n.radius * 2) + (if cfg.overlapPct > 0 then n.overlap / ((1/2 * cfg.overlapPct) * (1 + cfg.overlapPct)) else n.radius * 2) * cfg.overlapPct) - (n.radius + n.overlap)), if octant_index_from_xyz (i1.x + i2.x + i3.x) (i1.y + i2.y + i3.y) (i1.z + i2.z + i3.z) &&& 2 ≠ 0 then (((if cfg.overlapPct > 0 then n.overlap / ((1/2 * cfg.overlapPct) * (1 + cfg.overlapPct)) else n.radius * 2) + (if cfg.overlapPct > 0 then n.overlap / ((1/2 * cfg.overlapPct) * (1 + cfg.overlapPct)) else n.radius * 2) * cfg.overlapPct) - (n.radius + n.overlap)) else -(((if cfg.overlapPct > 0 then n.overlap / ((1/2 * cfg.overlapPct) * (1 + cfg.overlapPct)) else n.radius * 2) + (if cfg.overlapPct > 0 then n.overlap / ((1/2 * cfg.overlapPct) * (1 + cfg.overlapPct)) else n.radius * 2) * cfg.overlapPct) - (n.radius + n.overlap)), if octant_index_from_xyz (i1.x + i2.x + i3.x) (i1.y + i2.y + i3.y) (i1.z + i2.z + i3.z) &&& 4 ≠ 0 then (((if cfg.overlapPct > 0 then n.overlap / ((1/2 * cfg.overlapPct) * (1 + cfg.overlapPct)) else n.radius * 2) + (if cfg.overlapPct > 0 then n.overlap / ((1/2 * cfg.overlapPct) * (1 + cfg.overlapPct)) else n.radius * 2) * cfg.overlapPct) - (n.radius + n.overlap)) else -(((if cfg.overlapPct > 0 then n.overlap / ((1/2 * cfg.overlapPct) * (1 + cfg.overlapPct)) else n.radius * 2) + (if cfg.overlapPct > 0 then n.overlap / ((1/2 * cfg.overlapPct) * (1 + cfg.overlapPct)) else n.radius * 2) * cfg.overlapPct) - (n.radius + n.overlap))⟩ : Vec3)) (if cfg.overlapPct > 0 then n.overlap / ((1/2 * cfg.overlapPct) * (1 + cfg.overlapPct)) else n.radius * 2) none none none).nodesIndices then (mk_octree_node cfg core.nodeCount (Vec3.add n.position (⟨if octant_index_from_xyz (i1.x + i2.x + i3.x) (i1.y + i2.y + i3.y) (i1.z + i2.z + i3.z) &&& 1 ≠ 0 then (((if cfg.overlapPct > 0 then n.overlap / ((1/2 * cfg.overlapPct) * (1 + cfg.overlapPct)) else n.radius * 2) + (if cfg.overlapPct > 0 then n.overlap / ((1/2 * cfg.overlapPct) * (1 + cfg.overlapPct)) else n.radius * 2) * cfg.overlapPct) - (n.radius + n.overlap)) else -(((if cfg.overlapPct > 0 then n.overlap / ((1/2 * cfg.overlapPct) * (1 + cfg.overlapPct)) else n.radius * 2) + (if cfg.overlapPct > 0 then n.overlap / ((1/2 * cfg.overlapPct) * (1 + cfg.overlapPct)) else n.radius * 2) * cfg.overlapPct) - (n.radius + n.overlap)), if octant_index_from_xyz (i1.x + i2.x + i3.x) (i1.y + i2.y + i3.y) (i1.z + i2.z + i3.z) &&& 2 ≠ 0 then (((if cfg.overlapPct > 0 then n.overlap / ((1/2 * cfg.overlapPct) * (1 + cfg.overlapPct)) else n.radius * 2) + (if cfg.overlapPct > 0 then n.overlap / ((1/2 * cfg.overlapPct) * (1 + cfg.overlapPct)) else n.radius * 2) * cfg.overlapPct) - (n.radius + n.overlap)) else -(((if cfg.overlapPct > 0 then n.overlap / ((1/2 * cfg.overlapPct) * (1 + cfg.overlapPct)) else n.radius * 2) + (if cfg.overlapPct > 0 then n.overlap / ((1/2 * cfg.overlapPct) * (1 + cfg.overlapPct)) else n.radius * 2) * cfg.overlapPct) - (n.radius + n.overlap)), if octant_index_from_xyz (i1.x + i2.x + i3.x) (i1.y + i2.y + i3.y) (i1.z + i2.z + i3.z) &&& 4 ≠ 0 then (((if cfg.overlapPct > 0 then n.overlap / ((1/2 * cfg.overlapPct) * (1 + cfg.overlapPct)) else n.radius * 2) + (if cfg.overlapPct > 0 then n.overlap / ((1/2 * cfg.overlapPct) * (1 + cfg.overlapPct)) else n.radius * 2) * cfg.overlapPct) - (n.radius + n.overlap)) else -(((if cfg.overlapPct > 0 then n.overlap / ((1/2 * cfg.overlapPct) * (1 + cfg.overlapPct)) else n.radius * 2) + (if cfg.overlapPct > 0 then n.overlap / ((1/2 * cfg.overlapPct) * (1 + cfg.overlapPct)) else n.radius * 2) * cfg.overlapPct) - (n.radius + n.overlap))⟩ : Vec3)) (if cfg.overlapPct > 0 then n.overlap / ((1/2 * cfg.overlapPct) * (1 + cfg.overlapPct)) else n.radius * 2) none none none).nodesIndices else (mk_octree_node cfg core.nodeCount (Vec3.add n.position (⟨if octant_index_from_xyz (i1.x + i2.x + i3.x) (i1.y + i2.y + i3.y) (i1.z + i2.z + i3.z) &&& 1 ≠ 0 then (((if cfg.overlapPct > 0 then n.overlap / ((1/2 * cfg.overlapPct) * (1 + cfg.overlapPct)) else n.radius * 2) + (if cfg.overlapPct > 0 then n.overlap / ((1/2 * cfg.overlapPct) * (1 + cfg.overlapPct)) else n.radius * 2) * cfg.overlapPct) - (n.radius + n.overlap)) else -(((if cfg.overlapPct > 0 then n.overlap / ((1/2 * cfg.overlapPct) * (1 + cfg.overlapPct)) else n.radius * 2) + (if cfg.overlapPct > 0 then n.overlap / ((1/2 * cfg.overlapPct) * (1 + cfg.overlapPct)) else n.radius * 2) * cfg.overlapPct) - (n.radius + n.overlap)), if octant_index_from_xyz (i1.x + i2.x + i3.x) (i1.y + i2.y + i3.y) (i1.z + i2.z + i3.z) &&& 2 ≠ 0 then (((if cfg.overlapPct > 0 then n.overlap / ((1/2 * cfg.overlapPct) * (1 + cfg.overlapPct)) else n.radius * 2) + (if cfg.overlapPct > 0 then n.overlap / ((1/2 * cfg.overlapPct) * (1 + cfg.overlapPct)) else n.radius * 2) * cfg.overlapPct) - (n.radius + n.overlap)) else -(((if cfg.overlapPct > 0 then n.overlap / ((1/2 * cfg.overlapPct) * (1 + cfg.overlapPct)) else n.radius * 2) + (if cfg.overlapPct > 0 then n.overlap / ((1/2 * cfg.overlapPct) * (1 + cfg.overlapPct)) else n.radius * 2) * cfg.overlapPct) - (n.radius + n.overlap)), if octant_index_from_xyz (i1.x + i2.x + i3.x) (i1.y + i2.y + i3.y) (i1.z + i2.z + i3.z) &&& 4 ≠ 0 then (((if cfg.overlapPct > 0 then n.overlap / ((1/2 * cfg.overlapPct) * (1 + cfg.overlapPct)) else n.radius * 2) + (if cfg.overlapPct > 0 then n.overlap / ((1/2 * cfg.overlapPct) * (1 + cfg.overlapPct)) else n.radius * 2) * cfg.overlapPct) - (n.radius + n.overlap)) else -(((if cfg.overlapPct > 0 then n.overlap / ((1/2 * cfg.overlapPct) * (1 + cfg.overlapPct)) else n.radius * 2) + (if cfg.overlapPct > 0 then n.overlap / ((1/2 * cfg.overlapPct) * (1 + cfg.overlapPct)) else n.radius * 2) * cfg.overlapPct) - (n.radius + n.overlap))⟩ : Vec3)) (if cfg.overlapPct > 0 then n.overlap / ((1/2 * cfg.overlapPct) * (1 + cfg.overlapPct)) else n.radius * 2) none none none).nodesIndices ++ [((octant_index_from_xyz (-(i1.x + i2.x + i3.x)) (-(i1.y + i2.y + i3.y)) (-(i1.z + i2.z + i3.z)) : ℕ) : ℤ)]), nodesByIndex := upd_assoc (mk_octree_node cfg core.nodeCount (Vec3.add n.position (⟨if octant_index_from_xyz (i1.x + i2.x + i3.x) (i1.y + i2.y + i3.y) (i1.z + i2.z + i3.z) &&& 1 ≠ 0 then (((if cfg.overlapPct > 0 then n.overlap / ((1/2 * cfg.overlapPct) * (1 + cfg.overlapPct)) else n.radius * 2) + (if cfg.overlapPct > 0 then n.overlap / ((1/2 * cfg.overlapPct) * (1 + cfg.overlapPct)) else n.radius * 2) * cfg.overlapPct) - (n.radius + n.overlap)) else -(((if cfg.overlapPct > 0 then n.overlap / ((1/2 * cfg.overlapPct) * (1 + cfg.overlapPct)) else n.radius * 2) + (if cfg.overlapPct > 0 then n.overlap / ((1/2 * cfg.overlapPct) * (1 + cfg.overlapPct)) else n.radius * 2) * cfg.overlapPct) - (n.radius + n.overlap)), if octant_index_from_xyz (i1.x + i2.x + i3.x) (i1.y + i2.y + i3.y) (i1.z + i2.z + i3.z) &&& 2 ≠ 0 then (((if cfg.overlapPct > 0 then n.overlap / ((1/2 * cfg.overlapPct) * (1 + cfg.overlapPct)) else n.radius * 2) + (if cfg.overlapPct > 0 then n.overlap / ((1/2 * cfg.overlapPct) * (1 + cfg.overlapPct)) else n.radius * 2) * cfg.overlapPct) - (n.radius + n.overlap)) else -(((if cfg.overlapPct > 0 then n.overlap / ((1/2 * cfg.overlapPct) * (1 + cfg.overlapPct)) else n.radius * 2) + (if cfg.overlapPct > 0 then n.overlap / ((1/2 * cfg.overlapPct) * (1 + cfg.overlapPct)) else n.radius * 2) * cfg.overlapPct) - (n.radius + n.overlap)), if octant_index_from_xyz (i1.x + i2.x + i3.x) (i1.y + i2.y + i3.y) (i1.z + i2.z + i3.z) &&& 4 ≠ 0 then (((if cfg.overlapPct > 0 then n.overlap / ((1/2 * cfg.overlapPct) * (1 + cfg.overlapPct)) else n.radius * 2) + (if cfg.overlapPct > 0 then n.overlap / ((1/2 * cfg.overlapPct) * (1 + cfg.overlapPct)) else n.radius * 2) * cfg.overlapPct) - (n.radius + n.overlap)) else -(((if cfg.overlapPct > 0 then n.overlap / ((1/2 * cfg.overlapPct) * (1 + cfg.overlapPct)) else n.radius * 2) + (if cfg.overlapPct > 0 then n.overlap / ((1/2 * cfg.overlapPct) * (1 + cfg.overlapPct)) else n.radius * 2) * cfg.overlapPct) - (n.radius + n.overlap))⟩ : Vec3)) (if cfg.overlapPct > 0 then n.overlap / ((1/2 * cfg.overlapPct) * (1 + cfg.overlapPct)) else n.radius * 2) none none none).nodesByIndex ((octant_index_from_xyz (-(i1.x + i2.x + i3.x)) (-(i1.y + i2.y + i3.y)) (-(i1.z + i2.z + i3.z)) : ℕ) : ℤ) nid } : NodeRec) ({ n with indexOctant := some ((octant_index_from_xyz (-(i1.x + i2.x + i3.x)) (-(i1.y + i2.y + i3.y)) (-(i1.z + i2.z + i3.z)) : ℕ) : ℤ), parent := some core.nodeCount, depth := (mk_octree_node cfg core.nodeCount (Vec3.add n.position (⟨if octant_index_from_xyz (i1.x + i2.x + i3.x) (i1.y + i2.y + i3.y) (i1.z + i2.z + i3.z) &&& 1 ≠ 0 then (((if cfg.overlapPct > 0 then n.overlap / ((1/2 * cfg.overlapPct) * (1 + cfg.overlapPct)) else n.radius * 2) + (if cfg.overlapPct > 0 then n.overlap / ((1/2 * cfg.overlapPct) * (1 + cfg.overlapPct)) else n.radius * 2) * cfg.overlapPct) - (n.radius + n.overlap)) else -(((if cfg.overlapPct > 0 then n.overlap / ((1/2 * cfg.overlapPct) * (1 + cfg.overlapPct)) else n.radius * 2) + (if cfg.overlapPct > 0 then n.overlap / ((1/2 * cfg.overlapPct) * (1 + cfg.overlapPct)) else n.radius * 2) * cfg.overlapPct) - (n.radius + n.overlap)), if octant_index_from_xyz (i1.x + i2.x + i3.x) (i1.y + i2.y + i3.y) (i1.z + i2.z + i3.z) &&& 2 ≠ 0 then (((if cfg.overlapPct > 0 then n.overlap / ((1/2 * cfg.overlapPct) * (1 + cfg.overlapPct)) else n.radius * 2) + (if cfg.overlapPct > 0 then n.overlap / ((1/2 * cfg.overlapPct) * (1 + cfg.overlapPct)) else n.radius * 2) * cfg.overlapPct) - (n.radius + n.overlap)) else -(((if cfg.overlapPct > 0 then n.overlap / ((1/2 * cfg.overlapPct) * (1 + cfg.overlapPct)) else n.radius * 2) + (if cfg.overlapPct > 0 then n.overlap / ((1/2 * cfg.overlapPct) * (1 + cfg.overlapPct)) else n.radius * 2) * cfg.overlapPct) - (n.radius + n.overlap)), if octant_index_from_xyz (i1.x + i2.x + i3.x) (i1.y + i2.y + i3.y) (i1.z + i2.z + i3.z) &&& 4 ≠ 0 then (((if cfg.overlapPct > 0 then n.overlap / ((1/2 * cfg.overlapPct) * (1 + cfg.overlapPct)) else n.radius * 2) + (if cfg.overlapPct > 0 then n.overlap / ((1/2 * cfg.overlapPct) * (1 + cfg.overlapPct)) else n.radius * 2) * cfg.overlapPct) - (n.radius + n.overlap)) else -(((if cfg.overlapPct > 0 then n.overlap / ((1/2 * cfg.overlapPct) * (1 + cfg.overlapPct)) else n.radius * 2) + (if cfg.overlapPct > 0 then n.overlap / ((1/2 * cfg.overlapPct) * (1 + cfg.overlapPct)) else n.radius * 2) * cfg.overlapPct) - (n.radius + n.overlap))⟩ : Vec3)) (if cfg.overlapPct > 0 then n.overlap / ((1/2 * cfg.overlapPct) * (1 + cfg.overlapPct)) else n.radius * 2) none none none).depth + 1 } : NodeRec) hpC rfl hcC hid (Ne.symm hnec) rfl hpi1 hbi1 rfl hleaf
  have hmain : expand (fuel + 6) cfg core nid (some objs) octs
      = (expand_reinsert (fuel + 5) cfg (setNode (setNode (⟨(setNode (setNode (setNode (setNode (⟨core.nodes, nid, core.nodeCount + 1⟩ : OctreeCore) (mk_octree_node cfg core.nodeCount (Vec3.add n.position (⟨if octant_index_from_xyz (i1.x + i2.x + i3.x) (i1.y + i2.y + i3.y) (i1.z + i2.z + i3.z) &&& 1 ≠ 0 then (((if cfg.overlapPct > 0 then n.overlap / ((1/2 * cfg.overlapPct) * (1 + cfg.overlapPct)) else n.radius * 2) + (if cfg.overlapPct > 0 then n.overlap / ((1/2 * cfg.overlapPct) * (1 + cfg.overlapPct)) else n.radius * 2) * cfg.overlapPct) - (n.radius + n.overlap)) else -(((if cfg.overlapPct > 0 then n.overlap / ((1/2 * cfg.overlapPct) * (1 + cfg.overlapPct)) else n.radius * 2) + (if cfg.overlapPct > 0 then n.overlap / ((1/2 * cfg.overlapPct) * (1 + cfg.overlapPct)) else n.radius * 2) * cfg.overlapPct) - (n.radius + n.overlap)), if octant_index_from_xyz (i1.x + i2.x + i3.x) (i1.y + i2.y + i3.y) (i1.z + i2.z + i3.z) &&& 2 ≠ 0 then (((if cfg.overlapPct > 0 then n.overlap / ((1/2 * cfg.overlapPct) * (1 + cfg.overlapPct)) else n.radius * 2) + (if cfg.overlapPct > 0 then n.overlap / ((1/2 * cfg.overlapPct) * (1 + cfg.overlapPct)) else n.radius * 2) * cfg.overlapPct) - (n.radius + n.overlap)) else -(((if cfg.overlapPct > 0 then n.overlap / ((1/2 * cfg.overlapPct) * (1 + cfg.overlapPct)) else n.radius * 2) + (if cfg.overlapPct > 0 then n.overlap / ((1/2 * cfg.overlapPct) * (1 + cfg.overlapPct)) else n.radius * 2) * cfg.overlapPct) - (n.radius + n.overlap)), if octant_index_from_xyz (i1.x + i2.x + i3.x) (i1.y + i2.y + i3.y) (i1.z + i2.z + i3.z) &&& 4 ≠ 0 then (((if cfg.overlapPct > 0 then n.overlap / ((1/2 * cfg.overlapPct) * (1 + cfg.overlapPct)) else n.radius * 2) + (if cfg.overlapPct > 0 then n.overlap / ((1/2 * cfg.overlapPct) * (1 + cfg.overlapPct)) else n.radius * 2) * cfg.overlapPct) - (n.radius + n.overlap)) else -(((if cfg.overlapPct > 0 then n.overlap / ((1/2 * cfg.overlapPct) * (1 + cfg.overlapPct)) else n.radius * 2) + (if cfg.overlapPct > 0 then n.overlap / ((1/2 * cfg.overlapPct) * (1 + cfg.overlapPct)) else n.radius * 2) * cfg.overlapPct) - (n.radius + n.overlap))⟩ : Vec3)) (if cfg.overlapPct > 0 then n.overlap / ((1/2 * cfg.overlapPct) * (1 + cfg.overlapPct)) else n.radius * 2) none none none)) ({ n with indexOctant := some ((octant_index_from_xyz (-(i1.x + i2.x + i3.x)) (-(i1.y + i2.y + i3.y)) (-(i1.z + i2.z + i3.z)) : ℕ) : ℤ) } : NodeRec)) ({ (mk_octree_node cfg core.nodeCount (Vec3.add n.position (⟨if octant_index_from_xyz (i1.x + i2.x + i3.x) (i1.y + i2.y + i3.y) (i1.z + i2.z + i3.z) &&& 1 ≠ 0 then (((if cfg.overlapPct > 0 then n.overlap / ((1/2 * cfg.overlapPct) * (1 + cfg.overlapPct)) else n.radius * 2) + (if cfg.overlapPct > 0 then n.overlap / ((1/2 * cfg.overlapPct) * (1 + cfg.overlapPct)) else n.radius * 2) * cfg.overlapPct) - (n.radius + n.overlap)) else -(((if cfg.overlapPct > 0 then n.overlap / ((1/2 * cfg.overlapPct) * (1 + cfg.overlapPct)) else n.radius * 2) + (if cfg.overlapPct > 0 then n.overlap / ((1/2 * cfg.overlapPct) * (1 + cfg.overlapPct)) else n.radius * 2) * cfg.overlapPct) - (n.radius + n.overlap)), if octant_index_from_xyz (i1.x + i2.x + i3.x) (i1.y + i2.y + i3.y) (i1.z + i2.z + i3.z) &&& 2 ≠ 0 then (((if cfg.overlapPct > 0 then n.overlap / ((1/2 * cfg.overlapPct) * (1 + cfg.overlapPct)) else n.radius * 2) + (if cfg.overlapPct > 0 then n.overlap / ((1/2 * cfg.overlapPct) * (1 + cfg.overlapPct)) else n.radius * 2) * cfg.overlapPct) - (n.radius + n.overlap)) else -(((if cfg.overlapPct > 0 then n.overlap / ((1/2 * cfg.overlapPct) * (1 + cfg.overlapPct)) else n.radius * 2) + (if cfg.overlapPct > 0 then n.overlap / ((1/2 * cfg.overlapPct) * (1 + cfg.overlapPct)) else n.radius * 2) * cfg.overlapPct) - (n.radius + n.overlap)), if octant_index_from_xyz (i1.x + i2.x + i3.x) (i1.y + i2.y + i3.y) (i1.z + i2.z + i3.z) &&& 4 ≠ 0 then (((if cfg.overlapPct > 0 then n.overlap / ((1/2 * cfg.overlapPct) * (1 + cfg.overlapPct)) else n.radius * 2) + (if cfg.overlapPct > 0 then n.overlap / ((1/2 * cfg.overlapPct) * (1 + cfg.overlapPct)) else n.radius * 2) * cfg.overlapPct) - (n.radius + n.overlap)) else -(((if cfg.overlapPct > 0 then n.overlap / ((1/2 * cfg.overlapPct) * (1 + cfg.overlapPct)) else n.radius * 2) + (if cfg.overlapPct > 0 then n.overlap / ((1/2 * cfg.overlapPct) * (1 + cfg.overlapPct)) else n.radius * 2) * cfg.overlapPct) - (n.radius + n.overlap))⟩ : Vec3)) (if cfg.overlapPct > 0 then n.overlap / ((1/2 * cfg.overlapPct) * (1 + cfg.overlapPct)) else n.radius * 2) none none none) with nodesIndices := (if ((octant_index_from_xyz (-(i1.x + i2.x + i3.x)) (-(i1.y + i2.y + i3.y)) (-(i1.z + i2.z + i3.z)) : ℕ) : ℤ) ∈ (mk_octree_node cfg core.nodeCount (Vec3.add n.position (⟨if octant_index_from_xyz (i1.x + i2.x + i3.x) (i1.y + i2.y + i3.y) (i1.z + i2.z + i3.z) &&& 1 ≠ 0 then (((if cfg.overlapPct > 0 then n.overlap / ((1/2 * cfg.overlapPct) * (1 + cfg.overlapPct)) else n.radius * 2) + (if cfg.overlapPct > 0 then n.overlap / ((1/2 * cfg.overlapPct) * (1 + cfg.overlapPct)) else n.radius * 2) * cfg.overlapPct) - (n.radius + n.overlap)) else -(((if cfg.overlapPct > 0 then n.overlap / ((1/2 * cfg.overlapPct) * (1 + cfg.overlapPct)) else n.radius * 2) + (if cfg.overlapPct > 0 then n.overlap / ((1/2 * cfg.overlapPct) * (1 + cfg.overlapPct)) else n.radius * 2) * cfg.overlapPct) - (n.radius + n.overlap)), if octant_index_from_xyz (i1.x + i2.x + i3.x) (i1.y + i2.y + i3.y) (i1.z + i2.z + i3.z) &&& 2 ≠ 0 then (((if cfg.overlapPct > 0 then n.overlap / ((1/2 * cfg.overlapPct) * (1 + cfg.overlapPct)) else n.radius * 2) + (if cfg.overlapPct > 0 then n.overlap / ((1/2 * cfg.overlapPct) * (1 + cfg.overlapPct)) else n.radius * 2) * cfg.overlapPct) - (n.radius + n.overlap)) else -(((if cfg.overlapPct > 0 then n.overlap / ((1/2 * cfg.overlapPct) * (1 + cfg.overlapPct)) else n.radius * 2) + (if cfg.overlapPct > 0 then n.overlap / ((1/2 * cfg.overlapPct) * (1 + cfg.overlapPct)) else n.radius * 2) * cfg.overlapPct) - (n.radius + n.overlap)), if octant_index_from_xyz (i1.x + i2.x + i3.x) (i1.y + i2.y + i3.y) (i1.z + i2.z + i3.z) &&& 4 ≠ 0 then (((if cfg.overlapPct > 0 then n.overlap / ((1/2 * cfg.overlapPct) * (1 + cfg.overlapPct)) else n.radius * 2) + (if cfg.overlapPct > 0 then n.overlap / ((1/2 * cfg.overlapPct) * (1 + cfg.overlapPct)) else n.radius * 2) * cfg.overlapPct) - (n.radius + n.overlap)) else -(((if cfg.overlapPct > 0 then n.overlap / ((1/2 * cfg.overlapPct) * (1 + cfg.overlapPct)) else n.radius * 2) + (if cfg.overlapPct > 0 then n.overlap / ((1/2 * cfg.overlapPct) * (1 + cfg.overlapPct)) else n.radius * 2) * cfg.overlapPct) - (n.radius + n.overlap))⟩ : Vec3)) (if cfg.overlapPct > 0 then n.overlap / ((1/2 * cfg.overlapPct) * (1 + cfg.overlapPct)) else n.radius * 2) none none none).nodesIndices then (mk_octree_node cfg core.nodeCount (Vec3.add n.position (⟨if octant_index_from_xyz (i1.x + i2.x + i3.x) (i1.y + i2.y + i3.y) (i1.z + i2.z + i3.z) &&& 1 ≠ 0 then (((if cfg.overlapPct > 0 then n.overlap / ((1/2 * cfg.overlapPct) * (1 + cfg.overlapPct)) else n.radius * 2) + (if cfg.overlapPct > 0 then n.overlap / ((1/2 * cfg.overlapPct) * (1 + cfg.overlapPct)) else n.radius * 2) * cfg.overlapPct) - (n.radius + n.overlap)) else -(((if cfg.overlapPct > 0 then n.overlap / ((1/2 * cfg.overlapPct) * (1 + cfg.overlapPct)) else n.radius * 2) + (if cfg.overlapPct > 0 then n.overlap / ((1/2 * cfg.overlapPct) * (1 + cfg.overlapPct)) else n.radius * 2) * cfg.overlapPct) - (n.radius + n.overlap)), if octant_index_from_xyz (i1.x + i2.x + i3.x) (i1.y + i2.y + i3.y) (i1.z + i2.z + i3.z) &&& 2 ≠ 0 then (((if cfg.overlapPct > 0 then n.overlap / ((1/2 * cfg.overlapPct) * (1 + cfg.overlapPct)) else n.radius * 2) + (if cfg.overlapPct > 0 then n.overlap / ((1/2 * cfg.overlapPct) * (1 + cfg.overlapPct)) else n.radius * 2) * cfg.overlapPct) - (n.radius + n.overlap)) else -(((if cfg.overlapPct > 0 then n.overlap / ((1/2 * cfg.overlapPct) * (1 + cfg.overlapPct)) else n.radius * 2) + (if cfg.overlapPct > 0 then n.overlap / ((1/2 * cfg.overlapPct) * (1 + cfg.overlapPct)) else n.radius * 2) * cfg.overlapPct) - (n.radius + n.overlap)), if octant_index_from_xyz (i1.x + i2.x + i3.x) (i1.y + i2.y + i3.y) (i1.z + i2.z + i3.z) &&& 4 ≠ 0 then (((if cfg.overlapPct > 0 then n.overlap / ((1/2 * cfg.overlapPct) * (1 + cfg.overlapPct)) else n.radius * 2) + (if cfg.overlapPct > 0 then n.overlap / ((1/2 * cfg.overlapPct) * (1 + cfg.overlapPct)) else n.radius * 2) * cfg.overlapPct) - (n.radius + n.overlap)) else -(((if cfg.overlapPct > 0 then n.overlap / ((1/2 * cfg.overlapPct) * (1 + cfg.overlapPct)) else n.radius * 2) + (if cfg.overlapPct > 0 then n.overlap / ((1/2 * cfg.overlapPct) * (1 + cfg.overlapPct)) else n.radius * 2) * cfg.overlapPct) - (n.radius + n.overlap))⟩ : Vec3)) (if cfg.overlapPct > 0 then n.overlap / ((1/2 * cfg.overlapPct) * (1 + cfg.overlapPct)) else n.radius * 2) none none none).nodesIndices else (mk_octree_node cfg core.nodeCount (Vec3.add n.position (⟨if octant_index_from_xyz (i1.x + i2.x + i3.x) (i1.y + i2.y + i3.y) (i1.z + i2.z + i3.z) &&& 1 ≠ 0 then (((if cfg.overlapPct > 0 then n.overlap / ((1/2 * cfg.overlapPct) * (1 + cfg.overlapPct)) else n.radius * 2) + (if cfg.overlapPct > 0 then n.overlap / ((1/2 * cfg.overlapPct) * (1 + cfg.overlapPct)) else n.radius * 2) * cfg.overlapPct) - (n.radius + n.overlap)) else -(((if cfg.overlapPct > 0 then n.overlap / ((1/2 * cfg.overlapPct) * (1 + cfg.overlapPct)) else n.radius * 2) + (if cfg.overlapPct > 0 then n.overlap / ((1/2 * cfg.overlapPct) * (1 + cfg.overlapPct)) else n.radius * 2) * cfg.overlapPct) - (n.radius + n.overlap)), if octant_index_from_xyz (i1.x + i2.x + i3.x) (i1.y + i2.y + i3.y) (i1.z + i2.z + i3.z) &&& 2 ≠ 0 then (((if cfg.overlapPct > 0 then n.overlap / ((1/2 * cfg.overlapPct) * (1 + cfg.overlapPct)) else n.radius * 2) + (if cfg.overlapPct > 0 then n.overlap / ((1/2 * cfg.overlapPct) * (1 + cfg.overlapPct)) else n.radius * 2) * cfg.overlapPct) - (n.radius + n.overlap)) else -(((if cfg.overlapPct > 0 then n.overlap / ((1/2 * cfg.overlapPct) * (1 + cfg.overlapPct)) else n.radius * 2) + (if cfg.overlapPct > 0 then n.overlap / ((1/2 * cfg.overlapPct) * (1 + cfg.overlapPct)) else n.radius * 2) * cfg.overlapPct) - (n.radius + n.overlap)), if octant_index_from_xyz (i1.x + i2.x + i3.x) (i1.y + i2.y + i3.y) (i1.z + i2.z + i3.z) &&& 4 ≠ 0 then (((if cfg.overlapPct > 0 then n.overlap / ((1/2 * cfg.overlapPct) * (1 + cfg.overlapPct)) else n.radius * 2) + (if cfg.overlapPct > 0 then n.overlap / ((1/2 * cfg.overlapPct) * (1 + cfg.overlapPct)) else n.radius * 2) * cfg.overlapPct) - (n.radius + n.overlap)) else -(((if cfg.overlapPct > 0 then n.overlap / ((1/2 * cfg.overlapPct) * (1 + cfg.overlapPct)) else n.radius * 2) + (if cfg.overlapPct > 0 then n.overlap / ((1/2 * cfg.overlapPct) * (1 + cfg.overlapPct)) else n.radius * 2) * cfg.overlapPct) - (n.radius + n.overlap))⟩ : Vec3)) (if cfg.overlapPct > 0 then n.overlap / ((1/2 * cfg.overlapPct) * (1 + cfg.overlapPct)) else n.radius * 2) none none none).nodesIndices ++ [((octant_index_from_xyz (-(i1.x + i2.x + i3.x)) (-(i1.y + i2.y + i3.y)) (-(i1.z + i2.z + i3.z)) : ℕ) : ℤ)]), nodesByIndex := upd_assoc (mk_octree_node cfg core.nodeCount (Vec3.add n.position (⟨if octant_index_from_xyz (i1.x + i2.x + i3.x) (i1.y + i2.y + i3.y) (i1.z + i2.z + i3.z) &&& 1 ≠ 0 then (((if cfg.overlapPct > 0 then n.overlap / ((1/2 * cfg.overlapPct) * (1 + cfg.overlapPct)) else n.radius * 2) + (if cfg.overlapPct > 0 then n.overlap / ((1/2 * cfg.overlapPct) * (1 + cfg.overlapPct)) else n.radius * 2) * cfg.overlapPct) - (n.radius + n.overlap)) else -(((if cfg.overlapPct > 0 then n.overlap / ((1/2 * cfg.overlapPct) * (1 + cfg.overlapPct)) else n.radius * 2) + (if cfg.overlapPct > 0 then n.overlap / ((1/2 * cfg.overlapPct) * (1 + cfg.overlapPct)) else n.radius * 2) * cfg.overlapPct) - (n.radius + n.overlap)), if octant_index_from_xyz (i1.x + i2.x + i3.x) (i1.y + i2.y + i3.y) (i1.z + i2.z + i3.z) &&& 2 ≠ 0 then (((if cfg.overlapPct > 0 then n.overlap / ((1/2 * cfg.overlapPct) * (1 + cfg.overlapPct)) else n.radius * 2) + (if cfg.overlapPct > 0 then n.overlap / ((1/2 * cfg.overlapPct) * (1 + cfg.overlapPct)) else n.radius * 2) * cfg.overlapPct) - (n.radius + n.overlap)) else -(((if cfg.overlapPct > 0 then n.overlap / ((1/2 * cfg.overlapPct) * (1 + cfg.overlapPct)) else n.radius * 2) + (if cfg.overlapPct > 0 then n.overlap / ((1/2 * cfg.overlapPct) * (1 + cfg.overlapPct)) else n.radius * 2) * cfg.overlapPct) - (n.radius + n.overlap)), if octant_index_from_xyz (i1.x + i2.x + i3.x) (i1.y + i2.y + i3.y) (i1.z + i2.z + i3.z) &&& 4 ≠ 0 then (((if cfg.overlapPct > 0 then n.overlap / ((1/2 * cfg.overlapPct) * (1 + cfg.overlapPct)) else n.radius * 2) + (if cfg.overlapPct > 0 then n.overlap / ((1/2 * cfg.overlapPct) * (1 + cfg.overlapPct)) else n.radius * 2) * cfg.overlapPct) - (n.radius + n.overlap)) else -(((if cfg.overlapPct > 0 then n.overlap / ((1/2 * cfg.overlapPct) * (1 + cfg.overlapPct)) else n.radius * 2) + (if cfg.overlapPct > 0 then n.overlap / ((1/2 * cfg.overlapPct) * (1 + cfg.overlapPct)) else n.radius * 2) * cfg.overlapPct) - (n.radius + n.overlap))⟩ : Vec3)) (if cfg.overlapPct > 0 then n.overlap / ((1/2 * cfg.overlapPct) * (1 + cfg.overlapPct)) else n.radius * 2) none none none).nodesByIndex ((octant_index_from_xyz (-(i1.x + i2.x + i3.x)) (-(i1.y + i2.y + i3.y)) (-(i1.z + i2.z + i3.z)) : ℕ) : ℤ) nid } : NodeRec)) ({ n with indexOctant := some ((octant_index_from_xyz (-(i1.x + i2.x + i3.x)) (-(i1.y + i2.y + i3.y)) (-(i1.z + i2.z + i3.z)) : ℕ) : ℤ), parent := some core.nodeCount, depth := (mk_octree_node cfg core.nodeCount (Vec3.add n.position (⟨if octant_index_from_xyz (i1.x + i2.x + i3.x) (i1.y + i2.y + i3.y) (i1.z + i2.z + i3.z) &&& 1 ≠ 0 then (((if cfg.overlapPct > 0 then n.overlap / ((1/2 * cfg.overlapPct) * (1 + cfg.overlapPct)) else n.radius * 2) + (if cfg.overlapPct > 0 then n.overlap / ((1/2 * cfg.overlapPct) * (1 + cfg.overlapPct)) else n.radius * 2) * cfg.overlapPct) - (n.radius + n.overlap)) else -(((if cfg.overlapPct > 0 then n.overlap / ((1/2 * cfg.overlapPct) * (1 + cfg.overlapPct)) else n.radius * 2) + (if cfg.overlapPct > 0 then n.overlap / ((1/2 * cfg.overlapPct) * (1 + cfg.overlapPct)) else n.radius * 2) * cfg.overlapPct) - (n.radius + n.overlap)), if octant_index_from_xyz (i1.x + i2.x + i3.x) (i1.y + i2.y + i3.y) (i1.z + i2.z + i3.z) &&& 2 ≠ 0 then (((if cfg.overlapPct > 0 then n.overlap / ((1/2 * cfg.overlapPct) * (1 + cfg.overlapPct)) else n.radius * 2) + (if cfg.overlapPct > 0 then n.overlap / ((1/2 * cfg.overlapPct) * (1 + cfg.overlapPct)) else n.radius * 2) * cfg.overlapPct) - (n.radius + n.overlap)) else -(((if cfg.overlapPct > 0 then n.overlap / ((1/2 * cfg.overlapPct) * (1 + cfg.overlapPct)) else n.radius * 2) + (if cfg.overlapPct > 0 then n.overlap / ((1/2 * cfg.overlapPct) * (1 + cfg.overlapPct)) else n.radius * 2) * cfg.overlapPct) - (n.radius + n.overlap)), if octant_index_from_xyz (i1.x + i2.x + i3.x) (i1.y + i2.y + i3.y) (i1.z + i2.z + i3.z) &&& 4 ≠ 0 then (((if cfg.overlapPct > 0 then n.overlap / ((1/2 * cfg.overlapPct) * (1 + cfg.overlapPct)) else n.radius * 2) + (if cfg.overlapPct > 0 then n.overlap / ((1/2 * cfg.overlapPct) * (1 + cfg.overlapPct)) else n.radius * 2) * cfg.overlapPct) - (n.radius + n.overlap)) else -(((if cfg.overlapPct > 0 then n.overlap / ((1/2 * cfg.overlapPct) * (1 + cfg.overlapPct)) else n.radius * 2) + (if cfg.overlapPct > 0 then n.overlap / ((1/2 * cfg.overlapPct) * (1 + cfg.overlapPct)) else n.radius * 2) * cfg.overlapPct) - (n.radius + n.overlap))⟩ : Vec3)) (if cfg.overlapPct > 0 then n.overlap / ((1/2 * cfg.overlapPct) * (1 + cfg.overlapPct)) else n.radius * 2) none none none).depth + 1 } : NodeRec)).nodes, core.nodeCount, (setNode (setNode (setNode (setNode (⟨core.nodes, nid, core.nodeCount + 1⟩ : OctreeCore) (mk_octree_node cfg core.nodeCount (Vec3.add n.position (⟨if octant_index_from_xyz (i1.x + i2.x + i3.x) (i1.y + i2.y + i3.y) (i1.z + i2.z + i3.z) &&& 1 ≠ 0 then (((if cfg.overlapPct > 0 then n.overlap / ((1/2 * cfg.overlapPct) * (1 + cfg.overlapPct)) else n.radius * 2) + (if cfg.overlapPct > 0 then n.overlap / ((1/2 * cfg.overlapPct) * (1 + cfg.overlapPct)) else n.radius * 2) * cfg.overlapPct) - (n.radius + n.overlap)) else -(((if cfg.overlapPct > 0 then n.overlap / ((1/2 * cfg.overlapPct) * (1 + cfg.overlapPct)) else n.radius * 2) + (if cfg.overlapPct > 0 then n.overlap / ((1/2 * cfg.overlapPct) * (1 + cfg.overlapPct)) else n.radius * 2) * cfg.overlapPct) - (n.radius + n.overlap)), if octant_index_from_xyz (i1.x + i2.x + i3.x) (i1.y + i2.y + i3.y) (i1.z + i2.z + i3.z) &&& 2 ≠ 0 then (((if cfg.overlapPct > 0 then n.overlap / ((1/2 * cfg.overlapPct) * (1 + cfg.overlapPct)) else n.radius * 2) + (if cfg.overlapPct > 0 then n.overlap / ((1/2 * cfg.overlapPct) * (1 + cfg.overlapPct)) else n.radius * 2) * cfg.overlapPct) - (n.radius + n.overlap)) else -(((if cfg.overlapPct > 0 then n.overlap / ((1/2 * cfg.overlapPct) * (1 + cfg.overlapPct)) else n.radius * 2) + (if cfg.overlapPct > 0 then n.overlap / ((1/2 * cfg.overlapPct) * (1 + cfg.overlapPct)) else n.radius * 2) * cfg.overlapPct) - (n.radius + n.overlap)), if octant_index_from_xyz (i1.x + i2.x + i3.x) (i1.y + i2.y + i3.y) (i1.z + i2.z + i3.z) &&& 4 ≠ 0 then (((if cfg.overlapPct > 0 then n.overlap / ((1/2 * cfg.overlapPct) * (1 + cfg.overlapPct)) else n.radius * 2) + (if cfg.overlapPct > 0 then n.overlap / ((1/2 * cfg.overlapPct) * (1 + cfg.overlapPct)) else n.radius * 2) * cfg.overlapPct) - (n.radius + n.overlap)) else -(((if cfg.overlapPct > 0 then n.overlap / ((1/2 * cfg.overlapPct) * (1 + cfg.overlapPct)) else n.radius * 2) + (if cfg.overlapPct > 0 then n.overlap / ((1/2 * cfg.overlapPct) * (1 + cfg.overlapPct)) else n.radius * 2) * cfg.overlapPct) - (n.radius + n.overlap))⟩ : Vec3)) (if cfg.overlapPct > 0 then n.overlap / ((1/2 * cfg.overlapPct) * (1 + cfg.overlapPct)) else n.radius * 2) none none none)) ({ n with indexOctant := some ((octant_index_from_xyz (-(i1.x + i2.x + i3.x)) (-(i1.y + i2.y + i3.y)) (-(i1.z + i2.z + i3.z)) : ℕ) : ℤ) } : NodeRec)) ({ (mk_octree_node cfg core.nodeCount (Vec3.add n.position (⟨if octant_index_from_xyz (i1.x + i2.x + i3.x) (i1.y + i2.y + i3.y) (i1.z + i2.z + i3.z) &&& 1 ≠ 0 then (((if cfg.overlapPct > 0 then n.overlap / ((1/2 * cfg.overlapPct) * (1 + cfg.overlapPct)) else n.radius * 2) + (if cfg.overlapPct > 0 then n.overlap / ((1/2 * cfg.overlapPct) * (1 + cfg.overlapPct)) else n.radius * 2) * cfg.overlapPct) - (n.radius + n.overlap)) else -(((if cfg.overlapPct > 0 then n.overlap / ((1/2 * cfg.overlapPct) * (1 + cfg.overlapPct)) else n.radius * 2) + (if cfg.overlapPct > 0 then n.overlap / ((1/2 * cfg.overlapPct) * (1 + cfg.overlapPct)) else n.radius * 2) * cfg.overlapPct) - (n.radius + n.overlap)), if octant_index_from_xyz (i1.x + i2.x + i3.x) (i1.y + i2.y + i3.y) (i1.z + i2.z + i3.z) &&& 2 ≠ 0 then (((if cfg.overlapPct > 0 then n.overlap / ((1/2 * cfg.overlapPct) * (1 + cfg.overlapPct)) else n.radius * 2) + (if cfg.overlapPct > 0 then n.overlap / ((1/2 * cfg.overlapPct) * (1 + cfg.overlapPct)) else n.radius * 2) * cfg.overlapPct) - (n.radius + n.overlap)) else -(((if cfg.overlapPct > 0 then n.overlap / ((1/2 * cfg.overlapPct) * (1 + cfg.overlapPct)) else n.radius * 2) + (if cfg.overlapPct > 0 then n.overlap / ((1/2 * cfg.overlapPct) * (1 + cfg.overlapPct)) else n.radius * 2) * cfg.overlapPct) - (n.radius + n.overlap)), if octant_index_from_xyz (i1.x + i2.x + i3.x) (i1.y + i2.y + i3.y) (i1.z + i2.z + i3.z) &&& 4 ≠ 0 then (((if cfg.overlapPct > 0 then n.overlap / ((1/2 * cfg.overlapPct) * (1 + cfg.overlapPct)) else n.radius * 2) + (if cfg.overlapPct > 0 then n.overlap / ((1/2 * cfg.overlapPct) * (1 + cfg.overlapPct)) else n.radius * 2) * cfg.overlapPct) - (n.radius + n.overlap)) else -(((if cfg.overlapPct > 0 then n.overlap / ((1/2 * cfg.overlapPct) * (1 + cfg.overlapPct)) else n.radius * 2) + (if cfg.overlapPct > 0 then n.overlap / ((1/2 * cfg.overlapPct) * (1 + cfg.overlapPct)) else n.radius * 2) * cfg.overlapPct) - (n.radius + n.overlap))⟩ : Vec3)) (if cfg.overlapPct > 0 then n.overlap / ((1/2 * cfg.overlapPct) * (1 + cfg.overlapPct)) else n.radius * 2) none none none) with nodesIndices := (if ((octant_index_from_xyz (-(i1.x + i2.x + i3.x)) (-(i1.y + i2.y + i3.y)) (-(i1.z + i2.z + i3.z)) : ℕ) : ℤ) ∈ (mk_octree_node cfg core.nodeCount (Vec3.add n.position (⟨if octant_index_from_xyz (i1.x + i2.x + i3.x) (i1.y + i2.y + i3.y) (i1.z + i2.z + i3.z) &&& 1 ≠ 0 then (((if cfg.overlapPct > 0 then n.overlap / ((1/2 * cfg.overlapPct) * (1 + cfg.overlapPct)) else n.radius * 2) + (if cfg.overlapPct > 0 then n.overlap / ((1/2 * cfg.overlapPct) * (1 + cfg.overlapPct)) else n.radius * 2) * cfg.overlapPct) - (n.radius + n.overlap)) else -(((if cfg.overlapPct > 0 then n.overlap / ((1/2 * cfg.overlapPct) * (1 + cfg.overlapPct)) else n.radius * 2) + (if cfg.overlapPct > 0 then n.overlap / ((1/2 * cfg.overlapPct) * (1 + cfg.overlapPct)) else n.radius * 2) * cfg.overlapPct) - (n.radius + n.overlap)), if octant_index_from_xyz (i1.x + i2.x + i3.x) (i1.y + i2.y + i3.y) (i1.z + i2.z + i3.z) &&& 2 ≠ 0 then (((if cfg.overlapPct > 0 then n.overlap / ((1/2 * cfg.overlapPct) * (1 + cfg.overlapPct)) else n.radius * 2) + (if cfg.overlapPct > 0 then n.overlap / ((1/2 * cfg.overlapPct) * (1 + cfg.overlapPct)) else n.radius * 2) * cfg.overlapPct) - (n.radius + n.overlap)) else -(((if cfg.overlapPct > 0 then n.overlap / ((1/2 * cfg.overlapPct) * (1 + cfg.overlapPct)) else n.radius * 2) + (if cfg.overlapPct > 0 then n.overlap / ((1/2 * cfg.overlapPct) * (1 + cfg.overlapPct)) else n.radius * 2) * cfg.overlapPct) - (n.radius + n.overlap)), if octant_index_from_xyz (i1.x + i2.x + i3.x) (i1.y + i2.y + i3.y) (i1.z + i2.z + i3.z) &&& 4 ≠ 0 then (((if cfg.overlapPct > 0 then n.overlap / ((1/2 * cfg.overlapPct) * (1 + cfg.overlapPct)) else n.radius * 2) + (if cfg.overlapPct > 0 then n.overlap / ((1/2 * cfg.overlapPct) * (1 + cfg.overlapPct)) else n.radius * 2) * cfg.overlapPct) - (n.radius + n.overlap)) else -(((if cfg.overlapPct > 0 then n.overlap / ((1/2 * cfg.overlapPct) * (1 + cfg.overlapPct)) else n.radius * 2) + (if cfg.overlapPct > 0 then n.overlap / ((1/2 * cfg.overlapPct) * (1 + cfg.overlapPct)) else n.radius * 2) * cfg.overlapPct) - (n.radius + n.overlap))⟩ : Vec3)) (if cfg.overlapPct > 0 then n.overlap / ((1/2 * cfg.overlapPct) * (1 + cfg.overlapPct)) else n.radius * 2) none none none).nodesIndices then (mk_octree_node cfg core.nodeCount (Vec3.add n.position (⟨if octant_index_from_xyz (i1.x + i2.x + i3.x) (i1.y + i2.y + i3.y) (i1.z + i2.z + i3.z) &&& 1 ≠ 0 then (((if cfg.overlapPct > 0 then n.overlap / ((1/2 * cfg.overlapPct) * (1 + cfg.overlapPct)) else n.radius * 2) + (if cfg.overlapPct > 0 then n.overlap / ((1/2 * cfg.overlapPct) * (1 + cfg.overlapPct)) else n.radius * 2) * cfg.overlapPct) - (n.radius + n.overlap)) else -(((if cfg.overlapPct > 0 then n.overlap / ((1/2 * cfg.overlapPct) * (1 + cfg.overlapPct)) else n.radius * 2) + (if cfg.overlapPct > 0 then n.overlap / ((1/2 * cfg.overlapPct) * (1 + cfg.overlapPct)) else n.radius * 2) * cfg.overlapPct) - (n.radius + n.overlap)), if octant_index_from_xyz (i1.x + i2.x + i3.x) (i1.y + i2.y + i3.y) (i1.z + i2.z + i3.z) &&& 2 ≠ 0 then (((if cfg.overlapPct > 0 then n.overlap / ((1/2 * cfg.overlapPct) * (1 + cfg.overlapPct)) else n.radius * 2) + (if cfg.overlapPct > 0 then n.overlap / ((1/2 * cfg.overlapPct) * (1 + cfg.overlapPct)) else n.radius * 2) * cfg.overlapPct) - (n.radius + n.overlap)) else -(((if cfg.overlapPct > 0 then n.overlap / ((1/2 * cfg.overlapPct) * (1 + cfg.overlapPct)) else n.radius * 2) + (if cfg.overlapPct > 0 then n.overlap / ((1/2 * cfg.overlapPct) * (1 + cfg.overlapPct)) else n.radius * 2) * cfg.overlapPct) - (n.radius + n.overlap)), if octant_index_from_xyz (i1.x + i2.x + i3.x) (i1.y + i2.y + i3.y) (i1.z + i2.z + i3.z) &&& 4 ≠ 0 then (((if cfg.overlapPct > 0 then n.overlap / ((1/2 * cfg.overlapPct) * (1 + cfg.overlapPct)) else n.radius * 2) + (if cfg.overlapPct > 0 then n.overlap / ((1/2 * cfg.overlapPct) * (1 + cfg.overlapPct)) else n.radius * 2) * cfg.overlapPct) - (n.radius + n.overlap)) else -(((if cfg.overlapPct > 0 then n.overlap / ((1/2 * cfg.overlapPct) * (1 + cfg.overlapPct)) else n.radius * 2) + (if cfg.overlapPct > 0 then n.overlap / ((1/2 * cfg.overlapPct) * (1 + cfg.overlapPct)) else n.radius * 2) * cfg.overlapPct) - (n.radius + n.overlap))⟩ : Vec3)) (if cfg.overlapPct > 0 then n.overlap / ((1/2 * cfg.overlapPct) * (1 + cfg.overlapPct)) else n.radius * 2) none none none).nodesIndices else (mk_octree_node cfg core.nodeCount (Vec3.add n.position (⟨if octant_index_from_xyz (i1.x + i2.x + i3.x) (i1.y + i2.y + i3.y) (i1.z + i2.z + i3.z) &&& 1 ≠ 0 then (((if cfg.overlapPct > 0 then n.overlap / ((1/2 * cfg.overlapPct) * (1 + cfg.overlapPct)) else n.radius * 2) + (if cfg.overlapPct > 0 then n.overlap / ((1/2 * cfg.overlapPct) * (1 + cfg.overlapPct)) else n.radius * 2) * cfg.overlapPct) - (n.radius + n.overlap)) else -(((if cfg.overlapPct > 0 then n.overlap / ((1/2 * cfg.overlapPct) * (1 + cfg.overlapPct)) else n.radius * 2) + (if cfg.overlapPct > 0 then n.overlap / ((1/2 * cfg.overlapPct) * (1 + cfg.overlapPct)) else n.radius * 2) * cfg.overlapPct) - (n.radius + n.overlap)), if octant_index_from_xyz (i1.x + i2.x + i3.x) (i1.y + i2.y + i3.y) (i1.z + i2.z + i3.z) &&& 2 ≠ 0 then (((if cfg.overlapPct > 0 then n.overlap / ((1/2 * cfg.overlapPct) * (1 + cfg.overlapPct)) else n.radius * 2) + (if cfg.overlapPct > 0 then n.overlap / ((1/2 * cfg.overlapPct) * (1 + cfg.overlapPct)) else n.radius * 2) * cfg.overlapPct) - (n.radius + n.overlap)) else -(((if cfg.overlapPct > 0 then n.overlap / ((1/2 * cfg.overlapPct) * (1 + cfg.overlapPct)) else n.radius * 2) + (if cfg.overlapPct > 0 then n.overlap / ((1/2 * cfg.overlapPct) * (1 + cfg.overlapPct)) else n.radius * 2) * cfg.overlapPct) - (n.radius + n.overlap)), if octant_index_from_xyz (i1.x + i2.x + i3.x) (i1.y + i2.y + i3.y) (i1.z + i2.z + i3.z) &&& 4 ≠ 0 then (((if cfg.overlapPct > 0 then n.overlap / ((1/2 * cfg.overlapPct) * (1 + cfg.overlapPct)) else n.radius * 2) + (if cfg.overlapPct > 0 then n.overlap / ((1/2 * cfg.overlapPct) * (1 + cfg.overlapPct)) else n.radius * 2) * cfg.overlapPct) - (n.radius + n.overlap)) else -(((if cfg.overlapPct > 0 then n.overlap / ((1/2 * cfg.overlapPct) * (1 + cfg.overlapPct)) else n.radius * 2) + (if cfg.overlapPct > 0 then n.overlap / ((1/2 * cfg.overlapPct) * (1 + cfg.overlapPct)) else n.radius * 2) * cfg.overlapPct) - (n.radius + n.overlap))⟩ : Vec3)) (if cfg.overlapPct > 0 then n.overlap / ((1/2 * cfg.overlapPct) * (1 + cfg.overlapPct)) else n.radius * 2) none none none).nodesIndices ++ [((octant_index_from_xyz (-(i1.x + i2.x + i3.x)) (-(i1.y + i2.y + i3.y)) (-(i1.z + i2.z + i3.z)) : ℕ) : ℤ)]), nodesByIndex := upd_assoc (mk_octree_node cfg core.nodeCount (Vec3.add n.position (⟨if octant_index_from_xyz (i1.x + i2.x + i3.x) (i1.y + i2.y + i3.y) (i1.z + i2.z + i3.z) &&& 1 ≠ 0 then (((if cfg.overlapPct > 0 then n.overlap / ((1/2 * cfg.overlapPct) * (1 + cfg.overlapPct)) else n.radius * 2) + (if cfg.overlapPct > 0 then n.overlap / ((1/2 * cfg.overlapPct) * (1 + cfg.overlapPct)) else n.radius * 2) * cfg.overlapPct) - (n.radius + n.overlap)) else -(((if cfg.overlapPct > 0 then n.overlap / ((1/2 * cfg.overlapPct) * (1 + cfg.overlapPct)) else n.radius * 2) + (if cfg.overlapPct > 0 then n.overlap / ((1/2 * cfg.overlapPct) * (1 + cfg.overlapPct)) else n.radius * 2) * cfg.overlapPct) - (n.radius + n.overlap)), if octant_index_from_xyz (i1.x + i2.x + i3.x) (i1.y + i2.y + i3.y) (i1.z + i2.z + i3.z) &&& 2 ≠ 0 then (((if cfg.overlapPct > 0 then n.overlap / ((1/2 * cfg.overlapPct) * (1 + cfg.overlapPct)) else n.radius * 2) + (if cfg.overlapPct > 0 then n.overlap / ((1/2 * cfg.overlapPct) * (1 + cfg.overlapPct)) else n.radius * 2) * cfg.overlapPct) - (n.radius + n.overlap)) else -(((if cfg.overlapPct > 0 then n.overlap / ((1/2 * cfg.overlapPct) * (1 + cfg.overlapPct)) else n.radius * 2) + (if cfg.overlapPct > 0 then n.overlap / ((1/2 * cfg.overlapPct) * (1 + cfg.overlapPct)) else n.radius * 2) * cfg.overlapPct) - (n.radius + n.overlap)), if octant_index_from_xyz (i1.x + i2.x + i3.x) (i1.y + i2.y + i3.y) (i1.z + i2.z + i3.z) &&& 4 ≠ 0 then (((if cfg.overlapPct > 0 then n.overlap / ((1/2 * cfg.overlapPct) * (1 + cfg.overlapPct)) else n.radius * 2) + (if cfg.overlapPct > 0 then n.overlap / ((1/2 * cfg.overlapPct) * (1 + cfg.overlapPct)) else n.radius * 2) * cfg.overlapPct) - (n.radius + n.overlap)) else -(((if cfg.overlapPct > 0 then n.overlap / ((1/2 * cfg.overlapPct) * (1 + cfg.overlapPct)) else n.radius * 2) + (if cfg.overlapPct > 0 then n.overlap / ((1/2 * cfg.overlapPct) * (1 + cfg.overlapPct)) else n.radius * 2) * cfg.overlapPct) - (n.radius + n.overlap))⟩ : Vec3)) (if cfg.overlapPct > 0 then n.overlap / ((1/2 * cfg.overlapPct) * (1 + cfg.overlapPct)) else n.radius * 2) none none none).nodesByIndex ((octant_index_from_xyz (-(i1.x + i2.x + i3.x)) (-(i1.y + i2.y + i3.y)) (-(i1.z + i2.z + i3.z)) : ℕ) : ℤ) nid } : NodeRec)) ({ n with indexOctant := some ((octant_index_from_xyz (-(i1.x + i2.x + i3.x)) (-(i1.y + i2.y + i3.y)) (-(i1.z + i2.z + i3.z)) : ℕ) : ℤ), parent := some core.nodeCount, depth := (mk_octree_node cfg core.nodeCount (Vec3.add n.position (⟨if octant_index_from_xyz (i1.x + i2.x + i3.x) (i1.y + i2.y + i3.y) (i1.z + i2.z + i3.z) &&& 1 ≠ 0 then (((if cfg.overlapPct > 0 then n.overlap / ((1/2 * cfg.overlapPct) * (1 + cfg.overlapPct)) else n.radius * 2) + (if cfg.overlapPct > 0 then n.overlap / ((1/2 * cfg.overlapPct) * (1 + cfg.overlapPct)) else n.radius * 2) * cfg.overlapPct) - (n.radius + n.overlap)) else -(((if cfg.overlapPct > 0 then n.overlap / ((1/2 * cfg.overlapPct) * (1 + cfg.overlapPct)) else n.radius * 2) + (if cfg.overlapPct > 0 then n.overlap / ((1/2 * cfg.overlapPct) * (1 + cfg.overlapPct)) else n.radius * 2) * cfg.overlapPct) - (n.radius + n.overlap)), if octant_index_from_xyz (i1.x + i2.x + i3.x) (i1.y + i2.y + i3.y) (i1.z + i2.z + i3.z) &&& 2 ≠ 0 then (((if cfg.overlapPct > 0 then n.overlap / ((1/2 * cfg.overlapPct) * (1 + cfg.overlapPct)) else n.radius * 2) + (if cfg.overlapPct > 0 then n.overlap / ((1/2 * cfg.overlapPct) * (1 + cfg.overlapPct)) else n.radius * 2) * cfg.overlapPct) - (n.radius + n.overlap)) else -(((if cfg.overlapPct > 0 then n.overlap / ((1/2 * cfg.overlapPct) * (1 + cfg.overlapPct)) else n.radius * 2) + (if cfg.overlapPct > 0 then n.overlap / ((1/2 * cfg.overlapPct) * (1 + cfg.overlapPct)) else n.radius * 2) * cfg.overlapPct) - (n.radius + n.overlap)), if octant_index_from_xyz (i1.x + i2.x + i3.x) (i1.y + i2.y + i3.y) (i1.z + i2.z + i3.z) &&& 4 ≠ 0 then (((if cfg.overlapPct > 0 then n.overlap / ((1/2 * cfg.overlapPct) * (1 + cfg.overlapPct)) else n.radius * 2) + (if cfg.overlapPct > 0 then n.overlap / ((1/2 * cfg.overlapPct) * (1 + cfg.overlapPct)) else n.radius * 2) * cfg.overlapPct) - (n.radius + n.overlap)) else -(((if cfg.overlapPct > 0 then n.overlap / ((1/2 * cfg.overlapPct) * (1 + cfg.overlapPct)) else n.radius * 2) + (if cfg.overlapPct > 0 then n.overlap / ((1/2 * cfg.overlapPct) * (1 + cfg.overlapPct)) else n.radius * 2) * cfg.overlapPct) - (n.radius + n.overlap))⟩ : Vec3)) (if cfg.overlapPct > 0 then n.overlap / ((1/2 * cfg.overlapPct) * (1 + cfg.overlapPct)) else n.radius * 2) none none none).depth + 1 } : NodeRec)).nodeCount⟩ : OctreeCore) ({ ({ (mk_octree_node cfg core.nodeCount (Vec3.add n.position (⟨if octant_index_from_xyz (i1.x + i2.x + i3.x) (i1.y + i2.y + i3.y) (i1.z + i2.z + i3.z) &&& 1 ≠ 0 then (((if cfg.overlapPct > 0 then n.overlap / ((1/2 * cfg.overlapPct) * (1 + cfg.overlapPct)) else n.radius * 2) + (if cfg.overlapPct > 0 then n.overlap / ((1/2 * cfg.overlapPct) * (1 + cfg.overlapPct)) else n.radius * 2) * cfg.overlapPct) - (n.radius + n.overlap)) else -(((if cfg.overlapPct > 0 then n.overlap / ((1/2 * cfg.overlapPct) * (1 + cfg.overlapPct)) else n.radius * 2) + (if cfg.overlapPct > 0 then n.overlap / ((1/2 * cfg.overlapPct) * (1 + cfg.overlapPct)) else n.radius * 2) * cfg.overlapPct) - (n.radius + n.overlap)), if octant_index_from_xyz (i1.x + i2.x + i3.x) (i1.y + i2.y + i3.y) (i1.z + i2.z + i3.z) &&& 2 ≠ 0 then (((if cfg.overlapPct > 0 then n.overlap / ((1/2 * cfg.overlapPct) * (1 + cfg.overlapPct)) else n.radius * 2) + (if cfg.overlapPct > 0 then n.overlap / ((1/2 * cfg.overlapPct) * (1 + cfg.overlapPct)) else n.radius * 2) * cfg.overlapPct) - (n.radius + n.overlap)) else -(((if cfg.overlapPct > 0 then n.overlap / ((1/2 * cfg.overlapPct) * (1 + cfg.overlapPct)) else n.radius * 2) + (if cfg.overlapPct > 0 then n.overlap / ((1/2 * cfg.overlapPct) * (1 + cfg.overlapPct)) else n.radius * 2) * cfg.overlapPct) - (n.radius + n.overlap)), if octant_index_from_xyz (i1.x + i2.x + i3.x) (i1.y + i2.y + i3.y) (i1.z + i2.z + i3.z) &&& 4 ≠ 0 then (((if cfg.overlapPct > 0 then n.overlap / ((1/2 * cfg.overlapPct) * (1 + cfg.overlapPct)) else n.radius * 2) + (if cfg.overlapPct > 0 then n.overlap / ((1/2 * cfg.overlapPct) * (1 + cfg.overlapPct)) else n.radius * 2) * cfg.overlapPct) - (n.radius + n.overlap)) else -(((if cfg.overlapPct > 0 then n.overlap / ((1/2 * cfg.overlapPct) * (1 + cfg.overlapPct)) else n.radius * 2) + (if cfg.overlapPct > 0 then n.overlap / ((1/2 * cfg.overlapPct) * (1 + cfg.overlapPct)) else n.radius * 2) * cfg.overlapPct) - (n.radius + n.overlap))⟩ : Vec3)) (if cfg.overlapPct > 0 then n.overlap / ((1/2 * cfg.overlapPct) * (1 + cfg.overlapPct)) else n.radius * 2) none none none) with nodesIndices := (if ((octant_index_from_xyz (-(i1.x + i2.x + i3.x)) (-(i1.y + i2.y + i3.y)) (-(i1.z + i2.z + i3.z)) : ℕ) : ℤ) ∈ (mk_octree_node cfg core.nodeCount (Vec3.add n.position (⟨if octant_index_from_xyz (i1.x + i2.x + i3.x) (i1.y + i2.y + i3.y) (i1.z + i2.z + i3.z) &&& 1 ≠ 0 then (((if cfg.overlapPct > 0 then n.overlap / ((1/2 * cfg.overlapPct) * (1 + cfg.overlapPct)) else n.radius * 2) + (if cfg.overlapPct > 0 then n.overlap / ((1/2 * cfg.overlapPct) * (1 + cfg.overlapPct)) else n.radius * 2) * cfg.overlapPct) - (n.radius + n.overlap)) else -(((if cfg.overlapPct > 0 then n.overlap / ((1/2 * cfg.overlapPct) * (1 + cfg.overlapPct)) else n.radius * 2) + (if cfg.overlapPct > 0 then n.overlap / ((1/2 * cfg.overlapPct) * (1 + cfg.overlapPct)) else n.radius * 2) * cfg.overlapPct) - (n.radius + n.overlap)), if octant_index_from_xyz (i1.x + i2.x + i3.x) (i1.y + i2.y + i3.y) (i1.z + i2.z + i3.z) &&& 2 ≠ 0 then (((if cfg.overlapPct > 0 then n.overlap / ((1/2 * cfg.overlapPct) * (1 + cfg.overlapPct)) else n.radius * 2) + (if cfg.overlapPct > 0 then n.overlap / ((1/2 * cfg.overlapPct) * (1 + cfg.overlapPct)) else n.radius * 2) * cfg.overlapPct) - (n.radius + n.overlap)) else -(((if cfg.overlapPct > 0 then n.overlap / ((1/2 * cfg.overlapPct) * (1 + cfg.overlapPct)) else n.radius * 2) + (if cfg.overlapPct > 0 then n.overlap / ((1/2 * cfg.overlapPct) * (1 + cfg.overlapPct)) else n.radius * 2) * cfg.overlapPct) - (n.radius + n.overlap)), if octant_index_from_xyz (i1.x + i2.x + i3.x) (i1.y + i2.y + i3.y) (i1.z + i2.z + i3.z) &&& 4 ≠ 0 then (((if cfg.overlapPct > 0 then n.overlap / ((1/2 * cfg.overlapPct) * (1 + cfg.overlapPct)) else n.radius * 2) + (if cfg.overlapPct > 0 then n.overlap / ((1/2 * cfg.overlapPct) * (1 + cfg.overlapPct)) else n.radius * 2) * cfg.overlapPct) - (n.radius + n.overlap)) else -(((if cfg.overlapPct > 0 then n.overlap / ((1/2 * cfg.overlapPct) * (1 + cfg.overlapPct)) else n.radius * 2) + (if cfg.overlapPct > 0 then n.overlap / ((1/2 * cfg.overlapPct) * (1 + cfg.overlapPct)) else n.radius * 2) * cfg.overlapPct) - (n.radius + n.overlap))⟩ : Vec3)) (if cfg.overlapPct > 0 then n.overlap / ((1/2 * cfg.overlapPct) * (1 + cfg.overlapPct)) else n.radius * 2) none none none).nodesIndices then (mk_octree_node cfg core.nodeCount (Vec3.add n.position (⟨if octant_index_from_xyz (i1.x + i2.x + i3.x) (i1.y + i2.y + i3.y) (i1.z + i2.z + i3.z) &&& 1 ≠ 0 then (((if cfg.overlapPct > 0 then n.overlap / ((1/2 * cfg.overlapPct) * (1 + cfg.overlapPct)) else n.radius * 2) + (if cfg.overlapPct > 0 then n.overlap / ((1/2 * cfg.overlapPct) * (1 + cfg.overlapPct)) else n.radius * 2) * cfg.overlapPct) - (n.radius + n.overlap)) else -(((if cfg.overlapPct > 0 then n.overlap / ((1/2 * cfg.overlapPct) * (1 + cfg.overlapPct)) else n.radius * 2) + (if cfg.overlapPct > 0 then n.overlap / ((1/2 * cfg.overlapPct) * (1 + cfg.overlapPct)) else n.radius * 2) * cfg.overlapPct) - (n.radius + n.overlap)), if octant_index_from_xyz (i1.x + i2.x + i3.x) (i1.y + i2.y + i3.y) (i1.z + i2.z + i3.z) &&& 2 ≠ 0 then (((if cfg.overlapPct > 0 then n.overlap / ((1/2 * cfg.overlapPct) * (1 + cfg.overlapPct)) else n.radius * 2) + (if cfg.overlapPct > 0 then n.overlap / ((1/2 * cfg.overlapPct) * (1 + cfg.overlapPct)) else n.radius * 2) * cfg.overlapPct) - (n.radius + n.overlap)) else -(((if cfg.overlapPct > 0 then n.overlap / ((1/2 * cfg.overlapPct) * (1 + cfg.overlapPct)) else n.radius * 2) + (if cfg.overlapPct > 0 then n.overlap / ((1/2 * cfg.overlapPct) * (1 + cfg.overlapPct)) else n.radius * 2) * cfg.overlapPct) - (n.radius + n.overlap)), if octant_index_from_xyz (i1.x + i2.x + i3.x) (i1.y + i2.y + i3.y) (i1.z + i2.z + i3.z) &&& 4 ≠ 0 then (((if cfg.overlapPct > 0 then n.overlap / ((1/2 * cfg.overlapPct) * (1 + cfg.overlapPct)) else n.radius * 2) + (if cfg.overlapPct > 0 then n.overlap / ((1/2 * cfg.overlapPct) * (1 + cfg.overlapPct)) else n.radius * 2) * cfg.overlapPct) - (n.radius + n.overlap)) else -(((if cfg.overlapPct > 0 then n.overlap / ((1/2 * cfg.overlapPct) * (1 + cfg.overlapPct)) else n.radius * 2) + (if cfg.overlapPct > 0 then n.overlap / ((1/2 * cfg.overlapPct) * (1 + cfg.overlapPct)) else n.radius * 2) * cfg.overlapPct) - (n.radius + n.overlap))⟩ : Vec3)) (if cfg.overlapPct > 0 then n.overlap / ((1/2 * cfg.overlapPct) * (1 + cfg.overlapPct)) else n.radius * 2) none none none).nodesIndices else (mk_octree_node cfg core.nodeCount (Vec3.add n.position (⟨if octant_index_from_xyz (i1.x + i2.x + i3.x) (i1.y + i2.y + i3.y) (i1.z + i2.z + i3.z) &&& 1 ≠ 0 then (((if cfg.overlapPct > 0 then n.overlap / ((1/2 * cfg.overlapPct) * (1 + cfg.overlapPct)) else n.radius * 2) + (if cfg.overlapPct > 0 then n.overlap / ((1/2 * cfg.overlapPct) * (1 + cfg.overlapPct)) else n.radius * 2) * cfg.overlapPct) - (n.radius + n.overlap)) else -(((if cfg.overlapPct > 0 then n.overlap / ((1/2 * cfg.overlapPct) * (1 + cfg.overlapPct)) else n.radius * 2) + (if cfg.overlapPct > 0 then n.overlap / ((1/2 * cfg.overlapPct) * (1 + cfg.overlapPct)) else n.radius * 2) * cfg.overlapPct) - (n.radius + n.overlap)), if octant_index_from_xyz (i1.x + i2.x + i3.x) (i1.y + i2.y + i3.y) (i1.z + i2.z + i3.z) &&& 2 ≠ 0 then (((if cfg.overlapPct > 0 then n.overlap / ((1/2 * cfg.overlapPct) * (1 + cfg.overlapPct)) else n.radius * 2) + (if cfg.overlapPct > 0 then n.overlap / ((1/2 * cfg.overlapPct) * (1 + cfg.overlapPct)) else n.radius * 2) * cfg.overlapPct) - (n.radius + n.overlap)) else -(((if cfg.overlapPct > 0 then n.overlap / ((1/2 * cfg.overlapPct) * (1 + cfg.overlapPct)) else n.radius * 2) + (if cfg.overlapPct > 0 then n.overlap / ((1/2 * cfg.overlapPct) * (1 + cfg.overlapPct)) else n.radius * 2) * cfg.overlapPct) - (n.radius + n.overlap)), if octant_index_from_xyz (i1.x + i2.x + i3.x) (i1.y + i2.y + i3.y) (i1.z + i2.z + i3.z) &&& 4 ≠ 0 then (((if cfg.overlapPct > 0 then n.overlap / ((1/2 * cfg.overlapPct) * (1 + cfg.overlapPct)) else n.radius * 2) + (if cfg.overlapPct > 0 then n.overlap / ((1/2 * cfg.overlapPct) * (1 + cfg.overlapPct)) else n.radius * 2) * cfg.overlapPct) - (n.radius + n.overlap)) else -(((if cfg.overlapPct > 0 then n.overlap / ((1/2 * cfg.overlapPct) * (1 + cfg.overlapPct)) else n.radius * 2) + (if cfg.overlapPct > 0 then n.overlap / ((1/2 * cfg.overlapPct) * (1 + cfg.overlapPct)) else n.radius * 2) * cfg.overlapPct) - (n.radius + n.overlap))⟩ : Vec3)) (if cfg.overlapPct > 0 then n.overlap / ((1/2 * cfg.overlapPct) * (1 + cfg.overlapPct)) else n.radius * 2) none none none).nodesIndices ++ [((octant_index_from_xyz (-(i1.x + i2.x + i3.x)) (-(i1.y + i2.y + i3.y)) (-(i1.z + i2.z + i3.z)) : ℕ) : ℤ)]), nodesByIndex := upd_assoc (mk_octree_node cfg core.nodeCount (Vec3.add n.position (⟨if octant_index_from_xyz (i1.x + i2.x + i3.x) (i1.y + i2.y + i3.y) (i1.z + i2.z + i3.z) &&& 1 ≠ 0 then (((if cfg.overlapPct > 0 then n.overlap / ((1/2 * cfg.overlapPct) * (1 + cfg.overlapPct)) else n.radius * 2) + (if cfg.overlapPct > 0 then n.overlap / ((1/2 * cfg.overlapPct) * (1 + cfg.overlapPct)) else n.radius * 2) * cfg.overlapPct) - (n.radius + n.overlap)) else -(((if cfg.overlapPct > 0 then n.overlap / ((1/2 * cfg.overlapPct) * (1 + cfg.overlapPct)) else n.radius * 2) + (if cfg.overlapPct > 0 then n.overlap / ((1/2 * cfg.overlapPct) * (1 + cfg.overlapPct)) else n.radius * 2) * cfg.overlapPct) - (n.radius + n.overlap)), if octant_index_from_xyz (i1.x + i2.x + i3.x) (i1.y + i2.y + i3.y) (i1.z + i2.z + i3.z) &&& 2 ≠ 0 then (((if cfg.overlapPct > 0 then n.overlap / ((1/2 * cfg.overlapPct) * (1 + cfg.overlapPct)) else n.radius * 2) + (if cfg.overlapPct > 0 then n.overlap / ((1/2 * cfg.overlapPct) * (1 + cfg.overlapPct)) else n.radius * 2) * cfg.overlapPct) - (n.radius + n.overlap)) else -(((if cfg.overlapPct > 0 then n.overlap / ((1/2 * cfg.overlapPct) * (1 + cfg.overlapPct)) else n.radius * 2) + (if cfg.overlapPct > 0 then n.overlap / ((1/2 * cfg.overlapPct) * (1 + cfg.overlapPct)) else n.radius * 2) * cfg.overlapPct) - (n.radius + n.overlap)), if octant_index_from_xyz (i1.x + i2.x + i3.x) (i1.y + i2.y + i3.y) (i1.z + i2.z + i3.z) &&& 4 ≠ 0 then (((if cfg.overlapPct > 0 then n.overlap / ((1/2 * cfg.overlapPct) * (1 + cfg.overlapPct)) else n.radius * 2) + (if cfg.overlapPct > 0 then n.overlap / ((1/2 * cfg.overlapPct) * (1 + cfg.overlapPct)) else n.radius * 2) * cfg.overlapPct) - (n.radius + n.overlap)) else -(((if cfg.overlapPct > 0 then n.overlap / ((1/2 * cfg.overlapPct) * (1 + cfg.overlapPct)) else n.radius * 2) + (if cfg.overlapPct > 0 then n.overlap / ((1/2 * cfg.overlapPct) * (1 + cfg.overlapPct)) else n.radius * 2) * cfg.overlapPct) - (n.radius + n.overlap))⟩ : Vec3)) (if cfg.overlapPct > 0 then n.overlap / ((1/2 * cfg.overlapPct) * (1 + cfg.overlapPct)) else n.radius * 2) none none none).nodesByIndex ((octant_index_from_xyz (-(i1.x + i2.x + i3.x)) (-(i1.y + i2.y + i3.y)) (-(i1.z + i2.z + i3.z)) : ℕ) : ℤ) nid } : NodeRec) with depth := 0 } : NodeRec)) ({ ({ n with indexOctant := some ((octant_index_from_xyz (-(i1.x + i2.x + i3.x)) (-(i1.y + i2.y + i3.y)) (-(i1.z + i2.z + i3.z)) : ℕ) : ℤ), parent := some core.nodeCount, depth := (mk_octree_node cfg core.nodeCount (Vec3.add n.position (⟨if octant_index_from_xyz (i1.x + i2.x + i3.x) (i1.y + i2.y + i3.y) (i1.z + i2.z + i3.z) &&& 1 ≠ 0 then (((if cfg.overlapPct > 0 then n.overlap / ((1/2 * cfg.overlapPct) * (1 + cfg.overlapPct)) else n.radius * 2) + (if cfg.overlapPct > 0 then n.overlap / ((1/2 * cfg.overlapPct) * (1 + cfg.overlapPct)) else n.radius * 2) * cfg.overlapPct) - (n.radius + n.overlap)) else -(((if cfg.overlapPct > 0 then n.overlap / ((1/2 * cfg.overlapPct) * (1 + cfg.overlapPct)) else n.radius * 2) + (if cfg.overlapPct > 0 then n.overlap / ((1/2 * cfg.overlapPct) * (1 + cfg.overlapPct)) else n.radius * 2) * cfg.overlapPct) - (n.radius + n.overlap)), if octant_index_from_xyz (i1.x + i2.x + i3.x) (i1.y + i2.y + i3.y) (i1.z + i2.z + i3.z) &&& 2 ≠ 0 then (((if cfg.overlapPct > 0 then n.overlap / ((1/2 * cfg.overlapPct) * (1 + cfg.overlapPct)) else n.radius * 2) + (if cfg.overlapPct > 0 then n.overlap / ((1/2 * cfg.overlapPct) * (1 + cfg.overlapPct)) else n.radius * 2) * cfg.overlapPct) - (n.radius + n.overlap)) else -(((if cfg.overlapPct > 0 then n.overlap / ((1/2 * cfg.overlapPct) * (1 + cfg.overlapPct)) else n.radius * 2) + (if cfg.overlapPct > 0 then n.overlap / ((1/2 * cfg.overlapPct) * (1 + cfg.overlapPct)) else n.radius * 2) * cfg.overlapPct) - (n.radius + n.overlap)), if octant_index_from_xyz (i1.x + i2.x + i3.x) (i1.y + i2.y + i3.y) (i1.z + i2.z + i3.z) &&& 4 ≠ 0 then (((if cfg.overlapPct > 0 then n.overlap / ((1/2 * cfg.overlapPct) * (1 + cfg.overlapPct)) else n.radius * 2) + (if cfg.overlapPct > 0 then n.overlap / ((1/2 * cfg.overlapPct) * (1 + cfg.overlapPct)) else n.radius * 2) * cfg.overlapPct) - (n.radius + n.overlap)) else -(((if cfg.overlapPct > 0 then n.overlap / ((1/2 * cfg.overlapPct) * (1 + cfg.overlapPct)) else n.radius * 2) + (if cfg.overlapPct > 0 then n.overlap / ((1/2 * cfg.overlapPct) * (1 + cfg.overlapPct)) else n.radius * 2) * cfg.overlapPct) - (n.radius + n.overlap))⟩ : Vec3)) (if cfg.overlapPct > 0 then n.overlap / ((1/2 * cfg.overlapPct) * (1 + cfg.overlapPct)) else n.radius * 2) none none none).depth + 1 } : NodeRec) with depth := 1 } : NodeRec)) objs) >>= (fun c => some (c, [])) := by
    simp only [expand, hn, bind_some_eq, hrootid, hDE5, Option.getD_some]
    rw [if_pos (Or.inl hdm)]
    simp only [htal]
    rw [if_pos (show objs.length > 0 from List.length_pos.mpr hne)]
    simp only [hE]
    rw [hAN, bind_some_eq, hRS, bind_some_eq]
    rfl
  refine ⟨i1, i2, i3, ({ ({ (mk_octree_node cfg core.nodeCount (Vec3.add n.position (⟨if octant_index_from_xyz (i1.x + i2.x + i3.x) (i1.y + i2.y + i3.y) (i1.z + i2.z + i3.z) &&& 1 ≠ 0 then (((if cfg.overlapPct > 0 then n.overlap / ((1/2 * cfg.overlapPct) * (1 + cfg.overlapPct)) else n.radius * 2) + (if cfg.overlapPct > 0 then n.overlap / ((1/2 * cfg.overlapPct) * (1 + cfg.overlapPct)) else n.radius * 2) * cfg.overlapPct) - (n.radius + n.overlap)) else -(((if cfg.overlapPct > 0 then n.overlap / ((1/2 * cfg.overlapPct) * (1 + cfg.overlapPct)) else n.radius * 2) + (if cfg.overlapPct > 0 then n.overlap / ((1/2 * cfg.overlapPct) * (1 + cfg.overlapPct)) else n.radius * 2) * cfg.overlapPct) - (n.radius + n.overlap)), if octant_index_from_xyz (i1.x + i2.x + i3.x) (i1.y + i2.y + i3.y) (i1.z + i2.z + i3.z) &&& 2 ≠ 0 then (((if cfg.overlapPct > 0 then n.overlap / ((1/2 * cfg.overlapPct) * (1 + cfg.overlapPct)) else n.radius * 2) + (if cfg.overlapPct > 0 then n.overlap / ((1/2 * cfg.overlapPct) * (1 + cfg.overlapPct)) else n.radius * 2) * cfg.overlapPct) - (n.radius + n.overlap)) else -(((if cfg.overlapPct > 0 then n.overlap / ((1/2 * cfg.overlapPct) * (1 + cfg.overlapPct)) else n.radius * 2) + (if cfg.overlapPct > 0 then n.overlap / ((1/2 * cfg.overlapPct) * (1 + cfg.overlapPct)) else n.radius * 2) * cfg.overlapPct) - (n.radius + n.overlap)), if octant_index_from_xyz (i1.x + i2.x + i3.x) (i1.y + i2.y + i3.y) (i1.z + i2.z + i3.z) &&& 4 ≠ 0 then (((if cfg.overlapPct > 0 then n.overlap / ((1/2 * cfg.overlapPct) * (1 + cfg.overlapPct)) else n.radius * 2) + (if cfg.overlapPct > 0 then n.overlap / ((1/2 * cfg.overlapPct) * (1 + cfg.overlapPct)) else n.radius * 2) * cfg.overlapPct) - (n.radius + n.overlap)) else -(((if cfg.overlapPct > 0 then n.overlap / ((1/2 * cfg.overlapPct) * (1 + cfg.overlapPct)) else n.radius * 2) + (if cfg.overlapPct > 0 then n.overlap / ((1/2 * cfg.overlapPct) * (1 + cfg.overlapPct)) else n.radius * 2) * cfg.overlapPct) - (n.radius + n.overlap))⟩ : Vec3)) (if cfg.overlapPct > 0 then n.overlap / ((1/2 * cfg.overlapPct) * (1 + cfg.overlapPct)) else n.radius * 2) none none none) with nodesIndices := (if ((octant_index_from_xyz (-(i1.x + i2.x + i3.x)) (-(i1.y + i2.y + i3.y)) (-(i1.z + i2.z + i3.z)) : ℕ) : ℤ) ∈ (mk_octree_node cfg core.nodeCount (Vec3.add n.position (⟨if octant_index_from_xyz (i1.x + i2.x + i3.x) (i1.y + i2.y + i3.y) (i1.z + i2.z + i3.z) &&& 1 ≠ 0 then (((if cfg.overlapPct > 0 then n.overlap / ((1/2 * cfg.overlapPct) * (1 + cfg.overlapPct)) else n.radius * 2) + (if cfg.overlapPct > 0 then n.overlap / ((1/2 * cfg.overlapPct) * (1 + cfg.overlapPct)) else n.radius * 2) * cfg.overlapPct) - (n.radius + n.overlap)) else -(((if cfg.overlapPct > 0 then n.overlap / ((1/2 * cfg.overlapPct) * (1 + cfg.overlapPct)) else n.radius * 2) + (if cfg.overlapPct > 0 then n.overlap / ((1/2 * cfg.overlapPct) * (1 + cfg.overlapPct)) else n.radius * 2) * cfg.overlapPct) - (n.radius + n.overlap)), if octant_index_from_xyz (i1.x + i2.x + i3.x) (i1.y + i2.y + i3.y) (i1.z + i2.z + i3.z) &&& 2 ≠ 0 then (((if cfg.overlapPct > 0 then n.overlap / ((1/2 * cfg.overlapPct) * (1 + cfg.overlapPct)) else n.radius * 2) + (if cfg.overlapPct > 0 then n.overlap / ((1/2 * cfg.overlapPct) * (1 + cfg.overlapPct)) else n.radius * 2) * cfg.overlapPct) - (n.radius + n.overlap)) else -(((if cfg.overlapPct > 0 then n.overlap / ((1/2 * cfg.overlapPct) * (1 + cfg.overlapPct)) else n.radius * 2) + (if cfg.overlapPct > 0 then n.overlap / ((1/2 * cfg.overlapPct) * (1 + cfg.overlapPct)) else n.radius * 2) * cfg.overlapPct) - (n.radius + n.overlap)), if octant_index_from_xyz (i1.x + i2.x + i3.x) (i1.y + i2.y + i3.y) (i1.z + i2.z + i3.z) &&& 4 ≠ 0 then (((if cfg.overlapPct > 0 then n.overlap / ((1/2 * cfg.overlapPct) * (1 + cfg.overlapPct)) else n.radius * 2) + (if cfg.overlapPct > 0 then n.overlap / ((1/2 * cfg.overlapPct) * (1 + cfg.overlapPct)) else n.radius * 2) * cfg.overlapPct) - (n.radius + n.overlap)) else -(((if cfg.overlapPct > 0 then n.overlap / ((1/2 * cfg.overlapPct) * (1 + cfg.overlapPct)) else n.radius * 2) + (if cfg.overlapPct > 0 then n.overlap / ((1/2 * cfg.overlapPct) * (1 + cfg.overlapPct)) else n.radius * 2) * cfg.overlapPct) - (n.radius + n.overlap))⟩ : Vec3)) (if cfg.overlapPct > 0 then n.overlap / ((1/2 * cfg.overlapPct) * (1 + cfg.overlapPct)) else n.radius * 2) none none none).nodesIndices then (mk_octree_node cfg core.nodeCount (Vec3.add n.position (⟨if octant_index_from_xyz (i1.x + i2.x + i3.x) (i1.y + i2.y + i3.y) (i1.z + i2.z + i3.z) &&& 1 ≠ 0 then (((if cfg.overlapPct > 0 then n.overlap / ((1/2 * cfg.overlapPct) * (1 + cfg.overlapPct)) else n.radius * 2) + (if cfg.overlapPct > 0 then n.overlap / ((1/2 * cfg.overlapPct) * (1 + cfg.overlapPct)) else n.radius * 2) * cfg.overlapPct) - (n.radius + n.overlap)) else -(((if cfg.overlapPct > 0 then n.overlap / ((1/2 * cfg.overlapPct) * (1 + cfg.overlapPct)) else n.radius * 2) + (if cfg.overlapPct > 0 then n.overlap / ((1/2 * cfg.overlapPct) * (1 + cfg.overlapPct)) else n.radius * 2) * cfg.overlapPct) - (n.radius + n.overlap)), if octant_index_from_xyz (i1.x + i2.x + i3.x) (i1.y + i2.y + i3.y) (i1.z + i2.z + i3.z) &&& 2 ≠ 0 then (((if cfg.overlapPct > 0 then n.overlap / ((1/2 * cfg.overlapPct) * (1 + cfg.overlapPct)) else n.radius * 2) + (if cfg.overlapPct > 0 then n.overlap / ((1/2 * cfg.overlapPct) * (1 + cfg.overlapPct)) else n.radius * 2) * cfg.overlapPct) - (n.radius + n.overlap)) else -(((if cfg.overlapPct > 0 then n.overlap / ((1/2 * cfg.overlapPct) * (1 + cfg.overlapPct)) else n.radius * 2) + (if cfg.overlapPct > 0 then n.overlap / ((1/2 * cfg.overlapPct) * (1 + cfg.overlapPct)) else n.radius * 2) * cfg.overlapPct) - (n.radius + n.overlap)), if octant_index_from_xyz (i1.x + i2.x + i3.x) (i1.y + i2.y + i3.y) (i1.z + i2.z + i3.z) &&& 4 ≠ 0 then (((if cfg.overlapPct > 0 then n.overlap / ((1/2 * cfg.overlapPct) * (1 + cfg.overlapPct)) else n.radius * 2) + (if cfg.overlapPct > 0 then n.overlap / ((1/2 * cfg.overlapPct) * (1 + cfg.overlapPct)) else n.radius * 2) * cfg.overlapPct) - (n.radius + n.overlap)) else -(((if cfg.overlapPct > 0 then n.overlap / ((1/2 * cfg.overlapPct) * (1 + cfg.overlapPct)) else n.radius * 2) + (if cfg.overlapPct > 0 then n.overlap / ((1/2 * cfg.overlapPct) * (1 + cfg.overlapPct)) else n.radius * 2) * cfg.overlapPct) - (n.radius + n.overlap))⟩ : Vec3)) (if cfg.overlapPct > 0 then n.overlap / ((1/2 * cfg.overlapPct) * (1 + cfg.overlapPct)) else n.radius * 2) none none none).nodesIndices else (mk_octree_node cfg core.nodeCount (Vec3.add n.position (⟨if octant_index_from_xyz (i1.x + i2.x + i3.x) (i1.y + i2.y + i3.y) (i1.z + i2.z + i3.z) &&& 1 ≠ 0 then (((if cfg.overlapPct > 0 then n.overlap / ((1/2 * cfg.overlapPct) * (1 + cfg.overlapPct)) else n.radius * 2) + (if cfg.overlapPct > 0 then n.overlap / ((1/2 * cfg.overlapPct) * (1 + cfg.overlapPct)) else n.radius * 2) * cfg.overlapPct) - (n.radius + n.overlap)) else -(((if cfg.overlapPct > 0 then n.overlap / ((1/2 * cfg.overlapPct) * (1 + cfg.overlapPct)) else n.radius * 2) + (if cfg.overlapPct > 0 then n.overlap / ((1/2 * cfg.overlapPct) * (1 + cfg.overlapPct)) else n.radius * 2) * cfg.overlapPct) - (n.radius + n.overlap)), if octant_index_from_xyz (i1.x + i2.x + i3.x) (i1.y + i2.y + i3.y) (i1.z + i2.z + i3.z) &&& 2 ≠ 0 then (((if cfg.overlapPct > 0 then n.overlap / ((1/2 * cfg.overlapPct) * (1 + cfg.overlapPct)) else n.radius * 2) + (if cfg.overlapPct > 0 then n.overlap / ((1/2 * cfg.overlapPct) * (1 + cfg.overlapPct)) else n.radius * 2) * cfg.overlapPct) - (n.radius + n.overlap)) else -(((if cfg.overlapPct > 0 then n.overlap / ((1/2 * cfg.overlapPct) * (1 + cfg.overlapPct)) else n.radius * 2) + (if cfg.overlapPct > 0 then n.overlap / ((1/2 * cfg.overlapPct) * (1 + cfg.overlapPct)) else n.radius * 2) * cfg.overlapPct) - (n.radius + n.overlap)), if octant_index_from_xyz (i1.x + i2.x + i3.x) (i1.y + i2.y + i3.y) (i1.z + i2.z + i3.z) &&& 4 ≠ 0 then (((if cfg.overlapPct > 0 then n.overlap / ((1/2 * cfg.overlapPct) * (1 + cfg.overlapPct)) else n.radius * 2) + (if cfg.overlapPct > 0 then n.overlap / ((1/2 * cfg.overlapPct) * (1 + cfg.overlapPct)) else n.radius * 2) * cfg.overlapPct) - (n.radius + n.overlap)) else -(((if cfg.overlapPct > 0 then n.overlap / ((1/2 * cfg.overlapPct) * (1 + cfg.overlapPct)) else n.radius * 2) + (if cfg.overlapPct > 0 then n.overlap / ((1/2 * cfg.overlapPct) * (1 + cfg.overlapPct)) else n.radius * 2) * cfg.overlapPct) - (n.radius + n.overlap))⟩ : Vec3)) (if cfg.overlapPct > 0 then n.overlap / ((1/2 * cfg.overlapPct) * (1 + cfg.overlapPct)) else n.radius * 2) none none none).nodesIndices ++ [((octant_index_from_xyz (-(i1.x + i2.x + i3.x)) (-(i1.y + i2.y + i3.y)) (-(i1.z + i2.z + i3.z)) : ℕ) : ℤ)]), nodesByIndex := upd_assoc (mk_octree_node cfg core.nodeCount (Vec3.add n.position (⟨if octant_index_from_xyz (i1.x + i2.x + i3.x) (i1.y + i2.y + i3.y) (i1.z + i2.z + i3.z) &&& 1 ≠ 0 then (((if cfg.overlapPct > 0 then n.overlap / ((1/2 * cfg.overlapPct) * (1 + cfg.overlapPct)) else n.radius * 2) + (if cfg.overlapPct > 0 then n.overlap / ((1/2 * cfg.overlapPct) * (1 + cfg.overlapPct)) else n.radius * 2) * cfg.overlapPct) - (n.radius + n.overlap)) else -(((if cfg.overlapPct > 0 then n.overlap / ((1/2 * cfg.overlapPct) * (1 + cfg.overlapPct)) else n.radius * 2) + (if cfg.overlapPct > 0 then n.overlap / ((1/2 * cfg.overlapPct) * (1 + cfg.overlapPct)) else n.radius * 2) * cfg.overlapPct) - (n.radius + n.overlap)), if octant_index_from_xyz (i1.x + i2.x + i3.x) (i1.y + i2.y + i3.y) (i1.z + i2.z + i3.z) &&& 2 ≠ 0 then (((if cfg.overlapPct > 0 then n.overlap / ((1/2 * cfg.overlapPct) * (1 + cfg.overlapPct)) else n.radius * 2) + (if cfg.overlapPct > 0 then n.overlap / ((1/2 * cfg.overlapPct) * (1 + cfg.overlapPct)) else n.radius * 2) * cfg.overlapPct) - (n.radius + n.overlap)) else -(((if cfg.overlapPct > 0 then n.overlap / ((1/2 * cfg.overlapPct) * (1 + cfg.overlapPct)) else n.radius * 2) + (if cfg.overlapPct > 0 then n.overlap / ((1/2 * cfg.overlapPct) * (1 + cfg.overlapPct)) else n.radius * 2) * cfg.overlapPct) - (n.radius + n.overlap)), if octant_index_from_xyz (i1.x + i2.x + i3.x) (i1.y + i2.y + i3.y) (i1.z + i2.z + i3.z) &&& 4 ≠ 0 then (((if cfg.overlapPct > 0 then n.overlap / ((1/2 * cfg.overlapPct) * (1 + cfg.overlapPct)) else n.radius * 2) + (if cfg.overlapPct > 0 then n.overlap / ((1/2 * cfg.overlapPct) * (1 + cfg.overlapPct)) else n.radius * 2) * cfg.overlapPct) - (n.radius + n.overlap)) else -(((if cfg.overlapPct > 0 then n.overlap / ((1/2 * cfg.overlapPct) * (1 + cfg.overlapPct)) else n.radius * 2) + (if cfg.overlapPct > 0 then n.overlap / ((1/2 * cfg.overlapPct) * (1 + cfg.overlapPct)) else n.radius * 2) * cfg.overlapPct) - (n.radius + n.overlap))⟩ : Vec3)) (if cfg.overlapPct > 0 then n.overlap / ((1/2 * cfg.overlapPct) * (1 + cfg.overlapPct)) else n.radius * 2) none none none).nodesByIndex ((octant_index_from_xyz (-(i1.x + i2.x + i3.x)) (-(i1.y + i2.y + i3.y)) (-(i1.z + i2.z + i3.z)) : ℕ) : ℤ) nid } : NodeRec) with depth := 0 } : NodeRec), (setNode (setNode (⟨(setNode (setNode (setNode (setNode (⟨core.nodes, nid, core.nodeCount + 1⟩ : OctreeCore) (mk_octree_node cfg core.nodeCount (Vec3.add n.position (⟨if octant_index_from_xyz (i1.x + i2.x + i3.x) (i1.y + i2.y + i3.y) (i1.z + i2.z + i3.z) &&& 1 ≠ 0 then (((if cfg.overlapPct > 0 then n.overlap / ((1/2 * cfg.overlapPct) * (1 + cfg.overlapPct)) else n.radius * 2) + (if cfg.overlapPct > 0 then n.overlap / ((1/2 * cfg.overlapPct) * (1 + cfg.overlapPct)) else n.radius * 2) * cfg.overlapPct) - (n.radius + n.overlap)) else -(((if cfg.overlapPct > 0 then n.overlap / ((1/2 * cfg.overlapPct) * (1 + cfg.overlapPct)) else n.radius * 2) + (if cfg.overlapPct > 0 then n.overlap / ((1/2 * cfg.overlapPct) * (1 + cfg.overlapPct)) else n.radius * 2) * cfg.overlapPct) - (n.radius + n.overlap)), if octant_index_from_xyz (i1.x + i2.x + i3.x) (i1.y + i2.y + i3.y) (i1.z + i2.z + i3.z) &&& 2 ≠ 0 then (((if cfg.overlapPct > 0 then n.overlap / ((1/2 * cfg.overlapPct) * (1 + cfg.overlapPct)) else n.radius * 2) + (if cfg.overlapPct > 0 then n.overlap / ((1/2 * cfg.overlapPct) * (1 + cfg.overlapPct)) else n.radius * 2) * cfg.overlapPct) - (n.radius + n.overlap)) else -(((if cfg.overlapPct > 0 then n.overlap / ((1/2 * cfg.overlapPct) * (1 + cfg.overlapPct)) else n.radius * 2) + (if cfg.overlapPct > 0 then n.overlap / ((1/2 * cfg.overlapPct) * (1 + cfg.overlapPct)) else n.radius * 2) * cfg.overlapPct) - (n.radius + n.overlap)), if octant_index_from_xyz (i1.x + i2.x + i3.x) (i1.y + i2.y + i3.y) (i1.z + i2.z + i3.z) &&& 4 ≠ 0 then (((if cfg.overlapPct > 0 then n.overlap / ((1/2 * cfg.overlapPct) * (1 + cfg.overlapPct)) else n.radius * 2) + (if cfg.overlapPct > 0 then n.overlap / ((1/2 * cfg.overlapPct) * (1 + cfg.overlapPct)) else n.radius * 2) * cfg.overlapPct) - (n.radius + n.overlap)) else -(((if cfg.overlapPct > 0 then n.overlap / ((1/2 * cfg.overlapPct) * (1 + cfg.overlapPct)) else n.radius * 2) + (if cfg.overlapPct > 0 then n.overlap / ((1/2 * cfg.overlapPct) * (1 + cfg.overlapPct)) else n.radius * 2) * cfg.overlapPct) - (n.radius + n.overlap))⟩ : Vec3)) (if cfg.overlapPct > 0 then n.overlap / ((1/2 * cfg.overlapPct) * (1 + cfg.overlapPct)) else n.radius * 2) none none none)) ({ n with indexOctant := some ((octant_index_from_xyz (-(i1.x + i2.x + i3.x)) (-(i1.y + i2.y + i3.y)) (-(i1.z + i2.z + i3.z)) : ℕ) : ℤ) } : NodeRec)) ({ (mk_octree_node cfg core.nodeCount (Vec3.add n.position (⟨if octant_index_from_xyz (i1.x + i2.x + i3.x) (i1.y + i2.y + i3.y) (i1.z + i2.z + i3.z) &&& 1 ≠ 0 then (((if cfg.overlapPct > 0 then n.overlap / ((1/2 * cfg.overlapPct) * (1 + cfg.overlapPct)) else n.radius * 2) + (if cfg.overlapPct > 0 then n.overlap / ((1/2 * cfg.overlapPct) * (1 + cfg.overlapPct)) else n.radius * 2) * cfg.overlapPct) - (n.radius + n.overlap)) else -(((if cfg.overlapPct > 0 then n.overlap / ((1/2 * cfg.overlapPct) * (1 + cfg.overlapPct)) else n.radius * 2) + (if cfg.overlapPct > 0 then n.overlap / ((1/2 * cfg.overlapPct) * (1 + cfg.overlapPct)) else n.radius * 2) * cfg.overlapPct) - (n.radius + n.overlap)), if octant_index_from_xyz (i1.x + i2.x + i3.x) (i1.y + i2.y + i3.y) (i1.z + i2.z + i3.z) &&& 2 ≠ 0 then (((if cfg.overlapPct > 0 then n.overlap / ((1/2 * cfg.overlapPct) * (1 + cfg.overlapPct)) else n.radius * 2) + (if cfg.overlapPct > 0 then n.overlap / ((1/2 * cfg.overlapPct) * (1 + cfg.overlapPct)) else n.radius * 2) * cfg.overlapPct) - (n.radius + n.overlap)) else -(((if cfg.overlapPct > 0 then n.overlap / ((1/2 * cfg.overlapPct) * (1 + cfg.overlapPct)) else n.radius * 2) + (if cfg.overlapPct > 0 then n.overlap / ((1/2 * cfg.overlapPct) * (1 + cfg.overlapPct)) else n.radius * 2) * cfg.overlapPct) - (n.radius + n.overlap)), if octant_index_from_xyz (i1.x + i2.x + i3.x) (i1.y + i2.y + i3.y) (i1.z + i2.z + i3.z) &&& 4 ≠ 0 then (((if cfg.overlapPct > 0 then n.overlap / ((1/2 * cfg.overlapPct) * (1 + cfg.overlapPct)) else n.radius * 2) + (if cfg.overlapPct > 0 then n.overlap / ((1/2 * cfg.overlapPct) * (1 + cfg.overlapPct)) else n.radius * 2) * cfg.overlapPct) - (n.radius + n.overlap)) else -(((if cfg.overlapPct > 0 then n.overlap / ((1/2 * cfg.overlapPct) * (1 + cfg.overlapPct)) else n.radius * 2) + (if cfg.overlapPct > 0 then n.overlap / ((1/2 * cfg.overlapPct) * (1 + cfg.overlapPct)) else n.radius * 2) * cfg.overlapPct) - (n.radius + n.overlap))⟩ : Vec3)) (if cfg.overlapPct > 0 then n.overlap / ((1/2 * cfg.overlapPct) * (1 + cfg.overlapPct)) else n.radius * 2) none none none) with nodesIndices := (if ((octant_index_from_xyz (-(i1.x + i2.x + i3.x)) (-(i1.y + i2.y + i3.y)) (-(i1.z + i2.z + i3.z)) : ℕ) : ℤ) ∈ (mk_octree_node cfg core.nodeCount (Vec3.add n.position (⟨if octant_index_from_xyz (i1.x + i2.x + i3.x) (i1.y + i2.y + i3.y) (i1.z + i2.z + i3.z) &&& 1 ≠ 0 then (((if cfg.overlapPct > 0 then n.overlap / ((1/2 * cfg.overlapPct) * (1 + cfg.overlapPct)) else n.radius * 2) + (if cfg.overlapPct > 0 then n.overlap / ((1/2 * cfg.overlapPct) * (1 + cfg.overlapPct)) else n.radius * 2) * cfg.overlapPct) - (n.radius + n.overlap)) else -(((if cfg.overlapPct > 0 then n.overlap / ((1/2 * cfg.overlapPct) * (1 + cfg.overlapPct)) else n.radius * 2) + (if cfg.overlapPct > 0 then n.overlap / ((1/2 * cfg.overlapPct) * (1 + cfg.overlapPct)) else n.radius * 2) * cfg.overlapPct) - (n.radius + n.overlap)), if octant_index_from_xyz (i1.x + i2.x + i3.x) (i1.y + i2.y + i3.y) (i1.z + i2.z + i3.z) &&& 2 ≠ 0 then (((if cfg.overlapPct > 0 then n.overlap / ((1/2 * cfg.overlapPct) * (1 + cfg.overlapPct)) else n.radius * 2) + (if cfg.overlapPct > 0 then n.overlap / ((1/2 * cfg.overlapPct) * (1 + cfg.overlapPct)) else n.radius * 2) * cfg.overlapPct) - (n.radius + n.overlap)) else -(((if cfg.overlapPct > 0 then n.overlap / ((1/2 * cfg.overlapPct) * (1 + cfg.overlapPct)) else n.radius * 2) + (if cfg.overlapPct > 0 then n.overlap / ((1/2 * cfg.overlapPct) * (1 + cfg.overlapPct)) else n.radius * 2) * cfg.overlapPct) - (n.radius + n.overlap)), if octant_index_from_xyz (i1.x + i2.x + i3.x) (i1.y + i2.y + i3.y) (i1.z + i2.z + i3.z) &&& 4 ≠ 0 then (((if cfg.overlapPct > 0 then n.overlap / ((1/2 * cfg.overlapPct) * (1 + cfg.overlapPct)) else n.radius * 2) + (if cfg.overlapPct > 0 then n.overlap / ((1/2 * cfg.overlapPct) * (1 + cfg.overlapPct)) else n.radius * 2) * cfg.overlapPct) - (n.radius + n.overlap)) else -(((if cfg.overlapPct > 0 then n.overlap / ((1/2 * cfg.overlapPct) * (1 + cfg.overlapPct)) else n.radius * 2) + (if cfg.overlapPct > 0 then n.overlap / ((1/2 * cfg.overlapPct) * (1 + cfg.overlapPct)) else n.radius * 2) * cfg.overlapPct) - (n.radius + n.overlap))⟩ : Vec3)) (if cfg.overlapPct > 0 then n.overlap / ((1/2 * cfg.overlapPct) * (1 + cfg.overlapPct)) else n.radius * 2) none none none).nodesIndices then (mk_octree_node cfg core.nodeCount (Vec3.add n.position (⟨if octant_index_from_xyz (i1.x + i2.x + i3.x) (i1.y + i2.y + i3.y) (i1.z + i2.z + i3.z) &&& 1 ≠ 0 then (((if cfg.overlapPct > 0 then n.overlap / ((1/2 * cfg.overlapPct) * (1 + cfg.overlapPct)) else n.radius * 2) + (if cfg.overlapPct > 0 then n.overlap / ((1/2 * cfg.overlapPct) * (1 + cfg.overlapPct)) else n.radius * 2) * cfg.overlapPct) - (n.radius + n.overlap)) else -(((if cfg.overlapPct > 0 then n.overlap / ((1/2 * cfg.overlapPct) * (1 + cfg.overlapPct)) else n.radius * 2) + (if cfg.overlapPct > 0 then n.overlap / ((1/2 * cfg.overlapPct) * (1 + cfg.overlapPct)) else n.radius * 2) * cfg.overlapPct) - (n.radius + n.overlap)), if octant_index_from_xyz (i1.x + i2.x + i3.x) (i1.y + i2.y + i3.y) (i1.z + i2.z + i3.z) &&& 2 ≠ 0 then (((if cfg.overlapPct > 0 then n.overlap / ((1/2 * cfg.overlapPct) * (1 + cfg.overlapPct)) else n.radius * 2) + (if cfg.overlapPct > 0 then n.overlap / ((1/2 * cfg.overlapPct) * (1 + cfg.overlapPct)) else n.radius * 2) * cfg.overlapPct) - (n.radius + n.overlap)) else -(((if cfg.overlapPct > 0 then n.overlap / ((1/2 * cfg.overlapPct) * (1 + cfg.overlapPct)) else n.radius * 2) + (if cfg.overlapPct > 0 then n.overlap / ((1/2 * cfg.overlapPct) * (1 + cfg.overlapPct)) else n.radius * 2) * cfg.overlapPct) - (n.radius + n.overlap)), if octant_index_from_xyz (i1.x + i2.x + i3.x) (i1.y + i2.y + i3.y) (i1.z + i2.z + i3.z) &&& 4 ≠ 0 then (((if cfg.overlapPct > 0 then n.overlap / ((1/2 * cfg.overlapPct) * (1 + cfg.overlapPct)) else n.radius * 2) + (if cfg.overlapPct > 0 then n.overlap / ((1/2 * cfg.overlapPct) * (1 + cfg.overlapPct)) else n.radius * 2) * cfg.overlapPct) - (n.radius + n.overlap)) else -(((if cfg.overlapPct > 0 then n.overlap / ((1/2 * cfg.overlapPct) * (1 + cfg.overlapPct)) else n.radius * 2) + (if cfg.overlapPct > 0 then n.overlap / ((1/2 * cfg.overlapPct) * (1 + cfg.overlapPct)) else n.radius * 2) * cfg.overlapPct) - (n.radius + n.overlap))⟩ : Vec3)) (if cfg.overlapPct > 0 then n.overlap / ((1/2 * cfg.overlapPct) * (1 + cfg.overlapPct)) else n.radius * 2) none none none).nodesIndices else (mk_octree_node cfg core.nodeCount (Vec3.add n.position (⟨if octant_index_from_xyz (i1.x + i2.x + i3.x) (i1.y + i2.y + i3.y) (i1.z + i2.z + i3.z) &&& 1 ≠ 0 then (((if cfg.overlapPct > 0 then n.overlap / ((1/2 * cfg.overlapPct) * (1 + cfg.overlapPct)) else n.radius * 2) + (if cfg.overlapPct > 0 then n.overlap / ((1/2 * cfg.overlapPct) * (1 + cfg.overlapPct)) else n.radius * 2) * cfg.overlapPct) - (n.radius + n.overlap)) else -(((if cfg.overlapPct > 0 then n.overlap / ((1/2 * cfg.overlapPct) * (1 + cfg.overlapPct)) else n.radius * 2) + (if cfg.overlapPct > 0 then n.overlap / ((1/2 * cfg.overlapPct) * (1 + cfg.overlapPct)) else n.radius * 2) * cfg.overlapPct) - (n.radius + n.overlap)), if octant_index_from_xyz (i1.x + i2.x + i3.x) (i1.y + i2.y + i3.y) (i1.z + i2.z + i3.z) &&& 2 ≠ 0 then (((if cfg.overlapPct > 0 then n.overlap / ((1/2 * cfg.overlapPct) * (1 + cfg.overlapPct)) else n.radius * 2) + (if cfg.overlapPct > 0 then n.overlap / ((1/2 * cfg.overlapPct) * (1 + cfg.overlapPct)) else n.radius * 2) * cfg.overlapPct) - (n.radius + n.overlap)) else -(((if cfg.overlapPct > 0 then n.overlap / ((1/2 * cfg.overlapPct) * (1 + cfg.overlapPct)) else n.radius * 2) + (if cfg.overlapPct > 0 then n.overlap / ((1/2 * cfg.overlapPct) * (1 + cfg.overlapPct)) else n.radius * 2) * cfg.overlapPct) - (n.radius + n.overlap)), if octant_index_from_xyz (i1.x + i2.x + i3.x) (i1.y + i2.y + i3.y) (i1.z + i2.z + i3.z) &&& 4 ≠ 0 then (((if cfg.overlapPct > 0 then n.overlap / ((1/2 * cfg.overlapPct) * (1 + cfg.overlapPct)) else n.radius * 2) + (if cfg.overlapPct > 0 then n.overlap / ((1/2 * cfg.overlapPct) * (1 + cfg.overlapPct)) else n.radius * 2) * cfg.overlapPct) - (n.radius + n.overlap)) else -(((if cfg.overlapPct > 0 then n.overlap / ((1/2 * cfg.overlapPct) * (1 + cfg.overlapPct)) else n.radius * 2) + (if cfg.overlapPct > 0 then n.overlap / ((1/2 * cfg.overlapPct) * (1 + cfg.overlapPct)) else n.radius * 2) * cfg.overlapPct) - (n.radius + n.overlap))⟩ : Vec3)) (if cfg.overlapPct > 0 then n.overlap / ((1/2 * cfg.overlapPct) * (1 + cfg.overlapPct)) else n.radius * 2) none none none).nodesIndices ++ [((octant_index_from_xyz (-(i1.x + i2.x + i3.x)) (-(i1.y + i2.y + i3.y)) (-(i1.z + i2.z + i3.z)) : ℕ) : ℤ)]), nodesByIndex := upd_assoc (mk_octree_node cfg core.nodeCount (Vec3.add n.position (⟨if octant_index_from_xyz (i1.x + i2.x + i3.x) (i1.y + i2.y + i3.y) (i1.z + i2.z + i3.z) &&& 1 ≠ 0 then (((if cfg.overlapPct > 0 then n.overlap / ((1/2 * cfg.overlapPct) * (1 + cfg.overlapPct)) else n.radius * 2) + (if cfg.overlapPct > 0 then n.overlap / ((1/2 * cfg.overlapPct) * (1 + cfg.overlapPct)) else n.radius * 2) * cfg.overlapPct) - (n.radius + n.overlap)) else -(((if cfg.overlapPct > 0 then n.overlap / ((1/2 * cfg.overlapPct) * (1 + cfg.overlapPct)) else n.radius * 2) + (if cfg.overlapPct > 0 then n.overlap / ((1/2 * cfg.overlapPct) * (1 + cfg.overlapPct)) else n.radius * 2) * cfg.overlapPct) - (n.radius + n.overlap)), if octant_index_from_xyz (i1.x + i2.x + i3.x) (i1.y + i2.y + i3.y) (i1.z + i2.z + i3.z) &&& 2 ≠ 0 then (((if cfg.overlapPct > 0 then n.overlap / ((1/2 * cfg.overlapPct) * (1 + cfg.overlapPct)) else n.radius * 2) + (if cfg.overlapPct > 0 then n.overlap / ((1/2 * cfg.overlapPct) * (1 + cfg.overlapPct)) else n.radius * 2) * cfg.overlapPct) - (n.radius + n.overlap)) else -(((if cfg.overlapPct > 0 then n.overlap / ((1/2 * cfg.overlapPct) * (1 + cfg.overlapPct)) else n.radius * 2) + (if cfg.overlapPct > 0 then n.overlap / ((1/2 * cfg.overlapPct) * (1 + cfg.overlapPct)) else n.radius * 2) * cfg.overlapPct) - (n.radius + n.overlap)), if octant_index_from_xyz (i1.x + i2.x + i3.x) (i1.y + i2.y + i3.y) (i1.z + i2.z + i3.z) &&& 4 ≠ 0 then (((if cfg.overlapPct > 0 then n.overlap / ((1/2 * cfg.overlapPct) * (1 + cfg.overlapPct)) else n.radius * 2) + (if cfg.overlapPct > 0 then n.overlap / ((1/2 * cfg.overlapPct) * (1 + cfg.overlapPct)) else n.radius * 2) * cfg.overlapPct) - (n.radius + n.overlap)) else -(((if cfg.overlapPct > 0 then n.overlap / ((1/2 * cfg.overlapPct) * (1 + cfg.overlapPct)) else n.radius * 2) + (if cfg.overlapPct > 0 then n.overlap / ((1/2 * cfg.overlapPct) * (1 + cfg.overlapPct)) else n.radius * 2) * cfg.overlapPct) - (n.radius + n.overlap))⟩ : Vec3)) (if cfg.overlapPct > 0 then n.overlap / ((1/2 * cfg.overlapPct) * (1 + cfg.overlapPct)) else n.radius * 2) none none none).nodesByIndex ((octant_index_from_xyz (-(i1.x + i2.x + i3.x)) (-(i1.y + i2.y + i3.y)) (-(i1.z + i2.z + i3.z)) : ℕ) : ℤ) nid } : NodeRec)) ({ n with indexOctant := some ((octant_index_from_xyz (-(i1.x + i2.x + i3.x)) (-(i1.y + i2.y + i3.y)) (-(i1.z + i2.z + i3.z)) : ℕ) : ℤ), parent := some core.nodeCount, depth := (mk_octree_node cfg core.nodeCount (Vec3.add n.position (⟨if octant_index_from_xyz (i1.x + i2.x + i3.x) (i1.y + i2.y + i3.y) (i1.z + i2.z + i3.z) &&& 1 ≠ 0 then (((if cfg.overlapPct > 0 then n.overlap / ((1/2 * cfg.overlapPct) * (1 + cfg.overlapPct)) else n.radius * 2) + (if cfg.overlapPct > 0 then n.overlap / ((1/2 * cfg.overlapPct) * (1 + cfg.overlapPct)) else n.radius * 2) * cfg.overlapPct) - (n.radius + n.overlap)) else -(((if cfg.overlapPct > 0 then n.overlap / ((1/2 * cfg.overlapPct) * (1 + cfg.overlapPct)) else n.radius * 2) + (if cfg.overlapPct > 0 then n.overlap / ((1/2 * cfg.overlapPct) * (1 + cfg.overlapPct)) else n.radius * 2) * cfg.overlapPct) - (n.radius + n.overlap)), if octant_index_from_xyz (i1.x + i2.x + i3.x) (i1.y + i2.y + i3.y) (i1.z + i2.z + i3.z) &&& 2 ≠ 0 then (((if cfg.overlapPct > 0 then n.overlap / ((1/2 * cfg.overlapPct) * (1 + cfg.overlapPct)) else n.radius * 2) + (if cfg.overlapPct > 0 then n.overlap / ((1/2 * cfg.overlapPct) * (1 + cfg.overlapPct)) else n.radius * 2) * cfg.overlapPct) - (n.radius + n.overlap)) else -(((if cfg.overlapPct > 0 then n.overlap / ((1/2 * cfg.overlapPct) * (1 + cfg.overlapPct)) else n.radius * 2) + (if cfg.overlapPct > 0 then n.overlap / ((1/2 * cfg.overlapPct) * (1 + cfg.overlapPct)) else n.radius * 2) * cfg.overlapPct) - (n.radius + n.overlap)), if octant_index_from_xyz (i1.x + i2.x + i3.x) (i1.y + i2.y + i3.y) (i1.z + i2.z + i3.z) &&& 4 ≠ 0 then (((if cfg.overlapPct > 0 then n.overlap / ((1/2 * cfg.overlapPct) * (1 + cfg.overlapPct)) else n.radius * 2) + (if cfg.overlapPct > 0 then n.overlap / ((1/2 * cfg.overlapPct) * (1 + cfg.overlapPct)) else n.radius * 2) * cfg.overlapPct) - (n.radius + n.overlap)) else -(((if cfg.overlapPct > 0 then n.overlap / ((1/2 * cfg.overlapPct) * (1 + cfg.overlapPct)) else n.radius * 2) + (if cfg.overlapPct > 0 then n.overlap / ((1/2 * cfg.overlapPct) * (1 + cfg.overlapPct)) else n.radius * 2) * cfg.overlapPct) - (n.radius + n.overlap))⟩ : Vec3)) (if cfg.overlapPct > 0 then n.overlap / ((1/2 * cfg.overlapPct) * (1 + cfg.overlapPct)) else n.radius * 2) none none none).depth + 1 } : NodeRec)).nodes, core.nodeCount, (setNode (setNode (setNode (setNode (⟨core.nodes, nid, core.nodeCount + 1⟩ : OctreeCore) (mk_octree_node cfg core.nodeCount (Vec3.add n.position (⟨if octant_index_from_xyz (i1.x + i2.x + i3.x) (i1.y + i2.y + i3.y) (i1.z + i2.z + i3.z) &&& 1 ≠ 0 then (((if cfg.overlapPct > 0 then n.overlap / ((1/2 * cfg.overlapPct) * (1 + cfg.overlapPct)) else n.radius * 2) + (if cfg.overlapPct > 0 then n.overlap / ((1/2 * cfg.overlapPct) * (1 + cfg.overlapPct)) else n.radius * 2) * cfg.overlapPct) - (n.radius + n.overlap)) else -(((if cfg.overlapPct > 0 then n.overlap / ((1/2 * cfg.overlapPct) * (1 + cfg.overlapPct)) else n.radius * 2) + (if cfg.overlapPct > 0 then n.overlap / ((1/2 * cfg.overlapPct) * (1 + cfg.overlapPct)) else n.radius * 2) * cfg.overlapPct) - (n.radius + n.overlap)), if octant_index_from_xyz (i1.x + i2.x + i3.x) (i1.y + i2.y + i3.y) (i1.z + i2.z + i3.z) &&& 2 ≠ 0 then (((if cfg.overlapPct > 0 then n.overlap / ((1/2 * cfg.overlapPct) * (1 + cfg.overlapPct)) else n.radius * 2) + (if cfg.overlapPct > 0 then n.overlap / ((1/2 * cfg.overlapPct) * (1 + cfg.overlapPct)) else n.radius * 2) * cfg.overlapPct) - (n.radius + n.overlap)) else -(((if cfg.overlapPct > 0 then n.overlap / ((1/2 * cfg.overlapPct) * (1 + cfg.overlapPct)) else n.radius * 2) + (if cfg.overlapPct > 0 then n.overlap / ((1/2 * cfg.overlapPct) * (1 + cfg.overlapPct)) else n.radius * 2) * cfg.overlapPct) - (n.radius + n.overlap)), if octant_index_from_xyz (i1.x + i2.x + i3.x) (i1.y + i2.y + i3.y) (i1.z + i2.z + i3.z) &&& 4 ≠ 0 then (((if cfg.overlapPct > 0 then n.overlap / ((1/2 * cfg.overlapPct) * (1 + cfg.overlapPct)) else n.radius * 2) + (if cfg.overlapPct > 0 then n.overlap / ((1/2 * cfg.overlapPct) * (1 + cfg.overlapPct)) else n.radius * 2) * cfg.overlapPct) - (n.radius + n.overlap)) else -(((if cfg.overlapPct > 0 then n.overlap / ((1/2 * cfg.overlapPct) * (1 + cfg.overlapPct)) else n.radius * 2) + (if cfg.overlapPct > 0 then n.overlap / ((1/2 * cfg.overlapPct) * (1 + cfg.overlapPct)) else n.radius * 2) * cfg.overlapPct) - (n.radius + n.overlap))⟩ : Vec3)) (if cfg.overlapPct > 0 then n.overlap / ((1/2 * cfg.overlapPct) * (1 + cfg.overlapPct)) else n.radius * 2) none none none)) ({ n with indexOctant := some ((octant_index_from_xyz (-(i1.x + i2.x + i3.x)) (-(i1.y + i2.y + i3.y)) (-(i1.z + i2.z + i3.z)) : ℕ) : ℤ) } : NodeRec)) ({ (mk_octree_node cfg core.nodeCount (Vec3.add n.position (⟨if octant_index_from_xyz (i1.x + i2.x + i3.x) (i1.y + i2.y + i3.y) (i1.z + i2.z + i3.z) &&& 1 ≠ 0 then (((if cfg.overlapPct > 0 then n.overlap / ((1/2 * cfg.overlapPct) * (1 + cfg.overlapPct)) else n.radius * 2) + (if cfg.overlapPct > 0 then n.overlap / ((1/2 * cfg.overlapPct) * (1 + cfg.overlapPct)) else n.radius * 2) * cfg.overlapPct) - (n.radius + n.overlap)) else -(((if cfg.overlapPct > 0 then n.overlap / ((1/2 * cfg.overlapPct) * (1 + cfg.overlapPct)) else n.radius * 2) + (if cfg.overlapPct > 0 then n.overlap / ((1/2 * cfg.overlapPct) * (1 + cfg.overlapPct)) else n.radius * 2) * cfg.overlapPct) - (n.radius + n.overlap)), if octant_index_from_xyz (i1.x + i2.x + i3.x) (i1.y + i2.y + i3.y) (i1.z + i2.z + i3.z) &&& 2 ≠ 0 then (((if cfg.overlapPct > 0 then n.overlap / ((1/2 * cfg.overlapPct) * (1 + cfg.overlapPct)) else n.radius * 2) + (if cfg.overlapPct > 0 then n.overlap / ((1/2 * cfg.overlapPct) * (1 + cfg.overlapPct)) else n.radius * 2) * cfg.overlapPct) - (n.radius + n.overlap)) else -(((if cfg.overlapPct > 0 then n.overlap / ((1/2 * cfg.overlapPct) * (1 + cfg.overlapPct)) else n.radius * 2) + (if cfg.overlapPct > 0 then n.overlap / ((1/2 * cfg.overlapPct) * (1 + cfg.overlapPct)) else n.radius * 2) * cfg.overlapPct) - (n.radius + n.overlap)), if octant_index_from_xyz (i1.x + i2.x + i3.x) (i1.y + i2.y + i3.y) (i1.z + i2.z + i3.z) &&& 4 ≠ 0 then (((if cfg.overlapPct > 0 then n.overlap / ((1/2 * cfg.overlapPct) * (1 + cfg.overlapPct)) else n.radius * 2) + (if cfg.overlapPct > 0 then n.overlap / ((1/2 * cfg.overlapPct) * (1 + cfg.overlapPct)) else n.radius * 2) * cfg.overlapPct) - (n.radius + n.overlap)) else -(((if cfg.overlapPct > 0 then n.overlap / ((1/2 * cfg.overlapPct) * (1 + cfg.overlapPct)) else n.radius * 2) + (if cfg.overlapPct > 0 then n.overlap / ((1/2 * cfg.overlapPct) * (1 + cfg.overlapPct)) else n.radius * 2) * cfg.overlapPct) - (n.radius + n.overlap))⟩ : Vec3)) (if cfg.overlapPct > 0 then n.overlap / ((1/2 * cfg.overlapPct) * (1 + cfg.overlapPct)) else n.radius * 2) none none none) with nodesIndices := (if ((octant_index_from_xyz (-(i1.x + i2.x + i3.x)) (-(i1.y + i2.y + i3.y)) (-(i1.z + i2.z + i3.z)) : ℕ) : ℤ) ∈ (mk_octree_node cfg core.nodeCount (Vec3.add n.position (⟨if octant_index_from_xyz (i1.x + i2.x + i3.x) (i1.y + i2.y + i3.y) (i1.z + i2.z + i3.z) &&& 1 ≠ 0 then (((if cfg.overlapPct > 0 then n.overlap / ((1/2 * cfg.overlapPct) * (1 + cfg.overlapPct)) else n.radius * 2) + (if cfg.overlapPct > 0 then n.overlap / ((1/2 * cfg.overlapPct) * (1 + cfg.overlapPct)) else n.radius * 2) * cfg.overlapPct) - (n.radius + n.overlap)) else -(((if cfg.overlapPct > 0 then n.overlap / ((1/2 * cfg.overlapPct) * (1 + cfg.overlapPct)) else n.radius * 2) + (if cfg.overlapPct > 0 then n.overlap / ((1/2 * cfg.overlapPct) * (1 + cfg.overlapPct)) else n.radius * 2) * cfg.overlapPct) - (n.radius + n.overlap)), if octant_index_from_xyz (i1.x + i2.x + i3.x) (i1.y + i2.y + i3.y) (i1.z + i2.z + i3.z) &&& 2 ≠ 0 then (((if cfg.overlapPct > 0 then n.overlap / ((1/2 * cfg.overlapPct) * (1 + cfg.overlapPct)) else n.radius * 2) + (if cfg.overlapPct > 0 then n.overlap / ((1/2 * cfg.overlapPct) * (1 + cfg.overlapPct)) else n.radius * 2) * cfg.overlapPct) - (n.radius + n.overlap)) else -(((if cfg.overlapPct > 0 then n.overlap / ((1/2 * cfg.overlapPct) * (1 + cfg.overlapPct)) else n.radius * 2) + (if cfg.overlapPct > 0 then n.overlap / ((1/2 * cfg.overlapPct) * (1 + cfg.overlapPct)) else n.radius * 2) * cfg.overlapPct) - (n.radius + n.overlap)), if octant_index_from_xyz (i1.x + i2.x + i3.x) (i1.y + i2.y + i3.y) (i1.z + i2.z + i3.z) &&& 4 ≠ 0 then (((if cfg.overlapPct > 0 then n.overlap / ((1/2 * cfg.overlapPct) * (1 + cfg.overlapPct)) else n.radius * 2) + (if cfg.overlapPct > 0 then n.overlap / ((1/2 * cfg.overlapPct) * (1 + cfg.overlapPct)) else n.radius * 2) * cfg.overlapPct) - (n.radius + n.overlap)) else -(((if cfg.overlapPct > 0 then n.overlap / ((1/2 * cfg.overlapPct) * (1 + cfg.overlapPct)) else n.radius * 2) + (if cfg.overlapPct > 0 then n.overlap / ((1/2 * cfg.overlapPct) * (1 + cfg.overlapPct)) else n.radius * 2) * cfg.overlapPct) - (n.radius + n.overlap))⟩ : Vec3)) (if cfg.overlapPct > 0 then n.overlap / ((1/2 * cfg.overlapPct) * (1 + cfg.overlapPct)) else n.radius * 2) none none none).nodesIndices then (mk_octree_node cfg core.nodeCount (Vec3.add n.position (⟨if octant_index_from_xyz (i1.x + i2.x + i3.x) (i1.y + i2.y + i3.y) (i1.z + i2.z + i3.z) &&& 1 ≠ 0 then (((if cfg.overlapPct > 0 then n.overlap / ((1/2 * cfg.overlapPct) * (1 + cfg.overlapPct)) else n.radius * 2) + (if cfg.overlapPct > 0 then n.overlap / ((1/2 * cfg.overlapPct) * (1 + cfg.overlapPct)) else n.radius * 2) * cfg.overlapPct) - (n.radius + n.overlap)) else -(((if cfg.overlapPct > 0 then n.overlap / ((1/2 * cfg.overlapPct) * (1 + cfg.overlapPct)) else n.radius * 2) + (if cfg.overlapPct > 0 then n.overlap / ((1/2 * cfg.overlapPct) * (1 + cfg.overlapPct)) else n.radius * 2) * cfg.overlapPct) - (n.radius + n.overlap)), if octant_index_from_xyz (i1.x + i2.x + i3.x) (i1.y + i2.y + i3.y) (i1.z + i2.z + i3.z) &&& 2 ≠ 0 then (((if cfg.overlapPct > 0 then n.overlap / ((1/2 * cfg.overlapPct) * (1 + cfg.overlapPct)) else n.radius * 2) + (if cfg.overlapPct > 0 then n.overlap / ((1/2 * cfg.overlapPct) * (1 + cfg.overlapPct)) else n.radius * 2) * cfg.overlapPct) - (n.radius + n.overlap)) else -(((if cfg.overlapPct > 0 then n.overlap / ((1/2 * cfg.overlapPct) * (1 + cfg.overlapPct)) else n.radius * 2) + (if cfg.overlapPct > 0 then n.overlap / ((1/2 * cfg.overlapPct) * (1 + cfg.overlapPct)) else n.radius * 2) * cfg.overlapPct) - (n.radius + n.overlap)), if octant_index_from_xyz (i1.x + i2.x + i3.x) (i1.y + i2.y + i3.y) (i1.z + i2.z + i3.z) &&& 4 ≠ 0 then (((if cfg.overlapPct > 0 then n.overlap / ((1/2 * cfg.overlapPct) * (1 + cfg.overlapPct)) else n.radius * 2) + (if cfg.overlapPct > 0 then n.overlap / ((1/2 * cfg.overlapPct) * (1 + cfg.overlapPct)) else n.radius * 2) * cfg.overlapPct) - (n.radius + n.overlap)) else -(((if cfg.overlapPct > 0 then n.overlap / ((1/2 * cfg.overlapPct) * (1 + cfg.overlapPct)) else n.radius * 2) + (if cfg.overlapPct > 0 then n.overlap / ((1/2 * cfg.overlapPct) * (1 + cfg.overlapPct)) else n.radius * 2) * cfg.overlapPct) - (n.radius + n.overlap))⟩ : Vec3)) (if cfg.overlapPct > 0 then n.overlap / ((1/2 * cfg.overlapPct) * (1 + cfg.overlapPct)) else n.radius * 2) none none none).nodesIndices else (mk_octree_node cfg core.nodeCount (Vec3.add n.position (⟨if octant_index_from_xyz (i1.x + i2.x + i3.x) (i1.y + i2.y + i3.y) (i1.z + i2.z + i3.z) &&& 1 ≠ 0 then (((if cfg.overlapPct > 0 then n.overlap / ((1/2 * cfg.overlapPct) * (1 + cfg.overlapPct)) else n.radius * 2) + (if cfg.overlapPct > 0 then n.overlap / ((1/2 * cfg.overlapPct) * (1 + cfg.overlapPct)) else n.radius * 2) * cfg.overlapPct) - (n.radius + n.overlap)) else -(((if cfg.overlapPct > 0 then n.overlap / ((1/2 * cfg.overlapPct) * (1 + cfg.overlapPct)) else n.radius * 2) + (if cfg.overlapPct > 0 then n.overlap / ((1/2 * cfg.overlapPct) * (1 + cfg.overlapPct)) else n.radius * 2) * cfg.overlapPct) - (n.radius + n.overlap)), if octant_index_from_xyz (i1.x + i2.x + i3.x) (i1.y + i2.y + i3.y) (i1.z + i2.z + i3.z) &&& 2 ≠ 0 then (((if cfg.overlapPct > 0 then n.overlap / ((1/2 * cfg.overlapPct) * (1 + cfg.overlapPct)) else n.radius * 2) + (if cfg.overlapPct > 0 then n.overlap / ((1/2 * cfg.overlapPct) * (1 + cfg.overlapPct)) else n.radius * 2) * cfg.overlapPct) - (n.radius + n.overlap)) else -(((if cfg.overlapPct > 0 then n.overlap / ((1/2 * cfg.overlapPct) * (1 + cfg.overlapPct)) else n.radius * 2) + (if cfg.overlapPct > 0 then n.overlap / ((1/2 * cfg.overlapPct) * (1 + cfg.overlapPct)) else n.radius * 2) * cfg.overlapPct) - (n.radius + n.overlap)), if octant_index_from_xyz (i1.x + i2.x + i3.x) (i1.y + i2.y + i3.y) (i1.z + i2.z + i3.z) &&& 4 ≠ 0 then (((if cfg.overlapPct > 0 then n.overlap / ((1/2 * cfg.overlapPct) * (1 + cfg.overlapPct)) else n.radius * 2) + (if cfg.overlapPct > 0 then n.overlap / ((1/2 * cfg.overlapPct) * (1 + cfg.overlapPct)) else n.radius * 2) * cfg.overlapPct) - (n.radius + n.overlap)) else -(((if cfg.overlapPct > 0 then n.overlap / ((1/2 * cfg.overlapPct) * (1 + cfg.overlapPct)) else n.radius * 2) + (if cfg.overlapPct > 0 then n.overlap / ((1/2 * cfg.overlapPct) * (1 + cfg.overlapPct)) else n.radius * 2) * cfg.overlapPct) - (n.radius + n.overlap))⟩ : Vec3)) (if cfg.overlapPct > 0 then n.overlap / ((1/2 * cfg.overlapPct) * (1 + cfg.overlapPct)) else n.radius * 2) none none none).nodesIndices ++ [((octant_index_from_xyz (-(i1.x + i2.x + i3.x)) (-(i1.y + i2.y + i3.y)) (-(i1.z + i2.z + i3.z)) : ℕ) : ℤ)]), nodesByIndex := upd_assoc (mk_octree_node cfg core.nodeCount (Vec3.add n.position (⟨if octant_index_from_xyz (i1.x + i2.x + i3.x) (i1.y + i2.y + i3.y) (i1.z + i2.z + i3.z) &&& 1 ≠ 0 then (((if cfg.overlapPct > 0 then n.overlap / ((1/2 * cfg.overlapPct) * (1 + cfg.overlapPct)) else n.radius * 2) + (if cfg.overlapPct > 0 then n.overlap / ((1/2 * cfg.overlapPct) * (1 + cfg.overlapPct)) else n.radius * 2) * cfg.overlapPct) - (n.radius + n.overlap)) else -(((if cfg.overlapPct > 0 then n.overlap / ((1/2 * cfg.overlapPct) * (1 + cfg.overlapPct)) else n.radius * 2) + (if cfg.overlapPct > 0 then n.overlap / ((1/2 * cfg.overlapPct) * (1 + cfg.overlapPct)) else n.radius * 2) * cfg.overlapPct) - (n.radius + n.overlap)), if octant_index_from_xyz (i1.x + i2.x + i3.x) (i1.y + i2.y + i3.y) (i1.z + i2.z + i3.z) &&& 2 ≠ 0 then (((if cfg.overlapPct > 0 then n.overlap / ((1/2 * cfg.overlapPct) * (1 + cfg.overlapPct)) else n.radius * 2) + (if cfg.overlapPct > 0 then n.overlap / ((1/2 * cfg.overlapPct) * (1 + cfg.overlapPct)) else n.radius * 2) * cfg.overlapPct) - (n.radius + n.overlap)) else -(((if cfg.overlapPct > 0 then n.overlap / ((1/2 * cfg.overlapPct) * (1 + cfg.overlapPct)) else n.radius * 2) + (if cfg.overlapPct > 0 then n.overlap / ((1/2 * cfg.overlapPct) * (1 + cfg.overlapPct)) else n.radius * 2) * cfg.overlapPct) - (n.radius + n.overlap)), if octant_index_from_xyz (i1.x + i2.x + i3.x) (i1.y + i2.y + i3.y) (i1.z + i2.z + i3.z) &&& 4 ≠ 0 then (((if cfg.overlapPct > 0 then n.overlap / ((1/2 * cfg.overlapPct) * (1 + cfg.overlapPct)) else n.radius * 2) + (if cfg.overlapPct > 0 then n.overlap / ((1/2 * cfg.overlapPct) * (1 + cfg.overlapPct)) else n.radius * 2) * cfg.overlapPct) - (n.radius + n.overlap)) else -(((if cfg.overlapPct > 0 then n.overlap / ((1/2 * cfg.overlapPct) * (1 + cfg.overlapPct)) else n.radius * 2) + (if cfg.overlapPct > 0 then n.overlap / ((1/2 * cfg.overlapPct) * (1 + cfg.overlapPct)) else n.radius * 2) * cfg.overlapPct) - (n.radius + n.overlap))⟩ : Vec3)) (if cfg.overlapPct > 0 then n.overlap / ((1/2 * cfg.overlapPct) * (1 + cfg.overlapPct)) else n.radius * 2) none none none).nodesByIndex ((octant_index_from_xyz (-(i1.x + i2.x + i3.x)) (-(i1.y + i2.y + i3.y)) (-(i1.z + i2.z + i3.z)) : ℕ) : ℤ) nid } : NodeRec)) ({ n with indexOctant := some ((octant_index_from_xyz (-(i1.x + i2.x + i3.x)) (-(i1.y + i2.y + i3.y)) (-(i1.z + i2.z + i3.z)) : ℕ) : ℤ), parent := some core.nodeCount, depth := (mk_octree_node cfg core.nodeCount (Vec3.add n.position (⟨if octant_index_from_xyz (i1.x + i2.x + i3.x) (i1.y + i2.y + i3.y) (i1.z + i2.z + i3.z) &&& 1 ≠ 0 then (((if cfg.overlapPct > 0 then n.overlap / ((1/2 * cfg.overlapPct) * (1 + cfg.overlapPct)) else n.radius * 2) + (if cfg.overlapPct > 0 then n.overlap / ((1/2 * cfg.overlapPct) * (1 + cfg.overlapPct)) else n.radius * 2) * cfg.overlapPct) - (n.radius + n.overlap)) else -(((if cfg.overlapPct > 0 then n.overlap / ((1/2 * cfg.overlapPct) * (1 + cfg.overlapPct)) else n.radius * 2) + (if cfg.overlapPct > 0 then n.overlap / ((1/2 * cfg.overlapPct) * (1 + cfg.overlapPct)) else n.radius * 2) * cfg.overlapPct) - (n.radius + n.overlap)), if octant_index_from_xyz (i1.x + i2.x + i3.x) (i1.y + i2.y + i3.y) (i1.z + i2.z + i3.z) &&& 2 ≠ 0 then (((if cfg.overlapPct > 0 then n.overlap / ((1/2 * cfg.overlapPct) * (1 + cfg.overlapPct)) else n.radius * 2) + (if cfg.overlapPct > 0 then n.overlap / ((1/2 * cfg.overlapPct) * (1 + cfg.overlapPct)) else n.radius * 2) * cfg.overlapPct) - (n.radius + n.overlap)) else -(((if cfg.overlapPct > 0 then n.overlap / ((1/2 * cfg.overlapPct) * (1 + cfg.overlapPct)) else n.radius * 2) + (if cfg.overlapPct > 0 then n.overlap / ((1/2 * cfg.overlapPct) * (1 + cfg.overlapPct)) else n.radius * 2) * cfg.overlapPct) - (n.radius + n.overlap)), if octant_index_from_xyz (i1.x + i2.x + i3.x) (i1.y + i2.y + i3.y) (i1.z + i2.z + i3.z) &&& 4 ≠ 0 then (((if cfg.overlapPct > 0 then n.overlap / ((1/2 * cfg.overlapPct) * (1 + cfg.overlapPct)) else n.radius * 2) + (if cfg.overlapPct > 0 then n.overlap / ((1/2 * cfg.overlapPct) * (1 + cfg.overlapPct)) else n.radius * 2) * cfg.overlapPct) - (n.radius + n.overlap)) else -(((if cfg.overlapPct > 0 then n.overlap / ((1/2 * cfg.overlapPct) * (1 + cfg.overlapPct)) else n.radius * 2) + (if cfg.overlapPct > 0 then n.overlap / ((1/2 * cfg.overlapPct) * (1 + cfg.overlapPct)) else n.radius * 2) * cfg.overlapPct) - (n.radius + n.overlap))⟩ : Vec3)) (if cfg.overlapPct > 0 then n.overlap / ((1/2 * cfg.overlapPct) * (1 + cfg.overlapPct)) else n.radius * 2) none none none).depth + 1 } : NodeRec)).nodeCount⟩ : OctreeCore) ({ ({ (mk_octree_node cfg core.nodeCount (Vec3.add n.position (⟨if octant_index_from_xyz (i1.x + i2.x + i3.x) (i1.y + i2.y + i3.y) (i1.z + i2.z + i3.z) &&& 1 ≠ 0 then (((if cfg.overlapPct > 0 then n.overlap / ((1/2 * cfg.overlapPct) * (1 + cfg.overlapPct)) else n.radius * 2) + (if cfg.overlapPct > 0 then n.overlap / ((1/2 * cfg.overlapPct) * (1 + cfg.overlapPct)) else n.radius * 2) * cfg.overlapPct) - (n.radius + n.overlap)) else -(((if cfg.overlapPct > 0 then n.overlap / ((1/2 * cfg.overlapPct) * (1 + cfg.overlapPct)) else n.radius * 2) + (if cfg.overlapPct > 0 then n.overlap / ((1/2 * cfg.overlapPct) * (1 + cfg.overlapPct)) else n.radius * 2) * cfg.overlapPct) - (n.radius + n.overlap)), if octant_index_from_xyz (i1.x + i2.x + i3.x) (i1.y + i2.y + i3.y) (i1.z + i2.z + i3.z) &&& 2 ≠ 0 then (((if cfg.overlapPct > 0 then n.overlap / ((1/2 * cfg.overlapPct) * (1 + cfg.overlapPct)) else n.radius * 2) + (if cfg.overlapPct > 0 then n.overlap / ((1/2 * cfg.overlapPct) * (1 + cfg.overlapPct)) else n.radius * 2) * cfg.overlapPct) - (n.radius + n.overlap)) else -(((if cfg.overlapPct > 0 then n.overlap / ((1/2 * cfg.overlapPct) * (1 + cfg.overlapPct)) else n.radius * 2) + (if cfg.overlapPct > 0 then n.overlap / ((1/2 * cfg.overlapPct) * (1 + cfg.overlapPct)) else n.radius * 2) * cfg.overlapPct) - (n.radius + n.overlap)), if octant_index_from_xyz (i1.x + i2.x + i3.x) (i1.y + i2.y + i3.y) (i1.z + i2.z + i3.z) &&& 4 ≠ 0 then (((if cfg.overlapPct > 0 then n.overlap / ((1/2 * cfg.overlapPct) * (1 + cfg.overlapPct)) else n.radius * 2) + (if cfg.overlapPct > 0 then n.overlap / ((1/2 * cfg.overlapPct) * (1 + cfg.overlapPct)) else n.radius * 2) * cfg.overlapPct) - (n.radius + n.overlap)) else -(((if cfg.overlapPct > 0 then n.overlap / ((1/2 * cfg.overlapPct) * (1 + cfg.overlapPct)) else n.radius * 2) + (if cfg.overlapPct > 0 then n.overlap / ((1/2 * cfg.overlapPct) * (1 + cfg.overlapPct)) else n.radius * 2) * cfg.overlapPct) - (n.radius + n.overlap))⟩ : Vec3)) (if cfg.overlapPct > 0 then n.overlap / ((1/2 * cfg.overlapPct) * (1 + cfg.overlapPct)) else n.radius * 2) none none none) with nodesIndices := (if ((octant_index_from_xyz (-(i1.x + i2.x + i3.x)) (-(i1.y + i2.y + i3.y)) (-(i1.z + i2.z + i3.z)) : ℕ) : ℤ) ∈ (mk_octree_node cfg core.nodeCount (Vec3.add n.position (⟨if octant_index_from_xyz (i1.x + i2.x + i3.x) (i1.y + i2.y + i3.y) (i1.z + i2.z + i3.z) &&& 1 ≠ 0 then (((if cfg.overlapPct > 0 then n.overlap / ((1/2 * cfg.overlapPct) * (1 + cfg.overlapPct)) else n.radius * 2) + (if cfg.overlapPct > 0 then n.overlap / ((1/2 * cfg.overlapPct) * (1 + cfg.overlapPct)) else n.radius * 2) * cfg.overlapPct) - (n.radius + n.overlap)) else -(((if cfg.overlapPct > 0 then n.overlap / ((1/2 * cfg.overlapPct) * (1 + cfg.overlapPct)) else n.radius * 2) + (if cfg.overlapPct > 0 then n.overlap / ((1/2 * cfg.overlapPct) * (1 + cfg.overlapPct)) else n.radius * 2) * cfg.overlapPct) - (n.radius + n.overlap)), if octant_index_from_xyz (i1.x + i2.x + i3.x) (i1.y + i2.y + i3.y) (i1.z + i2.z + i3.z) &&& 2 ≠ 0 then (((if cfg.overlapPct > 0 then n.overlap / ((1/2 * cfg.overlapPct) * (1 + cfg.overlapPct)) else n.radius * 2) + (if cfg.overlapPct > 0 then n.overlap / ((1/2 * cfg.overlapPct) * (1 + cfg.overlapPct)) else n.radius * 2) * cfg.overlapPct) - (n.radius + n.overlap)) else -(((if cfg.overlapPct > 0 then n.overlap / ((1/2 * cfg.overlapPct) * (1 + cfg.overlapPct)) else n.radius * 2) + (if cfg.overlapPct > 0 then n.overlap / ((1/2 * cfg.overlapPct) * (1 + cfg.overlapPct)) else n.radius * 2) * cfg.overlapPct) - (n.radius + n.overlap)), if octant_index_from_xyz (i1.x + i2.x + i3.x) (i1.y + i2.y + i3.y) (i1.z + i2.z + i3.z) &&& 4 ≠ 0 then (((if cfg.overlapPct > 0 then n.overlap / ((1/2 * cfg.overlapPct) * (1 + cfg.overlapPct)) else n.radius * 2) + (if cfg.overlapPct > 0 then n.overlap / ((1/2 * cfg.overlapPct) * (1 + cfg.overlapPct)) else n.radius * 2) * cfg.overlapPct) - (n.radius + n.overlap)) else -(((if cfg.overlapPct > 0 then n.overlap / ((1/2 * cfg.overlapPct) * (1 + cfg.overlapPct)) else n.radius * 2) + (if cfg.overlapPct > 0 then n.overlap / ((1/2 * cfg.overlapPct) * (1 + cfg.overlapPct)) else n.radius * 2) * cfg.overlapPct) - (n.radius + n.overlap))⟩ : Vec3)) (if cfg.overlapPct > 0 then n.overlap / ((1/2 * cfg.overlapPct) * (1 + cfg.overlapPct)) else n.radius * 2) none none none).nodesIndices then (mk_octree_node cfg core.nodeCount (Vec3.add n.position (⟨if octant_index_from_xyz (i1.x + i2.x + i3.x) (i1.y + i2.y + i3.y) (i1.z + i2.z + i3.z) &&& 1 ≠ 0 then (((if cfg.overlapPct > 0 then n.overlap / ((1/2 * cfg.overlapPct) * (1 + cfg.overlapPct)) else n.radius * 2) + (if cfg.overlapPct > 0 then n.overlap / ((1/2 * cfg.overlapPct) * (1 + cfg.overlapPct)) else n.radius * 2) * cfg.overlapPct) - (n.radius + n.overlap)) else -(((if cfg.overlapPct > 0 then n.overlap / ((1/2 * cfg.overlapPct) * (1 + cfg.overlapPct)) else n.radius * 2) + (if cfg.overlapPct > 0 then n.overlap / ((1/2 * cfg.overlapPct) * (1 + cfg.overlapPct)) else n.radius * 2) * cfg.overlapPct) - (n.radius + n.overlap)), if octant_index_from_xyz (i1.x + i2.x + i3.x) (i1.y + i2.y + i3.y) (i1.z + i2.z + i3.z) &&& 2 ≠ 0 then (((if cfg.overlapPct > 0 then n.overlap / ((1/2 * cfg.overlapPct) * (1 + cfg.overlapPct)) else n.radius * 2) + (if cfg.overlapPct > 0 then n.overlap / ((1/2 * cfg.overlapPct) * (1 + cfg.overlapPct)) else n.radius * 2) * cfg.overlapPct) - (n.radius + n.overlap)) else -(((if cfg.overlapPct > 0 then n.overlap / ((1/2 * cfg.overlapPct) * (1 + cfg.overlapPct)) else n.radius * 2) + (if cfg.overlapPct > 0 then n.overlap / ((1/2 * cfg.overlapPct) * (1 + cfg.overlapPct)) else n.radius * 2) * cfg.overlapPct) - (n.radius + n.overlap)), if octant_index_from_xyz (i1.x + i2.x + i3.x) (i1.y + i2.y + i3.y) (i1.z + i2.z + i3.z) &&& 4 ≠ 0 then (((if cfg.overlapPct > 0 then n.overlap / ((1/2 * cfg.overlapPct) * (1 + cfg.overlapPct)) else n.radius * 2) + (if cfg.overlapPct > 0 then n.overlap / ((1/2 * cfg.overlapPct) * (1 + cfg.overlapPct)) else n.radius * 2) * cfg.overlapPct) - (n.radius + n.overlap)) else -(((if cfg.overlapPct > 0 then n.overlap / ((1/2 * cfg.overlapPct) * (1 + cfg.overlapPct)) else n.radius * 2) + (if cfg.overlapPct > 0 then n.overlap / ((1/2 * cfg.overlapPct) * (1 + cfg.overlapPct)) else n.radius * 2) * cfg.overlapPct) - (n.radius + n.overlap))⟩ : Vec3)) (if cfg.overlapPct > 0 then n.overlap / ((1/2 * cfg.overlapPct) * (1 + cfg.overlapPct)) else n.radius * 2) none none none).nodesIndices else (mk_octree_node cfg core.nodeCount (Vec3.add n.position (⟨if octant_index_from_xyz (i1.x + i2.x + i3.x) (i1.y + i2.y + i3.y) (i1.z + i2.z + i3.z) &&& 1 ≠ 0 then (((if cfg.overlapPct > 0 then n.overlap / ((1/2 * cfg.overlapPct) * (1 + cfg.overlapPct)) else n.radius * 2) + (if cfg.overlapPct > 0 then n.overlap / ((1/2 * cfg.overlapPct) * (1 + cfg.overlapPct)) else n.radius * 2) * cfg.overlapPct) - (n.radius + n.overlap)) else -(((if cfg.overlapPct > 0 then n.overlap / ((1/2 * cfg.overlapPct) * (1 + cfg.overlapPct)) else n.radius * 2) + (if cfg.overlapPct > 0 then n.overlap / ((1/2 * cfg.overlapPct) * (1 + cfg.overlapPct)) else n.radius * 2) * cfg.overlapPct) - (n.radius + n.overlap)), if octant_index_from_xyz (i1.x + i2.x + i3.x) (i1.y + i2.y + i3.y) (i1.z + i2.z + i3.z) &&& 2 ≠ 0 then (((if cfg.overlapPct > 0 then n.overlap / ((1/2 * cfg.overlapPct) * (1 + cfg.overlapPct)) else n.radius * 2) + (if cfg.overlapPct > 0 then n.overlap / ((1/2 * cfg.overlapPct) * (1 + cfg.overlapPct)) else n.radius * 2) * cfg.overlapPct) - (n.radius + n.overlap)) else -(((if cfg.overlapPct > 0 then n.overlap / ((1/2 * cfg.overlapPct) * (1 + cfg.overlapPct)) else n.radius * 2) + (if cfg.overlapPct > 0 then n.overlap / ((1/2 * cfg.overlapPct) * (1 + cfg.overlapPct)) else n.radius * 2) * cfg.overlapPct) - (n.radius + n.overlap)), if octant_index_from_xyz (i1.x + i2.x + i3.x) (i1.y + i2.y + i3.y) (i1.z + i2.z + i3.z) &&& 4 ≠ 0 then (((if cfg.overlapPct > 0 then n.overlap / ((1/2 * cfg.overlapPct) * (1 + cfg.overlapPct)) else n.radius * 2) + (if cfg.overlapPct > 0 then n.overlap / ((1/2 * cfg.overlapPct) * (1 + cfg.overlapPct)) else n.radius * 2) * cfg.overlapPct) - (n.radius + n.overlap)) else -(((if cfg.overlapPct > 0 then n.overlap / ((1/2 * cfg.overlapPct) * (1 + cfg.overlapPct)) else n.radius * 2) + (if cfg.overlapPct > 0 then n.overlap / ((1/2 * cfg.overlapPct) * (1 + cfg.overlapPct)) else n.radius * 2) * cfg.overlapPct) - (n.radius + n.overlap))⟩ : Vec3)) (if cfg.overlapPct > 0 then n.overlap / ((1/2 * cfg.overlapPct) * (1 + cfg.overlapPct)) else n.radius * 2) none none none).nodesIndices ++ [((octant_index_from_xyz (-(i1.x + i2.x + i3.x)) (-(i1.y + i2.y + i3.y)) (-(i1.z + i2.z + i3.z)) : ℕ) : ℤ)]), nodesByIndex := upd_assoc (mk_octree_node cfg core.nodeCount (Vec3.add n.position (⟨if octant_index_from_xyz (i1.x + i2.x + i3.x) (i1.y + i2.y + i3.y) (i1.z + i2.z + i3.z) &&& 1 ≠ 0 then (((if cfg.overlapPct > 0 then n.overlap / ((1/2 * cfg.overlapPct) * (1 + cfg.overlapPct)) else n.radius * 2) + (if cfg.overlapPct > 0 then n.overlap / ((1/2 * cfg.overlapPct) * (1 + cfg.overlapPct)) else n.radius * 2) * cfg.overlapPct) - (n.radius + n.overlap)) else -(((if cfg.overlapPct > 0 then n.overlap / ((1/2 * cfg.overlapPct) * (1 + cfg.overlapPct)) else n.radius * 2) + (if cfg.overlapPct > 0 then n.overlap / ((1/2 * cfg.overlapPct) * (1 + cfg.overlapPct)) else n.radius * 2) * cfg.overlapPct) - (n.radius + n.overlap)), if octant_index_from_xyz (i1.x + i2.x + i3.x) (i1.y + i2.y + i3.y) (i1.z + i2.z + i3.z) &&& 2 ≠ 0 then (((if cfg.overlapPct > 0 then n.overlap / ((1/2 * cfg.overlapPct) * (1 + cfg.overlapPct)) else n.radius * 2) + (if cfg.overlapPct > 0 then n.overlap / ((1/2 * cfg.overlapPct) * (1 + cfg.overlapPct)) else n.radius * 2) * cfg.overlapPct) - (n.radius + n.overlap)) else -(((if cfg.overlapPct > 0 then n.overlap / ((1/2 * cfg.overlapPct) * (1 + cfg.overlapPct)) else n.radius * 2) + (if cfg.overlapPct > 0 then n.overlap / ((1/2 * cfg.overlapPct) * (1 + cfg.overlapPct)) else n.radius * 2) * cfg.overlapPct) - (n.radius + n.overlap)), if octant_index_from_xyz (i1.x + i2.x + i3.x) (i1.y + i2.y + i3.y) (i1.z + i2.z + i3.z) &&& 4 ≠ 0 then (((if cfg.overlapPct > 0 then n.overlap / ((1/2 * cfg.overlapPct) * (1 + cfg.overlapPct)) else n.radius * 2) + (if cfg.overlapPct > 0 then n.overlap / ((1/2 * cfg.overlapPct) * (1 + cfg.overlapPct)) else n.radius * 2) * cfg.overlapPct) - (n.radius + n.overlap)) else -(((if cfg.overlapPct > 0 then n.overlap / ((1/2 * cfg.overlapPct) * (1 + cfg.overlapPct)) else n.radius * 2) + (if cfg.overlapPct > 0 then n.overlap / ((1/2 * cfg.overlapPct) * (1 + cfg.overlapPct)) else n.radius * 2) * cfg.overlapPct) - (n.radius + n.overlap))⟩ : Vec3)) (if cfg.overlapPct > 0 then n.overlap / ((1/2 * cfg.overlapPct) * (1 + cfg.overlapPct)) else n.radius * 2) none none none).nodesByIndex ((octant_index_from_xyz (-(i1.x + i2.x + i3.x)) (-(i1.y + i2.y + i3.y)) (-(i1.z + i2.z + i3.z)) : ℕ) : ℤ) nid } : NodeRec) with depth := 0 } : NodeRec)) ({ ({ n with indexOctant := some ((octant_index_from_xyz (-(i1.x + i2.x + i3.x)) (-(i1.y + i2.y + i3.y)) (-(i1.z + i2.z + i3.z)) : ℕ) : ℤ), parent := some core.nodeCount, depth := (mk_octree_node cfg core.nodeCount (Vec3.add n.position (⟨if octant_index_from_xyz (i1.x + i2.x + i3.x) (i1.y + i2.y + i3.y) (i1.z + i2.z + i3.z) &&& 1 ≠ 0 then (((if cfg.overlapPct > 0 then n.overlap / ((1/2 * cfg.overlapPct) * (1 + cfg.overlapPct)) else n.radius * 2) + (if cfg.overlapPct > 0 then n.overlap / ((1/2 * cfg.overlapPct) * (1 + cfg.overlapPct)) else n.radius * 2) * cfg.overlapPct) - (n.radius + n.overlap)) else -(((if cfg.overlapPct > 0 then n.overlap / ((1/2 * cfg.overlapPct) * (1 + cfg.overlapPct)) else n.radius * 2) + (if cfg.overlapPct > 0 then n.overlap / ((1/2 * cfg.overlapPct) * (1 + cfg.overlapPct)) else n.radius * 2) * cfg.overlapPct) - (n.radius + n.overlap)), if octant_index_from_xyz (i1.x + i2.x + i3.x) (i1.y + i2.y + i3.y) (i1.z + i2.z + i3.z) &&& 2 ≠ 0 then (((if cfg.overlapPct > 0 then n.overlap / ((1/2 * cfg.overlapPct) * (1 + cfg.overlapPct)) else n.radius * 2) + (if cfg.overlapPct > 0 then n.overlap / ((1/2 * cfg.overlapPct) * (1 + cfg.overlapPct)) else n.radius * 2) * cfg.overlapPct) - (n.radius + n.overlap)) else -(((if cfg.overlapPct > 0 then n.overlap / ((1/2 * cfg.overlapPct) * (1 + cfg.overlapPct)) else n.radius * 2) + (if cfg.overlapPct > 0 then n.overlap / ((1/2 * cfg.overlapPct) * (1 + cfg.overlapPct)) else n.radius * 2) * cfg.overlapPct) - (n.radius + n.overlap)), if octant_index_from_xyz (i1.x + i2.x + i3.x) (i1.y + i2.y + i3.y) (i1.z + i2.z + i3.z) &&& 4 ≠ 0 then (((if cfg.overlapPct > 0 then n.overlap / ((1/2 * cfg.overlapPct) * (1 + cfg.overlapPct)) else n.radius * 2) + (if cfg.overlapPct > 0 then n.overlap / ((1/2 * cfg.overlapPct) * (1 + cfg.overlapPct)) else n.radius * 2) * cfg.overlapPct) - (n.radius + n.overlap)) else -(((if cfg.overlapPct > 0 then n.overlap / ((1/2 * cfg.overlapPct) * (1 + cfg.overlapPct)) else n.radius * 2) + (if cfg.overlapPct > 0 then n.overlap / ((1/2 * cfg.overlapPct) * (1 + cfg.overlapPct)) else n.radius * 2) * cfg.overlapPct) - (n.radius + n.overlap))⟩ : Vec3)) (if cfg.overlapPct > 0 then n.overlap / ((1/2 * cfg.overlapPct) * (1 + cfg.overlapPct)) else n.radius * 2) none none none).depth + 1 } : NodeRec) with depth := 1 } : NodeRec)), (by rw [htal]; exact hE), ?_, hXu, hYu, hZu,
    octant_inverse_of_units _ _ _ hXu hYu hZu, hmain, rfl, ?_, ?_, rfl, rfl, ?_, ?_,
    rfl, rfl, ?_, ?_, ?_⟩
  · intro e heM
    rw [htal] at heM
    exact hdom e heM
  · rw [getNode_setNode_ne _ _ _
      (show core.nodeCount ≠ (({ ({ n with indexOctant := some ((octant_index_from_xyz (-(i1.x + i2.x + i3.x)) (-(i1.y + i2.y + i3.y)) (-(i1.z + i2.z + i3.z)) : ℕ) : ℤ), parent := some core.nodeCount, depth := (mk_octree_node cfg core.nodeCount (Vec3.add n.position (⟨if octant_index_from_xyz (i1.x + i2.x + i3.x) (i1.y + i2.y + i3.y) (i1.z + i2.z + i3.z) &&& 1 ≠ 0 then (((if cfg.overlapPct > 0 then n.overlap / ((1/2 * cfg.overlapPct) * (1 + cfg.overlapPct)) else n.radius * 2) + (if cfg.overlapPct > 0 then n.overlap / ((1/2 * cfg.overlapPct) * (1 + cfg.overlapPct)) else n.radius * 2) * cfg.overlapPct) - (n.radius + n.overlap)) else -(((if cfg.overlapPct > 0 then n.overlap / ((1/2 * cfg.overlapPct) * (1 + cfg.overlapPct)) else n.radius * 2) + (if cfg.overlapPct > 0 then n.overlap / ((1/2 * cfg.overlapPct) * (1 + cfg.overlapPct)) else n.radius * 2) * cfg.overlapPct) - (n.radius + n.overlap)), if octant_index_from_xyz (i1.x + i2.x + i3.x) (i1.y + i2.y + i3.y) (i1.z + i2.z + i3.z) &&& 2 ≠ 0 then (((if cfg.overlapPct > 0 then n.overlap / ((1/2 * cfg.overlapPct) * (1 + cfg.overlapPct)) else n.radius * 2) + (if cfg.overlapPct > 0 then n.overlap / ((1/2 * cfg.overlapPct) * (1 + cfg.overlapPct)) else n.radius * 2) * cfg.overlapPct) - (n.radius + n.overlap)) else -(((if cfg.overlapPct > 0 then n.overlap / ((1/2 * cfg.overlapPct) * (1 + cfg.overlapPct)) else n.radius * 2) + (if cfg.overlapPct > 0 then n.overlap / ((1/2 * cfg.overlapPct) * (1 + cfg.overlapPct)) else n.radius * 2) * cfg.overlapPct) - (n.radius + n.overlap)), if octant_index_from_xyz (i1.x + i2.x + i3.x) (i1.y + i2.y + i3.y) (i1.z + i2.z + i3.z) &&& 4 ≠ 0 then (((if cfg.overlapPct > 0 then n.overlap / ((1/2 * cfg.overlapPct) * (1 + cfg.overlapPct)) else n.radius * 2) + (if cfg.overlapPct > 0 then n.overlap / ((1/2 * cfg.overlapPct) * (1 + cfg.overlapPct)) else n.radius * 2) * cfg.overlapPct) - (n.radius + n.overlap)) else -(((if cfg.overlapPct > 0 then n.overlap / ((1/2 * cfg.overlapPct) * (1 + cfg.overlapPct)) else n.radius * 2) + (if cfg.overlapPct > 0 then n.overlap / ((1/2 * cfg.overlapPct) * (1 + cfg.overlapPct)) else n.radius * 2) * cfg.overlapPct) - (n.radius + n.overlap))⟩ : Vec3)) (if cfg.overlapPct > 0 then n.overlap / ((1/2 * cfg.overlapPct) * (1 + cfg.overlapPct)) else n.radius * 2) none none none).depth + 1 } : NodeRec) with depth := 1 } : NodeRec)).id from by
        rw [show (({ ({ n with indexOctant := some ((octant_index_from_xyz (-(i1.x + i2.x + i3.x)) (-(i1.y + i2.y + i3.y)) (-(i1.z + i2.z + i3.z)) : ℕ) : ℤ), parent := some core.nodeCount, depth := (mk_octree_node cfg core.nodeCount (Vec3.add n.position (⟨if octant_index_from_xyz (i1.x + i2.x + i3.x) (i1.y + i2.y + i3.y) (i1.z + i2.z + i3.z) &&& 1 ≠ 0 then (((if cfg.overlapPct > 0 then n.overlap / ((1/2 * cfg.overlapPct) * (1 + cfg.overlapPct)) else n.radius * 2) + (if cfg.overlapPct > 0 then n.overlap / ((1/2 * cfg.overlapPct) * (1 + cfg.overlapPct)) else n.radius * 2) * cfg.overlapPct) - (n.radius + n.overlap)) else -(((if cfg.overlapPct > 0 then n.overlap / ((1/2 * cfg.overlapPct) * (1 + cfg.overlapPct)) else n.radius * 2) + (if cfg.overlapPct > 0 then n.overlap / ((1/2 * cfg.overlapPct) * (1 + cfg.overlapPct)) else n.radius * 2) * cfg.overlapPct) - (n.radius + n.overlap)), if octant_index_from_xyz (i1.x + i2.x + i3.x) (i1.y + i2.y + i3.y) (i1.z + i2.z + i3.z) &&& 2 ≠ 0 then (((if cfg.overlapPct > 0 then n.overlap / ((1/2 * cfg.overlapPct) * (1 + cfg.overlapPct)) else n.radius * 2) + (if cfg.overlapPct > 0 then n.overlap / ((1/2 * cfg.overlapPct) * (1 + cfg.overlapPct)) else n.radius * 2) * cfg.overlapPct) - (n.radius + n.overlap)) else -(((if cfg.overlapPct > 0 then n.overlap / ((1/2 * cfg.overlapPct) * (1 + cfg.overlapPct)) else n.radius * 2) + (if cfg.overlapPct > 0 then n.overlap / ((1/2 * cfg.overlapPct) * (1 + cfg.overlapPct)) else n.radius * 2) * cfg.overlapPct) - (n.radius + n.overlap)), if octant_index_from_xyz (i1.x + i2.x + i3.x) (i1.y + i2.y + i3.y) (i1.z + i2.z + i3.z) &&& 4 ≠ 0 then (((if cfg.overlapPct > 0 then n.overlap / ((1/2 * cfg.overlapPct) * (1 + cfg.overlapPct)) else n.radius * 2) + (if cfg.overlapPct > 0 then n.overlap / ((1/2 * cfg.overlapPct) * (1 + cfg.overlapPct)) else n.radius * 2) * cfg.overlapPct) - (n.radius + n.overlap)) else -(((if cfg.overlapPct > 0 then n.overlap / ((1/2 * cfg.overlapPct) * (1 + cfg.overlapPct)) else n.radius * 2) + (if cfg.overlapPct > 0 then n.overlap / ((1/2 * cfg.overlapPct) * (1 + cfg.overlapPct)) else n.radius * 2) * cfg.overlapPct) - (n.radius + n.overlap))⟩ : Vec3)) (if cfg.overlapPct > 0 then n.overlap / ((1/2 * cfg.overlapPct) * (1 + cfg.overlapPct)) else n.radius * 2) none none none).depth + 1 } : NodeRec) with depth := 1 } : NodeRec)).id = nid from hid]
        exact Ne.symm hnec)]
    exact getNode_setNode_self_key _ ({ ({ (mk_octree_node cfg core.nodeCount (Vec3.add n.position (⟨if octant_index_from_xyz (i1.x + i2.x + i3.x) (i1.y + i2.y + i3.y) (i1.z + i2.z + i3.z) &&& 1 ≠ 0 then (((if cfg.overlapPct > 0 then n.overlap / ((1/2 * cfg.overlapPct) * (1 + cfg.overlapPct)) else n.radius * 2) + (if cfg.overlapPct > 0 then n.overlap / ((1/2 * cfg.overlapPct) * (1 + cfg.overlapPct)) else n.radius * 2) * cfg.overlapPct) - (n.radius + n.overlap)) else -(((if cfg.overlapPct > 0 then n.overlap / ((1/2 * cfg.overlapPct) * (1 + cfg.overlapPct)) else n.radius * 2) + (if cfg.overlapPct > 0 then n.overlap / ((1/2 * cfg.overlapPct) * (1 + cfg.overlapPct)) else n.radius * 2) * cfg.overlapPct) - (n.radius + n.overlap)), if octant_index_from_xyz (i1.x + i2.x + i3.x) (i1.y + i2.y + i3.y) (i1.z + i2.z + i3.z) &&& 2 ≠ 0 then (((if cfg.overlapPct > 0 then n.overlap / ((1/2 * cfg.overlapPct) * (1 + cfg.overlapPct)) else n.radius * 2) + (if cfg.overlapPct > 0 then n.overlap / ((1/2 * cfg.overlapPct) * (1 + cfg.overlapPct)) else n.radius * 2) * cfg.overlapPct) - (n.radius + n.overlap)) else -(((if cfg.overlapPct > 0 then n.overlap / ((1/2 * cfg.overlapPct) * (1 + cfg.overlapPct)) else n.radius * 2) + (if cfg.overlapPct > 0 then n.overlap / ((1/2 * cfg.overlapPct) * (1 + cfg.overlapPct)) else n.radius * 2) * cfg.overlapPct) - (n.radius + n.overlap)), if octant_index_from_xyz (i1.x + i2.x + i3.x) (i1.y + i2.y + i3.y) (i1.z + i2.z + i3.z) &&& 4 ≠ 0 then (((if cfg.overlapPct > 0 then n.overlap / ((1/2 * cfg.overlapPct) * (1 + cfg.overlapPct)) else n.radius * 2) + (if cfg.overlapPct > 0 then n.overlap / ((1/2 * cfg.overlapPct) * (1 + cfg.overlapPct)) else n.radius * 2) * cfg.overlapPct) - (n.radius + n.overlap)) else -(((if cfg.overlapPct > 0 then n.overlap / ((1/2 * cfg.overlapPct) * (1 + cfg.overlapPct)) else n.radius * 2) + (if cfg.overlapPct > 0 then n.overlap / ((1/2 * cfg.overlapPct) * (1 + cfg.overlapPct)) else n.radius * 2) * cfg.overlapPct) - (n.radius + n.overlap))⟩ : Vec3)) (if cfg.overlapPct > 0 then n.overlap / ((1/2 * cfg.overlapPct) * (1 + cfg.overlapPct)) else n.radius * 2) none none none) with nodesIndices := (if ((octant_index_from_xyz (-(i1.x + i2.x + i3.x)) (-(i1.y + i2.y + i3.y)) (-(i1.z + i2.z + i3.z)) : ℕ) : ℤ) ∈ (mk_octree_node cfg core.nodeCount (Vec3.add n.position (⟨if octant_index_from_xyz (i1.x + i2.x + i3.x) (i1.y + i2.y + i3.y) (i1.z + i2.z + i3.z) &&& 1 ≠ 0 then (((if cfg.overlapPct > 0 then n.overlap / ((1/2 * cfg.overlapPct) * (1 + cfg.overlapPct)) else n.radius * 2) + (if cfg.overlapPct > 0 then n.overlap / ((1/2 * cfg.overlapPct) * (1 + cfg.overlapPct)) else n.radius * 2) * cfg.overlapPct) - (n.radius + n.overlap)) else -(((if cfg.overlapPct > 0 then n.overlap / ((1/2 * cfg.overlapPct) * (1 + cfg.overlapPct)) else n.radius * 2) + (if cfg.overlapPct > 0 then n.overlap / ((1/2 * cfg.overlapPct) * (1 + cfg.overlapPct)) else n.radius * 2) * cfg.overlapPct) - (n.radius + n.overlap)), if octant_index_from_xyz (i1.x + i2.x + i3.x) (i1.y + i2.y + i3.y) (i1.z + i2.z + i3.z) &&& 2 ≠ 0 then (((if cfg.overlapPct > 0 then n.overlap / ((1/2 * cfg.overlapPct) * (1 + cfg.overlapPct)) else n.radius * 2) + (if cfg.overlapPct > 0 then n.overlap / ((1/2 * cfg.overlapPct) * (1 + cfg.overlapPct)) else n.radius * 2) * cfg.overlapPct) - (n.radius + n.overlap)) else -(((if cfg.overlapPct > 0 then n.overlap / ((1/2 * cfg.overlapPct) * (1 + cfg.overlapPct)) else n.radius * 2) + (if cfg.overlapPct > 0 then n.overlap / ((1/2 * cfg.overlapPct) * (1 + cfg.overlapPct)) else n.radius * 2) * cfg.overlapPct) - (n.radius + n.overlap)), if octant_index_from_xyz (i1.x + i2.x + i3.x) (i1.y + i2.y + i3.y) (i1.z + i2.z + i3.z) &&& 4 ≠ 0 then (((if cfg.overlapPct > 0 then n.overlap / ((1/2 * cfg.overlapPct) * (1 + cfg.overlapPct)) else n.radius * 2) + (if cfg.overlapPct > 0 then n.overlap / ((1/2 * cfg.overlapPct) * (1 + cfg.overlapPct)) else n.radius * 2) * cfg.overlapPct) - (n.radius + n.overlap)) else -(((if cfg.overlapPct > 0 then n.overlap / ((1/2 * cfg.overlapPct) * (1 + cfg.overlapPct)) else n.radius * 2) + (if cfg.overlapPct > 0 then n.overlap / ((1/2 * cfg.overlapPct) * (1 + cfg.overlapPct)) else n.radius * 2) * cfg.overlapPct) - (n.radius + n.overlap))⟩ : Vec3)) (if cfg.overlapPct > 0 then n.overlap / ((1/2 * cfg.overlapPct) * (1 + cfg.overlapPct)) else n.radius * 2) none none none).nodesIndices then (mk_octree_node cfg core.nodeCount (Vec3.add n.position (⟨if octant_index_from_xyz (i1.x + i2.x + i3.x) (i1.y + i2.y + i3.y) (i1.z + i2.z + i3.z) &&& 1 ≠ 0 then (((if cfg.overlapPct > 0 then n.overlap / ((1/2 * cfg.overlapPct) * (1 + cfg.overlapPct)) else n.radius * 2) + (if cfg.overlapPct > 0 then n.overlap / ((1/2 * cfg.overlapPct) * (1 + cfg.overlapPct)) else n.radius * 2) * cfg.overlapPct) - (n.radius + n.overlap)) else -(((if cfg.overlapPct > 0 then n.overlap / ((1/2 * cfg.overlapPct) * (1 + cfg.overlapPct)) else n.radius * 2) + (if cfg.overlapPct > 0 then n.overlap / ((1/2 * cfg.overlapPct) * (1 + cfg.overlapPct)) else n.radius * 2) * cfg.overlapPct) - (n.radius + n.overlap)), if octant_index_from_xyz (i1.x + i2.x + i3.x) (i1.y + i2.y + i3.y) (i1.z + i2.z + i3.z) &&& 2 ≠ 0 then (((if cfg.overlapPct > 0 then n.overlap / ((1/2 * cfg.overlapPct) * (1 + cfg.overlapPct)) else n.radius * 2) + (if cfg.overlapPct > 0 then n.overlap / ((1/2 * cfg.overlapPct) * (1 + cfg.overlapPct)) else n.radius * 2) * cfg.overlapPct) - (n.radius + n.overlap)) else -(((if cfg.overlapPct > 0 then n.overlap / ((1/2 * cfg.overlapPct) * (1 + cfg.overlapPct)) else n.radius * 2) + (if cfg.overlapPct > 0 then n.overlap / ((1/2 * cfg.overlapPct) * (1 + cfg.overlapPct)) else n.radius * 2) * cfg.overlapPct) - (n.radius + n.overlap)), if octant_index_from_xyz (i1.x + i2.x + i3.x) (i1.y + i2.y + i3.y) (i1.z + i2.z + i3.z) &&& 4 ≠ 0 then (((if cfg.overlapPct > 0 then n.overlap / ((1/2 * cfg.overlapPct) * (1 + cfg.overlapPct)) else n.radius * 2) + (if cfg.overlapPct > 0 then n.overlap / ((1/2 * cfg.overlapPct) * (1 + cfg.overlapPct)) else n.radius * 2) * cfg.overlapPct) - (n.radius + n.overlap)) else -(((if cfg.overlapPct > 0 then n.overlap / ((1/2 * cfg.overlapPct) * (1 + cfg.overlapPct)) else n.radius * 2) + (if cfg.overlapPct > 0 then n.overlap / ((1/2 * cfg.overlapPct) * (1 + cfg.overlapPct)) else n.radius * 2) * cfg.overlapPct) - (n.radius + n.overlap))⟩ : Vec3)) (if cfg.overlapPct > 0 then n.overlap / ((1/2 * cfg.overlapPct) * (1 + cfg.overlapPct)) else n.radius * 2) none none none).nodesIndices else (mk_octree_node cfg core.nodeCount (Vec3.add n.position (⟨if octant_index_from_xyz (i1.x + i2.x + i3.x) (i1.y + i2.y + i3.y) (i1.z + i2.z + i3.z) &&& 1 ≠ 0 then (((if cfg.overlapPct > 0 then n.overlap / ((1/2 * cfg.overlapPct) * (1 + cfg.overlapPct)) else n.radius * 2) + (if cfg.overlapPct > 0 then n.overlap / ((1/2 * cfg.overlapPct) * (1 + cfg.overlapPct)) else n.radius * 2) * cfg.overlapPct) - (n.radius + n.overlap)) else -(((if cfg.overlapPct > 0 then n.overlap / ((1/2 * cfg.overlapPct) * (1 + cfg.overlapPct)) else n.radius * 2) + (if cfg.overlapPct > 0 then n.overlap / ((1/2 * cfg.overlapPct) * (1 + cfg.overlapPct)) else n.radius * 2) * cfg.overlapPct) - (n.radius + n.overlap)), if octant_index_from_xyz (i1.x + i2.x + i3.x) (i1.y + i2.y + i3.y) (i1.z + i2.z + i3.z) &&& 2 ≠ 0 then (((if cfg.overlapPct > 0 then n.overlap / ((1/2 * cfg.overlapPct) * (1 + cfg.overlapPct)) else n.radius * 2) + (if cfg.overlapPct > 0 then n.overlap / ((1/2 * cfg.overlapPct) * (1 + cfg.overlapPct)) else n.radius * 2) * cfg.overlapPct) - (n.radius + n.overlap)) else -(((if cfg.overlapPct > 0 then n.overlap / ((1/2 * cfg.overlapPct) * (1 + cfg.overlapPct)) else n.radius * 2) + (if cfg.overlapPct > 0 then n.overlap / ((1/2 * cfg.overlapPct) * (1 + cfg.overlapPct)) else n.radius * 2) * cfg.overlapPct) - (n.radius + n.overlap)), if octant_index_from_xyz (i1.x + i2.x + i3.x) (i1.y + i2.y + i3.y) (i1.z + i2.z + i3.z) &&& 4 ≠ 0 then (((if cfg.overlapPct > 0 then n.overlap / ((1/2 * cfg.overlapPct) * (1 + cfg.overlapPct)) else n.radius * 2) + (if cfg.overlapPct > 0 then n.overlap / ((1/2 * cfg.overlapPct) * (1 + cfg.overlapPct)) else n.radius * 2) * cfg.overlapPct) - (n.radius + n.overlap)) else -(((if cfg.overlapPct > 0 then n.overlap / ((1/2 * cfg.overlapPct) * (1 + cfg.overlapPct)) else n.radius * 2) + (if cfg.overlapPct > 0 then n.overlap / ((1/2 * cfg.overlapPct) * (1 + cfg.overlapPct)) else n.radius * 2) * cfg.overlapPct) - (n.radius + n.overlap))⟩ : Vec3)) (if cfg.overlapPct > 0 then n.overlap / ((1/2 * cfg.overlapPct) * (1 + cfg.overlapPct)) else n.radius * 2) none none none).nodesIndices ++ [((octant_index_from_xyz (-(i1.x + i2.x + i3.x)) (-(i1.y + i2.y + i3.y)) (-(i1.z + i2.z + i3.z)) : ℕ) : ℤ)]), nodesByIndex := upd_assoc (mk_octree_node cfg core.nodeCount (Vec3.add n.position (⟨if octant_index_from_xyz (i1.x + i2.x + i3.x) (i1.y + i2.y + i3.y) (i1.z + i2.z + i3.z) &&& 1 ≠ 0 then (((if cfg.overlapPct > 0 then n.overlap / ((1/2 * cfg.overlapPct) * (1 + cfg.overlapPct)) else n.radius * 2) + (if cfg.overlapPct > 0 then n.overlap / ((1/2 * cfg.overlapPct) * (1 + cfg.overlapPct)) else n.radius * 2) * cfg.overlapPct) - (n.radius + n.overlap)) else -(((if cfg.overlapPct > 0 then n.overlap / ((1/2 * cfg.overlapPct) * (1 + cfg.overlapPct)) else n.radius * 2) + (if cfg.overlapPct > 0 then n.overlap / ((1/2 * cfg.overlapPct) * (1 + cfg.overlapPct)) else n.radius * 2) * cfg.overlapPct) - (n.radius + n.overlap)), if octant_index_from_xyz (i1.x + i2.x + i3.x) (i1.y + i2.y + i3.y) (i1.z + i2.z + i3.z) &&& 2 ≠ 0 then (((if cfg.overlapPct > 0 then n.overlap / ((1/2 * cfg.overlapPct) * (1 + cfg.overlapPct)) else n.radius * 2) + (if cfg.overlapPct > 0 then n.overlap / ((1/2 * cfg.overlapPct) * (1 + cfg.overlapPct)) else n.radius * 2) * cfg.overlapPct) - (n.radius + n.overlap)) else -(((if cfg.overlapPct > 0 then n.overlap / ((1/2 * cfg.overlapPct) * (1 + cfg.overlapPct)) else n.radius * 2) + (if cfg.overlapPct > 0 then n.overlap / ((1/2 * cfg.overlapPct) * (1 + cfg.overlapPct)) else n.radius * 2) * cfg.overlapPct) - (n.radius + n.overlap)), if octant_index_from_xyz (i1.x + i2.x + i3.x) (i1.y + i2.y + i3.y) (i1.z + i2.z + i3.z) &&& 4 ≠ 0 then (((if cfg.overlapPct > 0 then n.overlap / ((1/2 * cfg.overlapPct) * (1 + cfg.overlapPct)) else n.radius * 2) + (if cfg.overlapPct > 0 then n.overlap / ((1/2 * cfg.overlapPct) * (1 + cfg.overlapPct)) else n.radius * 2) * cfg.overlapPct) - (n.radius + n.overlap)) else -(((if cfg.overlapPct > 0 then n.overlap / ((1/2 * cfg.overlapPct) * (1 + cfg.overlapPct)) else n.radius * 2) + (if cfg.overlapPct > 0 then n.overlap / ((1/2 * cfg.overlapPct) * (1 + cfg.overlapPct)) else n.radius * 2) * cfg.overlapPct) - (n.radius + n.overlap))⟩ : Vec3)) (if cfg.overlapPct > 0 then n.overlap / ((1/2 * cfg.overlapPct) * (1 + cfg.overlapPct)) else n.radius * 2) none none none).nodesByIndex ((octant_index_from_xyz (-(i1.x + i2.x + i3.x)) (-(i1.y + i2.y + i3.y)) (-(i1.z + i2.z + i3.z)) : ℕ) : ℤ) nid } : NodeRec) with depth := 0 } : NodeRec) core.nodeCount rfl
  · exact if_pos hrp
  · intro hp0
    show (((if (if cfg.overlapPct > 0 then n.overlap / ((1/2 * cfg.overlapPct) * (1 + cfg.overlapPct)) else n.radius * 2) > 0 then (if cfg.overlapPct > 0 then n.overlap / ((1/2 * cfg.overlapPct) * (1 + cfg.overlapPct)) else n.radius * 2) else 1) : ℚ)
        + (if (if cfg.overlapPct > 0 then n.overlap / ((1/2 * cfg.overlapPct) * (1 + cfg.overlapPct)) else n.radius * 2) > 0 then (if cfg.overlapPct > 0 then n.overlap / ((1/2 * cfg.overlapPct) * (1 + cfg.overlapPct)) else n.radius * 2) else 1) * cfg.overlapPct) * (1/2) = n.radius
    rw [if_pos hrp, if_pos hp0]
    have h1 : cfg.overlapPct ≠ 0 := ne_of_gt hp0
    have h2 : (1 : ℚ) + cfg.overlapPct ≠ 0 := by
      intro hx
      linarith
    rw [hovr]
    field_simp
    ring
  · intro h0
    show ((if (if cfg.overlapPct > 0 then n.overlap / ((1/2 * cfg.overlapPct) * (1 + cfg.overlapPct)) else n.radius * 2) > 0 then (if cfg.overlapPct > 0 then n.overlap / ((1/2 * cfg.overlapPct) * (1 + cfg.overlapPct)) else n.radius * 2) else 1) : ℚ) = n.radius * 2
    rw [if_pos hrp, if_neg (show ¬ cfg.overlapPct > 0 from by rw [h0]; exact lt_irrefl 0)]
  · exact hpi1
  · simp [mk_octree_node, upd_assoc]
  · exact getNode_setNode_self_key _ ({ ({ n with indexOctant := some ((octant_index_from_xyz (-(i1.x + i2.x + i3.x)) (-(i1.y + i2.y + i3.y)) (-(i1.z + i2.z + i3.z)) : ℕ) : ℤ), parent := some core.nodeCount, depth := (mk_octree_node cfg core.nodeCount (Vec3.add n.position (⟨if octant_index_from_xyz (i1.x + i2.x + i3.x) (i1.y + i2.y + i3.y) (i1.z + i2.z + i3.z) &&& 1 ≠ 0 then (((if cfg.overlapPct > 0 then n.overlap / ((1/2 * cfg.overlapPct) * (1 + cfg.overlapPct)) else n.radius * 2) + (if cfg.overlapPct > 0 then n.overlap / ((1/2 * cfg.overlapPct) * (1 + cfg.overlapPct)) else n.radius * 2) * cfg.overlapPct) - (n.radius + n.overlap)) else -(((if cfg.overlapPct > 0 then n.overlap / ((1/2 * cfg.overlapPct) * (1 + cfg.overlapPct)) else n.radius * 2) + (if cfg.overlapPct > 0 then n.overlap / ((1/2 * cfg.overlapPct) * (1 + cfg.overlapPct)) else n.radius * 2) * cfg.overlapPct) - (n.radius + n.overlap)), if octant_index_from_xyz (i1.x + i2.x + i3.x) (i1.y + i2.y + i3.y) (i1.z + i2.z + i3.z) &&& 2 ≠ 0 then (((if cfg.overlapPct > 0 then n.overlap / ((1/2 * cfg.overlapPct) * (1 + cfg.overlapPct)) else n.radius * 2) + (if cfg.overlapPct > 0 then n.overlap / ((1/2 * cfg.overlapPct) * (1 + cfg.overlapPct)) else n.radius * 2) * cfg.overlapPct) - (n.radius + n.overlap)) else -(((if cfg.overlapPct > 0 then n.overlap / ((1/2 * cfg.overlapPct) * (1 + cfg.overlapPct)) else n.radius * 2) + (if cfg.overlapPct > 0 then n.overlap / ((1/2 * cfg.overlapPct) * (1 + cfg.overlapPct)) else n.radius * 2) * cfg.overlapPct) - (n.radius + n.overlap)), if octant_index_from_xyz (i1.x + i2.x + i3.x) (i1.y + i2.y + i3.y) (i1.z + i2.z + i3.z) &&& 4 ≠ 0 then (((if cfg.overlapPct > 0 then n.overlap / ((1/2 * cfg.overlapPct) * (1 + cfg.overlapPct)) else n.radius * 2) + (if cfg.overlapPct > 0 then n.overlap / ((1/2 * cfg.overlapPct) * (1 + cfg.overlapPct)) else n.radius * 2) * cfg.overlapPct) - (n.radius + n.overlap)) else -(((if cfg.overlapPct > 0 then n.overlap / ((1/2 * cfg.overlapPct) * (1 + cfg.overlapPct)) else n.radius * 2) + (if cfg.overlapPct > 0 then n.overlap / ((1/2 * cfg.overlapPct) * (1 + cfg.overlapPct)) else n.radius * 2) * cfg.overlapPct) - (n.radius + n.overlap))⟩ : Vec3)) (if cfg.overlapPct > 0 then n.overlap / ((1/2 * cfg.overlapPct) * (1 + cfg.overlapPct)) else n.radius * 2) none none none).depth + 1 } : NodeRec) with depth := 1 } : NodeRec) nid hid


/-- Witness for the C8 theorem: the unit root (radius `1`, overlap `3/20`)
with one outside object at `(5, 5, 5)` (outside octant code `-44`:
positive on all three axes). -/
theorem expand_reroots_witness :
    ∃ (i1 i2 i3 : IomEntry) (pRec : NodeRec) (coreMid : OctreeCore),
      expand_select (expand_tally (root_unit []) [od_outside] [-44]).1 = (i1, i2, i3)
      ∧ (∀ e ∈ (expand_tally (root_unit []) [od_outside] [-44]).1, e.count ≤ i1.count)
      ∧ (i1.x + i2.x + i3.x = 1 ∨ i1.x + i2.x + i3.x = -1)
      ∧ (i1.y + i2.y + i3.y = 1 ∨ i1.y + i2.y + i3.y = -1)
      ∧ (i1.z + i2.z + i3.z = 1 ∨ i1.z + i2.z + i3.z = -1)
      ∧ octant_index_from_xyz (-(i1.x + i2.x + i3.x)) (-(i1.y + i2.y + i3.y))
            (-(i1.z + i2.z + i3.z))
          = 7 - octant_index_from_xyz (i1.x + i2.x + i3.x) (i1.y + i2.y + i3.y)
              (i1.z + i2.z + i3.z)
      ∧ expand 6 cfg_unbounded core_unit 0 (some [od_outside]) [-44]
        = (expand_reinsert 5 cfg_unbounded coreMid [od_outside]) >>= (fun c => some (c, []))
      ∧ coreMid.rootId = core_unit.nodeCount
      ∧ getNode coreMid core_unit.nodeCount = some pRec
      ∧ pRec.radius = (if cfg_unbounded.overlapPct > 0
          then (root_unit []).overlap / ((1/2 * cfg_unbounded.overlapPct) * (1 + cfg_unbounded.overlapPct))
          else (root_unit []).radius * 2)
      ∧ pRec.overlap = pRec.radius * cfg_unbounded.overlapPct
      ∧ pRec.radiusOverlap = pRec.radius + pRec.overlap
      ∧ (0 < cfg_unbounded.overlapPct → pRec.radiusOverlap * (1/2) = (root_unit []).radius)
      ∧ (cfg_unbounded.overlapPct = 0 → pRec.radius = (root_unit []).radius * 2)
      ∧ pRec.parent = none ∧ pRec.depth = 0
      ∧ pRec.nodesIndices
          = [((octant_index_from_xyz (-(i1.x + i2.x + i3.x)) (-(i1.y + i2.y + i3.y))
              (-(i1.z + i2.z + i3.z)) : ℕ) : ℤ)]
      ∧ pRec.nodesByIndex
          = [(((octant_index_from_xyz (-(i1.x + i2.x + i3.x)) (-(i1.y + i2.y + i3.y))
              (-(i1.z + i2.z + i3.z)) : ℕ) : ℤ), 0)]
      ∧ getNode coreMid 0
        = some { root_unit [] with
            indexOctant := some ((octant_index_from_xyz (-(i1.x + i2.x + i3.x))
              (-(i1.y + i2.y + i3.y)) (-(i1.z + i2.z + i3.z)) : ℕ) : ℤ),
            parent := some core_unit.nodeCount, depth := 1 } :=
  expand_reroots 0 cfg_unbounded core_unit 0 (root_unit []) [od_outside] [-44]
    rfl rfl rfl rfl rfl (by decide) rfl (by decide) (List.cons_ne_nil _ _) rfl
    (by with_unfolding_all decide) (by with_unfolding_all decide)
    (by with_unfolding_all decide)

end ExpandReroots

end ThreeOctree
